import Mathlib

/-!
# pg_catcheck: hash index over a result set and the OID reference checks

A shallow embedding of `pgrhash.c` and `check_oids.c`.

* A C string is the list of its bytes before the terminating NUL.
* A `PGresult` is the list of its rows, each row the list of its column values.
* The linked bucket chains of `pgrhash` are lists (head of the list = head of the chain).
* `check_oid_reference` returns the trace of what it did: every call of `do_oid_check`,
  every probe of the hash index (`pgrhash_get`) and every diagnostic (`pgcc_report`),
  in program order.
-/

namespace PgCatcheck

/-! ## Data model -/

/-- Content of a NUL-terminated C string: the bytes that precede the terminator, every
character standing for one byte. -/
abbrev CStr := List Char

/-- Result set of a query (libpq `PGresult` with status `PGRES_TUPLES_OK`): rows of column
values, every value a C string (SQL NULL reads as the empty string). -/
abbrev PGresult := List (List CStr)

/-- Number of rows of a result set (libpq `PQntuples`). -/
def PQntuples (res : PGresult) : Nat := res.length

/-- Whether libpq `PQgetvalue` returns `NULL`: it does for a row number or a column number
outside of the result set. -/
def PQgetvalue_is_null (res : PGresult) (row col : Nat) : Bool :=
  decide (res.length ≤ row) || decide ((res.getD row []).length ≤ col)

/-- Value of one field (libpq `PQgetvalue`) for a row and a column of the result set.
Outside of the result set the function returns `NULL`, as `PQgetvalue_is_null` tells, and
the program ends in a segmentation fault when it reads the value; a caller that can pass
such a number tests `PQgetvalue_is_null` before it uses the value, for which the empty
string stands here. -/
def PQgetvalue (res : PGresult) (row col : Nat) : CStr := (res.getD row []).getD col []

/-- The counting loop of the C library's `fls`: one more bit for every halving that leaves
a non-zero value.  The first argument bounds the number of iterations. -/
def fls_loop : Nat → Nat → Nat
  | 0, _ => 0
  | fuel + 1, mask => if mask = 0 then 0 else fls_loop fuel (mask / 2) + 1

/-- Position of the most significant set bit, counted from 1, and 0 for 0 (the C library's
`fls`, which `pgrhash_create` calls; a value needs at most as many halvings as its size). -/
def fls (mask : Nat) : Nat := fls_loop mask mask

/-- Entry of a bucket chain (`struct pgrhash_entry`).  The `next` link is the tail of the
list holding the entry; the `hashvalue` field is never assigned nor read by `pgrhash.c`
and is left out. -/
structure pgrhash_entry where
  rownum : Nat
deriving DecidableEq, Repr

/-- Hash table over a result set (`struct pgrhash`). -/
structure pgrhash where
  res : PGresult
  nkeycols : Nat
  keycols : List Nat
  nbuckets : Nat
  bucket : List (List pgrhash_entry)
deriving DecidableEq, Repr

/-! ## pgrhash.c -/

/-- The value that `int c = *key++` reads from a byte of a key: `char` is a signed type on
the x86-64 targets of the program, so a byte from 0x80 on reads as its value minus 256.
The byte of a character of a `CStr` is its code modulo 256. -/
def char_value (c : Char) : Int :=
  if c.toNat % 256 < 128 then (c.toNat % 256 : Nat) else ((c.toNat % 256 : Nat) : Int) - 256

/-- One round of `string_hash_sdbm`: `hash = c + (hash << 6) + (hash << 16) - hash`, every
operation in `uint32` arithmetic: the `int` `c` is converted to `uint32`, the shifts drop
the bits above bit 31, and the sums and the difference wrap around at `2^32`. -/
def string_hash_sdbm_step (hash : Nat) (c : Char) : Nat :=
  let c32 := (char_value c % 2 ^ 32).toNat
  let shifted_6 := (hash <<< 6) % 2 ^ 32
  let shifted_16 := (hash <<< 16) % 2 ^ 32
  (((c32 + shifted_6) % 2 ^ 32 + shifted_16) % 2 ^ 32 + 2 ^ 32 - hash % 2 ^ 32) % 2 ^ 32

/-- Hash of a string: `string_hash_sdbm`, the loop `while ((c = *key++))` from `hash = 0`. -/
def string_hash_sdbm (key : CStr) : Nat :=
  key.foldl string_hash_sdbm_step 0

/-- Hash of a key tuple: the loop `for (i = 0; i < ht->nkeycols; i++)
hashvalue ^= string_hash_sdbm(keyvals[i])` of `pgrhash_get` and `pgrhash_insert`. -/
def pgrhash_hashvalue (ht : pgrhash) (keyvals : List CStr) : Nat :=
  (List.range ht.nkeycols).foldl (fun h i => h ^^^ string_hash_sdbm (keyvals.getD i [])) 0

/-- Bucket of a key tuple: `hashvalue & (ht->nbuckets - 1)`. -/
def pgrhash_bucket_number (ht : pgrhash) (keyvals : List CStr) : Nat :=
  pgrhash_hashvalue ht keyvals &&& (ht.nbuckets - 1)

/-- Key values of a row, as `pgrhash_insert` collects them:
`keyvals[i] = PQgetvalue(ht->res, rownum, ht->keycols[i])`. -/
def pgrhash_row_keyvals (ht : pgrhash) (rownum : Nat) : List CStr :=
  (List.range ht.nkeycols).map (fun i => PQgetvalue ht.res rownum (ht.keycols.getD i 0))

/-- Whether a key value of a row is `NULL`, for a key column outside of the result set:
`pgrhash_insert` passes the key values to `string_hash_sdbm`, which reads them. -/
def pgrhash_row_keyvals_null (ht : pgrhash) (rownum : Nat) : Bool :=
  (List.range ht.nkeycols).any
    (fun i => PQgetvalue_is_null ht.res rownum (ht.keycols.getD i 0))

/-- Test whether the given row number is a match for the supplied keys (`pgrhash_compare`):
`strcmp` of every key column of the row with the corresponding key value. -/
def pgrhash_compare (ht : pgrhash) (rownum : Nat) (keyvals : List CStr) : Bool :=
  (List.range ht.nkeycols).all
    (fun i => PQgetvalue ht.res rownum (ht.keycols.getD i 0) == keyvals.getD i [])

/-- Walk of one bucket chain, shared by `pgrhash_get` and `pgrhash_insert`:
`for (bucket = ...; bucket != NULL; bucket = bucket->next)
if (pgrhash_compare(ht, bucket->rownum, keyvals)) return bucket->rownum;`.
The result is `none` when the end of the chain is reached. -/
def pgrhash_chain_find (ht : pgrhash) (keyvals : List CStr) :
    List pgrhash_entry → Option Nat
  | [] => none
  | e :: next => if pgrhash_compare ht e.rownum keyvals then some e.rownum
      else pgrhash_chain_find ht keyvals next

/-- Create a new hash table for a result set, not populated (`pgrhash_create`).
`none` is the fatal exit "too many tuples". -/
def pgrhash_create (result : PGresult) (nkeycols : Nat) (keycols : List Nat) :
    Option pgrhash :=
  let bucket_shift := fls (PQntuples result)
  if bucket_shift ≥ 32 then none
  else some
    { res := result
      nbuckets := 1 <<< bucket_shift
      bucket := List.replicate (1 <<< bucket_shift) []
      nkeycols := nkeycols
      keycols := keycols.take nkeycols }

/-- Search the hash table for a row matching the key values (`pgrhash_get`): the matching
row number, or -1 if none. -/
def pgrhash_get (ht : pgrhash) (keyvals : List CStr) : Int :=
  match pgrhash_chain_find ht keyvals
      (ht.bucket.getD (pgrhash_bucket_number ht keyvals) []) with
  | some rownum => (rownum : Int)
  | none => -1

/-- Insert a row unless a row with the same key is present (`pgrhash_insert`): the result
is -1 on success, or the row number of the existing row; the table is returned next to it.
The key columns are columns of the result set: the callers that build an index from the
key columns of a table pass the result columns of the query, and `check_duplicate_owner`,
whose fourth key column is arbitrary, tests `pgrhash_row_keyvals_null` first. -/
def pgrhash_insert (ht : pgrhash) (rownum : Nat) : Int × pgrhash :=
  let keyvals := pgrhash_row_keyvals ht rownum
  let bucket_number := pgrhash_bucket_number ht keyvals
  match pgrhash_chain_find ht keyvals (ht.bucket.getD bucket_number []) with
  | some existing => ((existing : Int), ht)
  | none =>
    let entry : pgrhash_entry := { rownum := rownum }
    (-1, { ht with bucket := ht.bucket.set bucket_number
                               (entry :: ht.bucket.getD bucket_number []) })

/-- The insertion loop of `build_hash_from_query_results`,
`for (i = 0; i < ntups; i++) pgrhash_insert(ht, i)`, run over the given row numbers:
the value returned for every row, and the final table. -/
def pgrhash_insert_rows (ht : pgrhash) : List Nat → List Int × pgrhash
  | [] => ([], ht)
  | i :: rest =>
    let r := pgrhash_insert ht i
    let rs := pgrhash_insert_rows r.2 rest
    (r.1 :: rs.1, rs.2)

/-- Table creation followed by the insertion of rows `0 .. ntups - 1`, as
`build_hash_from_query_results` does once the key columns are known. -/
def pgrhash_build (data : PGresult) (nkeycols : Nat) (keycols : List Nat) :
    Option (List Int × pgrhash) :=
  (pgrhash_create data nkeycols keycols).map
    (fun ht => pgrhash_insert_rows ht (List.range (PQntuples data)))

/-- Key tuple of a row of a result set for the given key columns. -/
def key_tuple (res : PGresult) (keycols : List Nat) (row : Nat) : List CStr :=
  keycols.map (fun c => PQgetvalue res row c)

/-! ## check_oids.c -/

/-- Defined check types (`enum checktype`). -/
inductive checktype where
  | CHECK_ATTNUM
  | CHECK_OID_REFERENCE
  | CHECK_OID_VECTOR_REFERENCE
  | CHECK_OID_ARRAY_REFERENCE
  | CHECK_DEPENDENCY_CLASS_ID
  | CHECK_DEPENDENCY_ID
  | CHECK_DEPENDENCY_SUBID
  | CHECK_RELNATTS
deriving DecidableEq, Repr

/-- Specialization of the check structure for OID checks (`struct pg_catalog_check_oid`). -/
structure pg_catalog_check_oid where
  type : checktype
  zero_oid_ok : Bool
  oid_references_table : CStr
deriving DecidableEq, Repr

/-- Tri-value logic for handling table and column selection (`enum trivalue`). -/
inductive trivalue where
  | TRI_DEFAULT
  | TRI_NO
  | TRI_YES
deriving DecidableEq, Repr

/-- Everything needed to check a catalog column (`struct pg_catalog_column`).  The `check`
objects of `definitions.c` all are `struct pg_catalog_check_oid`; the type-punned
`check_private` workspace is passed to the checks as an argument of its own. -/
structure pg_catalog_column where
  name : CStr
  cast : Option CStr := none
  minimum_version : Nat := 0
  maximum_version : Nat := 0
  is_edb_only : Bool := false
  is_key_column : Bool := false
  is_display_column : Bool := false
  check : Option pg_catalog_check_oid := none
  available : Bool := false
  checked : trivalue := trivalue.TRI_DEFAULT
  needed : Bool := false
  result_column : Nat := 0
deriving DecidableEq, Repr

/-- Everything needed to check an entire catalog table (`struct pg_catalog_table`).  The
tables of the array `pg_catalog_tables` point to each other through their position in the
array: `needs` and `needed_by` hold positions, `num_needs` and `num_needed_by` are the
lengths of these lists.  The table data is `none` as long as `data` is `NULL`; `fields`
holds the column names of the result set, which `PQfnumber` searches.  The hash table is
`none` when no hash table was built.  Every run-time field starts as in the zero-initialised
array of `definitions.c`. -/
structure pg_catalog_table where
  table_name : CStr
  cols : List pg_catalog_column := []
  available : Bool := false
  checked : trivalue := trivalue.TRI_DEFAULT
  needs_load : Bool := false
  needs_check : Bool := false
  data : Option PGresult := none
  fields : List CStr := []
  ht : Option pgrhash := none
  needs : List Nat := []
  needed_by : List Nat := []
deriving DecidableEq, Repr

/-- The diagnostics of `check_oids.c`, `check_depend.c`, `check_attribute.c` and
`check_class.c`, one constructor per `pgcc_report` format, with the arguments of the
format: `"no matching entry in %s\n"`,
`"\"%s\" not found in %s\n"`, `"contains a token of %ld characters\n"`,
`"not a valid 1-D array"`, `"unexpected zero value\n"`, `"not a system catalog OID\n"`,
`"class ID is zero, but object ID is non-zero\n"`,
`"class ID %s is not pg_class, but sub-ID is non-zero\n"`,
`"duplicate owner dependency\n"`, `"must be an integer\n"`, `"must not be zero\n"`,
`"must be at least %ld\n"`, `"exceeds relnatts value of %ld\n"`,
`"must be a non-negative integer\n"` and
`"attribute %d does not exist in pg_attribute\n"`. -/
inductive Report where
  | no_matching_entry (table_name : CStr)
  | not_found (value : CStr) (table_name : CStr)
  | token_too_long (characters : Nat)
  | not_valid_array
  | unexpected_zero_value
  | not_a_system_catalog_oid
  | class_zero_object_nonzero
  | class_not_pg_class (classval : CStr)
  | duplicate_owner_dependency
  | must_be_an_integer
  | must_not_be_zero
  | must_be_at_least (min_attno : Int)
  | exceeds_relnatts (relnatts : Int)
  | must_be_a_non_negative_integer
  | attribute_does_not_exist (attno : Nat)
deriving DecidableEq, Repr

/-- What a check does, in program order: a call of `do_oid_check` on a value, a call of
`pgrhash_get` with a key, or a call of `pgcc_report`. -/
inductive Event where
  | oid_check (value : CStr)
  | get (keyvals : List CStr)
  | report (r : Report)
deriving DecidableEq, Repr

/-- Size of the token buffer: `char buf[32]`. -/
def sizeof_buf : Nat := 32

/-- Check one of possibly several OIDs found in a single column (`do_oid_check`).  The key
passed to `pgrhash_get` is `&value`, an array of the one value. -/
def do_oid_check (check_oid : pg_catalog_check_oid) (table_name : CStr) (ht : pgrhash)
    (value : CStr) : List Event :=
  Event.oid_check value ::
    (if check_oid.zero_oid_ok && value == ['0'] then []
     else Event.get [value] ::
       (if pgrhash_get ht [value] = -1 then
          [Event.report (Report.not_found value table_name)]
        else []))

/-- The `CHECK_OID_REFERENCE` case of `check_oid_reference`. -/
def check_oid_scalar (check_oid : pg_catalog_check_oid) (table_name : CStr) (ht : pgrhash)
    (val : CStr) : List Event :=
  if check_oid.zero_oid_ok && val == ['0'] then []
  else Event.get [val] ::
    (if pgrhash_get ht [val] = -1 then
       [Event.report (Report.no_matching_entry table_name)]
     else [])

/-- The `CHECK_OID_VECTOR_REFERENCE` case of `check_oid_reference`: the `for (;;)` loop with
its inner scan `while (*s != 0 && *s != ' ') ++s`.  The first list is the word between
`val` and `s` (so its length is `s - val`), the second list is the string from `s` on. -/
def check_oid_vector (check_oid : pg_catalog_check_oid) (table_name : CStr) (ht : pgrhash) :
    CStr → CStr → List Event
  | word, [] =>
    -- `*s == 0`: the last word is checked when it is non-empty (`s > val`).
    if word ≠ [] then do_oid_check check_oid table_name ht word else []
  | word, c :: s =>
    if c = ' ' then
      if word.length ≥ sizeof_buf then
        [Event.report (Report.token_too_long word.length)]
      else
        do_oid_check check_oid table_name ht word ++
          check_oid_vector check_oid table_name ht [] s
    else check_oid_vector check_oid table_name ht (word ++ [c]) s

/-- The `while (!bad)` loop of the `CHECK_OID_ARRAY_REFERENCE` case, followed by the final
`if (bad) pgcc_report(...)`.  The first list is the word between `val` and `s`, the second
list is the string from `s` on. -/
def check_oid_array_loop (check_oid : pg_catalog_check_oid) (table_name : CStr)
    (ht : pgrhash) : CStr → CStr → List Event
  | _, [] =>
    -- `*s == 0` before the closing brace: bad.
    [Event.report Report.not_valid_array]
  | word, c :: s =>
    if c = ',' ∨ c = '}' then
      if word = [] then
        -- `val == s`, two consecutive delimiters: bad.
        [Event.report Report.not_valid_array]
      else if word.length ≥ sizeof_buf then
        [Event.report (Report.token_too_long word.length)]
      else
        do_oid_check check_oid table_name ht word ++
          (if c = '}' then
             (if s ≠ [] then [Event.report Report.not_valid_array] else [])
           else check_oid_array_loop check_oid table_name ht [] s)
    else check_oid_array_loop check_oid table_name ht (word ++ [c]) s

/-- The `CHECK_OID_ARRAY_REFERENCE` case of `check_oid_reference`. -/
def check_oid_array (check_oid : pg_catalog_check_oid) (table_name : CStr) (ht : pgrhash) :
    CStr → List Event
  | [] => []
  | c :: s =>
    if c = '{' then check_oid_array_loop check_oid table_name ht [] s
    else [Event.report Report.not_valid_array]

/-- Perform an OID referential integrity check (`check_oid_reference`) of the value `val`
of a row against the referenced table `reftab` (the table that `find_table_by_name` yields
for `oid_references_table`).  Nothing is done when the referenced table has no hash table;
the `default` branch of the `switch` only holds a disabled-in-production `Assert`. -/
def check_oid_reference (check_oid : pg_catalog_check_oid) (reftab : pg_catalog_table)
    (val : CStr) : List Event :=
  match reftab.ht with
  | none => []
  | some ht =>
    match check_oid.type with
    | checktype.CHECK_OID_REFERENCE => check_oid_scalar check_oid reftab.table_name ht val
    | checktype.CHECK_OID_VECTOR_REFERENCE =>
      check_oid_vector check_oid reftab.table_name ht [] val
    | checktype.CHECK_OID_ARRAY_REFERENCE => check_oid_array check_oid reftab.table_name ht val
    | _ => []

/-- The diagnostics of a trace, in order. -/
def reports : List Event → List Report
  | [] => []
  | Event.report r :: rest => r :: reports rest
  | _ :: rest => reports rest

/-- The values passed to `do_oid_check` in a trace, in order. -/
def oid_checks : List Event → List CStr
  | [] => []
  | Event.oid_check v :: rest => v :: oid_checks rest
  | _ :: rest => oid_checks rest

/-- The keys probed with `pgrhash_get` in a trace, in order. -/
def gets : List Event → List (List CStr)
  | [] => []
  | Event.get k :: rest => k :: gets rest
  | _ :: rest => gets rest

/-- The key values that `pgrhash_get` reads from its argument: `keyvals[0 .. nkeycols-1]`. -/
def pgrhash_read_keyvals (ht : pgrhash) (keyvals : List CStr) : List CStr :=
  (List.range ht.nkeycols).map (fun i => keyvals.getD i [])

/-- The bucket array once a new entry for row `rownum` heads the chain of its bucket:
`entry->next = ht->bucket[bucket_number]; ht->bucket[bucket_number] = entry`. -/
def pgrhash_linked (ht : pgrhash) (rownum : Nat) : List (List pgrhash_entry) :=
  ht.bucket.set (pgrhash_bucket_number ht (pgrhash_row_keyvals ht rownum))
    (pgrhash_entry.mk rownum ::
      ht.bucket.getD (pgrhash_bucket_number ht (pgrhash_row_keyvals ht rownum)) [])

/-- First row of `L`, in that order, whose key columns match `keyvals`; -1 when there is
none.  This is what a lookup is to return after the rows `L` were inserted. -/
def first_match (ht : pgrhash) (L : List Nat) (keyvals : List CStr) : Int :=
  match L.find? (fun r => pgrhash_compare ht r keyvals) with
  | some e => (e : Int)
  | none => -1

/-- The values that the insertions of `rows` are to return, one after the other, when the
rows `L` were inserted before them. -/
def insert_results (ht : pgrhash) : List Nat → List Nat → List Int
  | _, [] => []
  | L, r :: rows =>
    first_match ht L (pgrhash_row_keyvals ht r) :: insert_results ht (L ++ [r]) rows

/-- Invariant of a hash table into which the row numbers `L` were inserted in that order:
the bucket array has `nbuckets > 0` slots, the chain of a key's bucket yields the first
row of `L` that matches the key, and every entry is the first row of `L` with its key. -/
structure pgrhash_inv (ht : pgrhash) (L : List Nat) : Prop where
  len : ht.bucket.length = ht.nbuckets
  pos : 0 < ht.nbuckets
  find : ∀ kv, pgrhash_chain_find ht kv (ht.bucket.getD (pgrhash_bucket_number ht kv) [])
      = L.find? (fun r => pgrhash_compare ht r kv)
  first : ∀ chain ∈ ht.bucket, ∀ e ∈ chain,
      L.find? (fun r => pgrhash_compare ht r (pgrhash_row_keyvals ht e.rownum))
        = some e.rownum

/-- A token draws a diagnostic from the scalar check: it is not the zero that the column
declares legal, and the reference index has no row with this key. -/
def oid_missing (check_oid : pg_catalog_check_oid) (ht : pgrhash) (token : CStr) : Bool :=
  !(check_oid.zero_oid_ok && token == ['0']) && decide (pgrhash_get ht [token] = -1)

/-- The text of tokens that are each followed by the separator: `t1 sep t2 sep ... tj sep`. -/
def terminated (sep : Char) (tokens : List CStr) : CStr :=
  tokens.flatMap (fun t => t ++ [sep])

/-- A token that the array loop accepts: not empty, without comma or closing brace. -/
def array_token (t : CStr) : Prop := t ≠ [] ∧ ',' ∉ t ∧ '}' ∉ t

/-! ## Sample inputs -/

/-- A result set of three rows with the columns (oid, name); rows 0 and 2 share the oid. -/
def sample_result : PGresult :=
  [["10".data, "a".data], ["20".data, "b".data], ["10".data, "c".data]]

/-- The table created for `sample_result` with the oid column as its key, still empty. -/
def sample_created : pgrhash :=
  { res := sample_result, nkeycols := 1, keycols := [0], nbuckets := 4,
    bucket := [[], [], [], []] }

/-- The hash table of `sample_result` keyed by the oid column, all rows inserted. -/
def sample_ht : pgrhash := (pgrhash_insert_rows sample_created [0, 1, 2]).2

/-- A referenced table with the index `sample_ht`. -/
def sample_reftab : pg_catalog_table := { table_name := "pg_type".data, ht := some sample_ht }

/-- An OID check of the given kind against `pg_type`. -/
def sample_check (type : checktype) (zero_oid_ok : Bool) : pg_catalog_check_oid :=
  { type := type, zero_oid_ok := zero_oid_ok, oid_references_table := "pg_type".data }

/-! ## Globals and helpers of pg_catcheck.c -/

/-- Identifying characteristics of the database to be checked: the global variables
`remote_version`, `remote_is_edb` and `database_oid` (`none` for `NULL`). -/
structure remote_server where
  remote_version : Nat
  remote_is_edb : Bool
  database_oid : Option CStr
deriving DecidableEq, Repr

/-- Position of a table of `pg_catalog_tables` given its name (`find_table_by_name`): the
first table of that name; `none` stands for the fatal exit "no metadata found". -/
def find_table_by_name (tables : List pg_catalog_table) (table_name : CStr) : Option Nat :=
  match tables.findIdx? (fun tab => tab.table_name == table_name) with
  | some i => some i
  | none => none

/-- The table at a position of `pg_catalog_tables`; positions come from the array itself,
outside of it an empty unnamed table stands for the value. -/
def table_at (tables : List pg_catalog_table) (i : Nat) : pg_catalog_table :=
  tables.getD i { table_name := [] }

/-- Rows of a table, none for `NULL` data. -/
def table_data (tab : pg_catalog_table) : PGresult := tab.data.getD []

/-- Column number of a column name in a result set with the given column names (libpq
`PQfnumber`): the first match, or -1 when there is none. -/
def PQfnumber (fields : List CStr) (name : CStr) : Int :=
  if name ∈ fields then (fields.indexOf name : Int) else -1

/-- Whether `needle` occurs in `haystack` (the test `strstr(haystack, needle) != NULL`). -/
def strstr (haystack needle : CStr) : Bool :=
  match haystack with
  | [] => needle.isEmpty
  | c :: rest => needle.isPrefixOf (c :: rest) || strstr rest needle

/-! ## check_depend.c -/

/-- The three naming conventions (`depend_column_style`): referring side of pg_(sh)depend,
referenced side of pg_(sh)depend, and pg_(sh)description, pg_(sh)seclabel. -/
inductive depend_column_style where
  | DEPEND_COLUMN_STYLE_OBJID
  | DEPEND_COLUMN_STYLE_REFOBJID
  | DEPEND_COLUMN_STYLE_OBJOID
deriving DecidableEq, Repr

/-- Per-column dependency checking information (`struct check_depend_cache`); a result
column is -1 when `PQfnumber` did not find it. -/
structure check_depend_cache where
  style : depend_column_style
  is_broken : Bool
  database_result_column : Int
  class_result_column : Int
  object_result_column : Int
  deptype_result_column : Int
  duplicate_owner_ht : Option pgrhash
deriving DecidableEq, Repr

/-- Entry of the class ID mapping (`struct class_id_mapping_type`): the text-form OID of a
catalog table and the position of the table in `pg_catalog_tables`. -/
structure class_id_mapping_type where
  oid : CStr
  tab : Nat
deriving DecidableEq, Repr

/-- Entry of an exception list (`struct exception_list`). -/
structure exception_list where
  table_name : CStr
  «class» : CStr
  object : CStr
deriving DecidableEq, Repr

/-- Known dangling dependencies of EnterpriseDB 8.4 (`edb84_exception_list`). -/
def edb84_exception_list : List exception_list :=
  [⟨"pg_depend".data, "1255".data, "877".data⟩, ⟨"pg_depend".data, "1255".data, "883".data⟩,
   ⟨"pg_depend".data, "1255".data, "1777".data⟩, ⟨"pg_depend".data, "1255".data, "1780".data⟩,
   ⟨"pg_depend".data, "1255".data, "2049".data⟩, ⟨"pg_depend".data, "2617".data, "2779".data⟩,
   ⟨"pg_depend".data, "2617".data, "2780".data⟩]

/-- Known dangling dependencies of EnterpriseDB 9.0 (`edb90_exception_list`). -/
def edb90_exception_list : List exception_list :=
  [⟨"pg_depend".data, "1255".data, "877".data⟩, ⟨"pg_depend".data, "1255".data, "883".data⟩,
   ⟨"pg_depend".data, "1255".data, "1777".data⟩, ⟨"pg_depend".data, "1255".data, "1780".data⟩,
   ⟨"pg_depend".data, "1255".data, "2049".data⟩, ⟨"pg_depend".data, "2617".data, "2779".data⟩,
   ⟨"pg_depend".data, "2617".data, "2780".data⟩]

/-- Known dangling dependencies of EnterpriseDB 9.1 and 9.2 (`edb91_92_exception_list`). -/
def edb91_92_exception_list : List exception_list :=
  [⟨"pg_depend".data, "1255".data, "877".data⟩, ⟨"pg_depend".data, "1255".data, "883".data⟩,
   ⟨"pg_depend".data, "1255".data, "1777".data⟩, ⟨"pg_depend".data, "1255".data, "1780".data⟩,
   ⟨"pg_depend".data, "1255".data, "2049".data⟩, ⟨"pg_depend".data, "2617".data, "2779".data⟩,
   ⟨"pg_depend".data, "2617".data, "2780".data⟩,
   ⟨"pg_description".data, "2617".data, "2779".data⟩,
   ⟨"pg_description".data, "2617".data, "2780".data⟩]

/-- Known dangling dependencies of EnterpriseDB 9.3 (`edb93_exception_list`). -/
def edb93_exception_list : List exception_list :=
  [⟨"pg_depend".data, "1255".data, "877".data⟩, ⟨"pg_depend".data, "1255".data, "883".data⟩,
   ⟨"pg_depend".data, "1255".data, "1777".data⟩, ⟨"pg_depend".data, "1255".data, "1780".data⟩,
   ⟨"pg_depend".data, "1255".data, "2049".data⟩]

/-- The file-level variables of `check_depend.c` that the checks share:
`class_id_mappings_attempted`, `class_id_mapping` with its length `num_class_id_mapping`
(`none` for `NULL`) and `pg_class_oid` (`none` for `NULL`).  The variables
`pg_attribute_table` and `pg_type_table` only cache `find_table_by_name`. -/
structure depend_statics where
  class_id_mappings_attempted : Bool := false
  class_id_mapping : Option (List class_id_mapping_type) := none
  pg_class_oid : Option CStr := none
deriving DecidableEq, Repr

/-- Determine which naming style applies to this table and column (`get_style`). -/
def get_style (table_name column_name : CStr) : depend_column_style :=
  if column_name.take 3 = "ref".data then depend_column_style.DEPEND_COLUMN_STYLE_REFOBJID
  else if strstr table_name "depend".data then depend_column_style.DEPEND_COLUMN_STYLE_OBJID
  else depend_column_style.DEPEND_COLUMN_STYLE_OBJOID

/-- Check whether a detected inconsistency is one that was expected
(`check_for_exception`). -/
def check_for_exception (remote : remote_server) (table_name classval objval : CStr) :
    Bool :=
  if !remote.remote_is_edb || remote.remote_version ≥ 90400 then false
  else
    let exc :=
      if remote.remote_version ≥ 90300 then edb93_exception_list
      else if remote.remote_version ≥ 90100 then edb91_92_exception_list
      else if remote.remote_version ≥ 90000 then edb90_exception_list
      else edb84_exception_list
    exc.any (fun e => e.table_name == table_name && e.«class» == classval
      && e.object == objval)

/-- Is oid the only key column for this table? (`table_key_is_oid`) -/
def table_key_is_oid (tab : pg_catalog_table) : Bool :=
  let has_oid_key := tab.cols.any (fun tabcol => tabcol.is_key_column
    && tabcol.name == "oid".data)
  let has_other_key := tab.cols.any (fun tabcol => tabcol.is_key_column
    && !(tabcol.name == "oid".data))
  has_oid_key && !has_other_key

/-- Given a text-form OID, search for a corresponding catalog table (`lookup_class_id`):
the table of the first mapping entry with this OID, `none` for `NULL`. -/
def lookup_class_id (statics : depend_statics) (oid : CStr) : Option Nat :=
  match (statics.class_id_mapping.getD []).find? (fun m => m.oid == oid) with
  | some m => some m.tab
  | none => none

/-- The body of the row loop of `build_class_id_mappings` for row `i` of pg_class: the map
entry that the row creates, if any.  Rows outside of namespace 11 are skipped; the first
table of `pg_catalog_tables` with the name of the row decides, and it is ignored when it
is not available or not keyed by OID. -/
def class_id_mapping_of_row (tables : List pg_catalog_table) (data : PGresult)
    (oid_column relnamespace_column relname_column : Nat) (i : Nat) :
    Option class_id_mapping_type :=
  if PQgetvalue data i relnamespace_column ≠ "11".data then none
  else
    match tables.findIdx? (fun tab => tab.table_name == PQgetvalue data i relname_column) with
    | none => none
    | some t =>
      if !(table_at tables t).available then none
      else if !table_key_is_oid (table_at tables t) then none
      else some { oid := PQgetvalue data i oid_column, tab := t }

/-- The row loop of `build_class_id_mappings` over the given rows: the map built so far
and `pg_class_oid`, which every entry for pg_class itself overwrites. -/
def class_id_mapping_scan (tables : List pg_catalog_table) (pg_class_tab : Nat)
    (data : PGresult) (oid_column relnamespace_column relname_column : Nat) :
    List Nat → List class_id_mapping_type × Option CStr →
    List class_id_mapping_type × Option CStr
  | [], acc => acc
  | i :: rows, (map, pg_class_oid) =>
    match class_id_mapping_of_row tables data oid_column relnamespace_column
        relname_column i with
    | none =>
      class_id_mapping_scan tables pg_class_tab data oid_column relnamespace_column
        relname_column rows (map, pg_class_oid)
    | some entry =>
      class_id_mapping_scan tables pg_class_tab data oid_column relnamespace_column
        relname_column rows
        (map ++ [entry], if entry.tab = pg_class_tab then some entry.oid else pg_class_oid)

/-- Build the mappings from text-form OIDs to catalog tables (`build_class_id_mappings`).
The result is `none` for the fatal exit of `find_table_by_name`. -/
def build_class_id_mappings (tables : List pg_catalog_table) (statics : depend_statics) :
    Option depend_statics :=
  match find_table_by_name tables "pg_class".data with
  | none => none
  | some pg_class_tab =>
    let attempted : depend_statics := { statics with class_id_mappings_attempted := true }
    let tab := table_at tables pg_class_tab
    let ntups := match tab.data with
      | some data => PQntuples data
      | none => 0
    if ntups = 0 then some attempted
    else
      let oid_column := PQfnumber tab.fields "oid".data
      let relnamespace_column := PQfnumber tab.fields "relnamespace".data
      let relname_column := PQfnumber tab.fields "relname".data
      if oid_column = -1 ∨ relname_column = -1 ∨ relnamespace_column = -1 then some attempted
      else
        let scanned := class_id_mapping_scan tables pg_class_tab (table_data tab)
          oid_column.toNat relnamespace_column.toNat relname_column.toNat
          (List.range ntups) ([], statics.pg_class_oid)
        if scanned.1.length = 0 then some { attempted with pg_class_oid := scanned.2 }
        else if scanned.2 = none then some { attempted with pg_class_oid := scanned.2 }
        else some { class_id_mappings_attempted := true,
                    class_id_mapping := some scanned.1,
                    pg_class_oid := scanned.2 }

/-- Build the per-column dependency checking information (`build_depend_cache`), on the
first call for the column.  `keycols_3` is the value that the slot `keycols[3]`, which is
never assigned, happens to hold when `pgrhash_create` copies four key columns; a negative
value is no column of the result set either and is stood for by any number beyond the
columns.  The result is `none` for a fatal exit. -/
def build_depend_cache (tables : List pg_catalog_table) (statics : depend_statics)
    (keycols_3 : Nat) (tab : pg_catalog_table) (tabcol : pg_catalog_column) :
    Option (check_depend_cache × depend_statics) :=
  let style := get_style tab.table_name tabcol.name
  let database_result_column : Int :=
    match style with
    | depend_column_style.DEPEND_COLUMN_STYLE_OBJID => PQfnumber tab.fields "dbid".data
    | _ => -1
  let class_result_column : Int :=
    match style with
    | depend_column_style.DEPEND_COLUMN_STYLE_OBJID => PQfnumber tab.fields "classid".data
    | depend_column_style.DEPEND_COLUMN_STYLE_REFOBJID =>
      PQfnumber tab.fields "refclassid".data
    | depend_column_style.DEPEND_COLUMN_STYLE_OBJOID => PQfnumber tab.fields "classoid".data
  let object_result_column : Int :=
    match style with
    | depend_column_style.DEPEND_COLUMN_STYLE_OBJID => PQfnumber tab.fields "objid".data
    | depend_column_style.DEPEND_COLUMN_STYLE_REFOBJID => PQfnumber tab.fields "refobjid".data
    | depend_column_style.DEPEND_COLUMN_STYLE_OBJOID => PQfnumber tab.fields "objoid".data
  let deptype_result_column : Int :=
    match style with
    | depend_column_style.DEPEND_COLUMN_STYLE_OBJID => PQfnumber tab.fields "deptype".data
    | _ => 0
  let columns_missing : Bool :=
    decide (class_result_column = -1) || decide (object_result_column = -1)
      || (decide (style = depend_column_style.DEPEND_COLUMN_STYLE_OBJID)
          && decide (deptype_result_column = -1))
  let built :=
    if !statics.class_id_mappings_attempted then build_class_id_mappings tables statics
    else some statics
  match built with
  | none => none
  | some statics' =>
    let is_broken : Bool := columns_missing || statics'.class_id_mapping.isNone
    let cache : check_depend_cache :=
      { style := style, is_broken := is_broken,
        database_result_column := database_result_column,
        class_result_column := class_result_column,
        object_result_column := object_result_column,
        deptype_result_column := deptype_result_column,
        duplicate_owner_ht := none }
    if !is_broken && decide (database_result_column ≠ -1)
        && decide (deptype_result_column ≠ -1) then
      match pgrhash_create (table_data tab) 4
          [database_result_column.toNat, class_result_column.toNat,
           object_result_column.toNat, keycols_3] with
      | none => none
      | some ht => some ({ cache with duplicate_owner_ht := some ht }, statics')
    else some (cache, statics')

/-- Determine whether this dependency should be ignored because it is not part of this
database (`not_for_this_database`). -/
def not_for_this_database (remote : remote_server) (cache : check_depend_cache)
    (tab : pg_catalog_table) (rownum : Nat) : Bool :=
  if cache.database_result_column = -1 then false
  else
    let dbval := PQgetvalue (table_data tab) rownum cache.database_result_column.toNat
    if dbval = ['0'] then false
    else
      match remote.database_oid with
      | none => true
      | some database_oid => decide (database_oid ≠ dbval)

/-- Check a class ID (`check_dependency_class_id`) in row `rownum`, with the cache that
`build_depend_cache` made for the column: the diagnostics reported. -/
def check_dependency_class_id (remote : remote_server) (statics : depend_statics)
    (cache : check_depend_cache) (tab : pg_catalog_table) (tabcol : pg_catalog_column)
    (rownum : Nat) : List Report :=
  if cache.is_broken then []
  else if not_for_this_database remote cache tab rownum then []
  else
    let val := PQgetvalue (table_data tab) rownum tabcol.result_column
    if val = ['0'] then
      let complain : Bool :=
        if cache.style = depend_column_style.DEPEND_COLUMN_STYLE_OBJID then
          !(PQgetvalue (table_data tab) rownum cache.deptype_result_column.toNat == ['p'])
        else true
      if complain then [Report.unexpected_zero_value] else []
    else if lookup_class_id statics val = none then
      if remote.remote_is_edb && decide (remote.remote_version ≤ 90000)
          && val == "16722".data then []
      else [Report.not_a_system_catalog_oid]
    else []

/-- The check for multiple owner dependencies for the same object, the first statement of
`check_dependency_id` after the cache tests: when the cache has a duplicate-owner hash
table and the deptype of the row is "o", the row is inserted into it, and a row number
other than -1 is reported.  The result is the diagnostic, if any, and the cache with the
hash table as the insertion left it; it is `none` when a key column of the hash table is
outside of the result set, as the unassigned `keycols[3]` can be: `PQgetvalue` returns
`NULL` for it and `pgrhash_insert` ends the program in a segmentation fault. -/
def check_duplicate_owner (cache : check_depend_cache) (tab : pg_catalog_table)
    (rownum : Nat) : Option (List Report × check_depend_cache) :=
  match cache.duplicate_owner_ht with
  | none => some ([], cache)
  | some ht =>
    if PQgetvalue (table_data tab) rownum
        (PQfnumber tab.fields "deptype".data).toNat = ['o'] then
      if pgrhash_row_keyvals_null ht rownum then none
      else
        let inserted := pgrhash_insert ht rownum
        some (if inserted.1 ≠ -1 then [Report.duplicate_owner_dependency] else [],
          { cache with duplicate_owner_ht := some inserted.2 })
    else some ([], cache)

/-- Check a dependency ID (`check_dependency_id`) in row `rownum`: the diagnostics
reported and the cache, whose duplicate-owner hash table may have grown.  The result is
`none` for the fatal exit of `find_table_by_name` and for the segmentation fault of the
duplicate-owner check. -/
def check_dependency_id (remote : remote_server) (tables : List pg_catalog_table)
    (statics : depend_statics) (cache : check_depend_cache) (tab : pg_catalog_table)
    (tabcol : pg_catalog_column) (rownum : Nat) :
    Option (List Report × check_depend_cache) :=
  if cache.is_broken then some ([], cache)
  else if not_for_this_database remote cache tab rownum then some ([], cache)
  else
    match check_duplicate_owner cache tab rownum with
    | none => none
    | some owner =>
      let classval := PQgetvalue (table_data tab) rownum cache.class_result_column.toNat
      let val := PQgetvalue (table_data tab) rownum tabcol.result_column
      if classval = ['0'] then
        some (owner.1 ++ (if val ≠ ['0'] then [Report.class_zero_object_nonzero] else []),
          owner.2)
      else
        match lookup_class_id statics classval with
        | none => some owner
        | some object_tab =>
          match (table_at tables object_tab).ht with
          | none => some owner
          | some ht =>
            match find_table_by_name tables "pg_type".data with
            | none => none
            | some pg_type_table =>
              if decide (remote.remote_version < 90400) && remote.remote_is_edb
                  && decide (object_tab = pg_type_table) && val == ['0'] then some owner
              else if decide (pgrhash_get ht [val] = -1)
                  && !check_for_exception remote tab.table_name classval val then
                some (owner.1
                    ++ [Report.no_matching_entry (table_at tables object_tab).table_name],
                  owner.2)
              else some owner

/-- Check a dependency sub-ID (`check_dependency_subid`) in row `rownum`: the diagnostics
reported.  The result is `none` for the fatal exit of `find_table_by_name` and for the
comparison with a `NULL` `pg_class_oid`. -/
def check_dependency_subid (tables : List pg_catalog_table) (statics : depend_statics)
    (cache : check_depend_cache) (tab : pg_catalog_table) (tabcol : pg_catalog_column)
    (rownum : Nat) : Option (List Report) :=
  if cache.is_broken then some []
  else
    match find_table_by_name tables "pg_attribute".data with
    | none => none
    | some pg_attribute_table =>
      let classval := PQgetvalue (table_data tab) rownum cache.class_result_column.toNat
      let vals := [PQgetvalue (table_data tab) rownum cache.object_result_column.toNat,
                   PQgetvalue (table_data tab) rownum tabcol.result_column]
      if PQgetvalue (table_data tab) rownum tabcol.result_column = ['0'] then some []
      else
        match statics.pg_class_oid with
        | none => none
        | some pg_class_oid =>
          if classval ≠ pg_class_oid then some [Report.class_not_pg_class classval]
          else
            match (table_at tables pg_attribute_table).ht with
            | none => some []
            | some ht =>
              if pgrhash_get ht vals = -1 then
                some [Report.no_matching_entry
                  (table_at tables pg_attribute_table).table_name]
              else some []

/-! ## Sample catalog -/

/-- A loaded pg_class with the columns (oid, relnamespace, relname). -/
def sample_pg_class : pg_catalog_table :=
  { table_name := "pg_class".data,
    cols := [{ name := "oid".data, is_key_column := true },
             { name := "relnamespace".data }, { name := "relname".data }],
    available := true,
    fields := ["oid".data, "relnamespace".data, "relname".data],
    data := some [["1259".data, "11".data, "pg_class".data],
                  ["1247".data, "11".data, "pg_type".data],
                  ["1249".data, "11".data, "pg_attribute".data],
                  ["2608".data, "11".data, "pg_depend".data],
                  ["16384".data, "2200".data, "pg_type".data]],
    ht := (pgrhash_build [["1259".data, "11".data, "pg_class".data],
                  ["1247".data, "11".data, "pg_type".data],
                  ["1249".data, "11".data, "pg_attribute".data],
                  ["2608".data, "11".data, "pg_depend".data],
                  ["16384".data, "2200".data, "pg_type".data]] 1 [0]).map (fun r => r.2) }

/-- A loaded pg_type with the column oid. -/
def sample_pg_type : pg_catalog_table :=
  { table_name := "pg_type".data,
    cols := [{ name := "oid".data, is_key_column := true }],
    available := true,
    fields := ["oid".data],
    data := some [["23".data], ["25".data]],
    ht := (pgrhash_build [["23".data], ["25".data]] 1 [0]).map (fun r => r.2) }

/-- A loaded pg_attribute with the key columns (attrelid, attnum). -/
def sample_pg_attribute : pg_catalog_table :=
  { table_name := "pg_attribute".data,
    cols := [{ name := "attrelid".data, is_key_column := true },
             { name := "attnum".data, is_key_column := true }],
    available := true,
    fields := ["attrelid".data, "attnum".data],
    data := some [["1259".data, "1".data], ["1259".data, "2".data]],
    ht := (pgrhash_build [["1259".data, "1".data], ["1259".data, "2".data]] 2 [0, 1]).map
      (fun r => r.2) }

/-- A loaded pg_depend: a pin row, a column of pg_class that depends on a missing type, a
row with class ID zero that is no pin, and a row with an unknown class ID. -/
def sample_pg_depend : pg_catalog_table :=
  { table_name := "pg_depend".data,
    cols := [{ name := "classid".data }, { name := "objid".data },
             { name := "objsubid".data, result_column := 2 },
             { name := "refclassid".data, result_column := 3 },
             { name := "refobjid".data, result_column := 4 },
             { name := "refobjsubid".data, result_column := 5 },
             { name := "deptype".data, result_column := 6 }],
    available := true,
    fields := ["classid".data, "objid".data, "objsubid".data, "refclassid".data,
               "refobjid".data, "refobjsubid".data, "deptype".data],
    data := some
      [["0".data, "0".data, "0".data, "1247".data, "23".data, "0".data, "p".data],
       ["1259".data, "1259".data, "1".data, "1247".data, "99".data, "0".data, "n".data],
       ["0".data, "5".data, "0".data, "0".data, "0".data, "0".data, "n".data],
       ["4000".data, "7".data, "3".data, "1259".data, "1259".data, "9".data, "n".data]] }

/-- The sample array `pg_catalog_tables`. -/
def sample_tables : List pg_catalog_table :=
  [sample_pg_class, sample_pg_type, sample_pg_attribute, sample_pg_depend]

/-- A PostgreSQL 9.4 server whose database has OID 5. -/
def sample_remote : remote_server :=
  { remote_version := 90400, remote_is_edb := false, database_oid := some "5".data }

/-- The class ID mapping of `sample_tables`. -/
def sample_statics : depend_statics :=
  { class_id_mappings_attempted := true,
    class_id_mapping := some [{ oid := "1259".data, tab := 0 }, { oid := "1247".data, tab := 1 }],
    pg_class_oid := some "1259".data }

/-- The cache of a column of `sample_pg_depend` with the given style and column numbers. -/
def sample_cache (style : depend_column_style) (class_column object_column : Int)
    (deptype_column : Int) : check_depend_cache :=
  { style := style, is_broken := false, database_result_column := -1,
    class_result_column := class_column, object_result_column := object_column,
    deptype_result_column := deptype_column, duplicate_owner_ht := none }

/-- The column of `sample_pg_depend` with the given name and position in the result. -/
def sample_column (name : CStr) (result_column : Nat) : pg_catalog_column :=
  { name := name, result_column := result_column }

/-- The value `v` is the oid text of some row of the loaded pg_class whose relnamespace is
"11" and whose relname names a table of `pg_catalog_tables` that is available and whose
only key column is oid. -/
def known_catalog_class (tables : List pg_catalog_table) (v : CStr) : Prop :=
  ∃ pg_class_tab data i t,
    find_table_by_name tables "pg_class".data = some pg_class_tab
    ∧ (table_at tables pg_class_tab).data = some data
    ∧ i < PQntuples data
    ∧ PQgetvalue data i
        (PQfnumber (table_at tables pg_class_tab).fields "oid".data).toNat = v
    ∧ PQgetvalue data i
        (PQfnumber (table_at tables pg_class_tab).fields "relnamespace".data).toNat
        = "11".data
    ∧ find_table_by_name tables (PQgetvalue data i
        (PQfnumber (table_at tables pg_class_tab).fields "relname".data).toNat) = some t
    ∧ (table_at tables t).available = true
    ∧ table_key_is_oid (table_at tables t) = true

/-! ## The scheduler of pg_catcheck.c -/

/-- What the scheduler does, in program order: a call of `load_table` on the table at a
position of `pg_catalog_tables`, or a call of `check_table`, recorded with the values that
the fields `needs_load` and `num_needs` of the table have at the time of the call. -/
inductive sched_event where
  | load (tab : Nat)
  | check (tab : Nat) (needs_load : Bool) (num_needs : Nat)
deriving DecidableEq, Repr

/-- Assignment to the fields of the table at position `i` of the array: the table becomes
`f` of what it was.  A position outside of the array changes nothing. -/
def modify_table (tables : List pg_catalog_table) (i : Nat)
    (f : pg_catalog_table → pg_catalog_table) : List pg_catalog_table :=
  tables.set i (f (table_at tables i))

/-- Indicate that the table at position `needs` requires that the table at position
`needed_by` be loaded before it is checked (`add_table_dependency`). -/
def add_table_dependency (tables : List pg_catalog_table) (needs needed_by : Nat) :
    List pg_catalog_table :=
  if !(table_at tables needs).available || !(table_at tables needed_by).available then tables
  else if needs = needed_by then tables
  else if needed_by ∈ (table_at tables needs).needs then tables
  else
    modify_table
      (modify_table tables needs (fun tab => { tab with needs := tab.needs ++ [needed_by] }))
      needed_by (fun tab => { tab with needed_by := tab.needed_by ++ [needs] })

/-- A sequence of calls of `add_table_dependency`, as the setup hooks of the checks make
them during the second pass of `decide_what_to_check`. -/
def add_table_dependencies (tables : List pg_catalog_table) (calls : List (Nat × Nat)) :
    List pg_catalog_table :=
  calls.foldl (fun ts call => add_table_dependency ts call.1 call.2) tables

/-- The column loop of the initialisation of `perform_checks` for one table: a needed
column sets `needs_load`; the first checked column sets `needs_check` and ends the loop. -/
def perform_checks_init_cols : List pg_catalog_column → pg_catalog_table → pg_catalog_table
  | [], tab => tab
  | tabcol :: cols, tab =>
    let tab1 := if tabcol.needed then { tab with needs_load := true } else tab
    if tabcol.checked = trivalue.TRI_YES then { tab1 with needs_check := true }
    else perform_checks_init_cols cols tab1

/-- Initialisation of the check state of one table in `perform_checks`. -/
def perform_checks_init_table (tab : pg_catalog_table) : pg_catalog_table :=
  perform_checks_init_cols tab.cols
    (if tab.needed_by.length ≠ 0 then { tab with needs_load := true } else tab)

/-- The loop "Initialize the table check states" of `perform_checks`. -/
def perform_checks_init (tables : List pg_catalog_table) : List pg_catalog_table :=
  tables.map perform_checks_init_table

/-- Load a table into memory (`load_table`), as far as the scheduling state goes: the
table is now loaded, the tables that needed it no longer do (every list `needs` of a table
of `needed_by` is compacted in place, dropping the loaded table), and its own side of the
dependency information is thrown away.  The query and the hash table built from its
result take no part in the scheduling. -/
def load_table (tables : List pg_catalog_table) (tab : Nat) : List pg_catalog_table :=
  let loaded := modify_table tables tab (fun t => { t with needs_load := false })
  let released := (table_at tables tab).needed_by.foldl
    (fun ts reftab =>
      modify_table ts reftab (fun r => { r with needs := r.needs.filter (fun x => x ≠ tab) }))
    loaded
  modify_table released tab (fun t => { t with needed_by := [] })

/-- State of a run of `perform_checks`: the array of tables and the calls made so far. -/
abbrev sched_state := List pg_catalog_table × List sched_event

/-- Perform integrity checks on a table (`check_table`), as far as the scheduling state
goes: once we have tried to check the table, we should not try again.  The call is
recorded with the fields of the table at that time. -/
def check_table (s : sched_state) (tab : Nat) : sched_state :=
  (modify_table s.1 tab (fun t => { t with needs_check := false }),
   s.2 ++ [sched_event.check tab (table_at s.1 tab).needs_load
     (table_at s.1 tab).needs.length])

/-- The first loop of an iteration of `perform_checks`, over the tables at the given
positions: tables that can be checked without loading any more data are checked. -/
def perform_checks_scan : List Nat → sched_state → sched_state
  | [], s => s
  | tab :: rest, s =>
    if (table_at s.1 tab).needs_check && !(table_at s.1 tab).needs_load
        && decide ((table_at s.1 tab).needs.length = 0) then
      perform_checks_scan rest (check_table s tab)
    else perform_checks_scan rest s

/-- The count `remaining` that the first loop keeps: the tables still to be checked. -/
def remaining (tables : List pg_catalog_table) : Nat :=
  tables.countP (fun tab => tab.needs_check)

/-- The second loop of an iteration of `perform_checks`, over the tables at the given
positions: the choice of the table to check next, starting from `best` (`none` for
`NULL`). -/
def choose_best (tables : List pg_catalog_table) : List Nat → Option Nat → Option Nat
  | [], best => best
  | tab :: rest, best =>
    if !(table_at tables tab).needs_check then choose_best tables rest best
    else
      match best with
      | none => choose_best tables rest (some tab)
      | some b =>
        if (table_at tables tab).needs.length < (table_at tables b).needs.length
            ∨ ((table_at tables tab).needs.length = (table_at tables b).needs.length
              ∧ (table_at tables tab).needed_by.length
                > (table_at tables b).needed_by.length) then
          choose_best tables rest (some tab)
        else choose_best tables rest (some b)

/-- The loop `while (best->num_needs > 0)` of `perform_checks`, which preloads the tables
that the candidate needs, last one first.  The `continue` on a table that is already
loaded repeats the iteration in the same state.  The first argument bounds the number of
iterations; `none` means that they were not enough. -/
def perform_checks_preload : Nat → Nat → sched_state → Option sched_state
  | 0, _, _ => none
  | fuel + 1, best, s =>
    match (table_at s.1 best).needs.getLast? with
    | none => some s
    | some reftab =>
      if !(table_at s.1 reftab).needs_load then perform_checks_preload fuel best s
      else
        perform_checks_preload fuel best
          (load_table s.1 reftab, s.2 ++ [sched_event.load reftab])

/-- The loop "until all checks are complete" of `perform_checks`.  The first argument
bounds the iterations of every preloading loop, the second those of this loop; `none`
means that they were not enough, or that `best` was `NULL`. -/
def perform_checks_loop (bound : Nat) : Nat → sched_state → Option sched_state
  | 0, _ => none
  | fuel + 1, s =>
    let scanned := perform_checks_scan (List.range s.1.length) s
    if remaining scanned.1 = 0 then some scanned
    else
      match choose_best scanned.1 (List.range scanned.1.length) none with
      | none => none
      | some best =>
        match perform_checks_preload bound best scanned with
        | none => none
        | some preloaded =>
          let loaded : sched_state :=
            if (table_at preloaded.1 best).needs_load then
              (load_table preloaded.1 best, preloaded.2 ++ [sched_event.load best])
            else preloaded
          perform_checks_loop bound fuel (check_table loaded best)

/-- Choose the order in which to check the tables, and load and check them
(`perform_checks`), with `fuel` as the bound of the iterations of each of its loops. -/
def perform_checks (fuel : Nat) (tables : List pg_catalog_table) : Option sched_state :=
  perform_checks_loop fuel fuel (perform_checks_init tables, [])

/-- The tables loaded in a run, in the order of the calls of `load_table`. -/
def loads : List sched_event → List Nat
  | [] => []
  | sched_event.load tab :: rest => tab :: loads rest
  | _ :: rest => loads rest

/-- The tables checked in a run, in the order of the calls of `check_table`. -/
def checks : List sched_event → List Nat
  | [] => []
  | sched_event.check tab _ _ :: rest => tab :: checks rest
  | _ :: rest => checks rest

/-- A table of the registry with one column, which is needed, and checked or not. -/
def sched_table (name : CStr) (checked : Bool) : pg_catalog_table :=
  { table_name := name, available := true,
    cols := [{ name := "oid".data, is_key_column := true, available := true, needed := true,
               checked := if checked then trivalue.TRI_YES else trivalue.TRI_NO }] }

/-- Invariant of a run of `perform_checks`, between the array `T0` as the initialisation
left it, the array `T` now, and the calls `tr` made so far.  A table in a list `needs` is
still to be loaded and has the needing table in its list `needed_by`; the lists `needs`
only lose the tables that were loaded; `needs_load` is false exactly for the tables that
were loaded or never had to be, and no table was loaded twice; `needs_check` is false
exactly for the tables that were checked or never had to be, and no table was checked
twice; at every call of `check_table` the table had `needs_load` false and no `needs`
left, and the table itself and the tables it needed had been loaded before. -/
structure sched_inv (T0 T : List pg_catalog_table) (tr : List sched_event) : Prop where
  len : T.length = T0.length
  edges : ∀ i j, j ∈ (table_at T i).needs →
    (table_at T j).needs_load = true ∧ i ∈ (table_at T j).needed_by
  needs_sub : ∀ i j, j ∈ (table_at T i).needs → j ∈ (table_at T0 i).needs
  dropped : ∀ i j, j ∈ (table_at T0 i).needs → j ∉ (table_at T i).needs →
    sched_event.load j ∈ tr
  nl_done : ∀ i, sched_event.load i ∈ tr →
    (table_at T i).needs_load = false ∧ (table_at T0 i).needs_load = true
  nl_keep : ∀ i, (table_at T0 i).needs_load = true → (table_at T i).needs_load = false →
    sched_event.load i ∈ tr
  nl_mono : ∀ i, (table_at T i).needs_load = true → (table_at T0 i).needs_load = true
  load_once : ∀ i, tr.count (sched_event.load i) ≤ 1
  nc_mono : ∀ i, (table_at T i).needs_check = true → (table_at T0 i).needs_check = true
  chk_done : ∀ i nl nn, sched_event.check i nl nn ∈ tr →
    (table_at T i).needs_check = false ∧ (table_at T0 i).needs_check = true
      ∧ nl = false ∧ nn = 0
  chk_keep : ∀ i, (table_at T0 i).needs_check = true → (table_at T i).needs_check = false →
    sched_event.check i false 0 ∈ tr
  chk_once : ∀ i, tr.count (sched_event.check i false 0) ≤ 1
  order : ∀ pre post i nl nn, tr = pre ++ sched_event.check i nl nn :: post →
    ((table_at T0 i).needs_load = true → sched_event.load i ∈ pre)
      ∧ ∀ j ∈ (table_at T0 i).needs, sched_event.load j ∈ pre

/-- The scheduling fields of the tables as the static initialisation of
`pg_catalog_tables` leaves them, before `add_table_dependency` and `perform_checks` have
run: no dependency is recorded and no flag is set. -/
def fresh_registry (tables : List pg_catalog_table) : Prop :=
  ∀ tab ∈ tables, tab.needs = [] ∧ tab.needed_by = []
    ∧ tab.needs_load = false ∧ tab.needs_check = false

/-- Three tables A, B and C; A and B have a checked column, C has one or not. -/
def sched_base_chain (c : Bool) : List pg_catalog_table :=
  [sched_table "A".data true, sched_table "B".data true, sched_table "C".data c]

/-- Four tables A, B, C and D; A and B have a checked column, C and D have none. -/
def sched_base_fan : List pg_catalog_table :=
  [sched_table "A".data true, sched_table "B".data true, sched_table "C".data false,
   sched_table "D".data false]

/-- The tables pg_class and pg_attribute, both with a checked column. -/
def sched_base_cycle : List pg_catalog_table :=
  [sched_table "pg_class".data true, sched_table "pg_attribute".data true]

/-! ## The C library function strtol -/

/-- The test `isspace` of the C locale: space, and the control characters from horizontal
tab (9) to carriage return (13). -/
def isspace (c : Char) : Bool := c == ' ' || (decide (9 ≤ c.toNat) && decide (c.toNat ≤ 13))

/-- The test `isdigit`. -/
def isdigit (c : Char) : Bool := decide (48 ≤ c.toNat) && decide (c.toNat ≤ 57)

/-- Largest value of a `long` where it has 64 bits. -/
def LONG_MAX : Int := 2 ^ 63 - 1

/-- Smallest value of a `long` where it has 64 bits. -/
def LONG_MIN : Int := -(2 ^ 63)

/-- Largest value of an `int`. -/
def INT_MAX : Int := 2 ^ 31 - 1

/-- Value of a sequence of decimal digits. -/
def strtol_digits (digits : List Char) : Nat :=
  digits.foldl (fun acc c => 10 * acc + (c.toNat - 48)) 0

/-- The call `strtol(nptr, &endptr, 10)`: the number and the text that `endptr` points to.
White space is skipped, then an optional sign and the longest run of digits are read; a
number out of range is replaced by `LONG_MIN` or `LONG_MAX`; when there is no digit the
number is 0 and `endptr` is `nptr`. -/
def strtol (nptr : CStr) : Int × CStr :=
  let s := nptr.dropWhile isspace
  let negative : Bool := s.head? == some '-'
  let body := match s with
    | '-' :: rest => rest
    | '+' :: rest => rest
    | _ => s
  let digits := body.takeWhile isdigit
  if digits = [] then (0, nptr)
  else
    let value : Int := if negative then -(strtol_digits digits : Int) else strtol_digits digits
    (if value < LONG_MIN then LONG_MIN else if value > LONG_MAX then LONG_MAX else value,
     body.dropWhile isdigit)

/-! ## check_attribute.c -/

/-- Sanity-check the attnum field (`check_attnum`) in row `rownum`: the diagnostics
reported.  The cache in `check_private` holds what the first call that reaches it finds:
the table pg_class and the two result columns; the result is `none` for the fatal exit of
`find_table_by_name`. -/
def check_attnum (remote : remote_server) (tables : List pg_catalog_table)
    (tab : pg_catalog_table) (tabcol : pg_catalog_column) (rownum : Nat) :
    Option (List Report) :=
  let val := PQgetvalue (table_data tab) rownum tabcol.result_column
  let attnum := (strtol val).1
  let endptr := (strtol val).2
  if endptr ≠ [] then some [Report.must_be_an_integer]
  else if attnum = 0 then some [Report.must_not_be_zero]
  else
    let min_attno : Int := if remote.remote_is_edb then -8 else -7
    if attnum < min_attno then some [Report.must_be_at_least min_attno]
    else
      match find_table_by_name tables "pg_class".data with
      | none => none
      | some pg_class =>
        let attrelid_result_column := PQfnumber tab.fields "attrelid".data
        let relnatts_result_column := PQfnumber (table_at tables pg_class).fields
          "relnatts".data
        match (table_at tables pg_class).ht with
        | none => some []
        | some ht =>
          if relnatts_result_column = -1 ∨ attrelid_result_column = -1 then some []
          else
            let attrelid_val := PQgetvalue (table_data tab) rownum
              attrelid_result_column.toNat
            let class_rownum := pgrhash_get ht [attrelid_val]
            if class_rownum = -1 then some []
            else
              let relnatts_val := PQgetvalue (table_data (table_at tables pg_class))
                class_rownum.toNat relnatts_result_column.toNat
              let relnatts := (strtol relnatts_val).1
              if (strtol relnatts_val).2 ≠ [] ∨ relnatts < 0 then some []
              else if attnum > relnatts then some [Report.exceeds_relnatts relnatts]
              else some []

/-! ## check_class.c -/

/-- The test `val < 0` of `check_relnatts`.  There `val` is the pointer that `PQgetvalue`
returned, not the number read from it: the test compares an address with the null pointer,
and no address is below it. -/
def pointer_below_null (_val : CStr) : Bool := false

/-- The text that `snprintf(buf, sizeof buf, "%d", attno)` writes for a positive `attno`. -/
def snprintf_d (attno : Nat) : CStr := Nat.toDigits 10 attno

/-- The loop `for (attno = 1; attno <= relnatts; ++attno)` of `check_relnatts`, from the
given `attno` on for the given number of iterations: each probes the hash table of
pg_attribute with the key (oid, attno) and reports a failed probe. -/
def check_relnatts_loop (ht : pgrhash) (oid : CStr) : Nat → Nat → List Event
  | 0, _ => []
  | iterations + 1, attno =>
    (Event.get [oid, snprintf_d attno] ::
      (if pgrhash_get ht [oid, snprintf_d attno] = -1 then
        [Event.report (Report.attribute_does_not_exist attno)]
       else []))
    ++ check_relnatts_loop ht oid iterations (attno + 1)

/-- Sanity-check the relnatts field (`check_relnatts`) in row `rownum`: the probes of the
hash table of pg_attribute and the diagnostics, in program order.  The first diagnostic
does not end the check.  The result is `none` for the fatal exit of `find_table_by_name`,
and when `relnatts` is so large that the `int` counter `attno` would overflow. -/
def check_relnatts (tables : List pg_catalog_table) (tab : pg_catalog_table)
    (tabcol : pg_catalog_column) (rownum : Nat) : Option (List Event) :=
  let val := PQgetvalue (table_data tab) rownum tabcol.result_column
  let relnatts := (strtol val).1
  let endptr := (strtol val).2
  let first : List Event :=
    if endptr ≠ [] ∨ pointer_below_null val = true then
      [Event.report Report.must_be_a_non_negative_integer]
    else []
  match find_table_by_name tables "pg_attribute".data with
  | none => none
  | some pg_attribute =>
    let oid_result_column := PQfnumber tab.fields "oid".data
    match (table_at tables pg_attribute).ht with
    | none => some first
    | some ht =>
      if oid_result_column = -1 then some first
      else if relnatts ≥ INT_MAX then none
      else
        some (first ++ check_relnatts_loop ht
          (PQgetvalue (table_data tab) rownum oid_result_column.toNat) relnatts.toNat 1)

/-- A loaded pg_class with the columns (oid, relnatts): pg_class itself with three
attributes, and rows whose relnatts is negative, has trailing text, or is zero. -/
def sample_relnatts_class : pg_catalog_table :=
  { table_name := "pg_class".data,
    cols := [{ name := "oid".data, is_key_column := true },
             { name := "relnatts".data, result_column := 1 }],
    available := true,
    fields := ["oid".data, "relnatts".data],
    data := some [["1259".data, "3".data], ["1247".data, "-1".data],
                  ["1249".data, "2x".data], ["1255".data, "0".data]],
    ht := (pgrhash_build [["1259".data, "3".data], ["1247".data, "-1".data],
                  ["1249".data, "2x".data], ["1255".data, "0".data]] 1 [0]).map
      (fun r => r.2) }

/-- A loaded pg_attribute with the key columns (attrelid, attnum): attributes 1, 2 and 4
of pg_class, attribute numbers that are zero, too small or no number, an attribute of an
unknown table, and attributes of the other rows of `sample_relnatts_class`. -/
def sample_attnum_attribute : pg_catalog_table :=
  { table_name := "pg_attribute".data,
    cols := [{ name := "attrelid".data, is_key_column := true },
             { name := "attnum".data, is_key_column := true, result_column := 1 }],
    available := true,
    fields := ["attrelid".data, "attnum".data],
    data := some [["1259".data, "1".data], ["1259".data, "2".data], ["1259".data, "4".data],
                  ["1259".data, "0".data], ["1259".data, "-8".data],
                  ["1259".data, "1x".data], ["99".data, "5".data],
                  ["1247".data, "1".data], ["1249".data, "1".data]],
    ht := (pgrhash_build [["1259".data, "1".data], ["1259".data, "2".data],
                  ["1259".data, "4".data], ["1259".data, "0".data],
                  ["1259".data, "-8".data], ["1259".data, "1x".data], ["99".data, "5".data],
                  ["1247".data, "1".data], ["1249".data, "1".data]] 2 [0, 1]).map
      (fun r => r.2) }

/-- The sample array `pg_catalog_tables` for the checks of attnum and relnatts. -/
def sample_attribute_tables : List pg_catalog_table :=
  [sample_relnatts_class, sample_attnum_attribute]

/-- The hash table of `sample_attnum_attribute`. -/
def sample_attnum_ht : pgrhash := sample_attnum_attribute.ht.getD sample_created

/-- The row loop of `check_table` for one column that `check_dependency_id` checks, over
the given rows in order: the diagnostics of each row.  The cache of the column, in
`check_private`, goes from one row to the next. -/
def check_dependency_id_rows (remote : remote_server) (tables : List pg_catalog_table)
    (statics : depend_statics) (tab : pg_catalog_table) (tabcol : pg_catalog_column) :
    List Nat → check_depend_cache → Option (List (List Report))
  | [], _ => some []
  | rownum :: rows, cache =>
    match check_dependency_id remote tables statics cache tab tabcol rownum with
    | none => none
    | some result =>
      match check_dependency_id_rows remote tables statics tab tabcol rows result.2 with
      | none => none
      | some rest => some (result.1 :: rest)

/-- A loaded pg_shdepend: two owner rows for the same global object (pg_class itself) that
differ in objsubid only, an owner row of the database with OID 7 whose object, sub-ID and
referenced class are unknown here, and a row of the database with OID 5. -/
def sample_pg_shdepend : pg_catalog_table :=
  { table_name := "pg_shdepend".data,
    cols := [{ name := "dbid".data }, { name := "classid".data, result_column := 1 },
             { name := "objid".data, result_column := 2 },
             { name := "objsubid".data, result_column := 3 },
             { name := "refclassid".data, result_column := 4 },
             { name := "refobjid".data, result_column := 5 },
             { name := "deptype".data, result_column := 6 }],
    available := true,
    fields := ["dbid".data, "classid".data, "objid".data, "objsubid".data,
               "refclassid".data, "refobjid".data, "deptype".data],
    data := some
      [["0".data, "1259".data, "1259".data, "1".data, "1247".data, "23".data, "o".data],
       ["0".data, "1259".data, "1259".data, "2".data, "1247".data, "23".data, "o".data],
       ["7".data, "1259".data, "4242".data, "3".data, "4000".data, "10".data, "o".data],
       ["5".data, "1247".data, "23".data, "0".data, "1247".data, "23".data, "n".data]] }

/-- The cache that `build_depend_cache` makes for a referring-side column of
`sample_pg_shdepend`, for a given content of the slot `keycols[3]`. -/
def sample_shdepend_cache (keycols_3 : Nat) : check_depend_cache :=
  ((build_depend_cache sample_tables sample_statics keycols_3 sample_pg_shdepend
      (sample_column "objid".data 2)).map (fun r => r.1)).getD
    (sample_cache depend_column_style.DEPEND_COLUMN_STYLE_OBJID 1 2 6)

/-! ## decide_what_to_check and the setup of the checks -/

/-- The column at a position of the array `cols` of a table; outside of it an empty unnamed
column stands for the value. -/
def column_at (tab : pg_catalog_table) (c : Nat) : pg_catalog_column :=
  tab.cols.getD c { name := [] }

/-- Position of a column of a table given its name (`find_column_by_name`): the first
column of that name; `none` stands for the fatal exit "no metadata found". -/
def find_column_by_name (tab : pg_catalog_table) (name : CStr) : Option Nat :=
  match tab.cols.findIdx? (fun tabcol => tabcol.name == name) with
  | some c => some c
  | none => none

/-- The assignment `find_column_by_name(tab, name)->needed = true` on the table at
position `tab`; `none` for the fatal exit of `find_column_by_name`. -/
def set_column_needed (tables : List pg_catalog_table) (tab : Nat) (name : CStr) :
    Option (List pg_catalog_table) :=
  match find_column_by_name (table_at tables tab) name with
  | none => none
  | some c =>
    some (modify_table tables tab
      (fun t => { t with cols := t.cols.set c { column_at t c with needed := true } }))

/-- Set up to check relnatts (`prepare_to_check_relnatts`). -/
def prepare_to_check_relnatts (tables : List pg_catalog_table) (tab : Nat) :
    Option (List pg_catalog_table) :=
  match find_table_by_name tables "pg_attribute".data with
  | none => none
  | some pg_attribute => some (add_table_dependency tables tab pg_attribute)

/-- Set up to check attnum (`prepare_to_check_attnum`). -/
def prepare_to_check_attnum (tables : List pg_catalog_table) (tab : Nat) :
    Option (List pg_catalog_table) :=
  match find_table_by_name tables "pg_class".data with
  | none => none
  | some pg_class => some (add_table_dependency tables tab pg_class)

/-- Set up for an OID referential integrity check (`prepare_to_check_oid_reference`): make
sure that the referenced table will be available. -/
def prepare_to_check_oid_reference (tables : List pg_catalog_table) (tab : Nat)
    (check_oid : pg_catalog_check_oid) : Option (List pg_catalog_table) :=
  match find_table_by_name tables check_oid.oid_references_table with
  | none => none
  | some reftab => some (add_table_dependency tables tab reftab)

/-- Set up to check a class ID (`prepare_to_check_dependency_class_id`). -/
def prepare_to_check_dependency_class_id (tables : List pg_catalog_table) (tab : Nat)
    (tabcol : pg_catalog_column) : Option (List pg_catalog_table) :=
  match find_table_by_name tables "pg_class".data with
  | none => none
  | some pg_class =>
    match set_column_needed (add_table_dependency tables tab pg_class) pg_class
        "relname".data with
    | none => none
    | some named =>
      match set_column_needed named pg_class "relnamespace".data with
      | none => none
      | some spaced =>
        if get_style (table_at spaced tab).table_name tabcol.name
            = depend_column_style.DEPEND_COLUMN_STYLE_OBJID then
          set_column_needed spaced tab "deptype".data
        else some spaced

/-- Name of the class ID column of a style. -/
def classid_name (style : depend_column_style) : CStr :=
  match style with
  | depend_column_style.DEPEND_COLUMN_STYLE_OBJID => "classid".data
  | depend_column_style.DEPEND_COLUMN_STYLE_REFOBJID => "refclassid".data
  | depend_column_style.DEPEND_COLUMN_STYLE_OBJOID => "classoid".data

/-- Name of the object ID column of a style. -/
def objectid_name (style : depend_column_style) : CStr :=
  match style with
  | depend_column_style.DEPEND_COLUMN_STYLE_OBJID => "objid".data
  | depend_column_style.DEPEND_COLUMN_STYLE_REFOBJID => "refobjid".data
  | depend_column_style.DEPEND_COLUMN_STYLE_OBJOID => "objoid".data

/-- Set up to check an object ID (`prepare_to_check_dependency_id`): all catalog tables
keyed by OID must be loaded first, and the class ID column is selected. -/
def prepare_to_check_dependency_id (tables : List pg_catalog_table) (tab : Nat)
    (tabcol : pg_catalog_column) : Option (List pg_catalog_table) :=
  match prepare_to_check_dependency_class_id tables tab tabcol with
  | none => none
  | some prepared =>
    let depended := (List.range prepared.length).foldl
      (fun ts cattab =>
        if table_key_is_oid (table_at ts cattab) then add_table_dependency ts tab cattab
        else ts)
      prepared
    set_column_needed depended tab
      (classid_name (get_style (table_at depended tab).table_name tabcol.name))

/-- Set up to check a sub-ID (`prepare_to_check_dependency_subid`). -/
def prepare_to_check_dependency_subid (tables : List pg_catalog_table) (tab : Nat)
    (tabcol : pg_catalog_column) : Option (List pg_catalog_table) :=
  match prepare_to_check_dependency_class_id tables tab tabcol with
  | none => none
  | some prepared =>
    match find_table_by_name prepared "pg_attribute".data with
    | none => none
    | some pg_attribute =>
      let depended := add_table_dependency prepared tab pg_attribute
      match set_column_needed depended tab
          (classid_name (get_style (table_at depended tab).table_name tabcol.name)) with
      | none => none
      | some classed =>
        set_column_needed classed tab
          (objectid_name (get_style (table_at depended tab).table_name tabcol.name))

/-- Decide whether this column is available, the first decision on a column in the first
pass of `decide_what_to_check`: not for an EDB column on a non-EDB database, nor under
the two tests on the version, which the source comments as "DB version too old" and "DB
version too new". -/
def decide_what_to_check_available (remote : remote_server) (tabcol : pg_catalog_column) :
    Bool :=
  if tabcol.is_edb_only && !remote.remote_is_edb then false
  else if decide (tabcol.minimum_version ≠ 0)
      && decide (remote.remote_version < tabcol.minimum_version) then false
  else if decide (tabcol.maximum_version ≠ 0)
      && decide (remote.remote_version < tabcol.maximum_version) then false
  else true

/-- The body of the column loop of the first pass of `decide_what_to_check`: the column
with its run-time fields `available`, `checked` and `needed` set, and the availability as
first decided, by which the table becomes available.  The result is `none` for the fatal
exit "no check defined for column". -/
def decide_what_to_check_column (remote : remote_server) (selected_columns : Bool)
    (tab_checked : trivalue) (tabcol : pg_catalog_column) :
    Option (pg_catalog_column × Bool) :=
  if tabcol.checked = trivalue.TRI_YES ∧ tabcol.check = none then none
  else
    let decided := decide_what_to_check_available remote tabcol
    let available : Bool :=
      if decided = false ∧ tabcol.checked = trivalue.TRI_YES then true else decided
    let checked : trivalue :=
      if tabcol.checked = trivalue.TRI_DEFAULT then
        if tabcol.check = none then trivalue.TRI_NO
        else if !available then trivalue.TRI_NO
        else if tab_checked ≠ trivalue.TRI_DEFAULT then tab_checked
        else if selected_columns then trivalue.TRI_NO
        else trivalue.TRI_YES
      else tabcol.checked
    let needed : Bool :=
      if !available then false
      else decide (checked = trivalue.TRI_YES) || tabcol.is_key_column
        || tabcol.is_display_column
    some ({ tabcol with available := available, checked := checked, needed := needed },
      decided)

/-- The column loop of the first pass of `decide_what_to_check` for one table, with the
value of `tab->available` so far. -/
def decide_what_to_check_columns (remote : remote_server) (selected_columns : Bool)
    (tab_checked : trivalue) :
    List pg_catalog_column → Bool → Option (List pg_catalog_column × Bool)
  | [], available => some ([], available)
  | tabcol :: cols, available =>
    match decide_what_to_check_column remote selected_columns tab_checked tabcol with
    | none => none
    | some decided =>
      match decide_what_to_check_columns remote selected_columns tab_checked cols
          (if decided.2 then true else available) with
      | none => none
      | some rest => some (decided.1 :: rest.1, rest.2)

/-- The body of the table loop of the first pass of `decide_what_to_check`. -/
def decide_what_to_check_table (remote : remote_server) (selected_columns : Bool)
    (tab : pg_catalog_table) : Option pg_catalog_table :=
  match decide_what_to_check_columns remote selected_columns tab.checked tab.cols false with
  | none => none
  | some decided => some { tab with cols := decided.1, available := decided.2 }

/-- The first pass of `decide_what_to_check`: set "checked" flags, and tentatively set
"needed" flags. -/
def decide_what_to_check_first_pass (remote : remote_server) (selected_columns : Bool) :
    List pg_catalog_table → Option (List pg_catalog_table)
  | [] => some []
  | tab :: tabs =>
    match decide_what_to_check_table remote selected_columns tab with
    | none => none
    | some decided =>
      match decide_what_to_check_first_pass remote selected_columns tabs with
      | none => none
      | some rest => some (decided :: rest)

/-- The body of the column loop of the second pass of `decide_what_to_check`, for a column
of the table at position `tab`: the setup of the check of a checked column. -/
def decide_what_to_check_prepare (tables : List pg_catalog_table) (tab : Nat)
    (tabcol : pg_catalog_column) : Option (List pg_catalog_table) :=
  match tabcol.check with
  | none => some tables
  | some check =>
    if tabcol.checked ≠ trivalue.TRI_YES then some tables
    else
      match check.type with
      | checktype.CHECK_ATTNUM => prepare_to_check_relnatts tables tab
      | checktype.CHECK_OID_REFERENCE => prepare_to_check_oid_reference tables tab check
      | checktype.CHECK_OID_VECTOR_REFERENCE => prepare_to_check_oid_reference tables tab check
      | checktype.CHECK_OID_ARRAY_REFERENCE => prepare_to_check_oid_reference tables tab check
      | checktype.CHECK_DEPENDENCY_CLASS_ID =>
        prepare_to_check_dependency_class_id tables tab tabcol
      | checktype.CHECK_DEPENDENCY_ID => prepare_to_check_dependency_id tables tab tabcol
      | checktype.CHECK_DEPENDENCY_SUBID => prepare_to_check_dependency_subid tables tab tabcol
      | checktype.CHECK_RELNATTS => prepare_to_check_relnatts tables tab

/-- The column loop of the second pass of `decide_what_to_check` for the table at position
`tab`, over the columns at the given positions. -/
def decide_what_to_check_prepare_columns (tab : Nat) :
    List Nat → List pg_catalog_table → Option (List pg_catalog_table)
  | [], tables => some tables
  | c :: cols, tables =>
    match decide_what_to_check_prepare tables tab (column_at (table_at tables tab) c) with
    | none => none
    | some prepared => decide_what_to_check_prepare_columns tab cols prepared

/-- The second pass of `decide_what_to_check`, over the tables at the given positions:
allow individual checks to mark additional columns as needed, and set ordering
dependencies. -/
def decide_what_to_check_second_pass :
    List Nat → List pg_catalog_table → Option (List pg_catalog_table)
  | [], tables => some tables
  | tab :: tabs, tables =>
    match decide_what_to_check_prepare_columns tab
        (List.range (table_at tables tab).cols.length) tables with
    | none => none
    | some prepared => decide_what_to_check_second_pass tabs prepared

/-- Decide which columns to check (`decide_what_to_check`); `none` for a fatal exit. -/
def decide_what_to_check (remote : remote_server) (selected_columns : Bool)
    (tables : List pg_catalog_table) : Option (List pg_catalog_table) :=
  match decide_what_to_check_first_pass remote selected_columns tables with
  | none => none
  | some decided => decide_what_to_check_second_pass (List.range decided.length) decided

/-- The second column agrees with the first in every field but `needed`, which is set in it
when it is set in the first. -/
def column_needed_le (a b : pg_catalog_column) : Prop :=
  b = { a with needed := b.needed } ∧ (a.needed = true → b.needed = true)

/-- The second table has the name, the flags and the number of columns of the first, and
its columns agree with those of the first in every field but `needed`, which was only ever
set. -/
def table_needed_le (a b : pg_catalog_table) : Prop :=
  b.table_name = a.table_name ∧ b.available = a.available ∧ b.checked = a.checked
    ∧ b.needs_load = a.needs_load ∧ b.needs_check = a.needs_check
    ∧ b.cols.length = a.cols.length
    ∧ ∀ c, column_needed_le (column_at a c) (column_at b c)

/-- The second array has the length of the first and its tables relate to those of the
first by `table_needed_le`. -/
def registry_needed_le (T U : List pg_catalog_table) : Prop :=
  U.length = T.length ∧ ∀ i, table_needed_le (table_at T i) (table_at U i)

/-- A registry of two tables for `decide_what_to_check`: pg_namespace, and pg_collation,
whose columns exist from version 9.1 on. -/
def sample_registry (collnamespace_checked : trivalue) : List pg_catalog_table :=
  [{ table_name := "pg_namespace".data,
     cols := [{ name := "oid".data, is_key_column := true, is_display_column := true },
              { name := "nspowner".data,
                check := some { type := checktype.CHECK_OID_REFERENCE, zero_oid_ok := false,
                                oid_references_table := "pg_authid".data },
                checked := trivalue.TRI_NO }] },
   { table_name := "pg_collation".data,
     cols := [{ name := "oid".data, minimum_version := 90100, is_key_column := true,
                is_display_column := true },
              { name := "collnamespace".data, minimum_version := 90100,
                check := some { type := checktype.CHECK_OID_REFERENCE, zero_oid_ok := false,
                                oid_references_table := "pg_namespace".data },
                checked := collnamespace_checked }] }]

/-- The column amkeytype of pg_am in `definitions.c`, with maximum version 90599. -/
def pg_am_amkeytype : pg_catalog_column :=
  { name := "amkeytype".data, minimum_version := 0, maximum_version := 90599,
    check := some { type := checktype.CHECK_OID_REFERENCE, zero_oid_ok := true,
                    oid_references_table := "pg_type".data } }

/-- A PostgreSQL 9.0 server. -/
def sample_remote_90 : remote_server :=
  { remote_version := 90000, remote_is_edb := false, database_oid := none }

/-- A PostgreSQL 9.6 server. -/
def sample_remote_96 : remote_server :=
  { remote_version := 90600, remote_is_edb := false, database_oid := none }

/-- The array that `decide_what_to_check` makes of `sample_registry`. -/
def sample_decided (remote : remote_server) (selected_columns : Bool)
    (collnamespace_checked : trivalue) : List pg_catalog_table :=
  (decide_what_to_check remote selected_columns
    (sample_registry collnamespace_checked)).getD []

/-- The invariant of the dependency edges of an array of tables: no list `needs` holds a
table twice, no table is in its own list `needs`, an edge joins two available tables, and
a table is in the list `needs` of another as many times as that other is in its list
`needed_by`. -/
structure edge_inv (T : List pg_catalog_table) : Prop where
  nodup : ∀ i, (table_at T i).needs.Nodup
  irrefl : ∀ i, i ∉ (table_at T i).needs
  available : ∀ i j, j ∈ (table_at T i).needs →
    (table_at T i).available = true ∧ (table_at T j).available = true
  mirror : ∀ i j, (table_at T i).needs.count j = (table_at T j).needed_by.count i

/-! ## log.c -/

/-- Severity of a message (`enum pgcc_severity`), from the lowest to the highest. -/
inductive pgcc_severity where
  | PGCC_DEBUG
  | PGCC_VERBOSE
  | PGCC_PROGRESS
  | PGCC_NOTICE
  | PGCC_WARNING
  | PGCC_ERROR
  | PGCC_FATAL
deriving DecidableEq, Repr

/-- The value of an enumerator of `pgcc_severity`, by which the source compares them. -/
def severity_value (sev : pgcc_severity) : Nat :=
  match sev with
  | pgcc_severity.PGCC_DEBUG => 0
  | pgcc_severity.PGCC_VERBOSE => 1
  | pgcc_severity.PGCC_PROGRESS => 2
  | pgcc_severity.PGCC_NOTICE => 3
  | pgcc_severity.PGCC_WARNING => 4
  | pgcc_severity.PGCC_ERROR => 5
  | pgcc_severity.PGCC_FATAL => 6

/-- The command-line settings that `log.c` reads: `quiet` and `verbose`. -/
structure log_settings where
  quiet : Bool := false
  verbose : Int := 0
deriving DecidableEq, Repr

/-- The file-level variables of `log.c`: the three counters and
`highest_message_severity`, which starts as `PGCC_DEBUG`. -/
structure log_state where
  notices : Nat := 0
  warnings : Nat := 0
  errors : Nat := 0
  highest_message_severity : pgcc_severity := pgcc_severity.PGCC_DEBUG
deriving DecidableEq, Repr

/-- Common code for `pgcc_log` and `pgcc_report` (`pgcc_log_severity`): whether a message
of this severity is logged under the settings, and the statistics updated for a message
that is logged. -/
def pgcc_log_severity (settings : log_settings) (sev : pgcc_severity) (st : log_state) :
    Bool × log_state :=
  let suppressed : Bool :=
    match sev with
    | pgcc_severity.PGCC_DEBUG => decide (settings.verbose < 2)
    | pgcc_severity.PGCC_VERBOSE => decide (settings.verbose < 1)
    | pgcc_severity.PGCC_PROGRESS => settings.quiet
    | _ => false
  if suppressed then (false, st)
  else
    (true,
     { notices := if sev = pgcc_severity.PGCC_NOTICE then st.notices + 1 else st.notices
       warnings := if sev = pgcc_severity.PGCC_WARNING then st.warnings + 1 else st.warnings
       errors := if sev = pgcc_severity.PGCC_ERROR then st.errors + 1 else st.errors
       highest_message_severity :=
         if severity_value sev ≥ severity_value st.highest_message_severity then sev
         else st.highest_message_severity })

/-- Log a message (`pgcc_log`): the state afterwards, or the exit status when the message
is fatal. -/
def pgcc_log (settings : log_settings) (sev : pgcc_severity) (st : log_state) :
    Except Nat log_state :=
  let logged := pgcc_log_severity settings sev st
  if !logged.1 then Except.ok st
  else if severity_value sev ≥ severity_value pgcc_severity.PGCC_FATAL then Except.error 2
  else Except.ok logged.2

/-- Report a catalog inconsistency (`pgcc_report`), which always uses `PGCC_NOTICE`: the
state afterwards. -/
def pgcc_report (settings : log_settings) (st : log_state) : log_state :=
  (pgcc_log_severity settings pgcc_severity.PGCC_NOTICE st).2

/-- Report that the checks are complete (`pgcc_log_completion`): the exit status. -/
def pgcc_log_completion (settings : log_settings) (st : log_state) : Nat :=
  match pgcc_log settings pgcc_severity.PGCC_PROGRESS st with
  | Except.error status => status
  | Except.ok logged =>
    if severity_value logged.highest_message_severity
        > severity_value pgcc_severity.PGCC_NOTICE then 2
    else if logged.highest_message_severity = pgcc_severity.PGCC_NOTICE then 1
    else 0

/-- The messages of a run, in order, each by its severity, as `pgcc_log` sees them.  A
report of `pgcc_report` is the message of severity `PGCC_NOTICE`. -/
def pgcc_log_messages (settings : log_settings) :
    List pgcc_severity → log_state → Except Nat log_state
  | [], st => Except.ok st
  | sev :: rest, st =>
    match pgcc_log settings sev st with
    | Except.error status => Except.error status
    | Except.ok logged => pgcc_log_messages settings rest logged

/-- Exit status of a run with the given messages, which ends with `pgcc_log_completion`
unless a fatal message ends it before. -/
def exit_status (settings : log_settings) (messages : List pgcc_severity) : Nat :=
  match pgcc_log_messages settings messages {} with
  | Except.error status => status
  | Except.ok st => pgcc_log_completion settings st

/-! ## pg_catcheck.c: the query for a table -/

/-- The loop of `build_query_for_table` over the columns from `tabcol` on: the columns
afterwards, the final `index` and the final query text.  A needed column is appended to
the query, preceded by a blank when it is the first and by a comma and a blank otherwise,
and followed by its cast if it has one; its `result_column` remembers `index`. -/
def build_query_for_table_loop :
    List pg_catalog_column → Nat → CStr → List pg_catalog_column × Nat × CStr
  | [], index, query => ([], index, query)
  | tabcol :: rest, index, query =>
    if !tabcol.needed then
      let r := build_query_for_table_loop rest index query
      (tabcol :: r.1, r.2.1, r.2.2)
    else
      let named := if index = 0 then query ++ " ".data ++ tabcol.name
        else query ++ ", ".data ++ tabcol.name
      let casted := match tabcol.cast with
        | some cast => named ++ "::".data ++ cast
        | none => named
      let r := build_query_for_table_loop rest (index + 1) casted
      ({ tabcol with result_column := index } :: r.1, r.2.1, r.2.2)

/-- Build a query to read the needed columns from a table (`build_query_for_table`): the
query text, the table with the result columns recorded, and the value of `index` that
`Assert(index > 0)` tests. -/
def build_query_for_table (tab : pg_catalog_table) : CStr × pg_catalog_table × Nat :=
  let r := build_query_for_table_loop tab.cols 0 "SELECT".data
  (r.2.2 ++ " FROM pg_catalog.".data ++ tab.table_name, { tab with cols := r.1 }, r.2.1)

/-- The text of a column in a select list as the specification words it: the column name,
followed by its cast when one is defined. -/
def column_with_cast (col : pg_catalog_column) : CStr :=
  match col.cast with
  | some cast => col.name ++ "::".data ++ cast
  | none => col.name

/-- The fetch request as the specification words it: the given columns in their order,
each followed by its cast, read from the table of the given name in `pg_catalog`. -/
def fetch_request (columns : List pg_catalog_column) (table_name : CStr) : CStr :=
  "SELECT".data
    ++ (if columns = [] then [] else " ".data ++ ", ".data.intercalate (columns.map column_with_cast))
    ++ " FROM pg_catalog.".data ++ table_name

/-- A table of four columns, of which the first, the third and the fourth are needed. -/
def sample_query_table : pg_catalog_table :=
  { table_name := "pg_proc".data
    cols := [{ name := "oid".data, needed := true, result_column := 7 },
             { name := "proname".data, needed := false, result_column := 7 },
             { name := "proargtypes".data, cast := some "pg_catalog.oid[]".data,
               needed := true, result_column := 7 },
             { name := "prolang".data, needed := true, result_column := 7 }] }

/-- An array of two tables, not of `definitions.c`, in which the second table, pg_keyless,
has neither a key column, nor a display column, nor a check, and a column of the first
table refers to it. -/
def sample_keyless_registry : List pg_catalog_table :=
  [{ table_name := "pg_referrer".data,
     cols := [{ name := "oid".data, is_key_column := true, is_display_column := true },
              { name := "refkeyless".data,
                check := some { type := checktype.CHECK_OID_REFERENCE, zero_oid_ok := false,
                                oid_references_table := "pg_keyless".data } }] },
   { table_name := "pg_keyless".data,
     cols := [{ name := "label".data }] }]

/-- The array that `decide_what_to_check` makes of `sample_keyless_registry` when the user
selects nothing. -/
def sample_keyless_decided : List pg_catalog_table :=
  (decide_what_to_check sample_remote_96 false sample_keyless_registry).getD []

/-- The tables pg_class and pg_attribute with their columns as in `definitions.c`, after
the option `--column=attnum`: `select_column` has set `checked` of the column attnum. -/
def sample_attnum_registry : List pg_catalog_table :=
  [{ table_name := "pg_class".data,
     cols := [{ name := "oid".data, is_key_column := true, is_display_column := true },
              { name := "relowner".data,
                check := some { type := checktype.CHECK_OID_REFERENCE, zero_oid_ok := false,
                                oid_references_table := "pg_authid".data } },
              { name := "relnamespace".data,
                check := some { type := checktype.CHECK_OID_REFERENCE, zero_oid_ok := false,
                                oid_references_table := "pg_namespace".data } },
              { name := "relname".data, is_display_column := true },
              { name := "reltype".data,
                check := some { type := checktype.CHECK_OID_REFERENCE, zero_oid_ok := true,
                                oid_references_table := "pg_type".data } },
              { name := "reloftype".data, minimum_version := 90000,
                check := some { type := checktype.CHECK_OID_REFERENCE, zero_oid_ok := true,
                                oid_references_table := "pg_type".data } },
              { name := "relkind".data, is_display_column := true },
              { name := "relam".data,
                check := some { type := checktype.CHECK_OID_REFERENCE, zero_oid_ok := true,
                                oid_references_table := "pg_am".data } },
              { name := "relnatts".data,
                check := some { type := checktype.CHECK_RELNATTS, zero_oid_ok := false,
                                oid_references_table := [] } },
              { name := "reltablespace".data,
                check := some { type := checktype.CHECK_OID_REFERENCE, zero_oid_ok := true,
                                oid_references_table := "pg_tablespace".data } },
              { name := "reltoastrelid".data,
                check := some { type := checktype.CHECK_OID_REFERENCE, zero_oid_ok := true,
                                oid_references_table := "pg_class".data } }] },
   { table_name := "pg_attribute".data,
     cols := [{ name := "attrelid".data, is_key_column := true, is_display_column := true,
                check := some { type := checktype.CHECK_OID_REFERENCE, zero_oid_ok := false,
                                oid_references_table := "pg_class".data } },
              { name := "attname".data, is_display_column := true },
              { name := "attnum".data, is_key_column := true, is_display_column := true,
                check := some { type := checktype.CHECK_ATTNUM, zero_oid_ok := false,
                                oid_references_table := [] },
                checked := trivalue.TRI_YES },
              { name := "atttypid".data,
                check := some { type := checktype.CHECK_OID_REFERENCE, zero_oid_ok := true,
                                oid_references_table := "pg_type".data } },
              { name := "attcollation".data, minimum_version := 90100,
                check := some { type := checktype.CHECK_OID_REFERENCE, zero_oid_ok := true,
                                oid_references_table := "pg_collation".data } }] }]

/-- The array that `decide_what_to_check` makes of `sample_attnum_registry`, with
`selected_columns` set as the option `--column` sets it. -/
def sample_attnum_decided : List pg_catalog_table :=
  (decide_what_to_check sample_remote_96 true sample_attnum_registry).getD []

/-! ## definitions.c -/

/-- The check `check_am_oid` of `definitions.c`. -/
def check_am_oid : pg_catalog_check_oid :=
  { type := checktype.CHECK_OID_REFERENCE, zero_oid_ok := false,
    oid_references_table := "pg_am".data }

/-- The check `check_am_optional_oid` of `definitions.c`. -/
def check_am_optional_oid : pg_catalog_check_oid :=
  { type := checktype.CHECK_OID_REFERENCE, zero_oid_ok := true,
    oid_references_table := "pg_am".data }

/-- The check `check_attnum_value` of `definitions.c`. -/
def check_attnum_value : pg_catalog_check_oid :=
  { type := checktype.CHECK_ATTNUM, zero_oid_ok := false,
    oid_references_table := [] }

/-- The check `check_authid_oid` of `definitions.c`. -/
def check_authid_oid : pg_catalog_check_oid :=
  { type := checktype.CHECK_OID_REFERENCE, zero_oid_ok := false,
    oid_references_table := "pg_authid".data }

/-- The check `check_authid_oid_array_zero_ok` of `definitions.c`. -/
def check_authid_oid_array_zero_ok : pg_catalog_check_oid :=
  { type := checktype.CHECK_OID_ARRAY_REFERENCE, zero_oid_ok := true,
    oid_references_table := "pg_authid".data }

/-- The check `check_authid_optional_oid` of `definitions.c`. -/
def check_authid_optional_oid : pg_catalog_check_oid :=
  { type := checktype.CHECK_OID_REFERENCE, zero_oid_ok := true,
    oid_references_table := "pg_authid".data }

/-- The check `check_class_oid` of `definitions.c`. -/
def check_class_oid : pg_catalog_check_oid :=
  { type := checktype.CHECK_OID_REFERENCE, zero_oid_ok := false,
    oid_references_table := "pg_class".data }

/-- The check `check_class_oid_array` of `definitions.c`. -/
def check_class_oid_array : pg_catalog_check_oid :=
  { type := checktype.CHECK_OID_ARRAY_REFERENCE, zero_oid_ok := false,
    oid_references_table := "pg_class".data }

/-- The check `check_class_optional_oid` of `definitions.c`. -/
def check_class_optional_oid : pg_catalog_check_oid :=
  { type := checktype.CHECK_OID_REFERENCE, zero_oid_ok := true,
    oid_references_table := "pg_class".data }

/-- The check `check_constraint_oid` of `definitions.c`. -/
def check_constraint_oid : pg_catalog_check_oid :=
  { type := checktype.CHECK_OID_REFERENCE, zero_oid_ok := false,
    oid_references_table := "pg_constraint".data }

/-- The check `check_collation_optional_oid` of `definitions.c`. -/
def check_collation_optional_oid : pg_catalog_check_oid :=
  { type := checktype.CHECK_OID_REFERENCE, zero_oid_ok := true,
    oid_references_table := "pg_collation".data }

/-- The check `check_collation_optional_oid_vector` of `definitions.c`. -/
def check_collation_optional_oid_vector : pg_catalog_check_oid :=
  { type := checktype.CHECK_OID_VECTOR_REFERENCE, zero_oid_ok := true,
    oid_references_table := "pg_collation".data }

/-- The check `check_constraint_optional_oid` of `definitions.c`. -/
def check_constraint_optional_oid : pg_catalog_check_oid :=
  { type := checktype.CHECK_OID_REFERENCE, zero_oid_ok := true,
    oid_references_table := "pg_constraint".data }

/-- The check `check_database_optional_oid` of `definitions.c`. -/
def check_database_optional_oid : pg_catalog_check_oid :=
  { type := checktype.CHECK_OID_REFERENCE, zero_oid_ok := true,
    oid_references_table := "pg_database".data }

/-- The check `check_dependency_id_value` of `definitions.c`. -/
def check_dependency_id_value : pg_catalog_check_oid :=
  { type := checktype.CHECK_DEPENDENCY_ID, zero_oid_ok := false,
    oid_references_table := [] }

/-- The check `check_dependency_class_id_value` of `definitions.c`. -/
def check_dependency_class_id_value : pg_catalog_check_oid :=
  { type := checktype.CHECK_DEPENDENCY_CLASS_ID, zero_oid_ok := false,
    oid_references_table := [] }

/-- The check `check_dependency_subid_value` of `definitions.c`. -/
def check_dependency_subid_value : pg_catalog_check_oid :=
  { type := checktype.CHECK_DEPENDENCY_SUBID, zero_oid_ok := false,
    oid_references_table := [] }

/-- The check `check_edb_partdef` of `definitions.c`. -/
def check_edb_partdef : pg_catalog_check_oid :=
  { type := checktype.CHECK_OID_REFERENCE, zero_oid_ok := false,
    oid_references_table := "edb_partdef".data }

/-- The check `check_edb_partition_optional_oid` of `definitions.c`. -/
def check_edb_partition_optional_oid : pg_catalog_check_oid :=
  { type := checktype.CHECK_OID_REFERENCE, zero_oid_ok := true,
    oid_references_table := "edb_partition".data }

/-- The check `check_foreign_data_wrapper_oid` of `definitions.c`. -/
def check_foreign_data_wrapper_oid : pg_catalog_check_oid :=
  { type := checktype.CHECK_OID_REFERENCE, zero_oid_ok := false,
    oid_references_table := "pg_foreign_data_wrapper".data }

/-- The check `check_foreign_server_oid` of `definitions.c`. -/
def check_foreign_server_oid : pg_catalog_check_oid :=
  { type := checktype.CHECK_OID_REFERENCE, zero_oid_ok := false,
    oid_references_table := "pg_foreign_server".data }

/-- The check `check_foreign_server_optional_oid` of `definitions.c`. -/
def check_foreign_server_optional_oid : pg_catalog_check_oid :=
  { type := checktype.CHECK_OID_REFERENCE, zero_oid_ok := true,
    oid_references_table := "pg_foreign_server".data }

/-- The check `check_index_optional_oid` of `definitions.c`. -/
def check_index_optional_oid : pg_catalog_check_oid :=
  { type := checktype.CHECK_OID_REFERENCE, zero_oid_ok := true,
    oid_references_table := "pg_index".data }

/-- The check `check_language_oid` of `definitions.c`. -/
def check_language_oid : pg_catalog_check_oid :=
  { type := checktype.CHECK_OID_REFERENCE, zero_oid_ok := false,
    oid_references_table := "pg_language".data }

/-- The check `check_largeobject_metadata_oid` of `definitions.c`. -/
def check_largeobject_metadata_oid : pg_catalog_check_oid :=
  { type := checktype.CHECK_OID_REFERENCE, zero_oid_ok := false,
    oid_references_table := "pg_largeobject_metadata".data }

/-- The check `check_namespace_oid` of `definitions.c`. -/
def check_namespace_oid : pg_catalog_check_oid :=
  { type := checktype.CHECK_OID_REFERENCE, zero_oid_ok := false,
    oid_references_table := "pg_namespace".data }

/-- The check `check_namespace_optional_oid` of `definitions.c`. -/
def check_namespace_optional_oid : pg_catalog_check_oid :=
  { type := checktype.CHECK_OID_REFERENCE, zero_oid_ok := true,
    oid_references_table := "pg_namespace".data }

/-- The check `check_opclass_oid` of `definitions.c`. -/
def check_opclass_oid : pg_catalog_check_oid :=
  { type := checktype.CHECK_OID_REFERENCE, zero_oid_ok := false,
    oid_references_table := "pg_opclass".data }

/-- The check `check_opclass_oid_vector` of `definitions.c`. -/
def check_opclass_oid_vector : pg_catalog_check_oid :=
  { type := checktype.CHECK_OID_VECTOR_REFERENCE, zero_oid_ok := false,
    oid_references_table := "pg_opclass".data }

/-- The check `check_operator_oid` of `definitions.c`. -/
def check_operator_oid : pg_catalog_check_oid :=
  { type := checktype.CHECK_OID_REFERENCE, zero_oid_ok := false,
    oid_references_table := "pg_operator".data }

/-- The check `check_operator_optional_oid` of `definitions.c`. -/
def check_operator_optional_oid : pg_catalog_check_oid :=
  { type := checktype.CHECK_OID_REFERENCE, zero_oid_ok := true,
    oid_references_table := "pg_operator".data }

/-- The check `check_operator_oid_array` of `definitions.c`. -/
def check_operator_oid_array : pg_catalog_check_oid :=
  { type := checktype.CHECK_OID_ARRAY_REFERENCE, zero_oid_ok := false,
    oid_references_table := "pg_operator".data }

/-- The check `check_opfamily_oid` of `definitions.c`. -/
def check_opfamily_oid : pg_catalog_check_oid :=
  { type := checktype.CHECK_OID_REFERENCE, zero_oid_ok := false,
    oid_references_table := "pg_opfamily".data }

/-- The check `check_opfamily_optional_oid` of `definitions.c`. -/
def check_opfamily_optional_oid : pg_catalog_check_oid :=
  { type := checktype.CHECK_OID_REFERENCE, zero_oid_ok := true,
    oid_references_table := "pg_opfamily".data }

/-- The check `check_proc_oid` of `definitions.c`. -/
def check_proc_oid : pg_catalog_check_oid :=
  { type := checktype.CHECK_OID_REFERENCE, zero_oid_ok := false,
    oid_references_table := "pg_proc".data }

/-- The check `check_proc_optional_oid` of `definitions.c`. -/
def check_proc_optional_oid : pg_catalog_check_oid :=
  { type := checktype.CHECK_OID_REFERENCE, zero_oid_ok := true,
    oid_references_table := "pg_proc".data }

/-- The check `check_profile_oid` of `definitions.c`. -/
def check_profile_oid : pg_catalog_check_oid :=
  { type := checktype.CHECK_OID_REFERENCE, zero_oid_ok := true,
    oid_references_table := "edb_profile".data }

/-- The check `check_relnatts_value` of `definitions.c`. -/
def check_relnatts_value : pg_catalog_check_oid :=
  { type := checktype.CHECK_RELNATTS, zero_oid_ok := false,
    oid_references_table := [] }

/-- The check `check_tablespace_oid` of `definitions.c`. -/
def check_tablespace_oid : pg_catalog_check_oid :=
  { type := checktype.CHECK_OID_REFERENCE, zero_oid_ok := false,
    oid_references_table := "pg_tablespace".data }

/-- The check `check_tablespace_optional_oid` of `definitions.c`. -/
def check_tablespace_optional_oid : pg_catalog_check_oid :=
  { type := checktype.CHECK_OID_REFERENCE, zero_oid_ok := true,
    oid_references_table := "pg_tablespace".data }

/-- The check `check_ts_config_oid` of `definitions.c`. -/
def check_ts_config_oid : pg_catalog_check_oid :=
  { type := checktype.CHECK_OID_REFERENCE, zero_oid_ok := true,
    oid_references_table := "pg_ts_config".data }

/-- The check `check_ts_dict_oid` of `definitions.c`. -/
def check_ts_dict_oid : pg_catalog_check_oid :=
  { type := checktype.CHECK_OID_REFERENCE, zero_oid_ok := true,
    oid_references_table := "pg_ts_dict".data }

/-- The check `check_ts_parser_oid` of `definitions.c`. -/
def check_ts_parser_oid : pg_catalog_check_oid :=
  { type := checktype.CHECK_OID_REFERENCE, zero_oid_ok := true,
    oid_references_table := "pg_ts_parser".data }

/-- The check `check_ts_template_oid` of `definitions.c`. -/
def check_ts_template_oid : pg_catalog_check_oid :=
  { type := checktype.CHECK_OID_REFERENCE, zero_oid_ok := true,
    oid_references_table := "pg_ts_template".data }

/-- The check `check_type_oid` of `definitions.c`. -/
def check_type_oid : pg_catalog_check_oid :=
  { type := checktype.CHECK_OID_REFERENCE, zero_oid_ok := false,
    oid_references_table := "pg_type".data }

/-- The check `check_type_oid_array` of `definitions.c`. -/
def check_type_oid_array : pg_catalog_check_oid :=
  { type := checktype.CHECK_OID_ARRAY_REFERENCE, zero_oid_ok := false,
    oid_references_table := "pg_type".data }

/-- The check `check_type_oid_vector` of `definitions.c`. -/
def check_type_oid_vector : pg_catalog_check_oid :=
  { type := checktype.CHECK_OID_VECTOR_REFERENCE, zero_oid_ok := false,
    oid_references_table := "pg_type".data }

/-- The check `check_type_optional_oid` of `definitions.c`. -/
def check_type_optional_oid : pg_catalog_check_oid :=
  { type := checktype.CHECK_OID_REFERENCE, zero_oid_ok := true,
    oid_references_table := "pg_type".data }

/-- The check `check_queue_oid` of `definitions.c`. -/
def check_queue_oid : pg_catalog_check_oid :=
  { type := checktype.CHECK_OID_REFERENCE, zero_oid_ok := false,
    oid_references_table := "edb_queue".data }

/-- The check `check_collation_oid` of `definitions.c`. -/
def check_collation_oid : pg_catalog_check_oid :=
  { type := checktype.CHECK_OID_REFERENCE, zero_oid_ok := false,
    oid_references_table := "pg_collation".data }

/-- The check `check_publication_oid` of `definitions.c`. -/
def check_publication_oid : pg_catalog_check_oid :=
  { type := checktype.CHECK_OID_REFERENCE, zero_oid_ok := false,
    oid_references_table := "pg_publication".data }

/-- The check `check_database_oid` of `definitions.c`. -/
def check_database_oid : pg_catalog_check_oid :=
  { type := checktype.CHECK_OID_REFERENCE, zero_oid_ok := false,
    oid_references_table := "pg_database".data }

/-- The check `check_subscription_oid` of `definitions.c`. -/
def check_subscription_oid : pg_catalog_check_oid :=
  { type := checktype.CHECK_OID_REFERENCE, zero_oid_ok := false,
    oid_references_table := "pg_subscription".data }

/-- The columns of pg_class (`pg_class_column` of `definitions.c`). -/
def pg_class_column : List pg_catalog_column :=
  [{ name := "oid".data, cast := none,
     minimum_version := 0, maximum_version := 0,
     is_edb_only := false, is_key_column := true, is_display_column := true,
     check := none },
   { name := "relowner".data, cast := none,
     minimum_version := 0, maximum_version := 0,
     is_edb_only := false, is_key_column := false, is_display_column := false,
     check := some check_authid_oid },
   { name := "relnamespace".data, cast := none,
     minimum_version := 0, maximum_version := 0,
     is_edb_only := false, is_key_column := false, is_display_column := false,
     check := some check_namespace_oid },
   { name := "relname".data, cast := none,
     minimum_version := 0, maximum_version := 0,
     is_edb_only := false, is_key_column := false, is_display_column := true,
     check := none },
   { name := "reltype".data, cast := none,
     minimum_version := 0, maximum_version := 0,
     is_edb_only := false, is_key_column := false, is_display_column := false,
     check := some check_type_optional_oid },
   { name := "reloftype".data, cast := none,
     minimum_version := 90000, maximum_version := 0,
     is_edb_only := false, is_key_column := false, is_display_column := false,
     check := some check_type_optional_oid },
   { name := "relkind".data, cast := none,
     minimum_version := 0, maximum_version := 0,
     is_edb_only := false, is_key_column := false, is_display_column := true,
     check := none },
   { name := "relam".data, cast := none,
     minimum_version := 0, maximum_version := 0,
     is_edb_only := false, is_key_column := false, is_display_column := false,
     check := some check_am_optional_oid },
   { name := "relnatts".data, cast := none,
     minimum_version := 0, maximum_version := 0,
     is_edb_only := false, is_key_column := false, is_display_column := false,
     check := some check_relnatts_value },
   { name := "reltablespace".data, cast := none,
     minimum_version := 0, maximum_version := 0,
     is_edb_only := false, is_key_column := false, is_display_column := false,
     check := some check_tablespace_optional_oid },
   { name := "reltoastrelid".data, cast := none,
     minimum_version := 0, maximum_version := 0,
     is_edb_only := false, is_key_column := false, is_display_column := false,
     check := some check_class_optional_oid }]

/-- The columns of pg_namespace (`pg_namespace_column` of `definitions.c`). -/
def pg_namespace_column : List pg_catalog_column :=
  [{ name := "oid".data, cast := none,
     minimum_version := 0, maximum_version := 0,
     is_edb_only := false, is_key_column := true, is_display_column := true,
     check := none },
   { name := "nspowner".data, cast := none,
     minimum_version := 0, maximum_version := 0,
     is_edb_only := false, is_key_column := false, is_display_column := false,
     check := some check_authid_oid },
   { name := "nspparent".data, cast := none,
     minimum_version := 0, maximum_version := 0,
     is_edb_only := true, is_key_column := false, is_display_column := false,
     check := some check_namespace_optional_oid },
   { name := "nspobjecttype".data, cast := none,
     minimum_version := 90200, maximum_version := 0,
     is_edb_only := true, is_key_column := false, is_display_column := false,
     check := some check_type_optional_oid },
   { name := "nspforeignserver".data, cast := none,
     minimum_version := 0, maximum_version := 0,
     is_edb_only := true, is_key_column := false, is_display_column := false,
     check := some check_foreign_server_optional_oid }]

/-- The columns of pg_authid (`pg_authid_column` of `definitions.c`). -/
def pg_authid_column : List pg_catalog_column :=
  [{ name := "oid".data, cast := none,
     minimum_version := 0, maximum_version := 0,
     is_edb_only := false, is_key_column := true, is_display_column := true,
     check := none },
   { name := "rolname".data, cast := none,
     minimum_version := 0, maximum_version := 0,
     is_edb_only := false, is_key_column := false, is_display_column := true,
     check := none },
   { name := "rolprofile".data, cast := none,
     minimum_version := 90500, maximum_version := 0,
     is_edb_only := true, is_key_column := false, is_display_column := false,
     check := some check_profile_oid }]

/-- The columns of pg_tablespace (`pg_tablespace_column` of `definitions.c`). -/
def pg_tablespace_column : List pg_catalog_column :=
  [{ name := "oid".data, cast := none,
     minimum_version := 0, maximum_version := 0,
     is_edb_only := false, is_key_column := true, is_display_column := true,
     check := none },
   { name := "spcname".data, cast := none,
     minimum_version := 0, maximum_version := 0,
     is_edb_only := false, is_key_column := false, is_display_column := false,
     check := none },
   { name := "spcowner".data, cast := none,
     minimum_version := 0, maximum_version := 0,
     is_edb_only := false, is_key_column := false, is_display_column := false,
     check := some check_authid_oid }]

/-- The columns of pg_type (`pg_type_column` of `definitions.c`). -/
def pg_type_column : List pg_catalog_column :=
  [{ name := "oid".data, cast := none,
     minimum_version := 0, maximum_version := 0,
     is_edb_only := false, is_key_column := true, is_display_column := true,
     check := none },
   { name := "typname".data, cast := none,
     minimum_version := 0, maximum_version := 0,
     is_edb_only := false, is_key_column := false, is_display_column := false,
     check := none },
   { name := "typowner".data, cast := none,
     minimum_version := 0, maximum_version := 0,
     is_edb_only := false, is_key_column := false, is_display_column := false,
     check := some check_authid_oid },
   { name := "typnamespace".data, cast := none,
     minimum_version := 0, maximum_version := 0,
     is_edb_only := false, is_key_column := false, is_display_column := false,
     check := some check_namespace_oid },
   { name := "typrelid".data, cast := none,
     minimum_version := 0, maximum_version := 0,
     is_edb_only := false, is_key_column := false, is_display_column := false,
     check := some check_class_optional_oid },
   { name := "typelem".data, cast := none,
     minimum_version := 0, maximum_version := 0,
     is_edb_only := false, is_key_column := false, is_display_column := false,
     check := some check_type_optional_oid },
   { name := "typarray".data, cast := none,
     minimum_version := 0, maximum_version := 0,
     is_edb_only := false, is_key_column := false, is_display_column := false,
     check := some check_type_optional_oid },
   { name := "typbasetype".data, cast := none,
     minimum_version := 0, maximum_version := 0,
     is_edb_only := false, is_key_column := false, is_display_column := false,
     check := some check_type_optional_oid },
   { name := "typcollation".data, cast := none,
     minimum_version := 90100, maximum_version := 0,
     is_edb_only := false, is_key_column := false, is_display_column := false,
     check := some check_collation_optional_oid }]

/-- The columns of pg_am (`pg_am_column` of `definitions.c`). -/
def pg_am_column : List pg_catalog_column :=
  [{ name := "oid".data, cast := none,
     minimum_version := 0, maximum_version := 0,
     is_edb_only := false, is_key_column := true, is_display_column := true,
     check := none },
   { name := "amkeytype".data, cast := none,
     minimum_version := 0, maximum_version := 90599,
     is_edb_only := false, is_key_column := false, is_display_column := false,
     check := some check_type_optional_oid }]

/-- The columns of pg_collation (`pg_collation_column` of `definitions.c`). -/
def pg_collation_column : List pg_catalog_column :=
  [{ name := "oid".data, cast := none,
     minimum_version := 90100, maximum_version := 0,
     is_edb_only := false, is_key_column := true, is_display_column := true,
     check := none },
   { name := "collnamespace".data, cast := none,
     minimum_version := 90100, maximum_version := 0,
     is_edb_only := false, is_key_column := false, is_display_column := false,
     check := some check_namespace_oid },
   { name := "collowner".data, cast := none,
     minimum_version := 90100, maximum_version := 0,
     is_edb_only := false, is_key_column := false, is_display_column := false,
     check := some check_authid_oid }]

/-- The columns of pg_proc (`pg_proc_column` of `definitions.c`). -/
def pg_proc_column : List pg_catalog_column :=
  [{ name := "oid".data, cast := none,
     minimum_version := 0, maximum_version := 0,
     is_edb_only := false, is_key_column := true, is_display_column := true,
     check := none },
   { name := "pronamespace".data, cast := none,
     minimum_version := 0, maximum_version := 0,
     is_edb_only := false, is_key_column := false, is_display_column := false,
     check := some check_namespace_oid },
   { name := "proowner".data, cast := none,
     minimum_version := 0, maximum_version := 0,
     is_edb_only := false, is_key_column := false, is_display_column := false,
     check := some check_authid_oid },
   { name := "prolang".data, cast := none,
     minimum_version := 0, maximum_version := 0,
     is_edb_only := false, is_key_column := false, is_display_column := false,
     check := some check_language_oid },
   { name := "provariadic".data, cast := none,
     minimum_version := 0, maximum_version := 0,
     is_edb_only := false, is_key_column := false, is_display_column := false,
     check := some check_type_optional_oid },
   { name := "prorettype".data, cast := none,
     minimum_version := 0, maximum_version := 0,
     is_edb_only := false, is_key_column := false, is_display_column := false,
     check := some check_type_oid },
   { name := "proargtypes".data, cast := none,
     minimum_version := 0, maximum_version := 0,
     is_edb_only := false, is_key_column := false, is_display_column := false,
     check := some check_type_oid_vector },
   { name := "proallargtypes".data, cast := none,
     minimum_version := 0, maximum_version := 0,
     is_edb_only := false, is_key_column := false, is_display_column := false,
     check := some check_type_oid_array }]

/-- The columns of pg_language (`pg_language_column` of `definitions.c`). -/
def pg_language_column : List pg_catalog_column :=
  [{ name := "oid".data, cast := none,
     minimum_version := 0, maximum_version := 0,
     is_edb_only := false, is_key_column := true, is_display_column := true,
     check := none },
   { name := "lanowner".data, cast := none,
     minimum_version := 0, maximum_version := 0,
     is_edb_only := false, is_key_column := false, is_display_column := false,
     check := some check_authid_oid },
   { name := "lanplcallfoid".data, cast := none,
     minimum_version := 0, maximum_version := 0,
     is_edb_only := false, is_key_column := false, is_display_column := false,
     check := none },
   { name := "laninline".data, cast := none,
     minimum_version := 90000, maximum_version := 0,
     is_edb_only := false, is_key_column := false, is_display_column := false,
     check := none },
   { name := "lanvalidator".data, cast := none,
     minimum_version := 0, maximum_version := 0,
     is_edb_only := false, is_key_column := false, is_display_column := false,
     check := none }]

/-- The columns of pg_index (`pg_index_column` of `definitions.c`). -/
def pg_index_column : List pg_catalog_column :=
  [{ name := "indexrelid".data, cast := none,
     minimum_version := 0, maximum_version := 0,
     is_edb_only := false, is_key_column := true, is_display_column := true,
     check := none },
   { name := "indrelid".data, cast := none,
     minimum_version := 0, maximum_version := 0,
     is_edb_only := false, is_key_column := false, is_display_column := false,
     check := some check_class_oid },
   { name := "indcollation".data, cast := none,
     minimum_version := 90100, maximum_version := 0,
     is_edb_only := false, is_key_column := false, is_display_column := false,
     check := some check_collation_optional_oid_vector },
   { name := "indclass".data, cast := none,
     minimum_version := 0, maximum_version := 0,
     is_edb_only := false, is_key_column := false, is_display_column := false,
     check := some check_opclass_oid_vector }]

/-- The columns of pg_constraint (`pg_constraint_column` of `definitions.c`). -/
def pg_constraint_column : List pg_catalog_column :=
  [{ name := "oid".data, cast := none,
     minimum_version := 0, maximum_version := 0,
     is_edb_only := false, is_key_column := true, is_display_column := true,
     check := none },
   { name := "conname".data, cast := none,
     minimum_version := 0, maximum_version := 0,
     is_edb_only := false, is_key_column := false, is_display_column := false,
     check := none },
   { name := "connamespace".data, cast := none,
     minimum_version := 0, maximum_version := 0,
     is_edb_only := false, is_key_column := false, is_display_column := false,
     check := some check_namespace_oid },
   { name := "conrelid".data, cast := none,
     minimum_version := 0, maximum_version := 0,
     is_edb_only := false, is_key_column := false, is_display_column := false,
     check := some check_class_optional_oid },
   { name := "contypid".data, cast := none,
     minimum_version := 0, maximum_version := 0,
     is_edb_only := false, is_key_column := false, is_display_column := false,
     check := some check_type_optional_oid },
   { name := "conindid".data, cast := none,
     minimum_version := 90000, maximum_version := 0,
     is_edb_only := false, is_key_column := false, is_display_column := false,
     check := some check_index_optional_oid },
   { name := "confrelid".data, cast := none,
     minimum_version := 0, maximum_version := 0,
     is_edb_only := false, is_key_column := false, is_display_column := false,
     check := some check_class_optional_oid },
   { name := "conpfeqop".data, cast := none,
     minimum_version := 0, maximum_version := 0,
     is_edb_only := false, is_key_column := false, is_display_column := false,
     check := some check_operator_oid_array },
   { name := "conppeqop".data, cast := none,
     minimum_version := 0, maximum_version := 0,
     is_edb_only := false, is_key_column := false, is_display_column := false,
     check := some check_operator_oid_array },
   { name := "conffeqop".data, cast := none,
     minimum_version := 0, maximum_version := 0,
     is_edb_only := false, is_key_column := false, is_display_column := false,
     check := some check_operator_oid_array },
   { name := "conexclop".data, cast := none,
     minimum_version := 90000, maximum_version := 0,
     is_edb_only := false, is_key_column := false, is_display_column := false,
     check := some check_operator_oid_array }]

/-- The columns of pg_database (`pg_database_column` of `definitions.c`). -/
def pg_database_column : List pg_catalog_column :=
  [{ name := "oid".data, cast := none,
     minimum_version := 0, maximum_version := 0,
     is_edb_only := false, is_key_column := true, is_display_column := true,
     check := none },
   { name := "datname".data, cast := none,
     minimum_version := 0, maximum_version := 0,
     is_edb_only := false, is_key_column := false, is_display_column := false,
     check := none },
   { name := "datdba".data, cast := none,
     minimum_version := 0, maximum_version := 0,
     is_edb_only := false, is_key_column := false, is_display_column := false,
     check := some check_authid_oid },
   { name := "dattablespace".data, cast := none,
     minimum_version := 0, maximum_version := 0,
     is_edb_only := false, is_key_column := false, is_display_column := false,
     check := some check_tablespace_oid }]

/-- The columns of pg_cast (`pg_cast_column` of `definitions.c`). -/
def pg_cast_column : List pg_catalog_column :=
  [{ name := "oid".data, cast := none,
     minimum_version := 0, maximum_version := 0,
     is_edb_only := false, is_key_column := true, is_display_column := true,
     check := none },
   { name := "castsource".data, cast := none,
     minimum_version := 0, maximum_version := 0,
     is_edb_only := false, is_key_column := false, is_display_column := false,
     check := some check_type_oid },
   { name := "casttarget".data, cast := none,
     minimum_version := 0, maximum_version := 0,
     is_edb_only := false, is_key_column := false, is_display_column := false,
     check := some check_type_oid },
   { name := "castfunc".data, cast := none,
     minimum_version := 0, maximum_version := 0,
     is_edb_only := false, is_key_column := false, is_display_column := false,
     check := some check_proc_optional_oid }]

/-- The columns of pg_conversion (`pg_conversion_column` of `definitions.c`). -/
def pg_conversion_column : List pg_catalog_column :=
  [{ name := "oid".data, cast := none,
     minimum_version := 0, maximum_version := 0,
     is_edb_only := false, is_key_column := true, is_display_column := true,
     check := none },
   { name := "connamespace".data, cast := none,
     minimum_version := 0, maximum_version := 0,
     is_edb_only := false, is_key_column := false, is_display_column := false,
     check := some check_namespace_oid },
   { name := "conowner".data, cast := none,
     minimum_version := 0, maximum_version := 0,
     is_edb_only := false, is_key_column := false, is_display_column := false,
     check := some check_authid_oid },
   { name := "conproc".data, cast := some "pg_catalog.oid".data,
     minimum_version := 0, maximum_version := 0,
     is_edb_only := false, is_key_column := false, is_display_column := false,
     check := some check_proc_oid }]

/-- The columns of pg_extension (`pg_extension_column` of `definitions.c`). -/
def pg_extension_column : List pg_catalog_column :=
  [{ name := "oid".data, cast := none,
     minimum_version := 90100, maximum_version := 0,
     is_edb_only := false, is_key_column := true, is_display_column := true,
     check := none },
   { name := "extowner".data, cast := none,
     minimum_version := 90100, maximum_version := 0,
     is_edb_only := false, is_key_column := false, is_display_column := false,
     check := some check_authid_oid },
   { name := "extnamespace".data, cast := none,
     minimum_version := 90100, maximum_version := 0,
     is_edb_only := false, is_key_column := false, is_display_column := false,
     check := some check_namespace_oid },
   { name := "extconfig".data, cast := none,
     minimum_version := 90100, maximum_version := 0,
     is_edb_only := false, is_key_column := false, is_display_column := false,
     check := some check_class_oid_array }]

/-- The columns of pg_enum (`pg_enum_column` of `definitions.c`). -/
def pg_enum_column : List pg_catalog_column :=
  [{ name := "oid".data, cast := none,
     minimum_version := 0, maximum_version := 0,
     is_edb_only := false, is_key_column := true, is_display_column := true,
     check := none },
   { name := "enumtypid".data, cast := none,
     minimum_version := 0, maximum_version := 0,
     is_edb_only := false, is_key_column := false, is_display_column := false,
     check := some check_type_oid }]

/-- The columns of pg_trigger (`pg_trigger_column` of `definitions.c`). -/
def pg_trigger_column : List pg_catalog_column :=
  [{ name := "oid".data, cast := none,
     minimum_version := 0, maximum_version := 0,
     is_edb_only := false, is_key_column := true, is_display_column := true,
     check := none },
   { name := "tgrelid".data, cast := none,
     minimum_version := 0, maximum_version := 0,
     is_edb_only := false, is_key_column := false, is_display_column := false,
     check := some check_class_oid },
   { name := "tgfoid".data, cast := none,
     minimum_version := 0, maximum_version := 0,
     is_edb_only := false, is_key_column := false, is_display_column := false,
     check := some check_proc_oid },
   { name := "tgconstrrelid".data, cast := none,
     minimum_version := 0, maximum_version := 0,
     is_edb_only := false, is_key_column := false, is_display_column := false,
     check := some check_class_optional_oid },
   { name := "tgconstrindid".data, cast := none,
     minimum_version := 90000, maximum_version := 0,
     is_edb_only := false, is_key_column := false, is_display_column := false,
     check := some check_index_optional_oid },
   { name := "tgconstraint".data, cast := none,
     minimum_version := 0, maximum_version := 0,
     is_edb_only := false, is_key_column := false, is_display_column := false,
     check := some check_constraint_optional_oid }]

/-- The columns of pg_ts_parser (`pg_ts_parser_column` of `definitions.c`). -/
def pg_ts_parser_column : List pg_catalog_column :=
  [{ name := "oid".data, cast := none,
     minimum_version := 0, maximum_version := 0,
     is_edb_only := false, is_key_column := true, is_display_column := true,
     check := none },
   { name := "prsnamespace".data, cast := none,
     minimum_version := 0, maximum_version := 0,
     is_edb_only := false, is_key_column := false, is_display_column := false,
     check := some check_namespace_oid },
   { name := "prsstart".data, cast := some "pg_catalog.oid".data,
     minimum_version := 0, maximum_version := 0,
     is_edb_only := false, is_key_column := false, is_display_column := false,
     check := some check_proc_oid },
   { name := "prstoken".data, cast := some "pg_catalog.oid".data,
     minimum_version := 0, maximum_version := 0,
     is_edb_only := false, is_key_column := false, is_display_column := false,
     check := some check_proc_oid },
   { name := "prsend".data, cast := some "pg_catalog.oid".data,
     minimum_version := 0, maximum_version := 0,
     is_edb_only := false, is_key_column := false, is_display_column := false,
     check := some check_proc_oid },
   { name := "prsheadline".data, cast := some "pg_catalog.oid".data,
     minimum_version := 0, maximum_version := 0,
     is_edb_only := false, is_key_column := false, is_display_column := false,
     check := some check_proc_oid },
   { name := "prslextype".data, cast := some "pg_catalog.oid".data,
     minimum_version := 0, maximum_version := 0,
     is_edb_only := false, is_key_column := false, is_display_column := false,
     check := some check_proc_oid }]

/-- The columns of pg_ts_config (`pg_ts_config_column` of `definitions.c`). -/
def pg_ts_config_column : List pg_catalog_column :=
  [{ name := "oid".data, cast := none,
     minimum_version := 0, maximum_version := 0,
     is_edb_only := false, is_key_column := true, is_display_column := true,
     check := none },
   { name := "cfgowner".data, cast := none,
     minimum_version := 0, maximum_version := 0,
     is_edb_only := false, is_key_column := false, is_display_column := false,
     check := some check_authid_oid },
   { name := "cfgnamespace".data, cast := none,
     minimum_version := 0, maximum_version := 0,
     is_edb_only := false, is_key_column := false, is_display_column := false,
     check := some check_namespace_oid },
   { name := "cfgparser".data, cast := none,
     minimum_version := 0, maximum_version := 0,
     is_edb_only := false, is_key_column := false, is_display_column := false,
     check := some check_ts_parser_oid }]

/-- The columns of pg_ts_template (`pg_ts_template_column` of `definitions.c`). -/
def pg_ts_template_column : List pg_catalog_column :=
  [{ name := "oid".data, cast := none,
     minimum_version := 0, maximum_version := 0,
     is_edb_only := false, is_key_column := true, is_display_column := true,
     check := none },
   { name := "tmplnamespace".data, cast := none,
     minimum_version := 0, maximum_version := 0,
     is_edb_only := false, is_key_column := false, is_display_column := false,
     check := some check_namespace_oid },
   { name := "tmplinit".data, cast := some "pg_catalog.oid".data,
     minimum_version := 0, maximum_version := 0,
     is_edb_only := false, is_key_column := false, is_display_column := false,
     check := some check_proc_oid },
   { name := "tmpllexize".data, cast := some "pg_catalog.oid".data,
     minimum_version := 0, maximum_version := 0,
     is_edb_only := false, is_key_column := false, is_display_column := false,
     check := some check_proc_oid }]

/-- The columns of pg_ts_dict (`pg_ts_dict_column` of `definitions.c`). -/
def pg_ts_dict_column : List pg_catalog_column :=
  [{ name := "oid".data, cast := none,
     minimum_version := 0, maximum_version := 0,
     is_edb_only := false, is_key_column := true, is_display_column := true,
     check := none },
   { name := "dictnamespace".data, cast := none,
     minimum_version := 0, maximum_version := 0,
     is_edb_only := false, is_key_column := false, is_display_column := false,
     check := some check_namespace_oid },
   { name := "dictowner".data, cast := none,
     minimum_version := 0, maximum_version := 0,
     is_edb_only := false, is_key_column := false, is_display_column := false,
     check := some check_authid_oid },
   { name := "dicttemplate".data, cast := none,
     minimum_version := 0, maximum_version := 0,
     is_edb_only := false, is_key_column := false, is_display_column := false,
     check := some check_ts_template_oid }]

/-- The columns of pg_fdw (`pg_fdw_column` of `definitions.c`). -/
def pg_fdw_column : List pg_catalog_column :=
  [{ name := "oid".data, cast := none,
     minimum_version := 0, maximum_version := 0,
     is_edb_only := false, is_key_column := true, is_display_column := true,
     check := none },
   { name := "fdwowner".data, cast := none,
     minimum_version := 0, maximum_version := 0,
     is_edb_only := false, is_key_column := false, is_display_column := false,
     check := some check_authid_oid },
   { name := "fdwhandler".data, cast := none,
     minimum_version := 90100, maximum_version := 0,
     is_edb_only := false, is_key_column := false, is_display_column := false,
     check := some check_proc_optional_oid },
   { name := "fdwvalidator".data, cast := none,
     minimum_version := 0, maximum_version := 0,
     is_edb_only := false, is_key_column := false, is_display_column := false,
     check := some check_proc_optional_oid }]

/-- The columns of pg_foreign_server (`pg_foreign_server_column` of `definitions.c`). -/
def pg_foreign_server_column : List pg_catalog_column :=
  [{ name := "oid".data, cast := none,
     minimum_version := 0, maximum_version := 0,
     is_edb_only := false, is_key_column := true, is_display_column := true,
     check := none },
   { name := "srvowner".data, cast := none,
     minimum_version := 0, maximum_version := 0,
     is_edb_only := false, is_key_column := false, is_display_column := false,
     check := some check_authid_oid },
   { name := "srvfdw".data, cast := none,
     minimum_version := 0, maximum_version := 0,
     is_edb_only := false, is_key_column := false, is_display_column := false,
     check := some check_foreign_data_wrapper_oid }]

/-- The columns of pg_user_mapping (`pg_user_mapping_column` of `definitions.c`). -/
def pg_user_mapping_column : List pg_catalog_column :=
  [{ name := "oid".data, cast := none,
     minimum_version := 0, maximum_version := 0,
     is_edb_only := false, is_key_column := true, is_display_column := true,
     check := none },
   { name := "umuser".data, cast := none,
     minimum_version := 0, maximum_version := 0,
     is_edb_only := false, is_key_column := false, is_display_column := false,
     check := some check_authid_optional_oid },
   { name := "umserver".data, cast := none,
     minimum_version := 0, maximum_version := 0,
     is_edb_only := false, is_key_column := false, is_display_column := false,
     check := some check_foreign_server_oid }]

/-- The columns of pg_foreign_table (`pg_foreign_table_column` of `definitions.c`). -/
def pg_foreign_table_column : List pg_catalog_column :=
  [{ name := "ftrelid".data, cast := none,
     minimum_version := 90100, maximum_version := 0,
     is_edb_only := false, is_key_column := true, is_display_column := true,
     check := some check_class_oid },
   { name := "ftserver".data, cast := none,
     minimum_version := 90100, maximum_version := 0,
     is_edb_only := false, is_key_column := false, is_display_column := false,
     check := some check_foreign_server_oid }]

/-- The columns of pg_event_trigger (`pg_event_trigger_column` of `definitions.c`). -/
def pg_event_trigger_column : List pg_catalog_column :=
  [{ name := "oid".data, cast := none,
     minimum_version := 90300, maximum_version := 0,
     is_edb_only := false, is_key_column := true, is_display_column := true,
     check := none },
   { name := "evtowner".data, cast := none,
     minimum_version := 90300, maximum_version := 0,
     is_edb_only := false, is_key_column := false, is_display_column := false,
     check := some check_authid_oid },
   { name := "evtfoid".data, cast := none,
     minimum_version := 90300, maximum_version := 0,
     is_edb_only := false, is_key_column := false, is_display_column := false,
     check := some check_proc_oid }]

/-- The columns of pg_opfamily (`pg_opfamily_column` of `definitions.c`). -/
def pg_opfamily_column : List pg_catalog_column :=
  [{ name := "oid".data, cast := none,
     minimum_version := 0, maximum_version := 0,
     is_edb_only := false, is_key_column := true, is_display_column := true,
     check := none },
   { name := "opfname".data, cast := none,
     minimum_version := 0, maximum_version := 0,
     is_edb_only := false, is_key_column := false, is_display_column := false,
     check := none },
   { name := "opfmethod".data, cast := none,
     minimum_version := 0, maximum_version := 0,
     is_edb_only := false, is_key_column := false, is_display_column := false,
     check := some check_am_oid },
   { name := "opfnamespace".data, cast := none,
     minimum_version := 0, maximum_version := 0,
     is_edb_only := false, is_key_column := false, is_display_column := false,
     check := some check_namespace_oid },
   { name := "opfowner".data, cast := none,
     minimum_version := 0, maximum_version := 0,
     is_edb_only := false, is_key_column := false, is_display_column := false,
     check := some check_authid_oid }]

/-- The columns of pg_opclass (`pg_opclass_column` of `definitions.c`). -/
def pg_opclass_column : List pg_catalog_column :=
  [{ name := "oid".data, cast := none,
     minimum_version := 0, maximum_version := 0,
     is_edb_only := false, is_key_column := true, is_display_column := true,
     check := none },
   { name := "opcname".data, cast := none,
     minimum_version := 0, maximum_version := 0,
     is_edb_only := false, is_key_column := false, is_display_column := false,
     check := none },
   { name := "opcmethod".data, cast := none,
     minimum_version := 0, maximum_version := 0,
     is_edb_only := false, is_key_column := false, is_display_column := false,
     check := some check_am_oid },
   { name := "opcnamespace".data, cast := none,
     minimum_version := 0, maximum_version := 0,
     is_edb_only := false, is_key_column := false, is_display_column := false,
     check := some check_namespace_oid },
   { name := "opcowner".data, cast := none,
     minimum_version := 0, maximum_version := 0,
     is_edb_only := false, is_key_column := false, is_display_column := false,
     check := some check_authid_oid },
   { name := "opcfamily".data, cast := none,
     minimum_version := 0, maximum_version := 0,
     is_edb_only := false, is_key_column := false, is_display_column := false,
     check := some check_opfamily_oid },
   { name := "opcintype".data, cast := none,
     minimum_version := 0, maximum_version := 0,
     is_edb_only := false, is_key_column := false, is_display_column := false,
     check := some check_type_oid },
   { name := "opckeytype".data, cast := none,
     minimum_version := 0, maximum_version := 0,
     is_edb_only := false, is_key_column := false, is_display_column := false,
     check := some check_type_optional_oid }]

/-- The columns of pg_operator (`pg_operator_column` of `definitions.c`). -/
def pg_operator_column : List pg_catalog_column :=
  [{ name := "oid".data, cast := none,
     minimum_version := 0, maximum_version := 0,
     is_edb_only := false, is_key_column := true, is_display_column := true,
     check := none },
   { name := "oprname".data, cast := none,
     minimum_version := 0, maximum_version := 0,
     is_edb_only := false, is_key_column := false, is_display_column := false,
     check := none },
   { name := "oprnamespace".data, cast := none,
     minimum_version := 0, maximum_version := 0,
     is_edb_only := false, is_key_column := false, is_display_column := false,
     check := some check_namespace_oid },
   { name := "oprowner".data, cast := none,
     minimum_version := 0, maximum_version := 0,
     is_edb_only := false, is_key_column := false, is_display_column := false,
     check := some check_authid_oid },
   { name := "oprleft".data, cast := none,
     minimum_version := 0, maximum_version := 0,
     is_edb_only := false, is_key_column := false, is_display_column := false,
     check := some check_type_optional_oid },
   { name := "oprright".data, cast := none,
     minimum_version := 0, maximum_version := 0,
     is_edb_only := false, is_key_column := false, is_display_column := false,
     check := some check_type_optional_oid },
   { name := "oprresult".data, cast := none,
     minimum_version := 0, maximum_version := 0,
     is_edb_only := false, is_key_column := false, is_display_column := false,
     check := some check_type_optional_oid },
   { name := "oprcom".data, cast := none,
     minimum_version := 0, maximum_version := 0,
     is_edb_only := false, is_key_column := false, is_display_column := false,
     check := some check_operator_optional_oid },
   { name := "oprnegate".data, cast := none,
     minimum_version := 0, maximum_version := 0,
     is_edb_only := false, is_key_column := false, is_display_column := false,
     check := some check_operator_optional_oid },
   { name := "oprcode".data, cast := some "pg_catalog.oid".data,
     minimum_version := 0, maximum_version := 0,
     is_edb_only := false, is_key_column := false, is_display_column := false,
     check := some check_proc_optional_oid },
   { name := "oprrest".data, cast := some "pg_catalog.oid".data,
     minimum_version := 0, maximum_version := 0,
     is_edb_only := false, is_key_column := false, is_display_column := false,
     check := some check_proc_optional_oid },
   { name := "oprjoin".data, cast := some "pg_catalog.oid".data,
     minimum_version := 0, maximum_version := 0,
     is_edb_only := false, is_key_column := false, is_display_column := false,
     check := some check_proc_optional_oid }]

/-- The columns of pg_amop (`pg_amop_column` of `definitions.c`). -/
def pg_amop_column : List pg_catalog_column :=
  [{ name := "oid".data, cast := none,
     minimum_version := 0, maximum_version := 0,
     is_edb_only := false, is_key_column := true, is_display_column := true,
     check := none },
   { name := "amopfamily".data, cast := none,
     minimum_version := 0, maximum_version := 0,
     is_edb_only := false, is_key_column := false, is_display_column := false,
     check := some check_opfamily_oid },
   { name := "amoplefttype".data, cast := none,
     minimum_version := 0, maximum_version := 0,
     is_edb_only := false, is_key_column := false, is_display_column := false,
     check := some check_type_oid },
   { name := "amoprighttype".data, cast := none,
     minimum_version := 0, maximum_version := 0,
     is_edb_only := false, is_key_column := false, is_display_column := false,
     check := some check_type_oid },
   { name := "amopopr".data, cast := none,
     minimum_version := 0, maximum_version := 0,
     is_edb_only := false, is_key_column := false, is_display_column := false,
     check := some check_operator_oid },
   { name := "amopmethod".data, cast := none,
     minimum_version := 0, maximum_version := 0,
     is_edb_only := false, is_key_column := false, is_display_column := false,
     check := some check_am_oid },
   { name := "amopsortfamily".data, cast := none,
     minimum_version := 90100, maximum_version := 0,
     is_edb_only := false, is_key_column := false, is_display_column := false,
     check := some check_opfamily_optional_oid }]

/-- The columns of pg_amproc (`pg_amproc_column` of `definitions.c`). -/
def pg_amproc_column : List pg_catalog_column :=
  [{ name := "oid".data, cast := none,
     minimum_version := 0, maximum_version := 0,
     is_edb_only := false, is_key_column := true, is_display_column := true,
     check := none },
   { name := "amprocfamily".data, cast := none,
     minimum_version := 0, maximum_version := 0,
     is_edb_only := false, is_key_column := false, is_display_column := false,
     check := some check_opfamily_oid },
   { name := "amproclefttype".data, cast := none,
     minimum_version := 0, maximum_version := 0,
     is_edb_only := false, is_key_column := false, is_display_column := false,
     check := some check_type_oid },
   { name := "amprocrighttype".data, cast := none,
     minimum_version := 0, maximum_version := 0,
     is_edb_only := false, is_key_column := false, is_display_column := false,
     check := some check_type_oid },
   { name := "amproc".data, cast := some "pg_catalog.oid".data,
     minimum_version := 0, maximum_version := 0,
     is_edb_only := false, is_key_column := false, is_display_column := false,
     check := some check_proc_oid }]

/-- The columns of pg_default_acl (`pg_default_acl_column` of `definitions.c`). -/
def pg_default_acl_column : List pg_catalog_column :=
  [{ name := "oid".data, cast := none,
     minimum_version := 90000, maximum_version := 0,
     is_edb_only := false, is_key_column := true, is_display_column := true,
     check := none },
   { name := "defaclnamespace".data, cast := none,
     minimum_version := 90000, maximum_version := 0,
     is_edb_only := false, is_key_column := false, is_display_column := false,
     check := some check_namespace_optional_oid },
   { name := "defaclrole".data, cast := none,
     minimum_version := 90000, maximum_version := 0,
     is_edb_only := false, is_key_column := false, is_display_column := false,
     check := some check_authid_oid }]

/-- The columns of pg_rewrite (`pg_rewrite_column` of `definitions.c`). -/
def pg_rewrite_column : List pg_catalog_column :=
  [{ name := "oid".data, cast := none,
     minimum_version := 0, maximum_version := 0,
     is_edb_only := false, is_key_column := true, is_display_column := true,
     check := none },
   { name := "rulename".data, cast := none,
     minimum_version := 0, maximum_version := 0,
     is_edb_only := false, is_key_column := false, is_display_column := false,
     check := none },
   { name := "ev_class".data, cast := none,
     minimum_version := 0, maximum_version := 0,
     is_edb_only := false, is_key_column := false, is_display_column := false,
     check := some check_class_oid }]

/-- The columns of edb_variable (`edb_variable_column` of `definitions.c`). -/
def edb_variable_column : List pg_catalog_column :=
  [{ name := "oid".data, cast := none,
     minimum_version := 0, maximum_version := 0,
     is_edb_only := true, is_key_column := true, is_display_column := true,
     check := none },
   { name := "varpackage".data, cast := none,
     minimum_version := 0, maximum_version := 0,
     is_edb_only := true, is_key_column := false, is_display_column := false,
     check := some check_namespace_oid },
   { name := "vartype".data, cast := none,
     minimum_version := 0, maximum_version := 0,
     is_edb_only := true, is_key_column := false, is_display_column := false,
     check := some check_type_optional_oid }]

/-- The columns of pg_inherits (`pg_inherits_column` of `definitions.c`). -/
def pg_inherits_column : List pg_catalog_column :=
  [{ name := "inhrelid".data, cast := none,
     minimum_version := 0, maximum_version := 0,
     is_edb_only := false, is_key_column := true, is_display_column := true,
     check := some check_class_oid },
   { name := "inhparent".data, cast := none,
     minimum_version := 0, maximum_version := 0,
     is_edb_only := false, is_key_column := true, is_display_column := true,
     check := some check_class_oid }]

/-- The columns of pg_largeobject_metadata (`pg_largeobject_metadata_column` of `definitions.c`). -/
def pg_largeobject_metadata_column : List pg_catalog_column :=
  [{ name := "oid".data, cast := none,
     minimum_version := 90000, maximum_version := 0,
     is_edb_only := false, is_key_column := true, is_display_column := true,
     check := none },
   { name := "lomowner".data, cast := none,
     minimum_version := 90000, maximum_version := 0,
     is_edb_only := false, is_key_column := false, is_display_column := false,
     check := some check_authid_oid }]

/-- The columns of pg_largeobject (`pg_largeobject_column` of `definitions.c`). -/
def pg_largeobject_column : List pg_catalog_column :=
  [{ name := "loid".data, cast := none,
     minimum_version := 0, maximum_version := 0,
     is_edb_only := false, is_key_column := true, is_display_column := true,
     check := some check_largeobject_metadata_oid },
   { name := "pageno".data, cast := none,
     minimum_version := 0, maximum_version := 0,
     is_edb_only := false, is_key_column := true, is_display_column := true,
     check := none }]

/-- The columns of pg_aggregate (`pg_aggregate_column` of `definitions.c`). -/
def pg_aggregate_column : List pg_catalog_column :=
  [{ name := "aggfnoid".data, cast := some "pg_catalog.oid".data,
     minimum_version := 0, maximum_version := 0,
     is_edb_only := false, is_key_column := true, is_display_column := true,
     check := some check_proc_oid },
   { name := "aggtransfn".data, cast := some "pg_catalog.oid".data,
     minimum_version := 0, maximum_version := 0,
     is_edb_only := false, is_key_column := false, is_display_column := false,
     check := some check_proc_oid },
   { name := "aggfinalfn".data, cast := some "pg_catalog.oid".data,
     minimum_version := 0, maximum_version := 0,
     is_edb_only := false, is_key_column := false, is_display_column := false,
     check := some check_proc_optional_oid },
   { name := "aggsortop".data, cast := none,
     minimum_version := 0, maximum_version := 0,
     is_edb_only := false, is_key_column := false, is_display_column := false,
     check := some check_operator_optional_oid },
   { name := "aggtranstype".data, cast := none,
     minimum_version := 0, maximum_version := 0,
     is_edb_only := false, is_key_column := false, is_display_column := false,
     check := some check_type_oid }]

/-- The columns of pg_ts_config_map (`pg_ts_config_map_column` of `definitions.c`). -/
def pg_ts_config_map_column : List pg_catalog_column :=
  [{ name := "mapcfg".data, cast := none,
     minimum_version := 0, maximum_version := 0,
     is_edb_only := false, is_key_column := true, is_display_column := true,
     check := some check_ts_config_oid },
   { name := "maptokentype".data, cast := none,
     minimum_version := 0, maximum_version := 0,
     is_edb_only := false, is_key_column := true, is_display_column := true,
     check := none },
   { name := "mapseqno".data, cast := none,
     minimum_version := 0, maximum_version := 0,
     is_edb_only := false, is_key_column := true, is_display_column := true,
     check := none },
   { name := "mapdict".data, cast := none,
     minimum_version := 0, maximum_version := 0,
     is_edb_only := false, is_key_column := false, is_display_column := false,
     check := some check_ts_dict_oid }]

/-- The columns of pg_range (`pg_range_column` of `definitions.c`). -/
def pg_range_column : List pg_catalog_column :=
  [{ name := "rngtypid".data, cast := none,
     minimum_version := 90200, maximum_version := 0,
     is_edb_only := false, is_key_column := true, is_display_column := true,
     check := some check_type_oid },
   { name := "rngsubtype".data, cast := none,
     minimum_version := 90200, maximum_version := 0,
     is_edb_only := false, is_key_column := false, is_display_column := false,
     check := some check_type_oid },
   { name := "rngcollation".data, cast := none,
     minimum_version := 90200, maximum_version := 0,
     is_edb_only := false, is_key_column := false, is_display_column := false,
     check := some check_collation_optional_oid },
   { name := "rngsubopc".data, cast := none,
     minimum_version := 90200, maximum_version := 0,
     is_edb_only := false, is_key_column := false, is_display_column := false,
     check := some check_opclass_oid },
   { name := "rngcanonical".data, cast := some "pg_catalog.oid".data,
     minimum_version := 90200, maximum_version := 0,
     is_edb_only := false, is_key_column := false, is_display_column := false,
     check := some check_proc_optional_oid },
   { name := "rngsubdiff".data, cast := some "pg_catalog.oid".data,
     minimum_version := 90200, maximum_version := 0,
     is_edb_only := false, is_key_column := false, is_display_column := false,
     check := some check_proc_optional_oid }]

/-- The columns of pg_attribute (`pg_attribute_column` of `definitions.c`). -/
def pg_attribute_column : List pg_catalog_column :=
  [{ name := "attrelid".data, cast := none,
     minimum_version := 0, maximum_version := 0,
     is_edb_only := false, is_key_column := true, is_display_column := true,
     check := some check_class_oid },
   { name := "attname".data, cast := none,
     minimum_version := 0, maximum_version := 0,
     is_edb_only := false, is_key_column := false, is_display_column := true,
     check := none },
   { name := "attnum".data, cast := none,
     minimum_version := 0, maximum_version := 0,
     is_edb_only := false, is_key_column := true, is_display_column := true,
     check := some check_attnum_value },
   { name := "atttypid".data, cast := none,
     minimum_version := 0, maximum_version := 0,
     is_edb_only := false, is_key_column := false, is_display_column := false,
     check := some check_type_optional_oid },
   { name := "attcollation".data, cast := none,
     minimum_version := 90100, maximum_version := 0,
     is_edb_only := false, is_key_column := false, is_display_column := false,
     check := some check_collation_optional_oid }]

/-- The columns of pg_statistic (`pg_statistic_column` of `definitions.c`). -/
def pg_statistic_column : List pg_catalog_column :=
  [{ name := "starelid".data, cast := none,
     minimum_version := 0, maximum_version := 0,
     is_edb_only := false, is_key_column := true, is_display_column := true,
     check := some check_class_oid },
   { name := "staattnum".data, cast := none,
     minimum_version := 0, maximum_version := 0,
     is_edb_only := false, is_key_column := true, is_display_column := true,
     check := none },
   { name := "stainherit".data, cast := none,
     minimum_version := 90000, maximum_version := 0,
     is_edb_only := false, is_key_column := true, is_display_column := true,
     check := none },
   { name := "staop1".data, cast := none,
     minimum_version := 0, maximum_version := 0,
     is_edb_only := false, is_key_column := false, is_display_column := false,
     check := some check_operator_optional_oid },
   { name := "staop2".data, cast := none,
     minimum_version := 0, maximum_version := 0,
     is_edb_only := false, is_key_column := false, is_display_column := false,
     check := some check_operator_optional_oid },
   { name := "staop3".data, cast := none,
     minimum_version := 0, maximum_version := 0,
     is_edb_only := false, is_key_column := false, is_display_column := false,
     check := some check_operator_optional_oid },
   { name := "staop4".data, cast := none,
     minimum_version := 0, maximum_version := 0,
     is_edb_only := false, is_key_column := false, is_display_column := false,
     check := some check_operator_optional_oid }]

/-- The columns of pg_db_role_setting (`pg_db_role_setting_column` of `definitions.c`). -/
def pg_db_role_setting_column : List pg_catalog_column :=
  [{ name := "setdatabase".data, cast := none,
     minimum_version := 90000, maximum_version := 0,
     is_edb_only := false, is_key_column := true, is_display_column := true,
     check := some check_database_optional_oid },
   { name := "setrole".data, cast := none,
     minimum_version := 90000, maximum_version := 0,
     is_edb_only := false, is_key_column := true, is_display_column := true,
     check := some check_authid_optional_oid }]

/-- The columns of pg_attrdef (`pg_attrdef_column` of `definitions.c`). -/
def pg_attrdef_column : List pg_catalog_column :=
  [{ name := "oid".data, cast := none,
     minimum_version := 0, maximum_version := 0,
     is_edb_only := false, is_key_column := true, is_display_column := true,
     check := none },
   { name := "adrelid".data, cast := none,
     minimum_version := 0, maximum_version := 0,
     is_edb_only := false, is_key_column := false, is_display_column := false,
     check := some check_class_oid }]

/-- The columns of edb_dir (`edb_dir_column` of `definitions.c`). -/
def edb_dir_column : List pg_catalog_column :=
  [{ name := "oid".data, cast := none,
     minimum_version := 0, maximum_version := 0,
     is_edb_only := true, is_key_column := true, is_display_column := true,
     check := none },
   { name := "dirowner".data, cast := none,
     minimum_version := 0, maximum_version := 0,
     is_edb_only := true, is_key_column := false, is_display_column := false,
     check := some check_authid_oid }]

/-- The columns of edb_partdef (`edb_partdef_column` of `definitions.c`). -/
def edb_partdef_column : List pg_catalog_column :=
  [{ name := "oid".data, cast := none,
     minimum_version := 90100, maximum_version := 0,
     is_edb_only := true, is_key_column := true, is_display_column := true,
     check := none },
   { name := "pdefrel".data, cast := none,
     minimum_version := 90100, maximum_version := 0,
     is_edb_only := true, is_key_column := false, is_display_column := false,
     check := some check_class_oid }]

/-- The columns of edb_partition (`edb_partition_column` of `definitions.c`). -/
def edb_partition_column : List pg_catalog_column :=
  [{ name := "oid".data, cast := none,
     minimum_version := 90100, maximum_version := 0,
     is_edb_only := true, is_key_column := true, is_display_column := true,
     check := none },
   { name := "partpdefid".data, cast := none,
     minimum_version := 90100, maximum_version := 0,
     is_edb_only := true, is_key_column := false, is_display_column := false,
     check := some check_edb_partdef },
   { name := "partrelid".data, cast := none,
     minimum_version := 90100, maximum_version := 0,
     is_edb_only := true, is_key_column := false, is_display_column := false,
     check := some check_class_oid },
   { name := "partparent".data, cast := none,
     minimum_version := 90100, maximum_version := 0,
     is_edb_only := true, is_key_column := false, is_display_column := false,
     check := some check_edb_partition_optional_oid },
   { name := "partcons".data, cast := none,
     minimum_version := 90100, maximum_version := 0,
     is_edb_only := true, is_key_column := false, is_display_column := false,
     check := some check_constraint_oid }]

/-- The columns of edb_policy (`edb_policy_column` of `definitions.c`). -/
def edb_policy_column : List pg_catalog_column :=
  [{ name := "oid".data, cast := none,
     minimum_version := 90100, maximum_version := 0,
     is_edb_only := true, is_key_column := true, is_display_column := true,
     check := none },
   { name := "policygroup".data, cast := none,
     minimum_version := 90100, maximum_version := 0,
     is_edb_only := true, is_key_column := false, is_display_column := false,
     check := none },
   { name := "policyobject".data, cast := none,
     minimum_version := 90100, maximum_version := 0,
     is_edb_only := true, is_key_column := false, is_display_column := false,
     check := some check_class_oid },
   { name := "policyproc".data, cast := none,
     minimum_version := 90100, maximum_version := 0,
     is_edb_only := true, is_key_column := false, is_display_column := false,
     check := some check_proc_oid }]

/-- The columns of pg_synonym (`pg_synonym_column` of `definitions.c`). -/
def pg_synonym_column : List pg_catalog_column :=
  [{ name := "oid".data, cast := none,
     minimum_version := 0, maximum_version := 0,
     is_edb_only := true, is_key_column := true, is_display_column := true,
     check := none },
   { name := "synnamespace".data, cast := none,
     minimum_version := 0, maximum_version := 0,
     is_edb_only := true, is_key_column := false, is_display_column := false,
     check := some check_namespace_optional_oid },
   { name := "synowner".data, cast := none,
     minimum_version := 0, maximum_version := 0,
     is_edb_only := true, is_key_column := false, is_display_column := false,
     check := some check_authid_oid }]

/-- The columns of pg_depend (`pg_depend_column` of `definitions.c`). -/
def pg_depend_column : List pg_catalog_column :=
  [{ name := "classid".data, cast := none,
     minimum_version := 0, maximum_version := 0,
     is_edb_only := false, is_key_column := false, is_display_column := true,
     check := some check_dependency_class_id_value },
   { name := "objid".data, cast := none,
     minimum_version := 0, maximum_version := 0,
     is_edb_only := false, is_key_column := false, is_display_column := true,
     check := some check_dependency_id_value },
   { name := "objsubid".data, cast := none,
     minimum_version := 0, maximum_version := 0,
     is_edb_only := false, is_key_column := false, is_display_column := true,
     check := some check_dependency_subid_value },
   { name := "refclassid".data, cast := none,
     minimum_version := 0, maximum_version := 0,
     is_edb_only := false, is_key_column := false, is_display_column := true,
     check := some check_dependency_class_id_value },
   { name := "refobjid".data, cast := none,
     minimum_version := 0, maximum_version := 0,
     is_edb_only := false, is_key_column := false, is_display_column := true,
     check := some check_dependency_id_value },
   { name := "refobjsubid".data, cast := none,
     minimum_version := 0, maximum_version := 0,
     is_edb_only := false, is_key_column := false, is_display_column := true,
     check := some check_dependency_subid_value },
   { name := "deptype".data, cast := none,
     minimum_version := 0, maximum_version := 0,
     is_edb_only := false, is_key_column := false, is_display_column := true,
     check := none }]

/-- The columns of pg_shdepend (`pg_shdepend_column` of `definitions.c`). -/
def pg_shdepend_column : List pg_catalog_column :=
  [{ name := "dbid".data, cast := none,
     minimum_version := 0, maximum_version := 0,
     is_edb_only := false, is_key_column := false, is_display_column := true,
     check := some check_database_optional_oid },
   { name := "classid".data, cast := none,
     minimum_version := 0, maximum_version := 0,
     is_edb_only := false, is_key_column := false, is_display_column := true,
     check := some check_dependency_class_id_value },
   { name := "objid".data, cast := none,
     minimum_version := 0, maximum_version := 0,
     is_edb_only := false, is_key_column := false, is_display_column := true,
     check := some check_dependency_id_value },
   { name := "objsubid".data, cast := none,
     minimum_version := 0, maximum_version := 0,
     is_edb_only := false, is_key_column := false, is_display_column := true,
     check := some check_dependency_subid_value },
   { name := "refclassid".data, cast := none,
     minimum_version := 0, maximum_version := 0,
     is_edb_only := false, is_key_column := false, is_display_column := true,
     check := some check_dependency_class_id_value },
   { name := "refobjid".data, cast := none,
     minimum_version := 0, maximum_version := 0,
     is_edb_only := false, is_key_column := false, is_display_column := true,
     check := some check_dependency_id_value },
   { name := "deptype".data, cast := none,
     minimum_version := 0, maximum_version := 0,
     is_edb_only := false, is_key_column := false, is_display_column := true,
     check := none }]

/-- The columns of pg_description (`pg_description_column` of `definitions.c`). -/
def pg_description_column : List pg_catalog_column :=
  [{ name := "classoid".data, cast := none,
     minimum_version := 0, maximum_version := 0,
     is_edb_only := false, is_key_column := false, is_display_column := true,
     check := some check_dependency_class_id_value },
   { name := "objoid".data, cast := none,
     minimum_version := 0, maximum_version := 0,
     is_edb_only := false, is_key_column := false, is_display_column := true,
     check := some check_dependency_id_value },
   { name := "objsubid".data, cast := none,
     minimum_version := 0, maximum_version := 0,
     is_edb_only := false, is_key_column := false, is_display_column := true,
     check := some check_dependency_subid_value }]

/-- The columns of pg_shdescription (`pg_shdescription_column` of `definitions.c`). -/
def pg_shdescription_column : List pg_catalog_column :=
  [{ name := "classoid".data, cast := none,
     minimum_version := 0, maximum_version := 0,
     is_edb_only := false, is_key_column := false, is_display_column := true,
     check := some check_dependency_class_id_value },
   { name := "objoid".data, cast := none,
     minimum_version := 0, maximum_version := 0,
     is_edb_only := false, is_key_column := false, is_display_column := true,
     check := some check_dependency_id_value }]

/-- The columns of pg_seclabel (`pg_seclabel_column` of `definitions.c`). -/
def pg_seclabel_column : List pg_catalog_column :=
  [{ name := "classoid".data, cast := none,
     minimum_version := 90100, maximum_version := 0,
     is_edb_only := false, is_key_column := false, is_display_column := true,
     check := some check_dependency_class_id_value },
   { name := "objoid".data, cast := none,
     minimum_version := 90100, maximum_version := 0,
     is_edb_only := false, is_key_column := false, is_display_column := true,
     check := some check_dependency_id_value },
   { name := "objsubid".data, cast := none,
     minimum_version := 90100, maximum_version := 0,
     is_edb_only := false, is_key_column := false, is_display_column := true,
     check := some check_dependency_subid_value },
   { name := "provider".data, cast := none,
     minimum_version := 90100, maximum_version := 0,
     is_edb_only := false, is_key_column := false, is_display_column := true,
     check := none }]

/-- The columns of pg_shseclabel (`pg_shseclabel_column` of `definitions.c`). -/
def pg_shseclabel_column : List pg_catalog_column :=
  [{ name := "classoid".data, cast := none,
     minimum_version := 90200, maximum_version := 0,
     is_edb_only := false, is_key_column := false, is_display_column := true,
     check := some check_dependency_class_id_value },
   { name := "objoid".data, cast := none,
     minimum_version := 90200, maximum_version := 0,
     is_edb_only := false, is_key_column := false, is_display_column := true,
     check := some check_dependency_id_value },
   { name := "provider".data, cast := none,
     minimum_version := 90200, maximum_version := 0,
     is_edb_only := false, is_key_column := false, is_display_column := true,
     check := none }]

/-- The columns of pg_auth_members (`pg_auth_members_column` of `definitions.c`). -/
def pg_auth_members_column : List pg_catalog_column :=
  [{ name := "roleid".data, cast := none,
     minimum_version := 0, maximum_version := 0,
     is_edb_only := false, is_key_column := false, is_display_column := true,
     check := some check_authid_oid },
   { name := "member".data, cast := none,
     minimum_version := 0, maximum_version := 0,
     is_edb_only := false, is_key_column := false, is_display_column := true,
     check := some check_authid_oid },
   { name := "grantor".data, cast := none,
     minimum_version := 0, maximum_version := 0,
     is_edb_only := false, is_key_column := false, is_display_column := false,
     check := some check_authid_oid }]

/-- The columns of pg_policy (`pg_policy_column` of `definitions.c`). -/
def pg_policy_column : List pg_catalog_column :=
  [{ name := "oid".data, cast := none,
     minimum_version := 90500, maximum_version := 0,
     is_edb_only := false, is_key_column := true, is_display_column := true,
     check := none },
   { name := "polname".data, cast := none,
     minimum_version := 90500, maximum_version := 0,
     is_edb_only := false, is_key_column := false, is_display_column := false,
     check := none },
   { name := "polrelid".data, cast := none,
     minimum_version := 90500, maximum_version := 0,
     is_edb_only := false, is_key_column := false, is_display_column := false,
     check := some check_class_oid },
   { name := "polroles".data, cast := none,
     minimum_version := 90500, maximum_version := 0,
     is_edb_only := false, is_key_column := false, is_display_column := false,
     check := some check_authid_oid_array_zero_ok }]

/-- The columns of edb_profile (`edb_profile_column` of `definitions.c`). -/
def edb_profile_column : List pg_catalog_column :=
  [{ name := "oid".data, cast := none,
     minimum_version := 90500, maximum_version := 0,
     is_edb_only := true, is_key_column := true, is_display_column := true,
     check := none },
   { name := "prfname".data, cast := none,
     minimum_version := 90500, maximum_version := 0,
     is_edb_only := true, is_key_column := false, is_display_column := true,
     check := none }]

/-- The columns of edb_queue_table (`edb_queue_table_column` of `definitions.c`). -/
def edb_queue_table_column : List pg_catalog_column :=
  [{ name := "oid".data, cast := none,
     minimum_version := 90600, maximum_version := 0,
     is_edb_only := true, is_key_column := true, is_display_column := true,
     check := none },
   { name := "qtname".data, cast := none,
     minimum_version := 90600, maximum_version := 0,
     is_edb_only := true, is_key_column := false, is_display_column := true,
     check := none },
   { name := "qtnamespace".data, cast := none,
     minimum_version := 90600, maximum_version := 0,
     is_edb_only := true, is_key_column := false, is_display_column := false,
     check := some check_namespace_oid },
   { name := "qtrelid".data, cast := none,
     minimum_version := 90600, maximum_version := 0,
     is_edb_only := true, is_key_column := false, is_display_column := false,
     check := some check_class_oid },
   { name := "qpayloadtype".data, cast := none,
     minimum_version := 90600, maximum_version := 0,
     is_edb_only := true, is_key_column := false, is_display_column := false,
     check := some check_type_oid }]

/-- The columns of edb_queue (`edb_queue_column` of `definitions.c`). -/
def edb_queue_column : List pg_catalog_column :=
  [{ name := "oid".data, cast := none,
     minimum_version := 90600, maximum_version := 0,
     is_edb_only := true, is_key_column := true, is_display_column := true,
     check := none },
   { name := "aqname".data, cast := none,
     minimum_version := 90600, maximum_version := 0,
     is_edb_only := true, is_key_column := false, is_display_column := true,
     check := none },
   { name := "aqrelid".data, cast := none,
     minimum_version := 90600, maximum_version := 0,
     is_edb_only := true, is_key_column := false, is_display_column := false,
     check := some check_class_oid }]

/-- The columns of edb_password_history (`edb_password_history_column` of `definitions.c`). -/
def edb_password_history_column : List pg_catalog_column :=
  [{ name := "passhistroleid".data, cast := none,
     minimum_version := 90500, maximum_version := 0,
     is_edb_only := true, is_key_column := true, is_display_column := true,
     check := some check_authid_oid },
   { name := "passhistpassword".data, cast := none,
     minimum_version := 90500, maximum_version := 0,
     is_edb_only := true, is_key_column := true, is_display_column := true,
     check := none },
   { name := "passhistpasswordsetat".data, cast := none,
     minimum_version := 90500, maximum_version := 0,
     is_edb_only := true, is_key_column := false, is_display_column := true,
     check := none }]

/-- The columns of edb_queue_callback (`edb_queue_callback_column` of `definitions.c`). -/
def edb_queue_callback_column : List pg_catalog_column :=
  [{ name := "oid".data, cast := none,
     minimum_version := 90600, maximum_version := 0,
     is_edb_only := true, is_key_column := true, is_display_column := true,
     check := none },
   { name := "qcbqueueid".data, cast := none,
     minimum_version := 90600, maximum_version := 0,
     is_edb_only := true, is_key_column := false, is_display_column := true,
     check := some check_queue_oid },
   { name := "qcbowner".data, cast := none,
     minimum_version := 90600, maximum_version := 0,
     is_edb_only := true, is_key_column := false, is_display_column := false,
     check := some check_authid_oid }]

/-- The columns of edb_resource_group (`edb_resource_group_column` of `definitions.c`). -/
def edb_resource_group_column : List pg_catalog_column :=
  [{ name := "oid".data, cast := none,
     minimum_version := 90400, maximum_version := 0,
     is_edb_only := true, is_key_column := true, is_display_column := true,
     check := none },
   { name := "rgrpname".data, cast := none,
     minimum_version := 90400, maximum_version := 0,
     is_edb_only := true, is_key_column := false, is_display_column := true,
     check := none }]

/-- The columns of pg_init_privs (`pg_init_privs_column` of `definitions.c`). -/
def pg_init_privs_column : List pg_catalog_column :=
  [{ name := "objoid".data, cast := none,
     minimum_version := 90600, maximum_version := 0,
     is_edb_only := false, is_key_column := true, is_display_column := true,
     check := none },
   { name := "classoid".data, cast := none,
     minimum_version := 90600, maximum_version := 0,
     is_edb_only := false, is_key_column := true, is_display_column := true,
     check := some check_class_oid },
   { name := "objsubid".data, cast := none,
     minimum_version := 90600, maximum_version := 0,
     is_edb_only := false, is_key_column := true, is_display_column := true,
     check := none }]

/-- The columns of pg_partitioned_table (`pg_partitioned_table_column` of `definitions.c`). -/
def pg_partitioned_table_column : List pg_catalog_column :=
  [{ name := "partrelid".data, cast := none,
     minimum_version := 100000, maximum_version := 0,
     is_edb_only := false, is_key_column := true, is_display_column := true,
     check := some check_class_oid },
   { name := "partclass".data, cast := none,
     minimum_version := 100000, maximum_version := 0,
     is_edb_only := false, is_key_column := false, is_display_column := false,
     check := some check_opclass_oid_vector },
   { name := "partcollation".data, cast := none,
     minimum_version := 100000, maximum_version := 0,
     is_edb_only := false, is_key_column := false, is_display_column := false,
     check := some check_collation_optional_oid_vector }]

/-- The columns of pg_pltemplate (`pg_pltemplate_column` of `definitions.c`). -/
def pg_pltemplate_column : List pg_catalog_column :=
  [{ name := "tmplname".data, cast := none,
     minimum_version := 0, maximum_version := 0,
     is_edb_only := false, is_key_column := true, is_display_column := true,
     check := none }]

/-- The columns of pg_publication (`pg_publication_column` of `definitions.c`). -/
def pg_publication_column : List pg_catalog_column :=
  [{ name := "oid".data, cast := none,
     minimum_version := 100000, maximum_version := 0,
     is_edb_only := false, is_key_column := true, is_display_column := true,
     check := none },
   { name := "pubowner".data, cast := none,
     minimum_version := 100000, maximum_version := 0,
     is_edb_only := false, is_key_column := false, is_display_column := false,
     check := some check_authid_oid }]

/-- The columns of pg_publication_rel (`pg_publication_rel_column` of `definitions.c`). -/
def pg_publication_rel_column : List pg_catalog_column :=
  [{ name := "oid".data, cast := none,
     minimum_version := 100000, maximum_version := 0,
     is_edb_only := false, is_key_column := true, is_display_column := true,
     check := none },
   { name := "prpubid".data, cast := none,
     minimum_version := 100000, maximum_version := 0,
     is_edb_only := false, is_key_column := false, is_display_column := false,
     check := some check_publication_oid },
   { name := "prrelid".data, cast := none,
     minimum_version := 100000, maximum_version := 0,
     is_edb_only := false, is_key_column := false, is_display_column := false,
     check := some check_class_oid }]

/-- The columns of pg_replication_origin (`pg_replication_origin_column` of `definitions.c`). -/
def pg_replication_origin_column : List pg_catalog_column :=
  [{ name := "roident".data, cast := none,
     minimum_version := 90500, maximum_version := 0,
     is_edb_only := false, is_key_column := true, is_display_column := true,
     check := none }]

/-- The columns of pg_sequence (`pg_sequence_column` of `definitions.c`). -/
def pg_sequence_column : List pg_catalog_column :=
  [{ name := "seqrelid".data, cast := none,
     minimum_version := 100000, maximum_version := 0,
     is_edb_only := false, is_key_column := true, is_display_column := true,
     check := some check_class_oid },
   { name := "seqtypid".data, cast := none,
     minimum_version := 100000, maximum_version := 0,
     is_edb_only := false, is_key_column := false, is_display_column := false,
     check := some check_type_oid }]

/-- The columns of pg_statistic_ext (`pg_statistic_ext_column` of `definitions.c`). -/
def pg_statistic_ext_column : List pg_catalog_column :=
  [{ name := "oid".data, cast := none,
     minimum_version := 100000, maximum_version := 0,
     is_edb_only := false, is_key_column := true, is_display_column := true,
     check := none },
   { name := "stxrelid".data, cast := none,
     minimum_version := 100000, maximum_version := 0,
     is_edb_only := false, is_key_column := false, is_display_column := false,
     check := some check_class_oid },
   { name := "stxnamespace".data, cast := none,
     minimum_version := 100000, maximum_version := 0,
     is_edb_only := false, is_key_column := false, is_display_column := false,
     check := some check_namespace_oid },
   { name := "stxowner".data, cast := none,
     minimum_version := 100000, maximum_version := 0,
     is_edb_only := false, is_key_column := false, is_display_column := false,
     check := some check_authid_oid }]

/-- The columns of pg_subscription (`pg_subscription_column` of `definitions.c`). -/
def pg_subscription_column : List pg_catalog_column :=
  [{ name := "oid".data, cast := none,
     minimum_version := 100000, maximum_version := 0,
     is_edb_only := false, is_key_column := true, is_display_column := true,
     check := none },
   { name := "subdbid".data, cast := none,
     minimum_version := 100000, maximum_version := 0,
     is_edb_only := false, is_key_column := false, is_display_column := false,
     check := some check_database_oid },
   { name := "subowner".data, cast := none,
     minimum_version := 100000, maximum_version := 0,
     is_edb_only := false, is_key_column := false, is_display_column := false,
     check := some check_authid_oid }]

/-- The columns of pg_subscription_rel (`pg_subscription_rel_column` of `definitions.c`). -/
def pg_subscription_rel_column : List pg_catalog_column :=
  [{ name := "srsubid".data, cast := none,
     minimum_version := 100000, maximum_version := 0,
     is_edb_only := false, is_key_column := true, is_display_column := true,
     check := some check_subscription_oid },
   { name := "srrelid".data, cast := none,
     minimum_version := 100000, maximum_version := 0,
     is_edb_only := false, is_key_column := true, is_display_column := true,
     check := some check_class_oid }]

/-- The columns of pg_transform (`pg_transform_column` of `definitions.c`). -/
def pg_transform_column : List pg_catalog_column :=
  [{ name := "oid".data, cast := none,
     minimum_version := 90500, maximum_version := 0,
     is_edb_only := false, is_key_column := true, is_display_column := true,
     check := none },
   { name := "trftype".data, cast := none,
     minimum_version := 90500, maximum_version := 0,
     is_edb_only := false, is_key_column := false, is_display_column := false,
     check := some check_type_oid },
   { name := "trflang".data, cast := none,
     minimum_version := 90500, maximum_version := 0,
     is_edb_only := false, is_key_column := false, is_display_column := false,
     check := some check_language_oid },
   { name := "trffromsql".data, cast := none,
     minimum_version := 90500, maximum_version := 0,
     is_edb_only := false, is_key_column := false, is_display_column := false,
     check := some check_proc_oid },
   { name := "trftosql".data, cast := none,
     minimum_version := 90500, maximum_version := 0,
     is_edb_only := false, is_key_column := false, is_display_column := false,
     check := some check_proc_oid }]

/-- The array of tables known to this tool (`pg_catalog_tables` of `definitions.c`), in
the order of the array. -/
def pg_catalog_tables : List pg_catalog_table :=
  [{ table_name := "pg_class".data, cols := pg_class_column },
   { table_name := "pg_namespace".data, cols := pg_namespace_column },
   { table_name := "pg_authid".data, cols := pg_authid_column },
   { table_name := "pg_tablespace".data, cols := pg_tablespace_column },
   { table_name := "pg_type".data, cols := pg_type_column },
   { table_name := "pg_am".data, cols := pg_am_column },
   { table_name := "pg_collation".data, cols := pg_collation_column },
   { table_name := "pg_proc".data, cols := pg_proc_column },
   { table_name := "pg_language".data, cols := pg_language_column },
   { table_name := "pg_index".data, cols := pg_index_column },
   { table_name := "pg_constraint".data, cols := pg_constraint_column },
   { table_name := "pg_database".data, cols := pg_database_column },
   { table_name := "pg_cast".data, cols := pg_cast_column },
   { table_name := "pg_conversion".data, cols := pg_conversion_column },
   { table_name := "pg_extension".data, cols := pg_extension_column },
   { table_name := "pg_enum".data, cols := pg_enum_column },
   { table_name := "pg_trigger".data, cols := pg_trigger_column },
   { table_name := "pg_ts_parser".data, cols := pg_ts_parser_column },
   { table_name := "pg_ts_config".data, cols := pg_ts_config_column },
   { table_name := "pg_ts_template".data, cols := pg_ts_template_column },
   { table_name := "pg_ts_dict".data, cols := pg_ts_dict_column },
   { table_name := "pg_foreign_data_wrapper".data, cols := pg_fdw_column },
   { table_name := "pg_foreign_server".data, cols := pg_foreign_server_column },
   { table_name := "pg_user_mapping".data, cols := pg_user_mapping_column },
   { table_name := "pg_foreign_table".data, cols := pg_foreign_table_column },
   { table_name := "pg_event_trigger".data, cols := pg_event_trigger_column },
   { table_name := "pg_opfamily".data, cols := pg_opfamily_column },
   { table_name := "pg_opclass".data, cols := pg_opclass_column },
   { table_name := "pg_operator".data, cols := pg_operator_column },
   { table_name := "pg_amop".data, cols := pg_amop_column },
   { table_name := "pg_amproc".data, cols := pg_amproc_column },
   { table_name := "pg_default_acl".data, cols := pg_default_acl_column },
   { table_name := "pg_rewrite".data, cols := pg_rewrite_column },
   { table_name := "pg_inherits".data, cols := pg_inherits_column },
   { table_name := "pg_largeobject_metadata".data, cols := pg_largeobject_metadata_column },
   { table_name := "pg_largeobject".data, cols := pg_largeobject_column },
   { table_name := "pg_aggregate".data, cols := pg_aggregate_column },
   { table_name := "pg_ts_config_map".data, cols := pg_ts_config_map_column },
   { table_name := "pg_range".data, cols := pg_range_column },
   { table_name := "pg_attrdef".data, cols := pg_attrdef_column },
   { table_name := "pg_attribute".data, cols := pg_attribute_column },
   { table_name := "pg_statistic".data, cols := pg_statistic_column },
   { table_name := "pg_db_role_setting".data, cols := pg_db_role_setting_column },
   { table_name := "pg_depend".data, cols := pg_depend_column },
   { table_name := "pg_shdepend".data, cols := pg_shdepend_column },
   { table_name := "edb_dir".data, cols := edb_dir_column },
   { table_name := "edb_partdef".data, cols := edb_partdef_column },
   { table_name := "edb_partition".data, cols := edb_partition_column },
   { table_name := "edb_policy".data, cols := edb_policy_column },
   { table_name := "pg_synonym".data, cols := pg_synonym_column },
   { table_name := "edb_variable".data, cols := edb_variable_column },
   { table_name := "pg_description".data, cols := pg_description_column },
   { table_name := "pg_shdescription".data, cols := pg_shdescription_column },
   { table_name := "pg_seclabel".data, cols := pg_seclabel_column },
   { table_name := "pg_shseclabel".data, cols := pg_shseclabel_column },
   { table_name := "pg_auth_members".data, cols := pg_auth_members_column },
   { table_name := "pg_policy".data, cols := pg_policy_column },
   { table_name := "edb_profile".data, cols := edb_profile_column },
   { table_name := "edb_queue_table".data, cols := edb_queue_table_column },
   { table_name := "edb_queue".data, cols := edb_queue_column },
   { table_name := "edb_password_history".data, cols := edb_password_history_column },
   { table_name := "edb_queue_callback".data, cols := edb_queue_callback_column },
   { table_name := "edb_resource_group".data, cols := edb_resource_group_column },
   { table_name := "pg_init_privs".data, cols := pg_init_privs_column },
   { table_name := "pg_partitioned_table".data, cols := pg_partitioned_table_column },
   { table_name := "pg_pltemplate".data, cols := pg_pltemplate_column },
   { table_name := "pg_publication".data, cols := pg_publication_column },
   { table_name := "pg_publication_rel".data, cols := pg_publication_rel_column },
   { table_name := "pg_replication_origin".data, cols := pg_replication_origin_column },
   { table_name := "pg_sequence".data, cols := pg_sequence_column },
   { table_name := "pg_statistic_ext".data, cols := pg_statistic_ext_column },
   { table_name := "pg_subscription".data, cols := pg_subscription_column },
   { table_name := "pg_subscription_rel".data, cols := pg_subscription_rel_column },
   { table_name := "pg_transform".data, cols := pg_transform_column }]

/-! ## pg_catcheck.c: the selection of tables and columns -/

/-- Select or deselect the named table (`select_table`); `none` for the fatal exit "table
name not recognized". -/
def select_table (tables : List pg_catalog_table) (table_name : CStr) (whether : trivalue) :
    Option (List pg_catalog_table) :=
  if tables.any (fun tab => tab.table_name == table_name) then
    some (tables.map (fun tab =>
      if tab.table_name = table_name then { tab with checked := whether } else tab))
  else none

/-- Select or deselect the named column (`select_column`), in every table that has a column
of this name; `none` for the fatal exit "column name not recognized". -/
def select_column (tables : List pg_catalog_table) (column_name : CStr)
    (whether : trivalue) : Option (List pg_catalog_table) :=
  if tables.any (fun tab => tab.cols.any (fun tabcol => tabcol.name == column_name)) then
    some (tables.map (fun tab =>
      { tab with cols := tab.cols.map (fun tabcol =>
          if tabcol.name = column_name then { tabcol with checked := whether }
          else tabcol) }))
  else none

/-- The command-line options that select what to check: `-t`, `-T`, `-c` and `-C`, each
with its argument. -/
inductive selection_option where
  | table (table_name : CStr)
  | exclude_table (table_name : CStr)
  | column (column_name : CStr)
  | exclude_column (column_name : CStr)
deriving DecidableEq, Repr

/-- The cases 't', 'T', 'c' and 'C' of the option loop of `main`, over the options in the
order of the command line: the array of tables and the flag `selected_columns`
afterwards; `none` for a fatal exit. -/
def select_options :
    List selection_option → List pg_catalog_table × Bool →
      Option (List pg_catalog_table × Bool)
  | [], state => some state
  | selection_option.table table_name :: rest, (tables, _) =>
    match select_table tables table_name trivalue.TRI_YES with
    | none => none
    | some selected => select_options rest (selected, true)
  | selection_option.exclude_table table_name :: rest, (tables, selected_columns) =>
    match select_table tables table_name trivalue.TRI_NO with
    | none => none
    | some selected => select_options rest (selected, selected_columns)
  | selection_option.column column_name :: rest, (tables, _) =>
    match select_column tables column_name trivalue.TRI_YES with
    | none => none
    | some selected => select_options rest (selected, true)
  | selection_option.exclude_column column_name :: rest, (tables, selected_columns) =>
    match select_column tables column_name trivalue.TRI_NO with
    | none => none
    | some selected => select_options rest (selected, selected_columns)

/-- The column `key` is a key column or a display column that is available for every
server for which the column `tabcol` is: it is for EDB only if `tabcol` is, and its
version bounds are at most the greater version bound of `tabcol`. -/
def column_covers (key tabcol : pg_catalog_column) : Bool :=
  (key.is_key_column || key.is_display_column)
    && (!key.is_edb_only || tabcol.is_edb_only)
    && decide (key.minimum_version ≤ max tabcol.minimum_version tabcol.maximum_version)
    && decide (key.maximum_version ≤ max tabcol.minimum_version tabcol.maximum_version)

/-- Every column of the table is covered by a key column or display column of the table. -/
def table_has_key (tab : pg_catalog_table) : Bool :=
  tab.cols.all (fun tabcol => tab.cols.any (fun key => column_covers key tabcol))

/-- Every table of the array has a key column or display column for each of its columns:
whenever one of its columns is available, so is a key column or a display column. -/
def registry_has_keys (tables : List pg_catalog_table) : Prop :=
  ∀ tab ∈ tables, table_has_key tab = true

/-- The array that `decide_what_to_check` makes of `pg_catalog_tables` on a PostgreSQL 9.6
server when the user selects nothing. -/
def sample_catalog_decided : List pg_catalog_table :=
  (decide_what_to_check sample_remote_96 false pg_catalog_tables).getD []

/-! ## Lemmas on the hash table -/

theorem fls_loop_le (fuel : Nat) : ∀ (n k : Nat), n < 2 ^ k → fls_loop fuel n ≤ k := by
  induction fuel with
  | zero => intro n k _; simp [fls_loop]
  | succ fuel ih =>
    intro n k h
    unfold fls_loop
    split
    · exact Nat.zero_le _
    · rename_i hn
      cases k with
      | zero => simp at h; exact absurd h hn
      | succ k =>
        have h2 : n / 2 < 2 ^ k := by
          rw [Nat.div_lt_iff_lt_mul (by decide)]
          rw [pow_succ] at h; exact h
        exact Nat.succ_le_succ (ih _ _ h2)

theorem fls_lt_32 (n : Nat) (h : n < 2 ^ 31) : fls n < 32 :=
  Nat.lt_succ_of_le (fls_loop_le n n 31 h)

theorem pgrhash_compare_iff (ht : pgrhash) (r : Nat) (kv : List CStr) :
    pgrhash_compare ht r kv = true ↔ pgrhash_row_keyvals ht r = pgrhash_read_keyvals ht kv := by
  simp [pgrhash_compare, pgrhash_row_keyvals, pgrhash_read_keyvals, List.all_eq_true]

theorem pgrhash_hashvalue_read (ht : pgrhash) (kv : List CStr) :
    pgrhash_hashvalue ht kv
      = (pgrhash_read_keyvals ht kv).foldl (fun h s => h ^^^ string_hash_sdbm s) 0 := by
  simp [pgrhash_hashvalue, pgrhash_read_keyvals, List.foldl_map]

theorem pgrhash_read_row_keyvals (ht : pgrhash) (r : Nat) :
    pgrhash_read_keyvals ht (pgrhash_row_keyvals ht r) = pgrhash_row_keyvals ht r := by
  unfold pgrhash_read_keyvals pgrhash_row_keyvals
  apply List.map_inj_left.2
  intro i hi
  have hi := List.mem_range.1 hi
  rw [List.getD_eq_getElem?_getD, List.getElem?_map, List.getElem?_range hi]
  rfl

theorem pgrhash_compare_self (ht : pgrhash) (r : Nat) :
    pgrhash_compare ht r (pgrhash_row_keyvals ht r) = true := by
  rw [pgrhash_compare_iff, pgrhash_read_row_keyvals]

/-- A row that matches a key has the key's bucket number. -/
theorem pgrhash_bucket_of_compare (ht : pgrhash) (r : Nat) (kv : List CStr)
    (h : pgrhash_compare ht r kv = true) :
    pgrhash_bucket_number ht (pgrhash_row_keyvals ht r) = pgrhash_bucket_number ht kv := by
  rw [pgrhash_compare_iff] at h
  unfold pgrhash_bucket_number
  rw [pgrhash_hashvalue_read, pgrhash_hashvalue_read, pgrhash_read_row_keyvals, h]

/-- Rows that match a key match each other's key values. -/
theorem pgrhash_compare_trans (ht : pgrhash) (r e : Nat) (kv : List CStr)
    (h : pgrhash_compare ht r kv = true) :
    pgrhash_compare ht e (pgrhash_row_keyvals ht r) = pgrhash_compare ht e kv := by
  rw [pgrhash_compare_iff] at h
  rw [Bool.eq_iff_iff, pgrhash_compare_iff, pgrhash_compare_iff, pgrhash_read_row_keyvals, h]

theorem pgrhash_bucket_number_lt (ht : pgrhash) (kv : List CStr) (h : 0 < ht.nbuckets) :
    pgrhash_bucket_number ht kv < ht.nbuckets := by
  unfold pgrhash_bucket_number
  have := @Nat.and_le_right (pgrhash_hashvalue ht kv) (ht.nbuckets - 1)
  omega

theorem pgrhash_chain_find_bucket (ht : pgrhash) (B : List (List pgrhash_entry))
    (kv : List CStr) (chain : List pgrhash_entry) :
    pgrhash_chain_find { ht with bucket := B } kv chain = pgrhash_chain_find ht kv chain := by
  induction chain with
  | nil => rfl
  | cons e next ih =>
    simp only [pgrhash_chain_find]
    rw [ih]
    rfl

theorem pgrhash_insert_some (ht : pgrhash) (r e : Nat)
    (h : pgrhash_chain_find ht (pgrhash_row_keyvals ht r)
      (ht.bucket.getD (pgrhash_bucket_number ht (pgrhash_row_keyvals ht r)) []) = some e) :
    pgrhash_insert ht r = ((e : Int), ht) := by
  simp only [pgrhash_insert, h]

theorem pgrhash_insert_none (ht : pgrhash) (r : Nat)
    (h : pgrhash_chain_find ht (pgrhash_row_keyvals ht r)
      (ht.bucket.getD (pgrhash_bucket_number ht (pgrhash_row_keyvals ht r)) []) = none) :
    pgrhash_insert ht r = (-1, { ht with bucket := pgrhash_linked ht r }) := by
  simp only [pgrhash_insert, h, pgrhash_linked]

theorem find?_compare_congr (ht : pgrhash) (L : List Nat) (r : Nat) (kv : List CStr)
    (h : pgrhash_compare ht r kv = true) :
    L.find? (fun e => pgrhash_compare ht e (pgrhash_row_keyvals ht r))
      = L.find? (fun e => pgrhash_compare ht e kv) := by
  have : (fun e => pgrhash_compare ht e (pgrhash_row_keyvals ht r))
      = (fun e => pgrhash_compare ht e kv) := by
    funext e; exact pgrhash_compare_trans ht r e kv h
  rw [this]

theorem getD_set_self {α : Type} (l : List α) (i : Nat) (a d : α) (h : i < l.length) :
    (l.set i a).getD i d = a := by
  rw [List.getD_eq_getElem?_getD, List.getElem?_set_self h]; rfl

theorem getD_set_other {α : Type} (l : List α) (i j : Nat) (a d : α) (h : i ≠ j) :
    (l.set i a).getD j d = l.getD j d := by
  rw [List.getD_eq_getElem?_getD, List.getElem?_set_ne h, List.getD_eq_getElem?_getD]

theorem getD_mem {α : Type} (l : List α) (i : Nat) (d : α) (h : i < l.length) :
    l.getD i d ∈ l := by
  rw [List.getD_eq_getElem?_getD, List.getElem?_eq_getElem h]
  exact List.getElem_mem h

/-- When the row's key is already present, the table is unchanged and stays consistent. -/
theorem pgrhash_inv_insert_some (ht : pgrhash) (L : List Nat) (r e : Nat)
    (inv : pgrhash_inv ht L)
    (h : L.find? (fun x => pgrhash_compare ht x (pgrhash_row_keyvals ht r)) = some e) :
    pgrhash_inv ht (L ++ [r]) := by
  refine ⟨inv.len, inv.pos, ?_, ?_⟩
  · intro kv
    rw [inv.find kv, List.find?_append]
    cases hL : L.find? (fun x => pgrhash_compare ht x kv) with
    | some x => rfl
    | none =>
      by_cases hc : pgrhash_compare ht r kv = true
      · rw [find?_compare_congr ht L r kv hc, hL] at h
        exact absurd h (by simp)
      · simp [List.find?, hc]
  · intro chain hchain x hx
    rw [List.find?_append, inv.first chain hchain x hx]
    rfl

/-- When the row's key is absent, the new entry heads its bucket and the table stays
consistent. -/
theorem pgrhash_inv_insert_none (ht : pgrhash) (L : List Nat) (r : Nat)
    (inv : pgrhash_inv ht L)
    (h : L.find? (fun x => pgrhash_compare ht x (pgrhash_row_keyvals ht r)) = none) :
    pgrhash_inv { ht with bucket := pgrhash_linked ht r } (L ++ [r]) := by
  unfold pgrhash_linked
  have hb := pgrhash_bucket_number_lt ht (pgrhash_row_keyvals ht r) inv.pos
  rw [← inv.len] at hb
  refine ⟨?_, inv.pos, ?_, ?_⟩
  · show (ht.bucket.set _ _).length = ht.nbuckets
    rw [List.length_set]; exact inv.len
  · intro kv
    show pgrhash_chain_find _ kv ((ht.bucket.set _ _).getD (pgrhash_bucket_number ht kv) [])
      = (L ++ [r]).find? (fun x => pgrhash_compare ht x kv)
    rw [pgrhash_chain_find_bucket, List.find?_append]
    by_cases hbk : pgrhash_bucket_number ht (pgrhash_row_keyvals ht r)
        = pgrhash_bucket_number ht kv
    · rw [← hbk, getD_set_self _ _ _ _ hb]
      by_cases hc : pgrhash_compare ht r kv = true
      · rw [find?_compare_congr ht L r kv hc] at h
        simp [pgrhash_chain_find, hc, h]
      · have := inv.find kv
        rw [← hbk] at this
        simp only [pgrhash_chain_find, hc, this]
        simp [hc]
    · rw [getD_set_other _ _ _ _ _ hbk, inv.find kv]
      have hc : ¬ pgrhash_compare ht r kv = true :=
        fun hc => hbk (pgrhash_bucket_of_compare ht r kv hc)
      simp [hc]
  · intro chain hchain x hx
    show (L ++ [r]).find? (fun y => pgrhash_compare ht y (pgrhash_row_keyvals ht x.rownum))
      = some x.rownum
    rw [List.find?_append]
    have old : ∀ c ∈ ht.bucket, x ∈ c →
        (L.find? (fun y => pgrhash_compare ht y (pgrhash_row_keyvals ht x.rownum))).or
          ([r].find? (fun y => pgrhash_compare ht y (pgrhash_row_keyvals ht x.rownum)))
        = some x.rownum := by
      intro c hc hxc
      rw [inv.first c hc x hxc]; rfl
    rcases List.mem_or_eq_of_mem_set hchain with hmem | heq
    · exact old chain hmem hx
    · rw [heq] at hx
      rcases List.mem_cons.1 hx with hx | hx
      · subst hx
        simp [h, pgrhash_compare_self]
      · exact old _ (getD_mem _ _ _ hb) hx

/-- Effect of one `pgrhash_insert` on a consistent table: the value returned is the first
row of `L` with the same key, or -1; an existing key leaves the table as it is; the frame
of the table is kept and the table is consistent for `L ++ [r]`. -/
theorem pgrhash_insert_spec (ht : pgrhash) (L : List Nat) (r : Nat) (inv : pgrhash_inv ht L) :
    (pgrhash_insert ht r).1
        = (match L.find? (fun x => pgrhash_compare ht x (pgrhash_row_keyvals ht r)) with
           | some e => (e : Int)
           | none => -1)
    ∧ (∃ B, (pgrhash_insert ht r).2 = { ht with bucket := B })
    ∧ pgrhash_inv (pgrhash_insert ht r).2 (L ++ [r]) := by
  have hf := inv.find (pgrhash_row_keyvals ht r)
  cases hL : L.find? (fun x => pgrhash_compare ht x (pgrhash_row_keyvals ht r)) with
  | some e =>
    rw [hL] at hf
    rw [pgrhash_insert_some ht r e hf]
    exact ⟨rfl, ⟨ht.bucket, rfl⟩, pgrhash_inv_insert_some ht L r e inv hL⟩
  | none =>
    rw [hL] at hf
    rw [pgrhash_insert_none ht r hf]
    exact ⟨rfl, ⟨_, rfl⟩, pgrhash_inv_insert_none ht L r inv hL⟩

theorem insert_results_bucket (ht : pgrhash) (B : List (List pgrhash_entry))
    (rows : List Nat) : ∀ L : List Nat,
    insert_results { ht with bucket := B } L rows = insert_results ht L rows := by
  induction rows with
  | nil => intro L; rfl
  | cons r rows ih =>
    intro L
    simp only [insert_results]
    rw [ih]
    rfl

/-- Effect of the insertion loop on a consistent table. -/
theorem pgrhash_insert_rows_spec (rows : List Nat) : ∀ (ht : pgrhash) (L : List Nat),
    pgrhash_inv ht L →
    (pgrhash_insert_rows ht rows).1 = insert_results ht L rows
    ∧ (∃ B, (pgrhash_insert_rows ht rows).2 = { ht with bucket := B })
    ∧ pgrhash_inv (pgrhash_insert_rows ht rows).2 (L ++ rows) := by
  induction rows with
  | nil =>
    intro ht L inv
    refine ⟨rfl, ⟨ht.bucket, rfl⟩, ?_⟩
    simpa [pgrhash_insert_rows] using inv
  | cons r rows ih =>
    intro ht L inv
    obtain ⟨h1, ⟨B, hB⟩, hinv⟩ := pgrhash_insert_spec ht L r inv
    obtain ⟨i1, ⟨B2, hB2⟩, iinv⟩ := ih (pgrhash_insert ht r).2 (L ++ [r]) hinv
    simp only [pgrhash_insert_rows]
    refine ⟨?_, ⟨B2, ?_⟩, ?_⟩
    · rw [i1, h1, hB, insert_results_bucket]
      rfl
    · rw [hB2, hB]
    · have : L ++ r :: rows = L ++ [r] ++ rows := by simp
      rw [this]; exact iinv

theorem insert_results_distinct (ht : pgrhash) (rows : List Nat) : ∀ L : List Nat,
    (L ++ rows).Pairwise
      (fun a b => pgrhash_compare ht a (pgrhash_row_keyvals ht b) = false) →
    insert_results ht L rows = List.replicate rows.length (-1) := by
  induction rows with
  | nil => intro L _; rfl
  | cons r rows ih =>
    intro L hp
    have hp2 : (L ++ [r] ++ rows).Pairwise
        (fun a b => pgrhash_compare ht a (pgrhash_row_keyvals ht b) = false) := by
      have : L ++ [r] ++ rows = L ++ r :: rows := by simp
      rw [this]; exact hp
    have hnone : L.find? (fun x => pgrhash_compare ht x (pgrhash_row_keyvals ht r)) = none := by
      rw [List.find?_eq_none]
      intro x hx
      have := (List.pairwise_append.1 hp).2.2 x hx r (List.mem_cons_self _ _)
      simp [this]
    simp only [insert_results, first_match, hnone, ih (L ++ [r]) hp2, List.length_cons,
      List.replicate_succ]

theorem pgrhash_inv_create (result : PGresult) (nkeycols : Nat) (keycols : List Nat)
    (ht : pgrhash) (h : pgrhash_create result nkeycols keycols = some ht) :
    pgrhash_inv ht [] := by
  unfold pgrhash_create at h
  simp only at h
  split at h
  · exact absurd h (by simp)
  · have h := Option.some.inj h
    subst h
    refine ⟨by simp, ?_, ?_, ?_⟩
    · show 0 < 1 <<< fls (PQntuples result)
      rw [Nat.one_shiftLeft]; exact Nat.pos_pow_of_pos _ (by decide)
    · intro kv
      show pgrhash_chain_find _ kv ((List.replicate _ []).getD _ []) = none
      have : ∀ (n i : Nat), (List.replicate n ([] : List pgrhash_entry)).getD i [] = [] := by
        intro n i
        rw [List.getD_eq_getElem?_getD, List.getElem?_replicate]
        split <;> rfl
      rw [this]; rfl
    · intro chain hchain e he
      have := List.eq_of_mem_replicate hchain
      subst this
      exact absurd he (List.not_mem_nil _)

theorem pgrhash_create_some (result : PGresult) (nkeycols : Nat) (keycols : List Nat)
    (h : PQntuples result < 2 ^ 31) :
    pgrhash_create result nkeycols keycols = some
      { res := result
        nkeycols := nkeycols
        keycols := keycols.take nkeycols
        nbuckets := 1 <<< fls (PQntuples result)
        bucket := List.replicate (1 <<< fls (PQntuples result)) [] } := by
  unfold pgrhash_create
  have := fls_lt_32 _ h
  simp only [ge_iff_le]
  rw [if_neg (by omega)]

theorem map_range_getD {α β : Type} (l : List α) (d : α) (f : α → β) :
    (List.range l.length).map (fun i => f (l.getD i d)) = l.map f := by
  apply List.ext_getElem
  · simp
  · intro n h1 h2
    simp only [List.length_map, List.length_range] at h1
    simp [List.getD_eq_getElem?_getD, List.getElem?_eq_getElem h1]

/-- With as many key values as key columns, a row matches exactly when its key tuple is the
list of key values. -/
theorem pgrhash_compare_key_tuple (ht : pgrhash) (keycols : List Nat) (r : Nat)
    (kv : List CStr) (hn : ht.nkeycols = keycols.length) (hk : ht.keycols = keycols)
    (hlen : kv.length = keycols.length) :
    pgrhash_compare ht r kv = true ↔ key_tuple ht.res keycols r = kv := by
  rw [pgrhash_compare_iff]
  unfold pgrhash_row_keyvals pgrhash_read_keyvals key_tuple
  rw [hn, hk, map_range_getD keycols 0 (fun c => PQgetvalue ht.res r c)]
  rw [← hlen, map_range_getD kv [] (fun x => x)]
  simp

theorem pgrhash_row_keyvals_key_tuple (ht : pgrhash) (keycols : List Nat) (r : Nat)
    (hn : ht.nkeycols = keycols.length) (hk : ht.keycols = keycols) :
    pgrhash_row_keyvals ht r = key_tuple ht.res keycols r := by
  unfold pgrhash_row_keyvals key_tuple
  rw [hn, hk, map_range_getD keycols 0 (fun c => PQgetvalue ht.res r c)]

/-- A lookup in a consistent table returns the first matching row in insertion order. -/
theorem pgrhash_get_first_match (ht : pgrhash) (L : List Nat) (inv : pgrhash_inv ht L)
    (kv : List CStr) : pgrhash_get ht kv = first_match ht L kv := by
  unfold pgrhash_get first_match
  rw [inv.find kv]

/-- The build of a table over a result set of fewer than `2^31` rows succeeds; the table
keeps the result set and the key columns, each insertion returned the first earlier row
with the same key or -1, and the table is consistent for the rows `0 .. ntups - 1`. -/
theorem pgrhash_build_spec (data : PGresult) (keycols : List Nat)
    (h : PQntuples data < 2 ^ 31) :
    ∃ ht, pgrhash_build data keycols.length keycols
        = some (insert_results ht [] (List.range (PQntuples data)), ht)
      ∧ ht.res = data ∧ ht.nkeycols = keycols.length ∧ ht.keycols = keycols
      ∧ pgrhash_inv ht (List.range (PQntuples data)) := by
  obtain ⟨ht0, hc, r0, n0, k0⟩ : ∃ ht0, pgrhash_create data keycols.length keycols = some ht0
      ∧ ht0.res = data ∧ ht0.nkeycols = keycols.length
      ∧ ht0.keycols = keycols.take keycols.length :=
    ⟨_, pgrhash_create_some data keycols.length keycols h, rfl, rfl, rfl⟩
  have inv0 := pgrhash_inv_create _ _ _ _ hc
  obtain ⟨h1, ⟨B, hB⟩, hinv⟩ :=
    pgrhash_insert_rows_spec (List.range (PQntuples data)) ht0 [] inv0
  refine ⟨(pgrhash_insert_rows ht0 (List.range (PQntuples data))).2, ?_, ?_, ?_, ?_, ?_⟩
  · unfold pgrhash_build
    rw [hc, Option.map_some']
    have e1 : insert_results (pgrhash_insert_rows ht0 (List.range (PQntuples data))).2 []
        (List.range (PQntuples data)) = insert_results ht0 [] (List.range (PQntuples data)) := by
      rw [hB, insert_results_bucket]
    rw [e1, ← h1]
  · rw [hB]; exact r0
  · rw [hB]; exact n0
  · rw [hB]; show ht0.keycols = keycols
    rw [k0]; exact List.take_length keycols
  · simpa using hinv

theorem key_tuple_length (res : PGresult) (keycols : List Nat) (row : Nat) :
    (key_tuple res keycols row).length = keycols.length := by
  simp [key_tuple]

theorem first_match_eq_neg_one (ht : pgrhash) (L : List Nat) (kv : List CStr) :
    first_match ht L kv = -1 ↔ ∀ r ∈ L, pgrhash_compare ht r kv = false := by
  unfold first_match
  cases h : L.find? (fun r => pgrhash_compare ht r kv) with
  | none =>
    rw [List.find?_eq_none] at h
    simp only [true_iff]
    intro r hr
    simpa using h r hr
  | some e =>
    have hp := List.find?_some h
    have hm := List.mem_of_find?_eq_some h
    constructor
    · intro h'
      have h2 : (e : Int) = -1 := h'
      omega
    · intro h'
      rw [h' e hm] at hp
      exact absurd hp (by simp)

/-! ## The hash index (claims C2, C3, C4) -/

/-- C2: for a result set of N rows with pairwise distinct key tuples, creating the table
and inserting rows 0..N-1 returns -1 for every row, and afterwards `pgrhash_get` on the key
tuple of row i returns i, for every i < N. -/
theorem pgrhash_unique_keys_retrievable (data : PGresult) (keycols : List Nat)
    (hN : PQntuples data < 2 ^ 31)
    (hdistinct : ∀ i, i < PQntuples data → ∀ j, j < PQntuples data →
      key_tuple data keycols i = key_tuple data keycols j → i = j) :
    ∃ ht, pgrhash_build data keycols.length keycols
        = some (List.replicate (PQntuples data) (-1), ht)
      ∧ ∀ i, i < PQntuples data → pgrhash_get ht (key_tuple data keycols i) = (i : Int) := by
  obtain ⟨ht, hb, hres, hn, hk, inv⟩ := pgrhash_build_spec data keycols hN
  have hcmp : ∀ a b, pgrhash_compare ht a (key_tuple data keycols b) = true
      ↔ key_tuple data keycols a = key_tuple data keycols b := by
    intro a b
    rw [pgrhash_compare_key_tuple ht keycols a _ hn hk (key_tuple_length _ _ _), hres]
  refine ⟨ht, ?_, ?_⟩
  · rw [hb, insert_results_distinct ht (List.range (PQntuples data)) [], List.length_range]
    rw [List.nil_append]
    refine List.Pairwise.imp_of_mem ?_ (List.pairwise_lt_range (PQntuples data))
    intro a b ha hb hab
    rw [pgrhash_row_keyvals_key_tuple ht keycols b hn hk, hres]
    cases hc : pgrhash_compare ht a (key_tuple data keycols b) with
    | false => rfl
    | true =>
      have := hdistinct a (List.mem_range.1 ha) b (List.mem_range.1 hb) ((hcmp a b).1 hc)
      omega
  · intro i hi
    rw [pgrhash_get_first_match ht _ inv]
    unfold first_match
    have : (List.range (PQntuples data)).find?
        (fun r => pgrhash_compare ht r (key_tuple data keycols i)) = some i := by
      rw [List.find?_range_eq_some]
      refine ⟨(hcmp i i).2 rfl, List.mem_range.2 hi, ?_⟩
      intro j hj
      cases hc : pgrhash_compare ht j (key_tuple data keycols i) with
      | false => rfl
      | true =>
        have := hdistinct j (by omega) i hi ((hcmp j i).1 hc)
        omega
    rw [this]

/-- C3: in a table reached by any sequence of insertions, inserting a row r whose key
tuple equals that of a row e present in a bucket chain returns e's row number (which is
not -1) and leaves the table, all bucket chains included, as it was. -/
theorem pgrhash_insert_duplicate_unchanged (result : PGresult) (keycols : List Nat)
    (ht0 : pgrhash) (rows : List Nat) (e : pgrhash_entry) (r : Nat)
    (hc : pgrhash_create result keycols.length keycols = some ht0)
    (he : ∃ chain ∈ (pgrhash_insert_rows ht0 rows).2.bucket, e ∈ chain)
    (hkey : key_tuple result keycols r = key_tuple result keycols e.rownum) :
    pgrhash_insert (pgrhash_insert_rows ht0 rows).2 r
        = ((e.rownum : Int), (pgrhash_insert_rows ht0 rows).2)
      ∧ (pgrhash_insert (pgrhash_insert_rows ht0 rows).2 r).1 ≠ -1 := by
  have inv0 := pgrhash_inv_create _ _ _ _ hc
  obtain ⟨_, ⟨B, hB⟩, inv⟩ := pgrhash_insert_rows_spec rows ht0 [] inv0
  rw [List.nil_append] at inv
  have h0 : ht0.res = result ∧ ht0.nkeycols = keycols.length ∧ ht0.keycols = keycols := by
    unfold pgrhash_create at hc
    simp only at hc
    split at hc
    · exact absurd hc (by simp)
    · have hc := Option.some.inj hc
      subst hc
      exact ⟨rfl, rfl, List.take_length keycols⟩
  generalize (pgrhash_insert_rows ht0 rows).2 = ht at *
  have hres : ht.res = result := by rw [hB]; exact h0.1
  have hn : ht.nkeycols = keycols.length := by rw [hB]; exact h0.2.1
  have hk : ht.keycols = keycols := by rw [hB]; exact h0.2.2
  obtain ⟨chain, hchain, hmem⟩ := he
  have hfirst := inv.first chain hchain e hmem
  have hkv : pgrhash_row_keyvals ht r = pgrhash_row_keyvals ht e.rownum := by
    rw [pgrhash_row_keyvals_key_tuple ht keycols r hn hk,
      pgrhash_row_keyvals_key_tuple ht keycols e.rownum hn hk, hres, hkey]
  have hfind := inv.find (pgrhash_row_keyvals ht r)
  rw [hkv, hfirst, ← hkv] at hfind
  rw [pgrhash_insert_some ht r e.rownum hfind]
  exact ⟨rfl, by simp only [ne_eq]; omega⟩

/-- C4: after rows 0..N-1 of any result set (duplicates allowed) were inserted in order,
`pgrhash_get` returns -1 exactly when no row has the given key tuple, and otherwise returns
the smallest row number whose key tuple is the given one. -/
theorem pgrhash_get_first_matching_row (data : PGresult) (keycols : List Nat)
    (hN : PQntuples data < 2 ^ 31) :
    ∃ results ht, pgrhash_build data keycols.length keycols = some (results, ht)
      ∧ ∀ keys : List CStr, keys.length = keycols.length →
        (pgrhash_get ht keys = -1
            ↔ ∀ i, i < PQntuples data → key_tuple data keycols i ≠ keys)
        ∧ (∀ i, i < PQntuples data → key_tuple data keycols i = keys →
            (∀ j, j < i → key_tuple data keycols j ≠ keys) →
            pgrhash_get ht keys = (i : Int)) := by
  obtain ⟨ht, hb, hres, hn, hk, inv⟩ := pgrhash_build_spec data keycols hN
  refine ⟨_, ht, hb, ?_⟩
  intro keys hlen
  have hcmp : ∀ a, pgrhash_compare ht a keys = true ↔ key_tuple data keycols a = keys := by
    intro a
    rw [pgrhash_compare_key_tuple ht keycols a _ hn hk hlen, hres]
  rw [pgrhash_get_first_match ht _ inv]
  constructor
  · rw [first_match_eq_neg_one]
    constructor
    · intro h i hi heq
      have := h i (List.mem_range.2 hi)
      rw [(hcmp i).2 heq] at this
      exact absurd this (by simp)
    · intro h i hi
      cases hc : pgrhash_compare ht i keys with
      | false => rfl
      | true => exact absurd ((hcmp i).1 hc) (h i (List.mem_range.1 hi))
  · intro i hi heq hmin
    unfold first_match
    have : (List.range (PQntuples data)).find? (fun r => pgrhash_compare ht r keys)
        = some i := by
      rw [List.find?_range_eq_some]
      refine ⟨(hcmp i).2 heq, List.mem_range.2 hi, ?_⟩
      intro j hj
      cases hc : pgrhash_compare ht j keys with
      | false => rfl
      | true => exact absurd ((hcmp j).1 hc) (hmin j hj)
    rw [this]

/-- Witness of C2 on `sample_result` keyed by (oid, name), where all key tuples differ. -/
theorem pgrhash_unique_keys_retrievable_witness :
    PQntuples sample_result < 2 ^ 31
      ∧ (∀ i, i < PQntuples sample_result → ∀ j, j < PQntuples sample_result →
          key_tuple sample_result [0, 1] i = key_tuple sample_result [0, 1] j → i = j)
      ∧ ∃ ht, pgrhash_build sample_result [0, 1].length [0, 1]
          = some (List.replicate (PQntuples sample_result) (-1), ht)
        ∧ ∀ i, i < PQntuples sample_result →
          pgrhash_get ht (key_tuple sample_result [0, 1] i) = (i : Int) :=
  ⟨by decide, by decide,
    pgrhash_unique_keys_retrievable sample_result [0, 1] (by decide) (by decide)⟩

/-- Witness of C3: after rows 0 and 1 of `sample_result`, row 2 has the oid of row 0. -/
theorem pgrhash_insert_duplicate_unchanged_witness :
    pgrhash_create sample_result [0].length [0] = some sample_created
      ∧ (∃ chain ∈ (pgrhash_insert_rows sample_created [0, 1]).2.bucket,
          pgrhash_entry.mk 0 ∈ chain)
      ∧ key_tuple sample_result [0] 2 = key_tuple sample_result [0] (pgrhash_entry.mk 0).rownum
      ∧ pgrhash_insert (pgrhash_insert_rows sample_created [0, 1]).2 2
          = ((((pgrhash_entry.mk 0).rownum : Nat) : Int),
              (pgrhash_insert_rows sample_created [0, 1]).2)
      ∧ (pgrhash_insert (pgrhash_insert_rows sample_created [0, 1]).2 2).1 ≠ -1 :=
  ⟨by decide, by decide, by decide,
    pgrhash_insert_duplicate_unchanged sample_result [0] sample_created [0, 1]
      (pgrhash_entry.mk 0) 2 (by decide) (by decide) (by decide)⟩

/-- Witness of C4 on `sample_result` keyed by its oid column (rows 0 and 2 collide). -/
theorem pgrhash_get_first_matching_row_witness :
    PQntuples sample_result < 2 ^ 31
      ∧ ∃ results ht, pgrhash_build sample_result [0].length [0] = some (results, ht)
        ∧ ∀ keys : List CStr, keys.length = [0].length →
          (pgrhash_get ht keys = -1
              ↔ ∀ i, i < PQntuples sample_result → key_tuple sample_result [0] i ≠ keys)
          ∧ (∀ i, i < PQntuples sample_result → key_tuple sample_result [0] i = keys →
              (∀ j, j < i → key_tuple sample_result [0] j ≠ keys) →
              pgrhash_get ht keys = (i : Int)) :=
  ⟨by decide, pgrhash_get_first_matching_row sample_result [0] (by decide)⟩

/-! ## Lemmas on the traces of the OID checks -/

theorem reports_append (a b : List Event) : reports (a ++ b) = reports a ++ reports b := by
  induction a with
  | nil => rfl
  | cons e a ih => cases e <;> simp [reports, ih]

theorem oid_checks_append (a b : List Event) :
    oid_checks (a ++ b) = oid_checks a ++ oid_checks b := by
  induction a with
  | nil => rfl
  | cons e a ih => cases e <;> simp [oid_checks, ih]

theorem gets_append (a b : List Event) : gets (a ++ b) = gets a ++ gets b := by
  induction a with
  | nil => rfl
  | cons e a ih => cases e <;> simp [gets, ih]

theorem oid_checks_do_oid_check (co : pg_catalog_check_oid) (name : CStr) (ht : pgrhash)
    (t : CStr) : oid_checks (do_oid_check co name ht t) = [t] := by
  unfold do_oid_check
  split
  · rfl
  · split <;> rfl

theorem reports_do_oid_check (co : pg_catalog_check_oid) (name : CStr) (ht : pgrhash)
    (t : CStr) :
    reports (do_oid_check co name ht t)
      = if oid_missing co ht t = true then [Report.not_found t name] else [] := by
  unfold do_oid_check oid_missing
  by_cases hz : (co.zero_oid_ok && t == ['0']) = true
  · simp [hz, reports]
  · by_cases hg : pgrhash_get ht [t] = -1
    · simp [hz, hg, reports]
    · simp [hz, hg, reports]

theorem gets_do_oid_check (co : pg_catalog_check_oid) (name : CStr) (ht : pgrhash)
    (t : CStr) :
    gets (do_oid_check co name ht t)
      = if (co.zero_oid_ok && t == ['0']) = true then [] else [[t]] := by
  unfold do_oid_check
  by_cases hz : (co.zero_oid_ok && t == ['0']) = true
  · simp [hz, gets]
  · by_cases hg : pgrhash_get ht [t] = -1
    · simp [hz, hg, gets]
    · simp [hz, hg, gets]

theorem oid_checks_flatMap (co : pg_catalog_check_oid) (name : CStr) (ht : pgrhash)
    (ts : List CStr) : oid_checks (ts.flatMap (do_oid_check co name ht)) = ts := by
  induction ts with
  | nil => rfl
  | cons t ts ih =>
    rw [List.flatMap_cons, oid_checks_append, oid_checks_do_oid_check, ih]
    rfl

theorem reports_flatMap (co : pg_catalog_check_oid) (name : CStr) (ht : pgrhash)
    (ts : List CStr) :
    reports (ts.flatMap (do_oid_check co name ht))
      = (ts.filter (oid_missing co ht)).map (fun t => Report.not_found t name) := by
  induction ts with
  | nil => rfl
  | cons t ts ih =>
    rw [List.flatMap_cons, reports_append, reports_do_oid_check, ih]
    by_cases h : oid_missing co ht t = true
    · simp [h]
    · simp [h]

theorem gets_flatMap (co : pg_catalog_check_oid) (name : CStr) (ht : pgrhash)
    (ts : List CStr) :
    gets (ts.flatMap (do_oid_check co name ht))
      = (ts.filter (fun t => !(co.zero_oid_ok && t == ['0']))).map (fun t => [t]) := by
  induction ts with
  | nil => rfl
  | cons t ts ih =>
    rw [List.flatMap_cons, gets_append, gets_do_oid_check, ih]
    by_cases h : (co.zero_oid_ok && t == ['0']) = true
    · rw [if_pos h, List.filter_cons_of_neg (by simp only [h]; decide)]
      rfl
    · rw [if_neg h, List.filter_cons_of_pos (by rw [Bool.not_eq_true] at h; rw [h]; rfl)]
      rfl

theorem intercalate_append_singleton {α : Type} (sep : List α) (ws : List (List α))
    (w : List α) :
    sep.intercalate (ws ++ [w]) = ws.flatMap (fun t => t ++ sep) ++ w := by
  induction ws with
  | nil => simp [List.intercalate]
  | cons a ws ih =>
    cases ws with
    | nil => simp [List.intercalate, List.intersperse]
    | cons b ws =>
      have : sep.intercalate ((a :: b :: ws) ++ [w])
          = a ++ sep ++ sep.intercalate ((b :: ws) ++ [w]) := by
        simp [List.intercalate, List.intersperse]
      rw [this, ih, List.flatMap_cons]
      simp

/-! ### The vector loop -/

theorem check_oid_vector_scan (co : pg_catalog_check_oid) (name : CStr) (ht : pgrhash)
    (w : CStr) : ∀ (word rest : CStr), ' ' ∉ w →
    check_oid_vector co name ht word (w ++ rest)
      = check_oid_vector co name ht (word ++ w) rest := by
  induction w with
  | nil => intro word rest _; simp
  | cons c w ih =>
    intro word rest h
    have hc : c ≠ ' ' := fun e => h (by simp [e])
    have hw : ' ' ∉ w := fun e => h (List.mem_cons_of_mem _ e)
    show check_oid_vector co name ht word (c :: (w ++ rest)) = _
    rw [check_oid_vector, if_neg hc, ih _ _ hw]
    simp

theorem check_oid_vector_word (co : pg_catalog_check_oid) (name : CStr) (ht : pgrhash)
    (w rest : CStr) (h : ' ' ∉ w) (hlen : w.length < 32) :
    check_oid_vector co name ht [] (w ++ ' ' :: rest)
      = do_oid_check co name ht w ++ check_oid_vector co name ht [] rest := by
  rw [check_oid_vector_scan co name ht w [] _ h, List.nil_append, check_oid_vector,
    if_pos rfl, if_neg (by simp only [sizeof_buf]; omega)]

theorem check_oid_vector_long_word (co : pg_catalog_check_oid) (name : CStr) (ht : pgrhash)
    (w rest : CStr) (h : ' ' ∉ w) (hlen : 32 ≤ w.length) :
    check_oid_vector co name ht [] (w ++ ' ' :: rest)
      = [Event.report (Report.token_too_long w.length)] := by
  rw [check_oid_vector_scan co name ht w [] _ h, List.nil_append, check_oid_vector,
    if_pos rfl, if_pos (by simp only [sizeof_buf]; omega)]

theorem check_oid_vector_last_word (co : pg_catalog_check_oid) (name : CStr) (ht : pgrhash)
    (w : CStr) (h : ' ' ∉ w) :
    check_oid_vector co name ht [] w
      = if w ≠ [] then do_oid_check co name ht w else [] := by
  have := check_oid_vector_scan co name ht w [] [] h
  rw [List.append_nil, List.nil_append] at this
  rw [this, check_oid_vector]

/-- The vector loop on `w1 w2 ... wk w` (every word but the last followed by a space):
every space-terminated word is passed to `do_oid_check`, the last word only when it is
not empty. -/
theorem check_oid_vector_words (co : pg_catalog_check_oid) (name : CStr) (ht : pgrhash)
    (w : CStr) (hw : ' ' ∉ w) (ws : List CStr)
    (hws : ∀ t ∈ ws, ' ' ∉ t ∧ t.length < 32) :
    check_oid_vector co name ht [] (terminated ' ' ws ++ w)
      = ws.flatMap (do_oid_check co name ht)
        ++ (if w ≠ [] then do_oid_check co name ht w else []) := by
  induction ws with
  | nil => simpa [terminated] using check_oid_vector_last_word co name ht w hw
  | cons t ws ih =>
    have ht' := hws t (List.mem_cons_self _ _)
    have := ih (fun x hx => hws x (List.mem_cons_of_mem _ hx))
    have e : terminated ' ' (t :: ws) ++ w = t ++ ' ' :: (terminated ' ' ws ++ w) := by
      simp [terminated]
    rw [e, check_oid_vector_word co name ht t _ ht'.1 ht'.2, this, List.flatMap_cons,
      List.append_assoc]

/-! ### The array loop -/

theorem check_oid_array_loop_scan (co : pg_catalog_check_oid) (name : CStr) (ht : pgrhash)
    (w : CStr) : ∀ (word rest : CStr), ',' ∉ w → '}' ∉ w →
    check_oid_array_loop co name ht word (w ++ rest)
      = check_oid_array_loop co name ht (word ++ w) rest := by
  induction w with
  | nil => intro word rest _ _; simp
  | cons c w ih =>
    intro word rest h1 h2
    have hc : ¬ (c = ',' ∨ c = '}') := by
      rintro (e | e)
      · exact h1 (by simp [e])
      · exact h2 (by simp [e])
    have hw1 : ',' ∉ w := fun e => h1 (List.mem_cons_of_mem _ e)
    have hw2 : '}' ∉ w := fun e => h2 (List.mem_cons_of_mem _ e)
    show check_oid_array_loop co name ht word (c :: (w ++ rest)) = _
    rw [check_oid_array_loop, if_neg hc, ih _ _ hw1 hw2]
    simp

/-- A token followed by a comma is checked, and the loop goes on after the comma. -/
theorem check_oid_array_loop_comma (co : pg_catalog_check_oid) (name : CStr) (ht : pgrhash)
    (t rest : CStr) (h : array_token t) (hlen : t.length < 32) :
    check_oid_array_loop co name ht [] (t ++ ',' :: rest)
      = do_oid_check co name ht t ++ check_oid_array_loop co name ht [] rest := by
  rw [check_oid_array_loop_scan co name ht t [] _ h.2.1 h.2.2, List.nil_append,
    check_oid_array_loop, if_pos (Or.inl rfl), if_neg h.1,
    if_neg (by simp only [sizeof_buf]; omega), if_neg (by decide)]

/-- A token followed by the closing brace is checked; anything after the brace is bad. -/
theorem check_oid_array_loop_brace (co : pg_catalog_check_oid) (name : CStr) (ht : pgrhash)
    (t rest : CStr) (h : array_token t) (hlen : t.length < 32) :
    check_oid_array_loop co name ht [] (t ++ '}' :: rest)
      = do_oid_check co name ht t
        ++ (if rest ≠ [] then [Event.report Report.not_valid_array] else []) := by
  rw [check_oid_array_loop_scan co name ht t [] _ h.2.1 h.2.2, List.nil_append,
    check_oid_array_loop, if_pos (Or.inr rfl), if_neg h.1,
    if_neg (by simp only [sizeof_buf]; omega), if_pos rfl]

/-- A token of 32 bytes or more before a delimiter ends the check with the length
diagnostic. -/
theorem check_oid_array_loop_long (co : pg_catalog_check_oid) (name : CStr) (ht : pgrhash)
    (t rest : CStr) (d : Char) (hd : d = ',' ∨ d = '}') (h1 : ',' ∉ t) (h2 : '}' ∉ t)
    (hlen : 32 ≤ t.length) :
    check_oid_array_loop co name ht [] (t ++ d :: rest)
      = [Event.report (Report.token_too_long t.length)] := by
  have hne : t ≠ [] := by
    intro e; rw [e] at hlen; simp at hlen
  rw [check_oid_array_loop_scan co name ht t [] _ h1 h2, List.nil_append,
    check_oid_array_loop, if_pos hd, if_neg hne, if_pos (by simp only [sizeof_buf]; omega)]

/-- The end of the string before a closing brace is bad, whatever the last word is. -/
theorem check_oid_array_loop_unterminated (co : pg_catalog_check_oid) (name : CStr)
    (ht : pgrhash) (w : CStr) (h1 : ',' ∉ w) (h2 : '}' ∉ w) :
    check_oid_array_loop co name ht [] w = [Event.report Report.not_valid_array] := by
  have := check_oid_array_loop_scan co name ht w [] [] h1 h2
  rw [List.append_nil, List.nil_append] at this
  rw [this, check_oid_array_loop]

/-- A delimiter right at the start of a token (two consecutive delimiters) is bad. -/
theorem check_oid_array_loop_empty_token (co : pg_catalog_check_oid) (name : CStr)
    (ht : pgrhash) (d : Char) (rest : CStr) (hd : d = ',' ∨ d = '}') :
    check_oid_array_loop co name ht [] (d :: rest) = [Event.report Report.not_valid_array] := by
  rw [check_oid_array_loop, if_pos hd, if_pos rfl]

/-- The array loop on `t1,t2,...,tj,` followed by `rest`: the tokens are checked in order
and the loop goes on with `rest`. -/
theorem check_oid_array_loop_tokens (co : pg_catalog_check_oid) (name : CStr) (ht : pgrhash)
    (rest : CStr) (ts : List CStr) (hts : ∀ t ∈ ts, array_token t ∧ t.length < 32) :
    check_oid_array_loop co name ht [] (terminated ',' ts ++ rest)
      = ts.flatMap (do_oid_check co name ht) ++ check_oid_array_loop co name ht [] rest := by
  induction ts with
  | nil => simp [terminated]
  | cons t ts ih =>
    have ht' := hts t (List.mem_cons_self _ _)
    have := ih (fun x hx => hts x (List.mem_cons_of_mem _ hx))
    have e : terminated ',' (t :: ts) ++ rest = t ++ ',' :: (terminated ',' ts ++ rest) := by
      simp [terminated]
    rw [e, check_oid_array_loop_comma co name ht t _ ht'.1 ht'.2, this, List.flatMap_cons,
      List.append_assoc]

theorem intercalate_eq_terminated (sep : Char) (ws : List CStr) (w : CStr) :
    [sep].intercalate (ws ++ [w]) = terminated sep ws ++ w :=
  intercalate_append_singleton [sep] ws w

theorem check_oid_reference_scalar (co : pg_catalog_check_oid) (reftab : pg_catalog_table)
    (ht : pgrhash) (val : CStr) (htype : co.type = checktype.CHECK_OID_REFERENCE)
    (hht : reftab.ht = some ht) :
    check_oid_reference co reftab val = check_oid_scalar co reftab.table_name ht val := by
  unfold check_oid_reference
  rw [hht, htype]

theorem check_oid_reference_vector (co : pg_catalog_check_oid) (reftab : pg_catalog_table)
    (ht : pgrhash) (val : CStr) (htype : co.type = checktype.CHECK_OID_VECTOR_REFERENCE)
    (hht : reftab.ht = some ht) :
    check_oid_reference co reftab val = check_oid_vector co reftab.table_name ht [] val := by
  unfold check_oid_reference
  rw [hht, htype]

theorem check_oid_reference_array (co : pg_catalog_check_oid) (reftab : pg_catalog_table)
    (ht : pgrhash) (val : CStr) (htype : co.type = checktype.CHECK_OID_ARRAY_REFERENCE)
    (hht : reftab.ht = some ht) :
    check_oid_reference co reftab val = check_oid_array co reftab.table_name ht val := by
  unfold check_oid_reference
  rw [hht, htype]

theorem reports_check_oid_scalar (co : pg_catalog_check_oid) (name : CStr) (ht : pgrhash)
    (val : CStr) :
    reports (check_oid_scalar co name ht val)
      = if oid_missing co ht val = true then [Report.no_matching_entry name] else [] := by
  unfold check_oid_scalar oid_missing
  by_cases hz : (co.zero_oid_ok && val == ['0']) = true
  · simp [hz, reports]
  · by_cases hg : pgrhash_get ht [val] = -1
    · simp [hz, hg, reports]
    · simp [hz, hg, reports]

/-- In a table built over `data` with the single key column `kc`, a value is absent from
the index exactly when no row of `data` has it in column `kc`. -/
theorem pgrhash_get_single_key (data : PGresult) (kc : Nat) (ht : pgrhash)
    (hres : ht.res = data) (hn : ht.nkeycols = 1) (hk : ht.keycols = [kc])
    (inv : pgrhash_inv ht (List.range (PQntuples data))) (val : CStr) :
    pgrhash_get ht [val] = -1 ↔ ∀ i, i < PQntuples data → PQgetvalue data i kc ≠ val := by
  rw [pgrhash_get_first_match ht _ inv, first_match_eq_neg_one]
  have hcmp : ∀ a, pgrhash_compare ht a [val] = true ↔ PQgetvalue data a kc = val := by
    intro a
    rw [pgrhash_compare_key_tuple ht [kc] a [val] hn hk rfl, hres]
    simp [key_tuple]
  constructor
  · intro h i hi heq
    have := h i (List.mem_range.2 hi)
    rw [(hcmp i).2 heq] at this
    exact absurd this (by simp)
  · intro h i hi
    cases hc : pgrhash_compare ht i [val] with
    | false => rfl
    | true => exact absurd ((hcmp i).1 hc) (h i (List.mem_range.1 hi))

/-! ## The OID checks (claims C1, C5 to C10) -/

/-- C1: scalar OID check against a referenced table whose index was built by inserting all
its rows (key column `kc`): no diagnostic is emitted if the value is the key of some row,
or if it is "0" and `zero_oid_ok` is set; in every other case exactly one diagnostic,
"no matching entry in <reftable>", is emitted. -/
theorem check_oid_scalar_diagnostics (data : PGresult) (kc : Nat)
    (hN : PQntuples data < 2 ^ 31) :
    ∃ results ht, pgrhash_build data 1 [kc] = some (results, ht)
      ∧ ∀ (zero_oid_ok : Bool) (reftable val : CStr),
        (((∃ i, i < PQntuples data ∧ PQgetvalue data i kc = val)
            ∨ (zero_oid_ok = true ∧ val = ['0'])) →
          reports (check_oid_reference
            { type := checktype.CHECK_OID_REFERENCE, zero_oid_ok := zero_oid_ok,
              oid_references_table := reftable }
            { table_name := reftable, ht := some ht } val) = [])
        ∧ (¬ ((∃ i, i < PQntuples data ∧ PQgetvalue data i kc = val)
            ∨ (zero_oid_ok = true ∧ val = ['0'])) →
          reports (check_oid_reference
            { type := checktype.CHECK_OID_REFERENCE, zero_oid_ok := zero_oid_ok,
              oid_references_table := reftable }
            { table_name := reftable, ht := some ht } val)
            = [Report.no_matching_entry reftable]) := by
  obtain ⟨ht, hb, hres, hn, hk, inv⟩ := pgrhash_build_spec data [kc] hN
  refine ⟨_, ht, hb, ?_⟩
  intro zok reftable val
  have hget := pgrhash_get_single_key data kc ht hres hn hk inv val
  rw [check_oid_reference_scalar _ _ ht val rfl rfl, reports_check_oid_scalar]
  simp only [oid_missing]
  constructor
  · rintro (⟨i, hi, heq⟩ | ⟨hz, hv⟩)
    · have : ¬ pgrhash_get ht [val] = -1 := fun h => hget.1 h i hi heq
      simp [this]
    · simp [hz, hv]
  · intro h
    have h1 : pgrhash_get ht [val] = -1 :=
      hget.2 (fun i hi heq => h (Or.inl ⟨i, hi, heq⟩))
    have h2 : (zok && val == ['0']) = false := by
      cases hz : zok with
      | false => rfl
      | true =>
        have : val ≠ ['0'] := fun hv => h (Or.inr ⟨hz, hv⟩)
        simp [this]
    simp [h1, h2]

/-- Witness of C1 on `sample_result`, keyed by its oid column. -/
theorem check_oid_scalar_diagnostics_witness :
    PQntuples sample_result < 2 ^ 31
      ∧ ∃ results ht, pgrhash_build sample_result 1 [0] = some (results, ht)
        ∧ ∀ (zero_oid_ok : Bool) (reftable val : CStr),
          (((∃ i, i < PQntuples sample_result ∧ PQgetvalue sample_result i 0 = val)
              ∨ (zero_oid_ok = true ∧ val = ['0'])) →
            reports (check_oid_reference
              { type := checktype.CHECK_OID_REFERENCE, zero_oid_ok := zero_oid_ok,
                oid_references_table := reftable }
              { table_name := reftable, ht := some ht } val) = [])
          ∧ (¬ ((∃ i, i < PQntuples sample_result ∧ PQgetvalue sample_result i 0 = val)
              ∨ (zero_oid_ok = true ∧ val = ['0'])) →
            reports (check_oid_reference
              { type := checktype.CHECK_OID_REFERENCE, zero_oid_ok := zero_oid_ok,
                oid_references_table := reftable }
              { table_name := reftable, ht := some ht } val)
              = [Report.no_matching_entry reftable]) :=
  ⟨by decide, check_oid_scalar_diagnostics sample_result 0 (by decide)⟩

/-- C5: vector OID check of a value made of k >= 1 non-empty, space-free tokens of fewer
than 32 bytes separated by single spaces: exactly those tokens are passed to the scalar
token check `do_oid_check`, each once and from left to right (the trace is the
concatenation of their scalar checks, which probes the index for every token but a legal
zero), and the diagnostics are one "not found" for exactly the tokens that are absent from
the reference index and are not the legal zero. -/
theorem check_oid_vector_tokens_checked_once (check_oid : pg_catalog_check_oid)
    (reftab : pg_catalog_table) (ht : pgrhash) (tokens : List CStr)
    (htype : check_oid.type = checktype.CHECK_OID_VECTOR_REFERENCE)
    (hht : reftab.ht = some ht) (hne : tokens ≠ [])
    (htok : ∀ t ∈ tokens, t ≠ [] ∧ ' ' ∉ t ∧ t.length < 32) :
    check_oid_reference check_oid reftab ([' '].intercalate tokens)
        = tokens.flatMap (do_oid_check check_oid reftab.table_name ht)
      ∧ oid_checks (check_oid_reference check_oid reftab ([' '].intercalate tokens)) = tokens
      ∧ reports (check_oid_reference check_oid reftab ([' '].intercalate tokens))
        = (tokens.filter (oid_missing check_oid ht)).map
            (fun t => Report.not_found t reftab.table_name)
      ∧ gets (check_oid_reference check_oid reftab ([' '].intercalate tokens))
        = (tokens.filter (fun t => !(check_oid.zero_oid_ok && t == ['0']))).map
            (fun t => [t]) := by
  have key : check_oid_reference check_oid reftab ([' '].intercalate tokens)
      = tokens.flatMap (do_oid_check check_oid reftab.table_name ht) := by
    have hsplit := List.dropLast_append_getLast hne
    have hlast := htok _ (List.getLast_mem hne)
    rw [check_oid_reference_vector _ _ ht _ htype hht]
    conv => lhs; rw [← hsplit]
    rw [intercalate_eq_terminated,
      check_oid_vector_words _ _ _ _ hlast.2.1 _
        (fun t h => (htok t (List.mem_of_mem_dropLast h)).2),
      if_pos hlast.1]
    conv => rhs; rw [← hsplit]
    rw [List.flatMap_append]
    simp
  rw [key]
  exact ⟨rfl, oid_checks_flatMap _ _ _ _, reports_flatMap _ _ _ _, gets_flatMap _ _ _ _⟩

/-- Witness of C5: the vector "10 0 7" with zero legal; only "7" is reported. -/
theorem check_oid_vector_tokens_checked_once_witness :
    (sample_check checktype.CHECK_OID_VECTOR_REFERENCE true).type
        = checktype.CHECK_OID_VECTOR_REFERENCE
      ∧ sample_reftab.ht = some sample_ht
      ∧ ["10".data, "0".data, "7".data] ≠ []
      ∧ (∀ t ∈ ["10".data, "0".data, "7".data], t ≠ [] ∧ ' ' ∉ t ∧ t.length < 32)
      ∧ check_oid_reference (sample_check checktype.CHECK_OID_VECTOR_REFERENCE true)
            sample_reftab ([' '].intercalate ["10".data, "0".data, "7".data])
          = ["10".data, "0".data, "7".data].flatMap
              (do_oid_check (sample_check checktype.CHECK_OID_VECTOR_REFERENCE true)
                sample_reftab.table_name sample_ht)
      ∧ oid_checks (check_oid_reference
            (sample_check checktype.CHECK_OID_VECTOR_REFERENCE true)
            sample_reftab ([' '].intercalate ["10".data, "0".data, "7".data]))
          = ["10".data, "0".data, "7".data]
      ∧ reports (check_oid_reference
            (sample_check checktype.CHECK_OID_VECTOR_REFERENCE true)
            sample_reftab ([' '].intercalate ["10".data, "0".data, "7".data]))
          = (["10".data, "0".data, "7".data].filter
              (oid_missing (sample_check checktype.CHECK_OID_VECTOR_REFERENCE true)
                sample_ht)).map
              (fun t => Report.not_found t sample_reftab.table_name)
      ∧ gets (check_oid_reference
            (sample_check checktype.CHECK_OID_VECTOR_REFERENCE true)
            sample_reftab ([' '].intercalate ["10".data, "0".data, "7".data]))
          = (["10".data, "0".data, "7".data].filter
              (fun t => !((sample_check checktype.CHECK_OID_VECTOR_REFERENCE true).zero_oid_ok
                && t == ['0']))).map (fun t => [t]) :=
  ⟨rfl, rfl, by decide, by decide,
    check_oid_vector_tokens_checked_once
      (sample_check checktype.CHECK_OID_VECTOR_REFERENCE true) sample_reftab sample_ht
      ["10".data, "0".data, "7".data] rfl rfl (by decide) (by decide)⟩

/-- C6: array OID check of a value `{t1,...,tk}` with k >= 1 non-empty tokens that
contain neither comma nor closing brace and are shorter than 32 bytes: exactly t1..tk are
passed to the scalar token check, each once and in order, one "not found" diagnostic is
emitted per token absent from the reference index (and not the legal zero), and no
"not a valid 1-D array" diagnostic is emitted. -/
theorem check_oid_array_tokens_checked_once (check_oid : pg_catalog_check_oid)
    (reftab : pg_catalog_table) (ht : pgrhash) (tokens : List CStr)
    (htype : check_oid.type = checktype.CHECK_OID_ARRAY_REFERENCE)
    (hht : reftab.ht = some ht) (hne : tokens ≠ [])
    (htok : ∀ t ∈ tokens, array_token t ∧ t.length < 32) :
    check_oid_reference check_oid reftab ('{' :: [','].intercalate tokens ++ ['}'])
        = tokens.flatMap (do_oid_check check_oid reftab.table_name ht)
      ∧ oid_checks (check_oid_reference check_oid reftab
          ('{' :: [','].intercalate tokens ++ ['}'])) = tokens
      ∧ reports (check_oid_reference check_oid reftab
          ('{' :: [','].intercalate tokens ++ ['}']))
        = (tokens.filter (oid_missing check_oid ht)).map
            (fun t => Report.not_found t reftab.table_name)
      ∧ gets (check_oid_reference check_oid reftab
          ('{' :: [','].intercalate tokens ++ ['}']))
        = (tokens.filter (fun t => !(check_oid.zero_oid_ok && t == ['0']))).map
            (fun t => [t])
      ∧ Report.not_valid_array ∉ reports (check_oid_reference check_oid reftab
          ('{' :: [','].intercalate tokens ++ ['}'])) := by
  have key : check_oid_reference check_oid reftab
      ('{' :: [','].intercalate tokens ++ ['}'])
      = tokens.flatMap (do_oid_check check_oid reftab.table_name ht) := by
    have hsplit := List.dropLast_append_getLast hne
    have hlast := htok _ (List.getLast_mem hne)
    rw [check_oid_reference_array _ _ ht _ htype hht]
    conv => lhs; rw [← hsplit]
    rw [intercalate_eq_terminated]
    show check_oid_array_loop _ _ _ [] (terminated ',' tokens.dropLast
      ++ tokens.getLast hne ++ ['}']) = _
    rw [List.append_assoc,
      check_oid_array_loop_tokens _ _ _ _ _
        (fun t h => htok t (List.mem_of_mem_dropLast h)),
      check_oid_array_loop_brace _ _ _ _ _ hlast.1 hlast.2, if_neg (by simp)]
    conv => rhs; rw [← hsplit]
    rw [List.flatMap_append]
    simp
  rw [key]
  refine ⟨rfl, oid_checks_flatMap _ _ _ _, reports_flatMap _ _ _ _, gets_flatMap _ _ _ _, ?_⟩
  rw [reports_flatMap]
  simp

/-- Witness of C6: the array of 10, 0 and 7 with zero legal; only "7" is reported. -/
theorem check_oid_array_tokens_checked_once_witness :
    (sample_check checktype.CHECK_OID_ARRAY_REFERENCE true).type
        = checktype.CHECK_OID_ARRAY_REFERENCE
      ∧ sample_reftab.ht = some sample_ht
      ∧ ["10".data, "0".data, "7".data] ≠ []
      ∧ (∀ t ∈ ["10".data, "0".data, "7".data], array_token t ∧ t.length < 32)
      ∧ check_oid_reference (sample_check checktype.CHECK_OID_ARRAY_REFERENCE true)
            sample_reftab ('{' :: [','].intercalate ["10".data, "0".data, "7".data] ++ ['}'])
          = ["10".data, "0".data, "7".data].flatMap
              (do_oid_check (sample_check checktype.CHECK_OID_ARRAY_REFERENCE true)
                sample_reftab.table_name sample_ht)
      ∧ oid_checks (check_oid_reference
            (sample_check checktype.CHECK_OID_ARRAY_REFERENCE true)
            sample_reftab ('{' :: [','].intercalate ["10".data, "0".data, "7".data] ++ ['}']))
          = ["10".data, "0".data, "7".data]
      ∧ reports (check_oid_reference
            (sample_check checktype.CHECK_OID_ARRAY_REFERENCE true)
            sample_reftab ('{' :: [','].intercalate ["10".data, "0".data, "7".data] ++ ['}']))
          = (["10".data, "0".data, "7".data].filter
              (oid_missing (sample_check checktype.CHECK_OID_ARRAY_REFERENCE true)
                sample_ht)).map
              (fun t => Report.not_found t sample_reftab.table_name)
      ∧ gets (check_oid_reference
            (sample_check checktype.CHECK_OID_ARRAY_REFERENCE true)
            sample_reftab ('{' :: [','].intercalate ["10".data, "0".data, "7".data] ++ ['}']))
          = (["10".data, "0".data, "7".data].filter
              (fun t => !((sample_check checktype.CHECK_OID_ARRAY_REFERENCE true).zero_oid_ok
                && t == ['0']))).map (fun t => [t])
      ∧ Report.not_valid_array ∉ reports (check_oid_reference
            (sample_check checktype.CHECK_OID_ARRAY_REFERENCE true)
            sample_reftab
            ('{' :: [','].intercalate ["10".data, "0".data, "7".data] ++ ['}'])) :=
  ⟨rfl, rfl, by decide, by simp [array_token],
    check_oid_array_tokens_checked_once
      (sample_check checktype.CHECK_OID_ARRAY_REFERENCE true) sample_reftab sample_ht
      ["10".data, "0".data, "7".data] rfl rfl (by decide) (by simp [array_token])⟩

theorem count_not_valid_not_found (name : CStr) (ts : List CStr) :
    (ts.map (fun t => Report.not_found t name)).count Report.not_valid_array = 0 := by
  rw [List.count_eq_zero]
  intro h
  obtain ⟨t, _, ht⟩ := List.mem_map.1 h
  exact absurd ht (by simp)

/-- The diagnostics of a trace that checks the tokens `ts` and then reports a bad array:
the "not found" of the missing tokens, then the single "not a valid 1-D array". -/
theorem reports_tokens_then_not_valid (co : pg_catalog_check_oid) (name : CStr)
    (ht : pgrhash) (ts : List CStr) :
    reports (ts.flatMap (do_oid_check co name ht) ++ [Event.report Report.not_valid_array])
        = (ts.filter (oid_missing co ht)).map (fun t => Report.not_found t name)
          ++ [Report.not_valid_array]
      ∧ (reports (ts.flatMap (do_oid_check co name ht)
          ++ [Event.report Report.not_valid_array])).count Report.not_valid_array = 1 := by
  have h : reports (ts.flatMap (do_oid_check co name ht)
      ++ [Event.report Report.not_valid_array])
      = (ts.filter (oid_missing co ht)).map (fun t => Report.not_found t name)
        ++ [Report.not_valid_array] := by
    rw [reports_append, reports_flatMap]
    rfl
  rw [h]
  refine ⟨rfl, ?_⟩
  rw [List.count_append, count_not_valid_not_found]
  rfl

/-- C7, as the code has it: the value "{}" draws the diagnostic "not a valid 1-D array"
(here against the index of `sample_result`), so it is not a legal empty collection. -/
theorem check_oid_array_empty_braces_reported :
    reports (check_oid_reference (sample_check checktype.CHECK_OID_ARRAY_REFERENCE true)
      sample_reftab ['{', '}']) = [Report.not_valid_array] := by
  decide

/-- C7, amended: in the array OID check the empty string is the legal empty collection and
draws no diagnostic (nor any lookup), whatever the reference table contains; the value "{}"
is rejected: it draws exactly one diagnostic, "not a valid 1-D array", and no lookup. -/
theorem check_oid_array_empty_values (zero_oid_ok : Bool) (reftable : CStr) (ht : pgrhash) :
    check_oid_reference
        { type := checktype.CHECK_OID_ARRAY_REFERENCE, zero_oid_ok := zero_oid_ok,
          oid_references_table := reftable }
        { table_name := reftable, ht := some ht } [] = []
      ∧ check_oid_reference
        { type := checktype.CHECK_OID_ARRAY_REFERENCE, zero_oid_ok := zero_oid_ok,
          oid_references_table := reftable }
        { table_name := reftable, ht := some ht } ['{', '}']
        = [Event.report Report.not_valid_array] := by
  constructor
  · rfl
  · simp [check_oid_reference, check_oid_array, check_oid_array_loop]

/-- C8, as the code has it: on the unterminated value "{1,2" checked against an index
without the key "1", the token "1" draws a "not found" diagnostic before the
"not a valid 1-D array" diagnostic, so the per-token diagnostics are not zero. -/
theorem check_oid_array_unterminated_token_reported :
    reports (check_oid_reference (sample_check checktype.CHECK_OID_ARRAY_REFERENCE true)
      sample_reftab ['{', '1', ',', '2'])
      = [Report.not_found ['1'] sample_reftab.table_name, Report.not_valid_array] := by
  decide

/-- C8, amended: array OID check of an unterminated value `{t1,...,tk` (k >= 1 tokens
without comma or closing brace, no closing brace at the end), where the tokens before the
last are non-empty and shorter than 32 bytes: exactly one "not a valid 1-D array"
diagnostic is emitted, as the last event; the tokens t1..t(k-1) are passed to the scalar
token check and each of them that is absent from the reference index (and not the legal
zero) draws a "not found" diagnostic before it; the last token tk is never checked. -/
theorem check_oid_array_unterminated (check_oid : pg_catalog_check_oid)
    (reftab : pg_catalog_table) (ht : pgrhash) (tokens : List CStr) (last : CStr)
    (htype : check_oid.type = checktype.CHECK_OID_ARRAY_REFERENCE)
    (hht : reftab.ht = some ht)
    (htok : ∀ t ∈ tokens, array_token t ∧ t.length < 32)
    (hlast : ',' ∉ last ∧ '}' ∉ last) :
    check_oid_reference check_oid reftab ('{' :: [','].intercalate (tokens ++ [last]))
        = tokens.flatMap (do_oid_check check_oid reftab.table_name ht)
          ++ [Event.report Report.not_valid_array]
      ∧ oid_checks (check_oid_reference check_oid reftab
          ('{' :: [','].intercalate (tokens ++ [last]))) = tokens
      ∧ reports (check_oid_reference check_oid reftab
          ('{' :: [','].intercalate (tokens ++ [last])))
        = (tokens.filter (oid_missing check_oid ht)).map
            (fun t => Report.not_found t reftab.table_name) ++ [Report.not_valid_array]
      ∧ (reports (check_oid_reference check_oid reftab
          ('{' :: [','].intercalate (tokens ++ [last])))).count Report.not_valid_array
        = 1 := by
  have key : check_oid_reference check_oid reftab
      ('{' :: [','].intercalate (tokens ++ [last]))
      = tokens.flatMap (do_oid_check check_oid reftab.table_name ht)
        ++ [Event.report Report.not_valid_array] := by
    rw [check_oid_reference_array _ _ ht _ htype hht, intercalate_eq_terminated]
    show check_oid_array_loop _ _ _ [] (terminated ',' tokens ++ last) = _
    rw [check_oid_array_loop_tokens _ _ _ _ _ htok,
      check_oid_array_loop_unterminated _ _ _ _ hlast.1 hlast.2]
  rw [key]
  have hr := reports_tokens_then_not_valid check_oid reftab.table_name ht tokens
  refine ⟨rfl, ?_, hr.1, hr.2⟩
  rw [oid_checks_append, oid_checks_flatMap]
  simp [oid_checks]

/-- Witness of C8 amended: the value "{1,2" against the index of `sample_result`. -/
theorem check_oid_array_unterminated_witness :
    (sample_check checktype.CHECK_OID_ARRAY_REFERENCE true).type
        = checktype.CHECK_OID_ARRAY_REFERENCE
      ∧ sample_reftab.ht = some sample_ht
      ∧ (∀ t ∈ [['1']], array_token t ∧ t.length < 32)
      ∧ (',' ∉ ['2'] ∧ '}' ∉ ['2'])
      ∧ check_oid_reference (sample_check checktype.CHECK_OID_ARRAY_REFERENCE true)
            sample_reftab ('{' :: [','].intercalate ([['1']] ++ [['2']]))
          = [['1']].flatMap
              (do_oid_check (sample_check checktype.CHECK_OID_ARRAY_REFERENCE true)
                sample_reftab.table_name sample_ht)
            ++ [Event.report Report.not_valid_array]
      ∧ oid_checks (check_oid_reference
            (sample_check checktype.CHECK_OID_ARRAY_REFERENCE true)
            sample_reftab ('{' :: [','].intercalate ([['1']] ++ [['2']]))) = [['1']]
      ∧ reports (check_oid_reference
            (sample_check checktype.CHECK_OID_ARRAY_REFERENCE true)
            sample_reftab ('{' :: [','].intercalate ([['1']] ++ [['2']])))
          = ([['1']].filter
              (oid_missing (sample_check checktype.CHECK_OID_ARRAY_REFERENCE true)
                sample_ht)).map
              (fun t => Report.not_found t sample_reftab.table_name)
            ++ [Report.not_valid_array]
      ∧ (reports (check_oid_reference
            (sample_check checktype.CHECK_OID_ARRAY_REFERENCE true)
            sample_reftab
            ('{' :: [','].intercalate ([['1']] ++ [['2']])))).count Report.not_valid_array
          = 1 :=
  ⟨rfl, rfl, by simp [array_token], by decide,
    check_oid_array_unterminated
      (sample_check checktype.CHECK_OID_ARRAY_REFERENCE true) sample_reftab sample_ht
      [['1']] ['2'] rfl rfl (by simp [array_token]) (by decide)⟩

/-- C9, as the code has it: the value made of an opening brace, a token of 32 bytes and a
comma has no closing brace, yet the check stops at the token with the length diagnostic
and emits no "not a valid 1-D array" diagnostic. -/
theorem check_oid_array_long_token_hides_bad_array :
    reports (check_oid_reference (sample_check checktype.CHECK_OID_ARRAY_REFERENCE true)
      sample_reftab ('{' :: List.replicate 32 '1' ++ [',']))
      = [Report.token_too_long 32] := by
  decide

/-- C9, amended: array OID check of a non-empty value with malformed delimiters, where
every token that a comma or closing brace ends before the malformation is shorter than 32
bytes: exactly one "not a valid 1-D array" diagnostic is emitted, as the last event, after
the scalar checks of those tokens.  The four malformations are: no opening brace (nothing
is checked); no closing brace (the unterminated last word is not checked); two consecutive
delimiters; a character after the closing brace.  (A token of 32 bytes or more before the
malformation ends the check with "contains a token of N characters" instead.) -/
theorem check_oid_array_malformed (check_oid : pg_catalog_check_oid)
    (reftab : pg_catalog_table) (ht : pgrhash) (tokens : List CStr)
    (first : Char) (rest last : CStr) (d : Char) (rest1 : CStr)
    (t : CStr) (c : Char) (rest2 : CStr)
    (htype : check_oid.type = checktype.CHECK_OID_ARRAY_REFERENCE)
    (hht : reftab.ht = some ht)
    (htok : ∀ x ∈ tokens, array_token x ∧ x.length < 32)
    (hfirst : first ≠ '{')
    (hlast : ',' ∉ last ∧ '}' ∉ last)
    (hd : d = ',' ∨ d = '}')
    (ht' : array_token t ∧ t.length < 32) :
    (check_oid_reference check_oid reftab (first :: rest)
        = [Event.report Report.not_valid_array])
      ∧ (check_oid_reference check_oid reftab ('{' :: terminated ',' tokens ++ last)
          = tokens.flatMap (do_oid_check check_oid reftab.table_name ht)
            ++ [Event.report Report.not_valid_array]
        ∧ (reports (check_oid_reference check_oid reftab
            ('{' :: terminated ',' tokens ++ last))).count Report.not_valid_array = 1)
      ∧ (check_oid_reference check_oid reftab ('{' :: terminated ',' tokens ++ d :: rest1)
          = tokens.flatMap (do_oid_check check_oid reftab.table_name ht)
            ++ [Event.report Report.not_valid_array]
        ∧ (reports (check_oid_reference check_oid reftab
            ('{' :: terminated ',' tokens ++ d :: rest1))).count Report.not_valid_array = 1)
      ∧ (check_oid_reference check_oid reftab
            ('{' :: terminated ',' tokens ++ t ++ '}' :: c :: rest2)
          = (tokens ++ [t]).flatMap (do_oid_check check_oid reftab.table_name ht)
            ++ [Event.report Report.not_valid_array]
        ∧ (reports (check_oid_reference check_oid reftab
            ('{' :: terminated ',' tokens ++ t ++ '}' :: c :: rest2))).count
              Report.not_valid_array = 1) := by
  have k1 : check_oid_reference check_oid reftab ('{' :: terminated ',' tokens ++ last)
      = tokens.flatMap (do_oid_check check_oid reftab.table_name ht)
        ++ [Event.report Report.not_valid_array] := by
    rw [check_oid_reference_array _ _ ht _ htype hht]
    show check_oid_array_loop _ _ _ [] (terminated ',' tokens ++ last) = _
    rw [check_oid_array_loop_tokens _ _ _ _ _ htok,
      check_oid_array_loop_unterminated _ _ _ _ hlast.1 hlast.2]
  have k2 : check_oid_reference check_oid reftab
      ('{' :: terminated ',' tokens ++ d :: rest1)
      = tokens.flatMap (do_oid_check check_oid reftab.table_name ht)
        ++ [Event.report Report.not_valid_array] := by
    rw [check_oid_reference_array _ _ ht _ htype hht]
    show check_oid_array_loop _ _ _ [] (terminated ',' tokens ++ d :: rest1) = _
    rw [check_oid_array_loop_tokens _ _ _ _ _ htok,
      check_oid_array_loop_empty_token _ _ _ _ _ hd]
  have k3 : check_oid_reference check_oid reftab
      ('{' :: terminated ',' tokens ++ t ++ '}' :: c :: rest2)
      = (tokens ++ [t]).flatMap (do_oid_check check_oid reftab.table_name ht)
        ++ [Event.report Report.not_valid_array] := by
    rw [check_oid_reference_array _ _ ht _ htype hht]
    show check_oid_array_loop _ _ _ [] (terminated ',' tokens ++ t ++ '}' :: c :: rest2) = _
    rw [List.append_assoc, check_oid_array_loop_tokens _ _ _ _ _ htok,
      check_oid_array_loop_brace _ _ _ _ _ ht'.1 ht'.2, if_pos (by simp),
      List.flatMap_append]
    simp
  refine ⟨?_, ⟨k1, ?_⟩, ⟨k2, ?_⟩, ⟨k3, ?_⟩⟩
  · rw [check_oid_reference_array _ _ ht _ htype hht, check_oid_array, if_neg hfirst]
  · rw [k1]; exact (reports_tokens_then_not_valid _ _ _ _).2
  · rw [k2]; exact (reports_tokens_then_not_valid _ _ _ _).2
  · rw [k3]; exact (reports_tokens_then_not_valid _ _ _ _).2

/-- Witness of C9 amended, with the token "10" before the malformation: the values
"10}", "{10,2", "{10,,2}" and "{10,20}x". -/
theorem check_oid_array_malformed_witness :
    (sample_check checktype.CHECK_OID_ARRAY_REFERENCE true).type
        = checktype.CHECK_OID_ARRAY_REFERENCE
      ∧ sample_reftab.ht = some sample_ht
      ∧ (∀ x ∈ [['1', '0']], array_token x ∧ x.length < 32)
      ∧ '1' ≠ '{'
      ∧ (',' ∉ ['2'] ∧ '}' ∉ ['2'])
      ∧ (',' = ',' ∨ ',' = '}')
      ∧ (array_token ['2', '0'] ∧ ['2', '0'].length < 32)
      ∧ (check_oid_reference (sample_check checktype.CHECK_OID_ARRAY_REFERENCE true)
            sample_reftab ('1' :: ['0', '}'])
          = [Event.report Report.not_valid_array])
      ∧ (check_oid_reference (sample_check checktype.CHECK_OID_ARRAY_REFERENCE true)
            sample_reftab ('{' :: terminated ',' [['1', '0']] ++ ['2'])
          = [['1', '0']].flatMap
              (do_oid_check (sample_check checktype.CHECK_OID_ARRAY_REFERENCE true)
                sample_reftab.table_name sample_ht)
            ++ [Event.report Report.not_valid_array]
        ∧ (reports (check_oid_reference
            (sample_check checktype.CHECK_OID_ARRAY_REFERENCE true) sample_reftab
            ('{' :: terminated ',' [['1', '0']] ++ ['2']))).count Report.not_valid_array = 1)
      ∧ (check_oid_reference (sample_check checktype.CHECK_OID_ARRAY_REFERENCE true)
            sample_reftab ('{' :: terminated ',' [['1', '0']] ++ ',' :: ['2', '}'])
          = [['1', '0']].flatMap
              (do_oid_check (sample_check checktype.CHECK_OID_ARRAY_REFERENCE true)
                sample_reftab.table_name sample_ht)
            ++ [Event.report Report.not_valid_array]
        ∧ (reports (check_oid_reference
            (sample_check checktype.CHECK_OID_ARRAY_REFERENCE true) sample_reftab
            ('{' :: terminated ',' [['1', '0']] ++ ',' :: ['2', '}']))).count
              Report.not_valid_array = 1)
      ∧ (check_oid_reference (sample_check checktype.CHECK_OID_ARRAY_REFERENCE true)
            sample_reftab ('{' :: terminated ',' [['1', '0']] ++ ['2', '0'] ++ '}' :: 'x' :: [])
          = ([['1', '0']] ++ [['2', '0']]).flatMap
              (do_oid_check (sample_check checktype.CHECK_OID_ARRAY_REFERENCE true)
                sample_reftab.table_name sample_ht)
            ++ [Event.report Report.not_valid_array]
        ∧ (reports (check_oid_reference
            (sample_check checktype.CHECK_OID_ARRAY_REFERENCE true) sample_reftab
            ('{' :: terminated ',' [['1', '0']] ++ ['2', '0'] ++ '}' :: 'x' :: []))).count
              Report.not_valid_array = 1) :=
  ⟨rfl, rfl, by simp [array_token], by decide, by decide, by decide, by simp [array_token],
    check_oid_array_malformed
      (sample_check checktype.CHECK_OID_ARRAY_REFERENCE true) sample_reftab sample_ht
      [['1', '0']] '1' ['0', '}'] ['2'] ',' ['2', '}'] ['2', '0'] 'x' []
      rfl rfl (by simp [array_token]) (by decide) (by decide) (by decide)
      (by simp [array_token])⟩

/-- C10, as the code has it: in the vector "10  20" (two consecutive spaces) the empty
token between the spaces is looked up in the index like the other two and draws a
"not found" diagnostic. -/
theorem check_oid_vector_empty_token_looked_up :
    gets (check_oid_reference (sample_check checktype.CHECK_OID_VECTOR_REFERENCE true)
        sample_reftab ['1', '0', ' ', ' ', '2', '0'])
        = [[['1', '0']], [[]], [['2', '0']]]
      ∧ reports (check_oid_reference
          (sample_check checktype.CHECK_OID_VECTOR_REFERENCE true)
          sample_reftab ['1', '0', ' ', ' ', '2', '0'])
        = [Report.not_found [] sample_reftab.table_name] := by
  decide

/-- The vector loop on `t1 t2 ... tj ` followed by `rest`: the words are checked in order
and the loop goes on with `rest`. -/
theorem check_oid_vector_tokens (co : pg_catalog_check_oid) (name : CStr) (ht : pgrhash)
    (rest : CStr) (ws : List CStr) (hws : ∀ t ∈ ws, ' ' ∉ t ∧ t.length < 32) :
    check_oid_vector co name ht [] (terminated ' ' ws ++ rest)
      = ws.flatMap (do_oid_check co name ht) ++ check_oid_vector co name ht [] rest := by
  induction ws with
  | nil => simp [terminated]
  | cons t ws ih =>
    have ht' := hws t (List.mem_cons_self _ _)
    have := ih (fun x hx => hws x (List.mem_cons_of_mem _ hx))
    have e : terminated ' ' (t :: ws) ++ rest = t ++ ' ' :: (terminated ' ' ws ++ rest) := by
      simp [terminated]
    rw [e, check_oid_vector_word co name ht t _ ht'.1 ht'.2, this, List.flatMap_cons,
      List.append_assoc]

/-- C10, amended: vector OID check of a value `w1 w2 ... wk w` (space-free words, every
word but the last followed by one space, the space-terminated words shorter than 32
bytes): every space-terminated word is checked as a scalar reference, an empty one too
(it is looked up as the empty key and reported when the index has no such key); only the
last word is skipped when it is empty, that is for an empty value or after a trailing
space.  The checked words are `words`, followed by `last` unless `last` is empty.  When
the words are followed by a space-terminated word `long` of 32 bytes or more instead, the
check ends there with "contains a token of N characters": the checked words are `words`,
whatever follows `long`. -/
theorem check_oid_vector_words_checked (check_oid : pg_catalog_check_oid)
    (reftab : pg_catalog_table) (ht : pgrhash) (words : List CStr) (last long rest : CStr)
    (htype : check_oid.type = checktype.CHECK_OID_VECTOR_REFERENCE)
    (hht : reftab.ht = some ht)
    (hwords : ∀ t ∈ words, ' ' ∉ t ∧ t.length < 32)
    (hlast : ' ' ∉ last)
    (hlong : ' ' ∉ long ∧ 32 ≤ long.length) :
    (check_oid_reference check_oid reftab ([' '].intercalate (words ++ [last]))
        = (words ++ (if last ≠ [] then [last] else [])).flatMap
            (do_oid_check check_oid reftab.table_name ht)
      ∧ oid_checks (check_oid_reference check_oid reftab
          ([' '].intercalate (words ++ [last])))
        = words ++ (if last ≠ [] then [last] else [])
      ∧ gets (check_oid_reference check_oid reftab ([' '].intercalate (words ++ [last])))
        = ((words ++ (if last ≠ [] then [last] else [])).filter
            (fun t => !(check_oid.zero_oid_ok && t == ['0']))).map (fun t => [t])
      ∧ reports (check_oid_reference check_oid reftab ([' '].intercalate (words ++ [last])))
        = ((words ++ (if last ≠ [] then [last] else [])).filter
            (oid_missing check_oid ht)).map
            (fun t => Report.not_found t reftab.table_name))
    ∧ (check_oid_reference check_oid reftab (terminated ' ' words ++ long ++ ' ' :: rest)
        = words.flatMap (do_oid_check check_oid reftab.table_name ht)
          ++ [Event.report (Report.token_too_long long.length)]
      ∧ oid_checks (check_oid_reference check_oid reftab
          (terminated ' ' words ++ long ++ ' ' :: rest)) = words
      ∧ reports (check_oid_reference check_oid reftab
          (terminated ' ' words ++ long ++ ' ' :: rest))
        = (words.filter (oid_missing check_oid ht)).map
            (fun t => Report.not_found t reftab.table_name)
          ++ [Report.token_too_long long.length]) := by
  have key : check_oid_reference check_oid reftab ([' '].intercalate (words ++ [last]))
      = (words ++ (if last ≠ [] then [last] else [])).flatMap
          (do_oid_check check_oid reftab.table_name ht) := by
    rw [check_oid_reference_vector _ _ ht _ htype hht, intercalate_eq_terminated,
      check_oid_vector_words _ _ _ _ hlast _ hwords, List.flatMap_append]
    by_cases h : last = []
    · simp [h]
    · simp [h]
  have stop : check_oid_reference check_oid reftab
      (terminated ' ' words ++ long ++ ' ' :: rest)
      = words.flatMap (do_oid_check check_oid reftab.table_name ht)
        ++ [Event.report (Report.token_too_long long.length)] := by
    rw [check_oid_reference_vector _ _ ht _ htype hht, List.append_assoc,
      check_oid_vector_tokens _ _ _ _ _ hwords,
      check_oid_vector_long_word _ _ _ _ _ hlong.1 hlong.2]
  refine ⟨?_, stop, ?_, ?_⟩
  · rw [key]
    exact ⟨rfl, oid_checks_flatMap _ _ _ _, gets_flatMap _ _ _ _, reports_flatMap _ _ _ _⟩
  · rw [stop, oid_checks_append, oid_checks_flatMap]
    simp [oid_checks]
  · rw [stop, reports_append, reports_flatMap]
    simp [reports]

/-- Witness of C10 amended: the value " 10  20 " has the space-terminated words "", "10",
"" and "20" and an empty last word; in the other value the four words are followed by a
token of 40 bytes and by " 10". -/
theorem check_oid_vector_words_checked_witness :
    (sample_check checktype.CHECK_OID_VECTOR_REFERENCE true).type
        = checktype.CHECK_OID_VECTOR_REFERENCE
      ∧ sample_reftab.ht = some sample_ht
      ∧ (∀ t ∈ [[], ['1', '0'], [], ['2', '0']], ' ' ∉ t ∧ t.length < 32)
      ∧ ' ' ∉ ([] : CStr)
      ∧ (' ' ∉ List.replicate 40 '1' ∧ 32 ≤ (List.replicate 40 '1').length)
      ∧ (check_oid_reference (sample_check checktype.CHECK_OID_VECTOR_REFERENCE true)
            sample_reftab ([' '].intercalate ([[], ['1', '0'], [], ['2', '0']] ++ [[]]))
          = ([[], ['1', '0'], [], ['2', '0']]
              ++ (if ([] : CStr) ≠ [] then [[]] else [])).flatMap
              (do_oid_check (sample_check checktype.CHECK_OID_VECTOR_REFERENCE true)
                sample_reftab.table_name sample_ht)
        ∧ oid_checks (check_oid_reference
            (sample_check checktype.CHECK_OID_VECTOR_REFERENCE true)
            sample_reftab ([' '].intercalate ([[], ['1', '0'], [], ['2', '0']] ++ [[]])))
          = [[], ['1', '0'], [], ['2', '0']] ++ (if ([] : CStr) ≠ [] then [[]] else [])
        ∧ gets (check_oid_reference
            (sample_check checktype.CHECK_OID_VECTOR_REFERENCE true)
            sample_reftab ([' '].intercalate ([[], ['1', '0'], [], ['2', '0']] ++ [[]])))
          = (([[], ['1', '0'], [], ['2', '0']]
              ++ (if ([] : CStr) ≠ [] then [[]] else [])).filter
              (fun t => !((sample_check checktype.CHECK_OID_VECTOR_REFERENCE true).zero_oid_ok
                && t == ['0']))).map (fun t => [t])
        ∧ reports (check_oid_reference
            (sample_check checktype.CHECK_OID_VECTOR_REFERENCE true)
            sample_reftab ([' '].intercalate ([[], ['1', '0'], [], ['2', '0']] ++ [[]])))
          = (([[], ['1', '0'], [], ['2', '0']]
              ++ (if ([] : CStr) ≠ [] then [[]] else [])).filter
              (oid_missing (sample_check checktype.CHECK_OID_VECTOR_REFERENCE true)
                sample_ht)).map
              (fun t => Report.not_found t sample_reftab.table_name))
      ∧ (check_oid_reference (sample_check checktype.CHECK_OID_VECTOR_REFERENCE true)
            sample_reftab
            (terminated ' ' [[], ['1', '0'], [], ['2', '0']] ++ List.replicate 40 '1'
              ++ ' ' :: ['1', '0'])
          = [[], ['1', '0'], [], ['2', '0']].flatMap
              (do_oid_check (sample_check checktype.CHECK_OID_VECTOR_REFERENCE true)
                sample_reftab.table_name sample_ht)
            ++ [Event.report (Report.token_too_long (List.replicate 40 '1').length)]
        ∧ oid_checks (check_oid_reference
            (sample_check checktype.CHECK_OID_VECTOR_REFERENCE true) sample_reftab
            (terminated ' ' [[], ['1', '0'], [], ['2', '0']] ++ List.replicate 40 '1'
              ++ ' ' :: ['1', '0']))
          = [[], ['1', '0'], [], ['2', '0']]
        ∧ reports (check_oid_reference
            (sample_check checktype.CHECK_OID_VECTOR_REFERENCE true) sample_reftab
            (terminated ' ' [[], ['1', '0'], [], ['2', '0']] ++ List.replicate 40 '1'
              ++ ' ' :: ['1', '0']))
          = ([[], ['1', '0'], [], ['2', '0']].filter
              (oid_missing (sample_check checktype.CHECK_OID_VECTOR_REFERENCE true)
                sample_ht)).map (fun t => Report.not_found t sample_reftab.table_name)
            ++ [Report.token_too_long (List.replicate 40 '1').length]) :=
  ⟨rfl, rfl, by decide, by decide, by decide,
    check_oid_vector_words_checked
      (sample_check checktype.CHECK_OID_VECTOR_REFERENCE true) sample_reftab sample_ht
      [[], ['1', '0'], [], ['2', '0']] [] (List.replicate 40 '1') ['1', '0'] rfl rfl
      (by decide) (by decide) (by decide)⟩

/-- The vector value of a first token of 40 bytes followed by " 10": the only event is the
diagnostic "contains a token of 40 characters"; the token "10" is not checked. -/
theorem check_oid_vector_long_first_token :
    check_oid_reference (sample_check checktype.CHECK_OID_VECTOR_REFERENCE true)
        sample_reftab (List.replicate 40 '1' ++ [' ', '1', '0'])
      = [Event.report (Report.token_too_long 40)] := by
  set_option maxRecDepth 20000 in decide

/-! ## The token length limit (claims C11, C12) -/

theorem not_mem_gets_flatMap (co : pg_catalog_check_oid) (name : CStr) (ht : pgrhash)
    (ts : List CStr) (long : CStr) (h : ∀ t ∈ ts, t.length < long.length) :
    [long] ∉ gets (ts.flatMap (do_oid_check co name ht)) := by
  rw [gets_flatMap]
  intro hmem
  obtain ⟨t, ht1, ht2⟩ := List.mem_map.1 hmem
  have e : t = long := by simpa using ht2
  have := h t (List.mem_of_mem_filter ht1)
  rw [e] at this
  exact absurd this (Nat.lt_irrefl _)

/-- C11, as the code has it: a vector whose only token has 33 bytes is not reported as
malformed; the token is looked up in the index and reported as not found. -/
theorem check_oid_vector_long_last_token_looked_up :
    gets (check_oid_reference (sample_check checktype.CHECK_OID_VECTOR_REFERENCE true)
        sample_reftab (List.replicate 33 '1')) = [[List.replicate 33 '1']]
      ∧ reports (check_oid_reference
          (sample_check checktype.CHECK_OID_VECTOR_REFERENCE true)
          sample_reftab (List.replicate 33 '1'))
        = [Report.not_found (List.replicate 33 '1') sample_reftab.table_name] := by
  set_option maxRecDepth 20000 in decide

/-- A vector value of a token of 33 bytes, a token of 34 bytes and "x": the check ends at
the first token, and the second draws no diagnostic. -/
theorem check_oid_vector_second_long_token :
    check_oid_reference (sample_check checktype.CHECK_OID_VECTOR_REFERENCE true)
        sample_reftab
        (List.replicate 33 'A' ++ ' ' :: (List.replicate 34 'B' ++ [' ', 'x']))
      = [Event.report (Report.token_too_long 33)] := by
  set_option maxRecDepth 20000 in decide

/-- C11, amended: in the vector OID check a token longer than 32 bytes that is followed by
a space and that only words of fewer than 32 bytes precede is reported as malformed
("contains a token of N characters") and is never looked up, and the check of the value
ends there, whatever follows the token.  The last token of a value whose other words have
fewer than 32 bytes (the only token included) is not measured: whatever its length, it is
passed to the scalar check like any other token. -/
theorem check_oid_vector_long_token (check_oid : pg_catalog_check_oid)
    (reftab : pg_catalog_table) (ht : pgrhash) (words : List CStr) (long rest last : CStr)
    (htype : check_oid.type = checktype.CHECK_OID_VECTOR_REFERENCE)
    (hht : reftab.ht = some ht)
    (hwords : ∀ t ∈ words, ' ' ∉ t ∧ t.length < 32)
    (hlong : ' ' ∉ long ∧ 32 < long.length)
    (hlast : ' ' ∉ last ∧ last ≠ []) :
    (check_oid_reference check_oid reftab (terminated ' ' words ++ long ++ ' ' :: rest)
        = words.flatMap (do_oid_check check_oid reftab.table_name ht)
          ++ [Event.report (Report.token_too_long long.length)]
      ∧ oid_checks (check_oid_reference check_oid reftab
          (terminated ' ' words ++ long ++ ' ' :: rest)) = words
      ∧ [long] ∉ gets (check_oid_reference check_oid reftab
          (terminated ' ' words ++ long ++ ' ' :: rest)))
    ∧ (check_oid_reference check_oid reftab (terminated ' ' words ++ last)
        = (words ++ [last]).flatMap (do_oid_check check_oid reftab.table_name ht)
      ∧ oid_checks (check_oid_reference check_oid reftab (terminated ' ' words ++ last))
        = words ++ [last]) := by
  have k1 : check_oid_reference check_oid reftab
      (terminated ' ' words ++ long ++ ' ' :: rest)
      = words.flatMap (do_oid_check check_oid reftab.table_name ht)
        ++ [Event.report (Report.token_too_long long.length)] := by
    rw [check_oid_reference_vector _ _ ht _ htype hht, List.append_assoc,
      check_oid_vector_tokens _ _ _ _ _ hwords,
      check_oid_vector_long_word _ _ _ _ _ hlong.1 (Nat.le_of_lt hlong.2)]
  have k2 : check_oid_reference check_oid reftab (terminated ' ' words ++ last)
      = (words ++ [last]).flatMap (do_oid_check check_oid reftab.table_name ht) := by
    rw [check_oid_reference_vector _ _ ht _ htype hht,
      check_oid_vector_words _ _ _ _ hlast.1 _ hwords, if_pos hlast.2, List.flatMap_append]
    simp
  refine ⟨⟨k1, ?_, ?_⟩, k2, ?_⟩
  · rw [k1, oid_checks_append, oid_checks_flatMap]
    simp [oid_checks]
  · rw [k1, gets_append]
    have h1 := not_mem_gets_flatMap check_oid reftab.table_name ht words long
      (fun t h => Nat.lt_trans (hwords t h).2 hlong.2)
    simpa [gets] using h1
  · rw [k2, oid_checks_flatMap]

/-- Witness of C11 amended: "10 " followed by a token of 33 bytes and " 20", and "10 "
followed by a last token of 33 bytes. -/
theorem check_oid_vector_long_token_witness :
    (sample_check checktype.CHECK_OID_VECTOR_REFERENCE true).type
        = checktype.CHECK_OID_VECTOR_REFERENCE
      ∧ sample_reftab.ht = some sample_ht
      ∧ (∀ t ∈ [['1', '0']], ' ' ∉ t ∧ t.length < 32)
      ∧ (' ' ∉ List.replicate 33 '1' ∧ 32 < (List.replicate 33 '1').length)
      ∧ (' ' ∉ List.replicate 33 '2' ∧ List.replicate 33 '2' ≠ [])
      ∧ (check_oid_reference (sample_check checktype.CHECK_OID_VECTOR_REFERENCE true)
            sample_reftab
            (terminated ' ' [['1', '0']] ++ List.replicate 33 '1' ++ ' ' :: ['2', '0'])
          = [['1', '0']].flatMap
              (do_oid_check (sample_check checktype.CHECK_OID_VECTOR_REFERENCE true)
                sample_reftab.table_name sample_ht)
            ++ [Event.report (Report.token_too_long (List.replicate 33 '1').length)]
        ∧ oid_checks (check_oid_reference
            (sample_check checktype.CHECK_OID_VECTOR_REFERENCE true) sample_reftab
            (terminated ' ' [['1', '0']] ++ List.replicate 33 '1' ++ ' ' :: ['2', '0']))
          = [['1', '0']]
        ∧ [List.replicate 33 '1'] ∉ gets (check_oid_reference
            (sample_check checktype.CHECK_OID_VECTOR_REFERENCE true) sample_reftab
            (terminated ' ' [['1', '0']] ++ List.replicate 33 '1' ++ ' ' :: ['2', '0'])))
      ∧ (check_oid_reference (sample_check checktype.CHECK_OID_VECTOR_REFERENCE true)
            sample_reftab (terminated ' ' [['1', '0']] ++ List.replicate 33 '2')
          = ([['1', '0']] ++ [List.replicate 33 '2']).flatMap
              (do_oid_check (sample_check checktype.CHECK_OID_VECTOR_REFERENCE true)
                sample_reftab.table_name sample_ht)
        ∧ oid_checks (check_oid_reference
            (sample_check checktype.CHECK_OID_VECTOR_REFERENCE true) sample_reftab
            (terminated ' ' [['1', '0']] ++ List.replicate 33 '2'))
          = [['1', '0']] ++ [List.replicate 33 '2']) :=
  ⟨rfl, rfl, by decide, by decide, by decide,
    check_oid_vector_long_token
      (sample_check checktype.CHECK_OID_VECTOR_REFERENCE true) sample_reftab sample_ht
      [['1', '0']] (List.replicate 33 '1') ['2', '0'] (List.replicate 33 '2')
      rfl rfl (by decide) (by decide) (by decide)⟩

/-- C12, as the code has it: a token of exactly 32 bytes is reported as malformed and not
looked up, in the array form and as a non-final token of the vector form. -/
theorem check_oid_token_of_32_bytes_reported :
    (reports (check_oid_reference (sample_check checktype.CHECK_OID_ARRAY_REFERENCE true)
          sample_reftab ('{' :: List.replicate 32 '1' ++ ['}']))
        = [Report.token_too_long 32]
      ∧ gets (check_oid_reference (sample_check checktype.CHECK_OID_ARRAY_REFERENCE true)
          sample_reftab ('{' :: List.replicate 32 '1' ++ ['}'])) = [])
    ∧ (reports (check_oid_reference (sample_check checktype.CHECK_OID_VECTOR_REFERENCE true)
          sample_reftab (List.replicate 32 '1' ++ [' ', '1', '0']))
        = [Report.token_too_long 32]
      ∧ gets (check_oid_reference (sample_check checktype.CHECK_OID_VECTOR_REFERENCE true)
          sample_reftab (List.replicate 32 '1' ++ [' ', '1', '0'])) = []) := by
  set_option maxRecDepth 20000 in decide

/-- C12, amended: the token buffer has 32 bytes, one of them for the terminator.  In the
array form and for tokens of the vector form that a space follows, a token of 32 bytes or
more (exactly 32 included) is reported as malformed, "contains a token of N characters",
and is not looked up; a token of at most 31 bytes is passed to the scalar check like any
other token. -/
theorem check_oid_token_length_boundary (array_check vector_check : pg_catalog_check_oid)
    (reftab : pg_catalog_table) (ht : pgrhash)
    (array_tokens vector_words : List CStr) (long short rest last : CStr) (d : Char)
    (harray : array_check.type = checktype.CHECK_OID_ARRAY_REFERENCE)
    (hvector : vector_check.type = checktype.CHECK_OID_VECTOR_REFERENCE)
    (hht : reftab.ht = some ht)
    (htokens : ∀ t ∈ array_tokens, array_token t ∧ t.length < 32)
    (hwords : ∀ t ∈ vector_words, ' ' ∉ t ∧ t.length < 32)
    (hlong : 32 ≤ long.length ∧ ',' ∉ long ∧ '}' ∉ long ∧ ' ' ∉ long)
    (hshort : short.length ≤ 31 ∧ array_token short ∧ ' ' ∉ short)
    (hd : d = ',' ∨ d = '}')
    (hlast : ' ' ∉ last) :
    check_oid_reference array_check reftab
        ('{' :: terminated ',' array_tokens ++ long ++ d :: rest)
        = array_tokens.flatMap (do_oid_check array_check reftab.table_name ht)
          ++ [Event.report (Report.token_too_long long.length)]
      ∧ check_oid_reference vector_check reftab
        (terminated ' ' vector_words ++ long ++ ' ' :: rest)
        = vector_words.flatMap (do_oid_check vector_check reftab.table_name ht)
          ++ [Event.report (Report.token_too_long long.length)]
      ∧ check_oid_reference array_check reftab
        ('{' :: terminated ',' array_tokens ++ short ++ ['}'])
        = (array_tokens ++ [short]).flatMap (do_oid_check array_check reftab.table_name ht)
      ∧ check_oid_reference vector_check reftab
        (terminated ' ' vector_words ++ short ++ ' ' :: last)
        = (vector_words ++ [short]).flatMap
            (do_oid_check vector_check reftab.table_name ht)
          ++ (if last ≠ [] then do_oid_check vector_check reftab.table_name ht last
              else []) := by
  refine ⟨?_, ?_, ?_, ?_⟩
  · rw [check_oid_reference_array _ _ ht _ harray hht]
    show check_oid_array_loop _ _ _ [] (terminated ',' array_tokens ++ long ++ d :: rest) = _
    rw [List.append_assoc, check_oid_array_loop_tokens _ _ _ _ _ htokens,
      check_oid_array_loop_long _ _ _ _ _ _ hd hlong.2.1 hlong.2.2.1 hlong.1]
  · rw [check_oid_reference_vector _ _ ht _ hvector hht, List.append_assoc,
      check_oid_vector_tokens _ _ _ _ _ hwords,
      check_oid_vector_long_word _ _ _ _ _ hlong.2.2.2 hlong.1]
  · rw [check_oid_reference_array _ _ ht _ harray hht]
    show check_oid_array_loop _ _ _ [] (terminated ',' array_tokens ++ short ++ ['}']) = _
    rw [List.append_assoc, check_oid_array_loop_tokens _ _ _ _ _ htokens,
      check_oid_array_loop_brace _ _ _ _ _ hshort.2.1 (by omega), if_neg (by simp),
      List.flatMap_append]
    simp
  · rw [check_oid_reference_vector _ _ ht _ hvector hht, List.append_assoc,
      check_oid_vector_tokens _ _ _ _ _ hwords,
      check_oid_vector_word _ _ _ _ _ hshort.2.2 (by omega),
      check_oid_vector_last_word _ _ _ _ hlast, List.flatMap_append]
    simp

/-- Witness of C12 amended with a token of 32 bytes and a token of 31 bytes. -/
theorem check_oid_token_length_boundary_witness :
    (sample_check checktype.CHECK_OID_ARRAY_REFERENCE true).type
        = checktype.CHECK_OID_ARRAY_REFERENCE
      ∧ (sample_check checktype.CHECK_OID_VECTOR_REFERENCE true).type
        = checktype.CHECK_OID_VECTOR_REFERENCE
      ∧ sample_reftab.ht = some sample_ht
      ∧ (∀ t ∈ [['1', '0']], array_token t ∧ t.length < 32)
      ∧ (∀ t ∈ [['2', '0']], ' ' ∉ t ∧ t.length < 32)
      ∧ (32 ≤ (List.replicate 32 '1').length ∧ ',' ∉ List.replicate 32 '1'
          ∧ '}' ∉ List.replicate 32 '1' ∧ ' ' ∉ List.replicate 32 '1')
      ∧ ((List.replicate 31 '2').length ≤ 31 ∧ array_token (List.replicate 31 '2')
          ∧ ' ' ∉ List.replicate 31 '2')
      ∧ ('}' = ',' ∨ '}' = '}')
      ∧ ' ' ∉ ['7']
      ∧ check_oid_reference (sample_check checktype.CHECK_OID_ARRAY_REFERENCE true)
          sample_reftab
          ('{' :: terminated ',' [['1', '0']] ++ List.replicate 32 '1' ++ '}' :: [])
          = [['1', '0']].flatMap
              (do_oid_check (sample_check checktype.CHECK_OID_ARRAY_REFERENCE true)
                sample_reftab.table_name sample_ht)
            ++ [Event.report (Report.token_too_long (List.replicate 32 '1').length)]
      ∧ check_oid_reference (sample_check checktype.CHECK_OID_VECTOR_REFERENCE true)
          sample_reftab (terminated ' ' [['2', '0']] ++ List.replicate 32 '1' ++ ' ' :: [])
          = [['2', '0']].flatMap
              (do_oid_check (sample_check checktype.CHECK_OID_VECTOR_REFERENCE true)
                sample_reftab.table_name sample_ht)
            ++ [Event.report (Report.token_too_long (List.replicate 32 '1').length)]
      ∧ check_oid_reference (sample_check checktype.CHECK_OID_ARRAY_REFERENCE true)
          sample_reftab ('{' :: terminated ',' [['1', '0']] ++ List.replicate 31 '2' ++ ['}'])
          = ([['1', '0']] ++ [List.replicate 31 '2']).flatMap
              (do_oid_check (sample_check checktype.CHECK_OID_ARRAY_REFERENCE true)
                sample_reftab.table_name sample_ht)
      ∧ check_oid_reference (sample_check checktype.CHECK_OID_VECTOR_REFERENCE true)
          sample_reftab (terminated ' ' [['2', '0']] ++ List.replicate 31 '2' ++ ' ' :: ['7'])
          = ([['2', '0']] ++ [List.replicate 31 '2']).flatMap
              (do_oid_check (sample_check checktype.CHECK_OID_VECTOR_REFERENCE true)
                sample_reftab.table_name sample_ht)
            ++ (if ['7'] ≠ [] then
                  do_oid_check (sample_check checktype.CHECK_OID_VECTOR_REFERENCE true)
                    sample_reftab.table_name sample_ht ['7']
                else []) :=
  ⟨rfl, rfl, rfl, by simp [array_token], by decide, by decide,
    by simp [array_token], by decide, by decide,
    check_oid_token_length_boundary
      (sample_check checktype.CHECK_OID_ARRAY_REFERENCE true)
      (sample_check checktype.CHECK_OID_VECTOR_REFERENCE true) sample_reftab sample_ht
      [['1', '0']] [['2', '0']] (List.replicate 32 '1') (List.replicate 31 '2') [] ['7'] '}'
      rfl rfl rfl (by simp [array_token]) (by decide) (by decide) (by simp [array_token])
      (by decide) (by decide)⟩

/-! ## Lemmas on the dependency checks -/

theorem get_style_objid_iff (table_name column_name : CStr) :
    get_style table_name column_name = depend_column_style.DEPEND_COLUMN_STYLE_OBJID
      ↔ (strstr table_name "depend".data = true ∧ column_name.take 3 ≠ "ref".data) := by
  unfold get_style
  by_cases h1 : column_name.take 3 = "ref".data
  · simp [h1]
  · by_cases h2 : strstr table_name "depend".data = true
    · simp [h1, h2]
    · simp [h1, h2]

/-- What `build_depend_cache` stores in the cache: the style of the names and, for the
referring side, the number of the column named deptype. -/
theorem build_depend_cache_style (tables : List pg_catalog_table)
    (statics0 statics : depend_statics) (keycols_3 : Nat) (tab : pg_catalog_table)
    (tabcol : pg_catalog_column) (cache : check_depend_cache)
    (h : build_depend_cache tables statics0 keycols_3 tab tabcol = some (cache, statics)) :
    cache.style = get_style tab.table_name tabcol.name
      ∧ (cache.style = depend_column_style.DEPEND_COLUMN_STYLE_OBJID →
          cache.deptype_result_column = PQfnumber tab.fields "deptype".data) := by
  unfold build_depend_cache at h
  simp only at h
  split at h
  · exact absurd h (by simp)
  · split at h
    · split at h
      · exact absurd h (by simp)
      · simp only [Option.some.injEq, Prod.mk.injEq] at h
        rw [← h.1]
        refine ⟨rfl, ?_⟩
        intro hs
        simp only at hs
        simp only [hs]
    · simp only [Option.some.injEq, Prod.mk.injEq] at h
      rw [← h.1]
      refine ⟨rfl, ?_⟩
      intro hs
      simp only at hs
      simp only [hs]

/-! ## The dependency checks (claims C17 to C20) -/

/-- C17: dependency class-id check on a row whose class-id value is "0" (the row being in
scope for this database and the cache of the column not broken): under the referring-side
convention (table name contains "depend", column name not starting with "ref") exactly one
"unexpected zero value" diagnostic is emitted iff the row's deptype is not "p", and none
when it is "p"; under the two other conventions exactly one diagnostic is emitted whatever
the deptype is. -/
theorem check_dependency_class_id_zero (remote : remote_server)
    (tables : List pg_catalog_table) (statics0 statics : depend_statics) (keycols_3 : Nat)
    (cache : check_depend_cache) (tab : pg_catalog_table) (tabcol : pg_catalog_column)
    (rownum : Nat)
    (hcache : build_depend_cache tables statics0 keycols_3 tab tabcol
      = some (cache, statics))
    (hbroken : cache.is_broken = false)
    (hscope : not_for_this_database remote cache tab rownum = false)
    (hval : PQgetvalue (table_data tab) rownum tabcol.result_column = ['0']) :
    ((strstr tab.table_name "depend".data = true ∧ tabcol.name.take 3 ≠ "ref".data) →
        (PQgetvalue (table_data tab) rownum (PQfnumber tab.fields "deptype".data).toNat
            ≠ ['p'] →
          check_dependency_class_id remote statics cache tab tabcol rownum
            = [Report.unexpected_zero_value])
        ∧ (PQgetvalue (table_data tab) rownum (PQfnumber tab.fields "deptype".data).toNat
            = ['p'] →
          check_dependency_class_id remote statics cache tab tabcol rownum = []))
      ∧ (¬ (strstr tab.table_name "depend".data = true ∧ tabcol.name.take 3 ≠ "ref".data) →
        check_dependency_class_id remote statics cache tab tabcol rownum
          = [Report.unexpected_zero_value]) := by
  obtain ⟨hstyle, hdep⟩ := build_depend_cache_style _ _ _ _ _ _ _ hcache
  have hiff := get_style_objid_iff tab.table_name tabcol.name
  rw [← hstyle] at hiff
  unfold check_dependency_class_id
  simp only [hbroken, hscope, hval]
  constructor
  · intro hn
    have hs := hiff.2 hn
    rw [hdep hs]
    constructor
    · intro hp
      simp [hs, hp]
    · intro hp
      simp [hs, hp]
  · intro hn
    have hs : ¬ cache.style = depend_column_style.DEPEND_COLUMN_STYLE_OBJID :=
      fun h => hn (hiff.1 h)
    simp [hs]

/-- Witness of C17: the column classid of `sample_pg_depend` in row 2, whose class ID is
zero and whose deptype is "n". -/
theorem check_dependency_class_id_zero_witness :
    build_depend_cache sample_tables {} 0 sample_pg_depend (sample_column "classid".data 0)
        = some (sample_cache depend_column_style.DEPEND_COLUMN_STYLE_OBJID 0 1 6,
            sample_statics)
      ∧ (sample_cache depend_column_style.DEPEND_COLUMN_STYLE_OBJID 0 1 6).is_broken = false
      ∧ not_for_this_database sample_remote
          (sample_cache depend_column_style.DEPEND_COLUMN_STYLE_OBJID 0 1 6)
          sample_pg_depend 2 = false
      ∧ PQgetvalue (table_data sample_pg_depend) 2
          (sample_column "classid".data 0).result_column = ['0']
      ∧ ((strstr sample_pg_depend.table_name "depend".data = true
            ∧ (sample_column "classid".data 0).name.take 3 ≠ "ref".data) →
          (PQgetvalue (table_data sample_pg_depend) 2
              (PQfnumber sample_pg_depend.fields "deptype".data).toNat ≠ ['p'] →
            check_dependency_class_id sample_remote sample_statics
              (sample_cache depend_column_style.DEPEND_COLUMN_STYLE_OBJID 0 1 6)
              sample_pg_depend (sample_column "classid".data 0) 2
              = [Report.unexpected_zero_value])
          ∧ (PQgetvalue (table_data sample_pg_depend) 2
              (PQfnumber sample_pg_depend.fields "deptype".data).toNat = ['p'] →
            check_dependency_class_id sample_remote sample_statics
              (sample_cache depend_column_style.DEPEND_COLUMN_STYLE_OBJID 0 1 6)
              sample_pg_depend (sample_column "classid".data 0) 2 = []))
      ∧ (¬ (strstr sample_pg_depend.table_name "depend".data = true
            ∧ (sample_column "classid".data 0).name.take 3 ≠ "ref".data) →
          check_dependency_class_id sample_remote sample_statics
            (sample_cache depend_column_style.DEPEND_COLUMN_STYLE_OBJID 0 1 6)
            sample_pg_depend (sample_column "classid".data 0) 2
            = [Report.unexpected_zero_value]) :=
  ⟨by decide, rfl, by decide, by decide,
    check_dependency_class_id_zero sample_remote sample_tables {} sample_statics 0
      (sample_cache depend_column_style.DEPEND_COLUMN_STYLE_OBJID 0 1 6)
      sample_pg_depend (sample_column "classid".data 0) 2
      (by decide) rfl (by decide) (by decide)⟩

theorem find_table_by_name_eq (tables : List pg_catalog_table) (table_name : CStr) :
    find_table_by_name tables table_name
      = tables.findIdx? (fun tab => tab.table_name == table_name) := by
  unfold find_table_by_name
  cases h : tables.findIdx? (fun tab => tab.table_name == table_name) <;> rfl

theorem class_id_mapping_of_row_eq_some (tables : List pg_catalog_table) (data : PGresult)
    (oid_column relnamespace_column relname_column i : Nat) (e : class_id_mapping_type) :
    class_id_mapping_of_row tables data oid_column relnamespace_column relname_column i
        = some e
      ↔ (PQgetvalue data i relnamespace_column = "11".data
        ∧ find_table_by_name tables (PQgetvalue data i relname_column) = some e.tab
        ∧ (table_at tables e.tab).available = true
        ∧ table_key_is_oid (table_at tables e.tab) = true
        ∧ e.oid = PQgetvalue data i oid_column) := by
  unfold class_id_mapping_of_row
  rw [find_table_by_name_eq]
  by_cases h1 : PQgetvalue data i relnamespace_column = "11".data
  · rw [if_neg (by simpa using h1)]
    cases hf : tables.findIdx? (fun tab => tab.table_name == PQgetvalue data i relname_column)
      with
    | none => simp [h1]
    | some t =>
      simp only
      by_cases h2 : (table_at tables t).available = true
      · by_cases h3 : table_key_is_oid (table_at tables t) = true
        · simp only [h2, h3, Bool.not_true, Bool.false_eq_true, if_false, Option.some.injEq]
          constructor
          · intro h
            subst h
            exact ⟨h1, rfl, h2, h3, rfl⟩
          · rintro ⟨_, ht, _, _, ho⟩
            cases e
            simp only [Option.some.injEq] at ht
            simp_all
        · simp only [h2, h3, Bool.not_true, Bool.false_eq_true, if_false, Bool.not_false,
            if_true]
          constructor
          · intro h; exact absurd h (by simp)
          · rintro ⟨_, ht, _, hk, _⟩
            simp only [Option.some.injEq] at ht
            rw [← ht] at hk
            exact absurd hk h3
      · simp only [h2, Bool.not_false, if_true]
        constructor
        · intro h; exact absurd h (by simp)
        · rintro ⟨_, ht, ha, _, _⟩
          simp only [Option.some.injEq] at ht
          rw [← ht] at ha
          exact absurd ha h2
  · rw [if_pos h1]
    constructor
    · intro h; exact absurd h (by simp)
    · rintro ⟨h, _⟩
      exact absurd h h1

theorem class_id_mapping_scan_fst (tables : List pg_catalog_table) (pg_class_tab : Nat)
    (data : PGresult) (oid_column relnamespace_column relname_column : Nat)
    (rows : List Nat) : ∀ (map : List class_id_mapping_type) (p : Option CStr),
    (class_id_mapping_scan tables pg_class_tab data oid_column relnamespace_column
        relname_column rows (map, p)).1
      = map ++ rows.filterMap (class_id_mapping_of_row tables data oid_column
          relnamespace_column relname_column) := by
  induction rows with
  | nil => intro map p; simp [class_id_mapping_scan]
  | cons i rows ih =>
    intro map p
    unfold class_id_mapping_scan
    cases h : class_id_mapping_of_row tables data oid_column relnamespace_column
        relname_column i with
    | none => simp only [ih, List.filterMap_cons, h]
    | some e => simp only [ih, List.filterMap_cons, h, List.append_assoc, List.singleton_append]

/-- The mapping that `build_class_id_mappings` installs holds, in row order, the entries
of the rows of pg_class. -/
theorem build_class_id_mappings_mapping (tables : List pg_catalog_table)
    (statics : depend_statics) (mapping : List class_id_mapping_type)
    (hbuild : build_class_id_mappings tables {} = some statics)
    (hmapping : statics.class_id_mapping = some mapping) :
    ∃ pg_class_tab data,
      find_table_by_name tables "pg_class".data = some pg_class_tab
      ∧ (table_at tables pg_class_tab).data = some data
      ∧ mapping = (List.range (PQntuples data)).filterMap
          (class_id_mapping_of_row tables data
            (PQfnumber (table_at tables pg_class_tab).fields "oid".data).toNat
            (PQfnumber (table_at tables pg_class_tab).fields "relnamespace".data).toNat
            (PQfnumber (table_at tables pg_class_tab).fields "relname".data).toNat) := by
  unfold build_class_id_mappings at hbuild
  cases hpc : find_table_by_name tables "pg_class".data with
  | none => rw [hpc] at hbuild; exact absurd hbuild (by simp)
  | some pc =>
    rw [hpc] at hbuild
    simp only at hbuild
    cases hdata : (table_at tables pc).data with
    | none =>
      rw [hdata] at hbuild
      simp only [if_true, Option.some.injEq] at hbuild
      rw [← hbuild] at hmapping
      exact absurd hmapping (by simp)
    | some data =>
      rw [hdata] at hbuild
      simp only at hbuild
      refine ⟨pc, data, rfl, hdata, ?_⟩
      split at hbuild
      · simp only [Option.some.injEq] at hbuild
        rw [← hbuild] at hmapping
        exact absurd hmapping (by simp)
      · split at hbuild
        · simp only [Option.some.injEq] at hbuild
          rw [← hbuild] at hmapping
          exact absurd hmapping (by simp)
        · split at hbuild
          · simp only [Option.some.injEq] at hbuild
            rw [← hbuild] at hmapping
            exact absurd hmapping (by simp)
          · split at hbuild
            · simp only [Option.some.injEq] at hbuild
              rw [← hbuild] at hmapping
              exact absurd hmapping (by simp)
            · simp only [Option.some.injEq] at hbuild
              rw [← hbuild] at hmapping
              simp only [Option.some.injEq] at hmapping
              rw [← hmapping, class_id_mapping_scan_fst, List.nil_append]
              simp [table_data, hdata]

theorem lookup_class_id_eq_none_iff (statics : depend_statics)
    (mapping : List class_id_mapping_type)
    (hmapping : statics.class_id_mapping = some mapping) (oid : CStr) :
    lookup_class_id statics oid = none ↔ ∀ m ∈ mapping, m.oid ≠ oid := by
  unfold lookup_class_id
  rw [hmapping]
  simp only [Option.getD_some]
  cases h : mapping.find? (fun m => m.oid == oid) with
  | none =>
    rw [List.find?_eq_none] at h
    simp only [true_iff]
    intro m hm
    simpa using h m hm
  | some m =>
    have h1 := List.find?_some h
    have h2 := List.mem_of_find?_eq_some h
    constructor
    · intro hn; exact absurd hn (by simp)
    · intro hall
      exact absurd (by simpa using h1) (hall m h2)

theorem lookup_class_id_eq_some (statics : depend_statics)
    (mapping : List class_id_mapping_type)
    (hmapping : statics.class_id_mapping = some mapping) (oid : CStr) (t : Nat)
    (h : lookup_class_id statics oid = some t) : ∃ m ∈ mapping, m.oid = oid ∧ m.tab = t := by
  unfold lookup_class_id at h
  rw [hmapping] at h
  simp only [Option.getD_some] at h
  cases hf : mapping.find? (fun m => m.oid == oid) with
  | none => rw [hf] at h; exact absurd h (by simp)
  | some m =>
    rw [hf] at h
    simp only [Option.some.injEq] at h
    exact ⟨m, List.mem_of_find?_eq_some hf, by simpa using List.find?_some hf, h⟩

/-- With the mapping built from pg_class, a class ID is unknown to `lookup_class_id`
exactly when it is not the oid of a row of pg_class in namespace 11 that names an
available table keyed by oid alone. -/
theorem lookup_class_id_known (tables : List pg_catalog_table) (statics : depend_statics)
    (mapping : List class_id_mapping_type)
    (hbuild : build_class_id_mappings tables {} = some statics)
    (hmapping : statics.class_id_mapping = some mapping) (v : CStr) :
    lookup_class_id statics v = none ↔ ¬ known_catalog_class tables v := by
  obtain ⟨pc, data, hpc, hdata, hmap⟩ :=
    build_class_id_mappings_mapping tables statics mapping hbuild hmapping
  rw [lookup_class_id_eq_none_iff statics mapping hmapping]
  constructor
  · rintro h ⟨pc', data', i, t, hpc', hdata', hi, hoid, hns, hname, hav, hkey⟩
    rw [hpc] at hpc'
    have e := Option.some.inj hpc'
    subst e
    rw [hdata] at hdata'
    have e := Option.some.inj hdata'
    subst e
    have hm : (⟨v, t⟩ : class_id_mapping_type) ∈ mapping := by
      rw [hmap, List.mem_filterMap]
      refine ⟨i, List.mem_range.2 hi, ?_⟩
      rw [class_id_mapping_of_row_eq_some]
      exact ⟨hns, hname, hav, hkey, hoid.symm⟩
    exact h _ hm rfl
  · intro h m hm hv
    rw [hmap, List.mem_filterMap] at hm
    obtain ⟨i, hi, hrow⟩ := hm
    rw [class_id_mapping_of_row_eq_some] at hrow
    obtain ⟨hns, hname, hav, hkey, hoid⟩ := hrow
    exact h ⟨pc, data, i, m.tab, hpc, hdata, List.mem_range.1 hi,
      by rw [← hoid, hv], hns, hname, hav, hkey⟩

/-- C18: dependency class-id check on a non-zero value v on the base PostgreSQL flavor (the
row being in scope for this database, the cache not broken, the class ID mapping built
from pg_class): no diagnostic is emitted iff v is the oid text of some loaded pg_class row
whose relnamespace is "11" and whose relname names a table of the registry that is
available and whose only key column is "oid"; otherwise exactly one "not a system catalog
OID" diagnostic is emitted.  Every table that `lookup_class_id` returns is keyed by oid
alone. -/
theorem check_dependency_class_id_nonzero (remote : remote_server)
    (tables : List pg_catalog_table) (statics : depend_statics)
    (mapping : List class_id_mapping_type) (cache : check_depend_cache)
    (tab : pg_catalog_table) (tabcol : pg_catalog_column) (rownum : Nat)
    (hbuild : build_class_id_mappings tables {} = some statics)
    (hmapping : statics.class_id_mapping = some mapping)
    (hbroken : cache.is_broken = false)
    (hscope : not_for_this_database remote cache tab rownum = false)
    (hedb : remote.remote_is_edb = false)
    (hval : PQgetvalue (table_data tab) rownum tabcol.result_column ≠ ['0']) :
    (known_catalog_class tables (PQgetvalue (table_data tab) rownum tabcol.result_column) →
        check_dependency_class_id remote statics cache tab tabcol rownum = [])
      ∧ (¬ known_catalog_class tables
            (PQgetvalue (table_data tab) rownum tabcol.result_column) →
        check_dependency_class_id remote statics cache tab tabcol rownum
          = [Report.not_a_system_catalog_oid])
      ∧ (∀ oid t, lookup_class_id statics oid = some t →
          table_key_is_oid (table_at tables t) = true) := by
  have hk := lookup_class_id_known tables statics mapping hbuild hmapping
    (PQgetvalue (table_data tab) rownum tabcol.result_column)
  refine ⟨?_, ?_, ?_⟩
  · intro h
    have : ¬ lookup_class_id statics
        (PQgetvalue (table_data tab) rownum tabcol.result_column) = none :=
      fun hn => hk.1 hn h
    unfold check_dependency_class_id
    simp [hbroken, hscope, hval, this]
  · intro h
    have := hk.2 h
    unfold check_dependency_class_id
    simp [hbroken, hscope, hval, this, hedb]
  · intro oid t hl
    obtain ⟨m, hm, _, ht⟩ := lookup_class_id_eq_some statics mapping hmapping oid t hl
    obtain ⟨pc, data, _, _, hmap⟩ :=
      build_class_id_mappings_mapping tables statics mapping hbuild hmapping
    rw [hmap, List.mem_filterMap] at hm
    obtain ⟨i, _, hrow⟩ := hm
    rw [class_id_mapping_of_row_eq_some] at hrow
    rw [← ht]
    exact hrow.2.2.2.1

/-- Witness of C18: the column classid of `sample_pg_depend` in row 3, whose class ID 4000
is no catalog table. -/
theorem check_dependency_class_id_nonzero_witness :
    build_class_id_mappings sample_tables {} = some sample_statics
      ∧ sample_statics.class_id_mapping
        = some [{ oid := "1259".data, tab := 0 }, { oid := "1247".data, tab := 1 }]
      ∧ (sample_cache depend_column_style.DEPEND_COLUMN_STYLE_OBJID 0 1 6).is_broken = false
      ∧ not_for_this_database sample_remote
          (sample_cache depend_column_style.DEPEND_COLUMN_STYLE_OBJID 0 1 6)
          sample_pg_depend 3 = false
      ∧ sample_remote.remote_is_edb = false
      ∧ PQgetvalue (table_data sample_pg_depend) 3
          (sample_column "classid".data 0).result_column ≠ ['0']
      ∧ (known_catalog_class sample_tables (PQgetvalue (table_data sample_pg_depend) 3
            (sample_column "classid".data 0).result_column) →
          check_dependency_class_id sample_remote sample_statics
            (sample_cache depend_column_style.DEPEND_COLUMN_STYLE_OBJID 0 1 6)
            sample_pg_depend (sample_column "classid".data 0) 3 = [])
      ∧ (¬ known_catalog_class sample_tables (PQgetvalue (table_data sample_pg_depend) 3
            (sample_column "classid".data 0).result_column) →
          check_dependency_class_id sample_remote sample_statics
            (sample_cache depend_column_style.DEPEND_COLUMN_STYLE_OBJID 0 1 6)
            sample_pg_depend (sample_column "classid".data 0) 3
            = [Report.not_a_system_catalog_oid])
      ∧ (∀ oid t, lookup_class_id sample_statics oid = some t →
          table_key_is_oid (table_at sample_tables t) = true) :=
  ⟨by decide, rfl, rfl, by decide, rfl, by decide,
    check_dependency_class_id_nonzero sample_remote sample_tables sample_statics
      [{ oid := "1259".data, tab := 0 }, { oid := "1247".data, tab := 1 }]
      (sample_cache depend_column_style.DEPEND_COLUMN_STYLE_OBJID 0 1 6)
      sample_pg_depend (sample_column "classid".data 0) 3
      (by decide) rfl rfl (by decide) rfl (by decide)⟩

/-- The object-id check on row 0 of `sample_pg_shdepend`, an owner row.  When the slot
`keycols[3]` holds 3, a column of the table, the check returns without a diagnostic; when
it holds 22008, no column of the table, the duplicate-owner check ends the program. -/
theorem check_dependency_id_unassigned_key_column :
    (check_dependency_id sample_remote sample_tables sample_statics
        (sample_shdepend_cache 3) sample_pg_shdepend (sample_column "objid".data 2) 0).map
        (fun r => r.1) = some []
      ∧ (sample_shdepend_cache 22008).is_broken = false
      ∧ not_for_this_database sample_remote (sample_shdepend_cache 22008)
          sample_pg_shdepend 0 = false
      ∧ check_duplicate_owner (sample_shdepend_cache 22008) sample_pg_shdepend 0 = none
      ∧ check_dependency_id sample_remote sample_tables sample_statics
          (sample_shdepend_cache 22008) sample_pg_shdepend (sample_column "objid".data 2) 0
        = none := by
  refine ⟨by decide, by decide, by decide, by decide, by decide⟩

/-- C20: dependency sub-id check (the cache not broken).  A sub-ID of "0" never yields a
diagnostic.  A non-zero sub-ID whose class ID is not the OID of pg_class yields exactly
one diagnostic, whatever pg_attribute holds.  A non-zero sub-ID whose class ID is the OID
of pg_class yields exactly one diagnostic iff pg_attribute has a hash table and the hash
table has no row with the key (object ID, sub-ID). -/
theorem check_dependency_subid_diagnostics (tables : List pg_catalog_table)
    (statics : depend_statics) (cache : check_depend_cache) (tab : pg_catalog_table)
    (tabcol : pg_catalog_column) (rownum pg_attribute_table : Nat) (pg_class_oid : CStr)
    (hbroken : cache.is_broken = false)
    (hattribute : find_table_by_name tables "pg_attribute".data = some pg_attribute_table)
    (hclass : statics.pg_class_oid = some pg_class_oid) :
    (PQgetvalue (table_data tab) rownum tabcol.result_column = ['0'] →
        check_dependency_subid tables statics cache tab tabcol rownum = some [])
      ∧ (PQgetvalue (table_data tab) rownum tabcol.result_column ≠ ['0'] →
          PQgetvalue (table_data tab) rownum cache.class_result_column.toNat ≠ pg_class_oid →
          check_dependency_subid tables statics cache tab tabcol rownum
            = some [Report.class_not_pg_class
                (PQgetvalue (table_data tab) rownum cache.class_result_column.toNat)])
      ∧ (PQgetvalue (table_data tab) rownum tabcol.result_column ≠ ['0'] →
          PQgetvalue (table_data tab) rownum cache.class_result_column.toNat = pg_class_oid →
          check_dependency_subid tables statics cache tab tabcol rownum
            = some (match (table_at tables pg_attribute_table).ht with
              | none => []
              | some ht =>
                if pgrhash_get ht
                    [PQgetvalue (table_data tab) rownum cache.object_result_column.toNat,
                     PQgetvalue (table_data tab) rownum tabcol.result_column] = -1
                then [Report.no_matching_entry
                  (table_at tables pg_attribute_table).table_name]
                else [])) := by
  unfold check_dependency_subid
  simp only [hbroken, hattribute, hclass, Bool.false_eq_true, if_false]
  refine ⟨?_, ?_, ?_⟩
  · intro h
    rw [if_pos h]
  · intro h1 h2
    rw [if_neg h1, if_pos h2]
  · intro h1 h2
    rw [if_neg h1, if_neg (by simpa using h2)]
    cases (table_at tables pg_attribute_table).ht with
    | none => rfl
    | some ht =>
      simp only
      split <;> rfl

/-- Witness of C20: the column refobjsubid of `sample_pg_depend` in row 3, which refers to
column 9 of pg_class, a column that pg_attribute does not have. -/
theorem check_dependency_subid_diagnostics_witness :
    (sample_cache depend_column_style.DEPEND_COLUMN_STYLE_REFOBJID 3 4 0).is_broken = false
      ∧ find_table_by_name sample_tables "pg_attribute".data = some 2
      ∧ sample_statics.pg_class_oid = some "1259".data
      ∧ (PQgetvalue (table_data sample_pg_depend) 3
            (sample_column "refobjsubid".data 5).result_column = ['0'] →
          check_dependency_subid sample_tables sample_statics
            (sample_cache depend_column_style.DEPEND_COLUMN_STYLE_REFOBJID 3 4 0)
            sample_pg_depend (sample_column "refobjsubid".data 5) 3 = some [])
      ∧ (PQgetvalue (table_data sample_pg_depend) 3
            (sample_column "refobjsubid".data 5).result_column ≠ ['0'] →
          PQgetvalue (table_data sample_pg_depend) 3
            (sample_cache depend_column_style.DEPEND_COLUMN_STYLE_REFOBJID 3 4
              0).class_result_column.toNat ≠ "1259".data →
          check_dependency_subid sample_tables sample_statics
            (sample_cache depend_column_style.DEPEND_COLUMN_STYLE_REFOBJID 3 4 0)
            sample_pg_depend (sample_column "refobjsubid".data 5) 3
            = some [Report.class_not_pg_class
                (PQgetvalue (table_data sample_pg_depend) 3
                  (sample_cache depend_column_style.DEPEND_COLUMN_STYLE_REFOBJID 3 4
                    0).class_result_column.toNat)])
      ∧ (PQgetvalue (table_data sample_pg_depend) 3
            (sample_column "refobjsubid".data 5).result_column ≠ ['0'] →
          PQgetvalue (table_data sample_pg_depend) 3
            (sample_cache depend_column_style.DEPEND_COLUMN_STYLE_REFOBJID 3 4
              0).class_result_column.toNat = "1259".data →
          check_dependency_subid sample_tables sample_statics
            (sample_cache depend_column_style.DEPEND_COLUMN_STYLE_REFOBJID 3 4 0)
            sample_pg_depend (sample_column "refobjsubid".data 5) 3
            = some (match (table_at sample_tables 2).ht with
              | none => []
              | some ht =>
                if pgrhash_get ht
                    [PQgetvalue (table_data sample_pg_depend) 3
                      (sample_cache depend_column_style.DEPEND_COLUMN_STYLE_REFOBJID 3 4
                        0).object_result_column.toNat,
                     PQgetvalue (table_data sample_pg_depend) 3
                      (sample_column "refobjsubid".data 5).result_column] = -1
                then [Report.no_matching_entry (table_at sample_tables 2).table_name]
                else [])) :=
  ⟨rfl, by decide, rfl,
    check_dependency_subid_diagnostics sample_tables sample_statics
      (sample_cache depend_column_style.DEPEND_COLUMN_STYLE_REFOBJID 3 4 0)
      sample_pg_depend (sample_column "refobjsubid".data 5) 3 2 "1259".data rfl (by decide)
      rfl⟩

/-! ## Lemmas on the scheduler -/

theorem length_modify_table (T : List pg_catalog_table) (i : Nat)
    (f : pg_catalog_table → pg_catalog_table) : (modify_table T i f).length = T.length := by
  simp [modify_table]

theorem table_at_modify_table (T : List pg_catalog_table) (i j : Nat)
    (f : pg_catalog_table → pg_catalog_table) :
    table_at (modify_table T i f) j
      = if j = i ∧ i < T.length then f (table_at T i) else table_at T j := by
  unfold modify_table table_at
  rw [List.getD_eq_getElem?_getD, List.getElem?_set]
  by_cases h : i = j
  · subst h
    by_cases h2 : i < T.length
    · simp [h2]
    · have h3 : T.length ≤ i := Nat.le_of_not_lt h2
      simp [h2, List.getElem?_eq_none h3]
  · have h' : ¬ j = i := fun e => h e.symm
    simp [h, h', List.getD_eq_getElem?_getD]

theorem table_at_of_le (T : List pg_catalog_table) (i : Nat) (h : T.length ≤ i) :
    table_at T i = { table_name := [] } := by
  unfold table_at
  exact List.getD_eq_default _ _ h

theorem lt_of_needs_load (T : List pg_catalog_table) (i : Nat)
    (h : (table_at T i).needs_load = true) : i < T.length := by
  by_contra hn
  rw [table_at_of_le T i (Nat.le_of_not_lt hn)] at h
  exact absurd h (by decide)

theorem lt_of_needs_check (T : List pg_catalog_table) (i : Nat)
    (h : (table_at T i).needs_check = true) : i < T.length := by
  by_contra hn
  rw [table_at_of_le T i (Nat.le_of_not_lt hn)] at h
  exact absurd h (by decide)

theorem lt_of_available (T : List pg_catalog_table) (i : Nat)
    (h : (table_at T i).available = true) : i < T.length := by
  by_contra hn
  rw [table_at_of_le T i (Nat.le_of_not_lt hn)] at h
  exact absurd h (by decide)

/-- The loop of `load_table` over the tables that needed the loaded table: each of them,
and no other table, has the loaded table dropped from its list `needs`. -/
theorem release_fold (tab : Nat) (L : List Nat) : ∀ (T : List pg_catalog_table),
    (L.foldl (fun ts reftab => modify_table ts reftab
        (fun r => { r with needs := r.needs.filter (fun x => x ≠ tab) })) T).length
        = T.length
      ∧ ∀ j, table_at (L.foldl (fun ts reftab => modify_table ts reftab
          (fun r => { r with needs := r.needs.filter (fun x => x ≠ tab) })) T) j
        = if j ∈ L ∧ j < T.length then
            { table_at T j with needs := (table_at T j).needs.filter (fun x => x ≠ tab) }
          else table_at T j := by
  induction L with
  | nil => intro T; simp
  | cons r L ih =>
    intro T
    obtain ⟨hlen, hat⟩ := ih (modify_table T r
      (fun r => { r with needs := r.needs.filter (fun x => x ≠ tab) }))
    rw [length_modify_table] at hlen
    refine ⟨hlen, ?_⟩
    intro j
    simp only [List.foldl_cons]
    rw [hat j, length_modify_table, table_at_modify_table]
    by_cases hj : j < T.length
    · by_cases hr : j = r
      · subst hr
        by_cases hL : j ∈ L
        · simp [hj, hL, List.filter_filter]
        · simp [hj, hL]
      · by_cases hL : j ∈ L
        · simp [hj, hL, hr]
        · simp [hj, hL, hr]
    · have : ¬ (j = r ∧ r < T.length) := fun h => hj (h.1 ▸ h.2)
      simp [hj, this]

theorem length_load_table (T : List pg_catalog_table) (tab : Nat) :
    (load_table T tab).length = T.length := by
  unfold load_table
  simp only [length_modify_table, (release_fold tab _ _).1]

/-- The table at position `j` after `load_table` on position `tab`. -/
theorem table_at_load_table (T : List pg_catalog_table) (tab j : Nat) (h : tab < T.length) :
    (table_at (load_table T tab) j).needs_load
        = (if j = tab then false else (table_at T j).needs_load)
      ∧ (table_at (load_table T tab) j).needs_check = (table_at T j).needs_check
      ∧ (table_at (load_table T tab) j).needs
        = (if j ∈ (table_at T tab).needed_by ∧ j < T.length then
            (table_at T j).needs.filter (fun x => x ≠ tab)
          else (table_at T j).needs)
      ∧ (table_at (load_table T tab) j).needed_by
        = (if j = tab then [] else (table_at T j).needed_by) := by
  unfold load_table
  simp only
  rw [table_at_modify_table, (release_fold tab _ _).1, length_modify_table,
    (release_fold tab _ _).2, (release_fold tab _ _).2, length_modify_table,
    table_at_modify_table, table_at_modify_table]
  by_cases hj : j = tab
  · subst hj
    by_cases hL : j ∈ (table_at T j).needed_by
    · simp [h, hL]
    · simp [h, hL]
  · by_cases hL : j ∈ (table_at T tab).needed_by
    · by_cases hlt : j < T.length
      · simp [h, hL, hj, hlt]
      · simp [h, hL, hj, hlt]
    · simp [h, hL, hj]

theorem append_singleton_eq_append_cons {α : Type} (tr pre post : List α) (a b : α)
    (h : tr ++ [a] = pre ++ b :: post) :
    (post = [] ∧ tr = pre ∧ a = b) ∨ ∃ post', post = post' ++ [a] ∧ tr = pre ++ b :: post' := by
  rcases List.eq_nil_or_concat post with hp | ⟨post', c, hp⟩
  · subst hp
    have := List.append_inj' h rfl
    exact Or.inl ⟨rfl, this.1, by simpa using this.2⟩
  · rw [List.concat_eq_append] at hp
    subst hp
    have h2 : tr ++ [a] = (pre ++ b :: post') ++ [c] := by simpa using h
    have := List.append_inj' h2 rfl
    have hc : a = c := by simpa using this.2
    subst hc
    exact Or.inr ⟨post', rfl, this.1⟩

/-- A call of `load_table` on a table that still needs to be loaded keeps the invariant. -/
theorem sched_inv_load (T0 T : List pg_catalog_table) (tr : List sched_event) (t : Nat)
    (inv : sched_inv T0 T tr) (hnl : (table_at T t).needs_load = true) :
    sched_inv T0 (load_table T t) (tr ++ [sched_event.load t]) := by
  have ht := lt_of_needs_load T t hnl
  have hnot : sched_event.load t ∉ tr := fun h => by
    have := (inv.nl_done t h).1
    rw [hnl] at this
    exact absurd this (by decide)
  have hneeds : ∀ i j, j ∈ (table_at (load_table T t) i).needs →
      j ∈ (table_at T i).needs ∧ j ≠ t := by
    intro i j hj
    rw [(table_at_load_table T t i ht).2.2.1] at hj
    split at hj
    · rw [List.mem_filter] at hj
      exact ⟨hj.1, by simpa using hj.2⟩
    · rename_i hc
      refine ⟨hj, ?_⟩
      intro e
      subst e
      have h1 := (inv.edges i j hj).2
      by_cases hi : i < T.length
      · exact hc ⟨h1, hi⟩
      · rw [table_at_of_le T i (Nat.le_of_not_lt hi)] at hj
        exact absurd hj (List.not_mem_nil _)
  constructor
  · rw [length_load_table]; exact inv.len
  · intro i j hj
    obtain ⟨h1, h2⟩ := hneeds i j hj
    obtain ⟨e1, e2⟩ := inv.edges i j h1
    rw [(table_at_load_table T t j ht).1, (table_at_load_table T t j ht).2.2.2,
      if_neg h2, if_neg h2]
    exact ⟨e1, e2⟩
  · intro i j hj
    exact inv.needs_sub i j (hneeds i j hj).1
  · intro i j h0 hj
    by_cases hold : j ∈ (table_at T i).needs
    · have : j = t := by
        rw [(table_at_load_table T t i ht).2.2.1] at hj
        split at hj
        · by_contra hne
          exact hj (List.mem_filter.2 ⟨hold, by simpa using hne⟩)
        · exact absurd hold hj
      subst this
      simp
    · exact List.mem_append_left _ (inv.dropped i j h0 hold)
  · intro i hi
    rcases List.mem_append.1 hi with h | h
    · obtain ⟨h1, h2⟩ := inv.nl_done i h
      refine ⟨?_, h2⟩
      rw [(table_at_load_table T t i ht).1]
      split
      · rfl
      · exact h1
    · have e : i = t := by simpa using h
      subst e
      refine ⟨?_, inv.nl_mono i hnl⟩
      rw [(table_at_load_table T i i ht).1, if_pos rfl]
  · intro i h0 hi
    rw [(table_at_load_table T t i ht).1] at hi
    by_cases e : i = t
    · subst e; simp
    · rw [if_neg e] at hi
      exact List.mem_append_left _ (inv.nl_keep i h0 hi)
  · intro i hi
    rw [(table_at_load_table T t i ht).1] at hi
    by_cases e : i = t
    · rw [if_pos e] at hi; exact absurd hi (by decide)
    · rw [if_neg e] at hi; exact inv.nl_mono i hi
  · intro i
    rw [List.count_append, List.count_singleton]
    by_cases e : t = i
    · subst e
      have : tr.count (sched_event.load t) = 0 := List.count_eq_zero.2 hnot
      simp [this]
    · have : ¬ (sched_event.load t == sched_event.load i) = true := by simpa using e
      simp only [this, if_false, Nat.add_zero]
      exact inv.load_once i
  · intro i hi
    rw [(table_at_load_table T t i ht).2.1] at hi
    exact inv.nc_mono i hi
  · intro i nl nn hi
    rcases List.mem_append.1 hi with h | h
    · rw [(table_at_load_table T t i ht).2.1]
      exact inv.chk_done i nl nn h
    · exact absurd h (by simp)
  · intro i h0 hi
    rw [(table_at_load_table T t i ht).2.1] at hi
    exact List.mem_append_left _ (inv.chk_keep i h0 hi)
  · intro i
    rw [List.count_append, List.count_singleton]
    have : ¬ (sched_event.load t == sched_event.check i false 0) = true := by simp
    simp only [this, if_false, Nat.add_zero]
    exact inv.chk_once i
  · intro pre post i nl nn h
    rcases append_singleton_eq_append_cons _ _ _ _ _ h with ⟨_, _, h3⟩ | ⟨post', _, h2⟩
    · exact absurd h3 (by simp)
    · exact inv.order pre post' i nl nn h2

/-- The table at position `j` after `check_table` on position `i`. -/
theorem table_at_check_table (s : sched_state) (i j : Nat) :
    (table_at (check_table s i).1 j).needs_load = (table_at s.1 j).needs_load
      ∧ (table_at (check_table s i).1 j).needs = (table_at s.1 j).needs
      ∧ (table_at (check_table s i).1 j).needed_by = (table_at s.1 j).needed_by
      ∧ (table_at (check_table s i).1 j).needs_check
        = (if j = i ∧ i < s.1.length then false else (table_at s.1 j).needs_check) := by
  unfold check_table
  simp only
  rw [table_at_modify_table]
  by_cases h : j = i ∧ i < s.1.length
  · rw [if_pos h, if_pos h, h.1]
    exact ⟨rfl, rfl, rfl, rfl⟩
  · rw [if_neg h, if_neg h]
    exact ⟨rfl, rfl, rfl, rfl⟩

/-- A call of `check_table` on a table that is still to be checked, is loaded and needs no
other table keeps the invariant. -/
theorem sched_inv_check (T0 : List pg_catalog_table) (s : sched_state) (i : Nat)
    (inv : sched_inv T0 s.1 s.2) (hnc : (table_at s.1 i).needs_check = true)
    (hnl : (table_at s.1 i).needs_load = false) (hn : (table_at s.1 i).needs = []) :
    sched_inv T0 (check_table s i).1 (check_table s i).2 := by
  have hi := lt_of_needs_check s.1 i hnc
  have hnot : sched_event.check i false 0 ∉ s.2 := fun h => by
    have := (inv.chk_done i false 0 h).1
    rw [hnc] at this
    exact absurd this (by decide)
  have hev : (check_table s i).2 = s.2 ++ [sched_event.check i false 0] := by
    unfold check_table
    simp only [hnl, hn, List.length_nil]
  have hf := table_at_check_table s i
  constructor
  · unfold check_table; simp only [length_modify_table]; exact inv.len
  · intro a b hb
    rw [(hf a).2.1] at hb
    rw [(hf b).1, (hf b).2.2.1]
    exact inv.edges a b hb
  · intro a b hb
    rw [(hf a).2.1] at hb
    exact inv.needs_sub a b hb
  · intro a b h0 hb
    rw [(hf a).2.1] at hb
    rw [hev]
    exact List.mem_append_left _ (inv.dropped a b h0 hb)
  · intro a ha
    rw [hev] at ha
    rcases List.mem_append.1 ha with h | h
    · rw [(hf a).1]; exact inv.nl_done a h
    · exact absurd h (by simp)
  · intro a h0 ha
    rw [(hf a).1] at ha
    rw [hev]
    exact List.mem_append_left _ (inv.nl_keep a h0 ha)
  · intro a ha
    rw [(hf a).1] at ha
    exact inv.nl_mono a ha
  · intro a
    rw [hev, List.count_append, List.count_singleton]
    have : ¬ (sched_event.check i false 0 == sched_event.load a) = true := by simp
    simp only [this, if_false, Nat.add_zero]
    exact inv.load_once a
  · intro a ha
    rw [(hf a).2.2.2] at ha
    split at ha
    · exact absurd ha (by decide)
    · exact inv.nc_mono a ha
  · intro a nl nn ha
    rw [hev] at ha
    rcases List.mem_append.1 ha with h | h
    · obtain ⟨h1, h2, h3, h4⟩ := inv.chk_done a nl nn h
      refine ⟨?_, h2, h3, h4⟩
      rw [(hf a).2.2.2]
      split
      · rfl
      · exact h1
    · have e : a = i ∧ nl = false ∧ nn = 0 := by simpa using h
      obtain ⟨e1, e2, e3⟩ := e
      subst e1
      refine ⟨?_, inv.nc_mono a hnc, e2, e3⟩
      rw [(hf a).2.2.2, if_pos ⟨rfl, hi⟩]
  · intro a h0 ha
    rw [hev]
    rw [(hf a).2.2.2] at ha
    by_cases e : a = i
    · subst e; simp
    · rw [if_neg (fun h => e h.1)] at ha
      exact List.mem_append_left _ (inv.chk_keep a h0 ha)
  · intro a
    rw [hev, List.count_append, List.count_singleton]
    by_cases e : i = a
    · subst e
      have : s.2.count (sched_event.check i false 0) = 0 := List.count_eq_zero.2 hnot
      simp [this]
    · have : ¬ (sched_event.check i false 0 == sched_event.check a false 0) = true := by
        simpa using e
      simp only [this, if_false, Nat.add_zero]
      exact inv.chk_once a
  · intro pre post a nl nn h
    rw [hev] at h
    rcases append_singleton_eq_append_cons _ _ _ _ _ h with ⟨_, h2, h3⟩ | ⟨post', _, h2⟩
    · have e : i = a := by
        have := h3
        simp only [sched_event.check.injEq] at this
        exact this.1
      subst e
      subst h2
      constructor
      · intro h0
        exact inv.nl_keep i h0 hnl
      · intro j hj
        apply inv.dropped i j hj
        rw [hn]
        exact List.not_mem_nil _
    · exact inv.order pre post' a nl nn h2

/-- Checking a table takes it off the count of the tables still to be checked. -/
theorem remaining_check_table (s : sched_state) (i : Nat)
    (hnc : (table_at s.1 i).needs_check = true) :
    remaining (check_table s i).1 + 1 = remaining s.1 := by
  have hi := lt_of_needs_check s.1 i hnc
  unfold check_table remaining modify_table
  simp only
  rw [List.countP_set _ _ _ _ hi]
  have h1 : (s.1[i]).needs_check = true := by
    have : table_at s.1 i = s.1[i] := by
      unfold table_at
      rw [List.getD_eq_getElem?_getD, List.getElem?_eq_getElem hi]
      rfl
    rw [← this]; exact hnc
  have h2 : 0 < List.countP (fun tab => tab.needs_check) s.1 :=
    List.countP_pos_iff.2 ⟨s.1[i], List.getElem_mem hi, h1⟩
  simp only [h1, if_true, Bool.false_eq_true, if_false, Nat.add_zero]
  omega

theorem remaining_load_table (T : List pg_catalog_table) (t : Nat) (ht : t < T.length) :
    remaining (load_table T t) = remaining T := by
  unfold remaining
  have hlen := length_load_table T t
  have h : (load_table T t).map (fun tab => tab.needs_check)
      = T.map (fun tab => tab.needs_check) := by
    apply List.ext_getElem
    · simp [hlen]
    · intro n h1 h2
      simp only [List.length_map] at h1 h2
      simp only [List.getElem_map]
      have e1 : (load_table T t)[n] = table_at (load_table T t) n := by
        unfold table_at
        rw [List.getD_eq_getElem?_getD, List.getElem?_eq_getElem h1]
        rfl
      have e2 : T[n] = table_at T n := by
        unfold table_at
        rw [List.getD_eq_getElem?_getD, List.getElem?_eq_getElem h2]
        rfl
      rw [e1, e2, (table_at_load_table T t n ht).2.1]
  have e : ∀ L : List pg_catalog_table,
      L.countP (fun tab => tab.needs_check)
        = (L.map (fun tab => tab.needs_check)).countP (fun b => b) := by
    intro L
    rw [List.countP_map]
    rfl
  rw [e, e, h]

theorem needs_check_of_remaining_zero (T : List pg_catalog_table) (h : remaining T = 0)
    (i : Nat) : (table_at T i).needs_check = false := by
  by_cases hi : i < T.length
  · unfold remaining at h
    rw [List.countP_eq_zero] at h
    have e : table_at T i = T[i] := by
      unfold table_at
      rw [List.getD_eq_getElem?_getD, List.getElem?_eq_getElem hi]
      rfl
    rw [e]
    simpa using h _ (List.getElem_mem hi)
  · rw [table_at_of_le T i (Nat.le_of_not_lt hi)]

theorem exists_needs_check_of_remaining (T : List pg_catalog_table) (h : remaining T ≠ 0) :
    ∃ i, i < T.length ∧ (table_at T i).needs_check = true := by
  unfold remaining at h
  have hp : 0 < List.countP (fun tab => tab.needs_check) T := Nat.pos_of_ne_zero h
  obtain ⟨a, ha, hpa⟩ := List.countP_pos_iff.1 hp
  obtain ⟨n, hn, e⟩ := List.getElem_of_mem ha
  refine ⟨n, hn, ?_⟩
  have e2 : table_at T n = T[n] := by
    unfold table_at
    rw [List.getD_eq_getElem?_getD, List.getElem?_eq_getElem hn]
    rfl
  rw [e2, e]
  exact hpa

/-- The first loop of an iteration keeps the invariant, checks only, and leaves the lists
`needs` as they are. -/
theorem perform_checks_scan_spec (T0 : List pg_catalog_table) (idxs : List Nat) :
    ∀ s : sched_state, sched_inv T0 s.1 s.2 →
      sched_inv T0 (perform_checks_scan idxs s).1 (perform_checks_scan idxs s).2
        ∧ remaining (perform_checks_scan idxs s).1 ≤ remaining s.1
        ∧ ∀ j, (table_at (perform_checks_scan idxs s).1 j).needs = (table_at s.1 j).needs := by
  induction idxs with
  | nil => intro s inv; exact ⟨inv, Nat.le_refl _, fun _ => rfl⟩
  | cons i rest ih =>
    intro s inv
    unfold perform_checks_scan
    split
    · rename_i hc
      simp only [Bool.and_eq_true, Bool.not_eq_true', decide_eq_true_eq] at hc
      obtain ⟨⟨h1, h2⟩, h3⟩ := hc
      have hn : (table_at s.1 i).needs = [] := List.length_eq_zero.1 h3
      obtain ⟨a, b, c⟩ := ih (check_table s i) (sched_inv_check T0 s i inv h1 h2 hn)
      refine ⟨a, ?_, ?_⟩
      · have := remaining_check_table s i h1
        omega
      · intro j
        rw [c j, (table_at_check_table s i j).2.1]
    · exact ih s inv

theorem choose_best_needs_check (T : List pg_catalog_table) (idxs : List Nat) :
    ∀ (best : Option Nat) (b : Nat), choose_best T idxs best = some b →
      (∀ b0, best = some b0 → (table_at T b0).needs_check = true) →
      (table_at T b).needs_check = true := by
  induction idxs with
  | nil =>
    intro best b h hb
    exact hb b h
  | cons i rest ih =>
    intro best b h hb
    unfold choose_best at h
    split at h
    · exact ih best b h hb
    · rename_i hc
      have hi : (table_at T i).needs_check = true := by simpa using hc
      cases best with
      | none =>
        exact ih (some i) b h (fun b0 e => by rw [← Option.some.inj e]; exact hi)
      | some b1 =>
        simp only at h
        split at h
        · exact ih (some i) b h (fun b0 e => by rw [← Option.some.inj e]; exact hi)
        · exact ih (some b1) b h hb

theorem choose_best_isSome (T : List pg_catalog_table) (idxs : List Nat) :
    ∀ (best : Option Nat),
      (best.isSome = true ∨ ∃ i ∈ idxs, (table_at T i).needs_check = true) →
      (choose_best T idxs best).isSome = true := by
  induction idxs with
  | nil =>
    intro best h
    rcases h with h | ⟨i, hi, _⟩
    · exact h
    · exact absurd hi (List.not_mem_nil _)
  | cons i rest ih =>
    intro best h
    unfold choose_best
    split
    · rename_i hc
      apply ih
      rcases h with h | ⟨j, hj, hnc⟩
      · exact Or.inl h
      · rcases List.mem_cons.1 hj with e | e
        · subst e
          rw [hnc] at hc
          exact absurd hc (by decide)
        · exact Or.inr ⟨j, e, hnc⟩
    · cases best with
      | none => exact ih _ (Or.inl rfl)
      | some b1 =>
        simp only
        split
        · exact ih _ (Or.inl rfl)
        · exact ih _ (Or.inl rfl)

theorem lt_of_needs_ne_nil (T : List pg_catalog_table) (i j : Nat)
    (h : j ∈ (table_at T i).needs) : i < T.length := by
  by_contra hn
  rw [table_at_of_le T i (Nat.le_of_not_lt hn)] at h
  exact absurd h (List.not_mem_nil _)

/-- The preloading loop ends when it is given more iterations than the candidate has
tables to preload; it never takes the `continue` branch, keeps the invariant, only calls
`load_table`, and leaves the candidate without a table to preload. -/
theorem perform_checks_preload_spec (T0 : List pg_catalog_table) (best : Nat) :
    ∀ (fuel : Nat) (s : sched_state), sched_inv T0 s.1 s.2 →
      (table_at s.1 best).needs.length < fuel →
      ∃ s', perform_checks_preload fuel best s = some s'
        ∧ sched_inv T0 s'.1 s'.2
        ∧ (table_at s'.1 best).needs = []
        ∧ remaining s'.1 = remaining s.1
        ∧ (∀ j, (table_at s'.1 j).needs_check = (table_at s.1 j).needs_check)
        ∧ (∀ j, (table_at s'.1 j).needs.length ≤ (table_at s.1 j).needs.length) := by
  intro fuel
  induction fuel with
  | zero => intro s _ h; exact absurd h (Nat.not_lt_zero _)
  | succ fuel ih =>
    intro s inv hlen
    unfold perform_checks_preload
    cases hlast : (table_at s.1 best).needs.getLast? with
    | none =>
      refine ⟨s, rfl, inv, List.getLast?_eq_none_iff.1 hlast, rfl, fun _ => rfl,
        fun _ => Nat.le_refl _⟩
    | some r =>
      simp only
      have hr : r ∈ (table_at s.1 best).needs := List.mem_of_mem_getLast? hlast
      obtain ⟨hnl, hnb⟩ := inv.edges best r hr
      have hrlt := lt_of_needs_load s.1 r hnl
      have hblt := lt_of_needs_ne_nil s.1 best r hr
      rw [hnl]
      simp only [Bool.not_true, Bool.false_eq_true, if_false]
      have inv1 := sched_inv_load T0 s.1 s.2 r inv hnl
      have hnew : (table_at (load_table s.1 r) best).needs
          = (table_at s.1 best).needs.filter (fun x => x ≠ r) := by
        rw [(table_at_load_table s.1 r best hrlt).2.2.1, if_pos ⟨hnb, hblt⟩]
      have hshort : (table_at (load_table s.1 r) best).needs.length < fuel := by
        rw [hnew]
        have : ((table_at s.1 best).needs.filter (fun x => x ≠ r)).length
            < (table_at s.1 best).needs.length :=
          List.length_filter_lt_length_iff_exists.2 ⟨r, hr, by simp⟩
        omega
      obtain ⟨s', h1, h2, h3, h4, h5, h6⟩ :=
        ih (load_table s.1 r, s.2 ++ [sched_event.load r]) inv1 hshort
      refine ⟨s', h1, h2, h3, ?_, ?_, ?_⟩
      · rw [h4]; exact remaining_load_table s.1 r hrlt
      · intro j
        rw [h5 j]
        exact (table_at_load_table s.1 r j hrlt).2.1
      · intro j
        refine Nat.le_trans (h6 j) ?_
        show (table_at (load_table s.1 r) j).needs.length ≤ _
        rw [(table_at_load_table s.1 r j hrlt).2.2.1]
        split
        · exact List.length_filter_le _ _
        · exact Nat.le_refl _

/-- The loop of `perform_checks` ends when it is given more iterations than there are
tables to check and every preloading loop more iterations than any table has tables to
preload; `best` is never `NULL`, the invariant holds on exit and no table is left to
check. -/
theorem perform_checks_loop_spec (T0 : List pg_catalog_table) (bound : Nat) :
    ∀ (fuel : Nat) (s : sched_state), sched_inv T0 s.1 s.2 → remaining s.1 < fuel →
      (∀ i, (table_at s.1 i).needs.length < bound) →
      ∃ s', perform_checks_loop bound fuel s = some s'
        ∧ sched_inv T0 s'.1 s'.2 ∧ remaining s'.1 = 0 := by
  intro fuel
  induction fuel with
  | zero => intro s _ h; exact absurd h (Nat.not_lt_zero _)
  | succ fuel ih =>
    intro s inv hrem hbound
    obtain ⟨sinv, srem, sneeds⟩ := perform_checks_scan_spec T0 (List.range s.1.length) s inv
    unfold perform_checks_loop
    simp only
    generalize perform_checks_scan (List.range s.1.length) s = sc at sinv srem sneeds
    split
    · rename_i h0
      exact ⟨sc, rfl, sinv, h0⟩
    · rename_i h0
      obtain ⟨i, hi, hnc⟩ := exists_needs_check_of_remaining sc.1 h0
      have hsome := choose_best_isSome sc.1 (List.range sc.1.length) none
        (Or.inr ⟨i, List.mem_range.2 hi, hnc⟩)
      cases hb : choose_best sc.1 (List.range sc.1.length) none with
      | none => rw [hb] at hsome; exact absurd hsome (by decide)
      | some best =>
        simp only
        have hbest : (table_at sc.1 best).needs_check = true :=
          choose_best_needs_check sc.1 _ none best hb (fun b0 e => by cases e)
        obtain ⟨p, hp, pinv, pneeds, prem, pnc, plen⟩ :=
          perform_checks_preload_spec T0 best bound sc sinv
            (by rw [sneeds best]; exact hbound best)
        rw [hp]
        simp only
        have key : ∀ l : sched_state, sched_inv T0 l.1 l.2 →
            (table_at l.1 best).needs_check = true →
            (table_at l.1 best).needs_load = false →
            (table_at l.1 best).needs = [] →
            remaining l.1 = remaining p.1 →
            (∀ j, (table_at l.1 j).needs.length ≤ (table_at p.1 j).needs.length) →
            ∃ s', perform_checks_loop bound fuel (check_table l best) = some s'
              ∧ sched_inv T0 s'.1 s'.2 ∧ remaining s'.1 = 0 := by
          intro l linv lnc lnl lneeds lrem llen
          apply ih (check_table l best) (sched_inv_check T0 l best linv lnc lnl lneeds)
          · have := remaining_check_table l best lnc
            omega
          · intro j
            rw [(table_at_check_table l best j).2.1]
            have a := llen j
            have b := plen j
            have c := hbound j
            rw [← sneeds j] at c
            omega
        have pbest : (table_at p.1 best).needs_check = true := by rw [pnc best]; exact hbest
        have pblt := lt_of_needs_check p.1 best pbest
        cases hnl : (table_at p.1 best).needs_load with
        | false =>
          simp only [Bool.false_eq_true, if_false]
          exact key p pinv pbest hnl pneeds rfl (fun _ => Nat.le_refl _)
        | true =>
          simp only [if_true]
          refine key (load_table p.1 best, p.2 ++ [sched_event.load best])
            (sched_inv_load T0 p.1 p.2 best pinv hnl) ?_ ?_ ?_ ?_ ?_
          · show (table_at (load_table p.1 best) best).needs_check = true
            rw [(table_at_load_table p.1 best best pblt).2.1]; exact pbest
          · show (table_at (load_table p.1 best) best).needs_load = false
            rw [(table_at_load_table p.1 best best pblt).1]; simp
          · show (table_at (load_table p.1 best) best).needs = []
            rw [(table_at_load_table p.1 best best pblt).2.2.1, pneeds]
            split <;> rfl
          · exact remaining_load_table p.1 best pblt
          · intro j
            show (table_at (load_table p.1 best) j).needs.length ≤ _
            rw [(table_at_load_table p.1 best j pblt).2.2.1]
            split
            · exact List.length_filter_le _ _
            · exact Nat.le_refl _

theorem table_at_mem_or_default (T : List pg_catalog_table) (i : Nat) :
    table_at T i ∈ T ∨ table_at T i = { table_name := [] } := by
  by_cases h : i < T.length
  · exact Or.inl (getD_mem T i _ h)
  · exact Or.inr (table_at_of_le T i (Nat.le_of_not_lt h))

/-- One call of `add_table_dependency` keeps the array length and every field but the
two lists; either it records nothing, or it appends one entry to each side of the edge. -/
theorem add_table_dependency_spec (T : List pg_catalog_table) (a b : Nat) :
    (add_table_dependency T a b).length = T.length
      ∧ (∀ i, (table_at (add_table_dependency T a b) i).needs_load = (table_at T i).needs_load
          ∧ (table_at (add_table_dependency T a b) i).needs_check
              = (table_at T i).needs_check
          ∧ (table_at (add_table_dependency T a b) i).cols = (table_at T i).cols)
      ∧ ((∀ i, (table_at (add_table_dependency T a b) i).needs = (table_at T i).needs
            ∧ (table_at (add_table_dependency T a b) i).needed_by = (table_at T i).needed_by)
          ∨ (a ≠ b ∧ a < T.length ∧ b < T.length
            ∧ ∀ i, (table_at (add_table_dependency T a b) i).needs
                  = (if i = a then (table_at T i).needs ++ [b] else (table_at T i).needs)
              ∧ (table_at (add_table_dependency T a b) i).needed_by
                  = (if i = b then (table_at T i).needed_by ++ [a]
                     else (table_at T i).needed_by))) := by
  unfold add_table_dependency
  split
  · exact ⟨rfl, fun _ => ⟨rfl, rfl, rfl⟩, Or.inl (fun _ => ⟨rfl, rfl⟩)⟩
  · rename_i hav
    split
    · exact ⟨rfl, fun _ => ⟨rfl, rfl, rfl⟩, Or.inl (fun _ => ⟨rfl, rfl⟩)⟩
    · rename_i hne
      split
      · exact ⟨rfl, fun _ => ⟨rfl, rfl, rfl⟩, Or.inl (fun _ => ⟨rfl, rfl⟩)⟩
      · simp only [Bool.or_eq_true, Bool.not_eq_true', not_or, Bool.not_eq_false] at hav
        have ha := lt_of_available T a hav.1
        have hb := lt_of_available T b hav.2
        have hb1 : b < (modify_table T a
            (fun tab => { tab with needs := tab.needs ++ [b] })).length := by
          rw [length_modify_table]; exact hb
        have point : ∀ i, table_at (modify_table (modify_table T a
              (fun tab => { tab with needs := tab.needs ++ [b] })) b
              (fun tab => { tab with needed_by := tab.needed_by ++ [a] })) i
            = if i = b then { table_at T b with
                needed_by := (table_at T b).needed_by ++ [a] }
              else if i = a then { table_at T a with needs := (table_at T a).needs ++ [b] }
              else table_at T i := by
          intro i
          rw [table_at_modify_table]
          by_cases hib : i = b
          · subst hib
            rw [if_pos ⟨rfl, hb1⟩, if_pos rfl, table_at_modify_table,
              if_neg (fun h => hne h.1.symm)]
          · rw [if_neg (fun h => hib h.1), if_neg hib, table_at_modify_table]
            by_cases hia : i = a
            · rw [if_pos ⟨hia, ha⟩, if_pos hia]
            · rw [if_neg (fun h => hia h.1), if_neg hia]
        refine ⟨by rw [length_modify_table, length_modify_table], ?_, Or.inr ⟨hne, ha, hb, ?_⟩⟩
        · intro i
          rw [point i]
          by_cases hib : i = b
          · subst hib; rw [if_pos rfl]; exact ⟨rfl, rfl, rfl⟩
          · rw [if_neg hib]
            by_cases hia : i = a
            · subst hia; rw [if_pos rfl]; exact ⟨rfl, rfl, rfl⟩
            · rw [if_neg hia]; exact ⟨rfl, rfl, rfl⟩
        · intro i
          rw [point i]
          by_cases hib : i = b
          · subst hib
            rw [if_pos rfl, if_neg (fun h => hne h.symm), if_pos rfl]
            exact ⟨rfl, rfl⟩
          · rw [if_neg hib, if_neg hib]
            by_cases hia : i = a
            · subst hia; rw [if_pos rfl, if_pos rfl]; exact ⟨rfl, rfl⟩
            · rw [if_neg hia, if_neg hia]; exact ⟨rfl, rfl⟩

/-- Any sequence of calls of `add_table_dependency` keeps the two sides of the edges in
step: a table in a list `needs` has the needing table in its list `needed_by`. -/
theorem add_table_dependencies_spec (calls : List (Nat × Nat)) :
    ∀ T : List pg_catalog_table,
      (∀ i j, j ∈ (table_at T i).needs → i ∈ (table_at T j).needed_by) →
      (add_table_dependencies T calls).length = T.length
        ∧ (∀ i j, j ∈ (table_at (add_table_dependencies T calls) i).needs →
            i ∈ (table_at (add_table_dependencies T calls) j).needed_by)
        ∧ (∀ i, (table_at (add_table_dependencies T calls) i).needs_load
              = (table_at T i).needs_load
            ∧ (table_at (add_table_dependencies T calls) i).needs_check
              = (table_at T i).needs_check
            ∧ (table_at (add_table_dependencies T calls) i).cols = (table_at T i).cols)
        ∧ ∀ i, (table_at (add_table_dependencies T calls) i).needs.length
            ≤ (table_at T i).needs.length + calls.length := by
  induction calls with
  | nil =>
    intro T h
    exact ⟨rfl, h, fun _ => ⟨rfl, rfl, rfl⟩, fun _ => Nat.le_refl _⟩
  | cons c calls ih =>
    intro T h
    obtain ⟨l1, f1, e1⟩ := add_table_dependency_spec T c.1 c.2
    have edges1 : ∀ i j, j ∈ (table_at (add_table_dependency T c.1 c.2) i).needs →
        i ∈ (table_at (add_table_dependency T c.1 c.2) j).needed_by := by
      intro i j hj
      rcases e1 with e1 | ⟨_, _, _, e1⟩
      · rw [(e1 i).1] at hj
        rw [(e1 j).2]
        exact h i j hj
      · rw [(e1 i).1] at hj
        rw [(e1 j).2]
        by_cases hia : i = c.1
        · rw [if_pos hia] at hj
          rcases List.mem_append.1 hj with hj | hj
          · split
            · exact List.mem_append_left _ (h i j hj)
            · exact h i j hj
          · have hjb : j = c.2 := by simpa using hj
            rw [if_pos hjb, hia]
            exact List.mem_append_right _ (List.mem_singleton.2 rfl)
        · rw [if_neg hia] at hj
          split
          · exact List.mem_append_left _ (h i j hj)
          · exact h i j hj
    have len1 : ∀ i, (table_at (add_table_dependency T c.1 c.2) i).needs.length
        ≤ (table_at T i).needs.length + 1 := by
      intro i
      rcases e1 with e1 | ⟨_, _, _, e1⟩
      · rw [(e1 i).1]; omega
      · rw [(e1 i).1]
        split
        · rw [List.length_append]; exact Nat.le_refl _
        · omega
    obtain ⟨l2, e2, f2, n2⟩ := ih (add_table_dependency T c.1 c.2) edges1
    show (add_table_dependencies (add_table_dependency T c.1 c.2) calls).length = _ ∧ _
    refine ⟨by rw [l2, l1], e2, ?_, ?_⟩
    · intro i
      obtain ⟨a1, a2, a3⟩ := f2 i
      obtain ⟨b1, b2, b3⟩ := f1 i
      exact ⟨a1.trans b1, a2.trans b2, a3.trans b3⟩
    · intro i
      have h2 := len1 i
      refine Nat.le_trans (n2 i) ?_
      simp only [List.length_cons]
      omega

/-- The column loop of the initialisation leaves the dependency lists alone, only ever
sets flags, sets `needs_check` exactly when a column is checked, and then, if checked
columns are needed columns, has set `needs_load` as well. -/
theorem perform_checks_init_cols_spec (cols : List pg_catalog_column) :
    ∀ tab : pg_catalog_table,
      (perform_checks_init_cols cols tab).needs = tab.needs
        ∧ (perform_checks_init_cols cols tab).needed_by = tab.needed_by
        ∧ (tab.needs_load = true → (perform_checks_init_cols cols tab).needs_load = true)
        ∧ ((perform_checks_init_cols cols tab).needs_check = true
            ↔ tab.needs_check = true ∨ ∃ col ∈ cols, col.checked = trivalue.TRI_YES)
        ∧ ((∀ col ∈ cols, col.checked = trivalue.TRI_YES → col.needed = true) →
            (perform_checks_init_cols cols tab).needs_check = true →
            tab.needs_check = false →
            (perform_checks_init_cols cols tab).needs_load = true) := by
  induction cols with
  | nil =>
    intro tab
    refine ⟨rfl, rfl, fun h => h, ?_, ?_⟩
    · simp [perform_checks_init_cols]
    · intro _ h1 h2
      simp only [perform_checks_init_cols] at h1
      rw [h1] at h2
      exact absurd h2 (by decide)
  | cons c cols ih =>
    intro tab
    unfold perform_checks_init_cols
    simp only
    by_cases hy : c.checked = trivalue.TRI_YES
    · rw [if_pos hy]
      refine ⟨?_, ?_, ?_, ?_, ?_⟩
      · split <;> rfl
      · split <;> rfl
      · intro h
        split
        · rfl
        · exact h
      · simp only [true_iff]
        exact Or.inr ⟨c, List.mem_cons_self _ _, hy⟩
      · intro hall _ _
        have := hall c (List.mem_cons_self _ _) hy
        rw [if_pos this]
    · rw [if_neg hy]
      obtain ⟨a1, a2, a3, a4, a5⟩ :=
        ih (if c.needed = true then { tab with needs_load := true } else tab)
      refine ⟨?_, ?_, ?_, ?_, ?_⟩
      · rw [a1]; split <;> rfl
      · rw [a2]; split <;> rfl
      · intro h
        apply a3
        split
        · rfl
        · exact h
      · rw [a4]
        have e : (if c.needed = true then { tab with needs_load := true } else tab).needs_check
            = tab.needs_check := by split <;> rfl
        rw [e]
        constructor
        · rintro (h | ⟨col, hc, hcol⟩)
          · exact Or.inl h
          · exact Or.inr ⟨col, List.mem_cons_of_mem _ hc, hcol⟩
        · rintro (h | ⟨col, hc, hcol⟩)
          · exact Or.inl h
          · rcases List.mem_cons.1 hc with e1 | e1
            · subst e1; exact absurd hcol hy
            · exact Or.inr ⟨col, e1, hcol⟩
      · intro hall h1 h2
        apply a5 (fun col hc => hall col (List.mem_cons_of_mem _ hc)) h1
        split
        · exact h2
        · exact h2

theorem table_at_perform_checks_init (T : List pg_catalog_table) (i : Nat) :
    table_at (perform_checks_init T) i = perform_checks_init_table (table_at T i) := by
  unfold perform_checks_init table_at
  rw [List.getD_eq_getElem?_getD, List.getD_eq_getElem?_getD, List.getElem?_map]
  cases T[i]? with
  | none => rfl
  | some t => rfl

/-- What the initialisation of `perform_checks` makes of a table. -/
theorem perform_checks_init_table_spec (tab : pg_catalog_table) :
    (perform_checks_init_table tab).needs = tab.needs
      ∧ (perform_checks_init_table tab).needed_by = tab.needed_by
      ∧ (tab.needed_by ≠ [] → (perform_checks_init_table tab).needs_load = true)
      ∧ ((perform_checks_init_table tab).needs_check = true
          ↔ tab.needs_check = true ∨ ∃ col ∈ tab.cols, col.checked = trivalue.TRI_YES)
      ∧ ((∀ col ∈ tab.cols, col.checked = trivalue.TRI_YES → col.needed = true) →
          (perform_checks_init_table tab).needs_check = true →
          tab.needs_check = false →
          (perform_checks_init_table tab).needs_load = true) := by
  unfold perform_checks_init_table
  obtain ⟨a1, a2, a3, a4, a5⟩ := perform_checks_init_cols_spec tab.cols
    (if tab.needed_by.length ≠ 0 then { tab with needs_load := true } else tab)
  refine ⟨?_, ?_, ?_, ?_, ?_⟩
  · rw [a1]; split <;> rfl
  · rw [a2]; split <;> rfl
  · intro h
    apply a3
    have : tab.needed_by.length ≠ 0 := fun e => h (List.length_eq_zero.1 e)
    rw [if_pos this]
  · rw [a4]
    have e : (if tab.needed_by.length ≠ 0 then { tab with needs_load := true }
        else tab).needs_check = tab.needs_check := by split <;> rfl
    rw [e]
  · intro hall h1 h2
    apply a5 hall h1
    split
    · exact h2
    · exact h2

/-- The invariant of the scheduler holds when the loop of `perform_checks` is entered,
for every sequence of calls of `add_table_dependency` on a fresh registry. -/
theorem sched_inv_init (base : List pg_catalog_table) (calls : List (Nat × Nat))
    (hfresh : fresh_registry base) :
    sched_inv (perform_checks_init (add_table_dependencies base calls))
      (perform_checks_init (add_table_dependencies base calls)) [] := by
  have hbase : ∀ i, (table_at base i).needs = [] := by
    intro i
    rcases table_at_mem_or_default base i with h | h
    · exact (hfresh _ h).1
    · rw [h]
  obtain ⟨_, edges, _, _⟩ := add_table_dependencies_spec calls base
    (fun i j hj => by rw [hbase i] at hj; exact absurd hj (List.not_mem_nil _))
  refine ⟨rfl, ?_, fun _ _ h => h, fun _ _ h1 h2 => absurd h1 h2,
    fun _ h => absurd h (List.not_mem_nil _), ?_, fun _ h => h, fun _ => by simp,
    fun _ h => h, fun _ _ _ h => absurd h (List.not_mem_nil _), ?_, fun _ => by simp, ?_⟩
  · intro i j hj
    rw [table_at_perform_checks_init] at hj ⊢
    rw [(perform_checks_init_table_spec _).1] at hj
    have hmem := edges i j hj
    refine ⟨(perform_checks_init_table_spec _).2.2.1 (List.ne_nil_of_mem hmem), ?_⟩
    rw [(perform_checks_init_table_spec _).2.1]
    exact hmem
  · intro i h1 h2
    rw [h1] at h2
    exact absurd h2 (by decide)
  · intro i h1 h2
    rw [h1] at h2
    exact absurd h2 (by decide)
  · intro pre post i nl nn h
    have := congrArg List.length h
    simp only [List.length_nil, List.length_append, List.length_cons] at this
    omega

theorem remaining_le_length (T : List pg_catalog_table) : remaining T ≤ T.length :=
  List.countP_le_length _

/-- A run of `perform_checks` ends when every loop is given more iterations than the
number of tables plus the number of calls of `add_table_dependency`; the invariant of the
scheduler holds on exit and no table is left to check. -/
theorem perform_checks_run (base : List pg_catalog_table) (calls : List (Nat × Nat))
    (fuel : Nat) (hfresh : fresh_registry base) (hfuel : base.length + calls.length < fuel) :
    ∃ s, perform_checks fuel (add_table_dependencies base calls) = some s
      ∧ sched_inv (perform_checks_init (add_table_dependencies base calls)) s.1 s.2
      ∧ remaining s.1 = 0 := by
  have hbase : ∀ i, (table_at base i).needs = [] := by
    intro i
    rcases table_at_mem_or_default base i with h | h
    · exact (hfresh _ h).1
    · rw [h]
  obtain ⟨len, _, _, nlen⟩ := add_table_dependencies_spec calls base
    (fun i j hj => by rw [hbase i] at hj; exact absurd hj (List.not_mem_nil _))
  unfold perform_checks
  apply perform_checks_loop_spec _ fuel fuel _ (sched_inv_init base calls hfresh)
  · have := remaining_le_length (perform_checks_init (add_table_dependencies base calls))
    have e : (perform_checks_init (add_table_dependencies base calls)).length
        = base.length := by
      unfold perform_checks_init
      rw [List.length_map, len]
    show remaining (perform_checks_init (add_table_dependencies base calls)) < fuel
    omega
  · intro i
    show (table_at (perform_checks_init (add_table_dependencies base calls)) i).needs.length
      < fuel
    rw [table_at_perform_checks_init, (perform_checks_init_table_spec _).1]
    have := nlen i
    rw [hbase i] at this
    simp only [List.length_nil] at this
    omega

theorem load_table_of_le (T : List pg_catalog_table) (t : Nat) (h : T.length ≤ t) :
    load_table T t = T := by
  unfold load_table
  simp only [table_at_of_le T t h, List.foldl_nil]
  unfold modify_table
  rw [List.set_eq_of_length_le (by rw [List.length_set]; exact h),
    List.set_eq_of_length_le h]

/-- A call of `load_table` never sets a flag `needs_load`. -/
theorem needs_load_load_table (T : List pg_catalog_table) (t j : Nat)
    (h : (table_at (load_table T t) j).needs_load = true) :
    (table_at T j).needs_load = true := by
  by_cases ht : t < T.length
  · rw [(table_at_load_table T t j ht).1] at h
    split at h
    · exact absurd h (by decide)
    · exact h
  · rw [load_table_of_le T t (Nat.le_of_not_lt ht)] at h
    exact h

theorem count_loads (tr : List sched_event) (i : Nat) :
    (loads tr).count i = tr.count (sched_event.load i) := by
  induction tr with
  | nil => rfl
  | cons e tr ih =>
    cases e with
    | load t =>
      simp only [loads, List.count_cons, ih]
      by_cases h : t = i
      · subst h; simp
      · have h2 : ¬ sched_event.load t = sched_event.load i := fun e => h (by cases e; rfl)
        simp [h, h2]
    | check t nl nn =>
      simp only [loads, List.count_cons, ih]
      simp

theorem count_checks (tr : List sched_event) (i : Nat)
    (h : ∀ t nl nn, sched_event.check t nl nn ∈ tr → nl = false ∧ nn = 0) :
    (checks tr).count i = tr.count (sched_event.check i false 0) := by
  induction tr with
  | nil => rfl
  | cons e tr ih =>
    have ih := ih (fun t nl nn hm => h t nl nn (List.mem_cons_of_mem _ hm))
    cases e with
    | load t =>
      simp only [checks, List.count_cons, ih]
      simp
    | check t nl nn =>
      obtain ⟨h1, h2⟩ := h t nl nn (List.mem_cons_self _ _)
      subst h1 h2
      simp only [checks, List.count_cons, ih]
      by_cases h : t = i
      · subst h; simp
      · have h2 : ¬ sched_event.check t false 0 = sched_event.check i false 0 :=
          fun e => h (by cases e; rfl)
        simp [h, h2]

/-- Once the preloading loop meets a table that is already loaded, it repeats the same
iteration for ever: no number of iterations ends it. -/
theorem perform_checks_preload_continue (best reftab : Nat) (s : sched_state)
    (hlast : (table_at s.1 best).needs.getLast? = some reftab)
    (hnl : (table_at s.1 reftab).needs_load = false) :
    ∀ fuel, perform_checks_preload fuel best s = none := by
  intro fuel
  induction fuel with
  | zero => rfl
  | succ fuel ih =>
    unfold perform_checks_preload
    rw [hlast]
    simp only [hnl, Bool.not_false, if_true]
    exact ih

/-- The fields of the tables when the loop of `perform_checks` is entered, for a fresh
registry: the lists `needs` are those that `add_table_dependency` built, `needs_check` is
set exactly for the tables with a checked column, and such a table has `needs_load` set
when checked columns are needed columns. -/
theorem perform_checks_init_spec (base : List pg_catalog_table) (calls : List (Nat × Nat))
    (hfresh : fresh_registry base) (i : Nat) :
    (table_at (perform_checks_init (add_table_dependencies base calls)) i).needs
        = (table_at (add_table_dependencies base calls) i).needs
      ∧ ((table_at (perform_checks_init (add_table_dependencies base calls)) i).needs_check
            = true
          ↔ ∃ col ∈ (table_at base i).cols, col.checked = trivalue.TRI_YES)
      ∧ ((∀ tab ∈ base, ∀ col ∈ tab.cols, col.checked = trivalue.TRI_YES →
            col.needed = true) →
          (table_at (perform_checks_init (add_table_dependencies base calls)) i).needs_check
            = true →
          (table_at (perform_checks_init (add_table_dependencies base calls)) i).needs_load
            = true) := by
  have hbase : ∀ i, (table_at base i).needs = [] ∧ (table_at base i).needs_check = false := by
    intro i
    rcases table_at_mem_or_default base i with h | h
    · exact ⟨(hfresh _ h).1, (hfresh _ h).2.2.2⟩
    · rw [h]; exact ⟨rfl, rfl⟩
  obtain ⟨_, _, flags, _⟩ := add_table_dependencies_spec calls base
    (fun i j hj => by rw [(hbase i).1] at hj; exact absurd hj (List.not_mem_nil _))
  obtain ⟨_, fnc, fcols⟩ := flags i
  obtain ⟨a1, _, _, a4, a5⟩ :=
    perform_checks_init_table_spec (table_at (add_table_dependencies base calls) i)
  rw [table_at_perform_checks_init]
  refine ⟨a1, ?_, ?_⟩
  · rw [a4, fnc, fcols, (hbase i).2]
    simp
  · intro hall hnc
    apply a5 _ hnc (by rw [fnc]; exact (hbase i).2)
    rw [fcols]
    rcases table_at_mem_or_default base i with h | h
    · exact hall _ h
    · rw [h]; intro col hc; exact absurd hc (List.not_mem_nil _)


/-! ## The scheduler (claims C13 to C16) -/

/-- Claim C13.  For every fresh registry, every sequence of calls of
`add_table_dependency` and every selection of checked columns, a run of `perform_checks`
with enough iterations ends, and in it `load_table` is invoked at most once per table.
The flag `needs_load` never goes from false back to true: the two operations that the
loop performs on the array, `load_table` and `check_table`, never set it, and a table
that has the flag set on exit had it set when the loop was entered. -/
theorem load_table_at_most_once (base : List pg_catalog_table) (calls : List (Nat × Nat))
    (fuel : Nat) (hfresh : fresh_registry base) (hfuel : base.length + calls.length < fuel) :
    ∃ s, perform_checks fuel (add_table_dependencies base calls) = some s
      ∧ (∀ tab, (loads s.2).count tab ≤ 1)
      ∧ (∀ tab, tab ∈ loads s.2 → (table_at s.1 tab).needs_load = false)
      ∧ (∀ tab, (table_at s.1 tab).needs_load = true →
          (table_at (perform_checks_init (add_table_dependencies base calls)) tab).needs_load
            = true)
      ∧ (∀ T t j, (table_at (load_table T t) j).needs_load = true →
          (table_at T j).needs_load = true)
      ∧ (∀ (st : sched_state) t j, (table_at (check_table st t).1 j).needs_load = true →
          (table_at st.1 j).needs_load = true) := by
  obtain ⟨s, hs, inv, _⟩ := perform_checks_run base calls fuel hfresh hfuel
  refine ⟨s, hs, ?_, ?_, inv.nl_mono, needs_load_load_table, ?_⟩
  · intro tab
    rw [count_loads]
    exact inv.load_once tab
  · intro tab h
    have : 0 < (loads s.2).count tab := List.count_pos_iff.2 h
    rw [count_loads] at this
    exact (inv.nl_done tab (List.count_pos_iff.1 this)).1
  · intro st t j h
    rw [(table_at_check_table st t j).1] at h
    exact h

/-- Witness of C13: the tables A and B both need the table C. -/
theorem load_table_at_most_once_witness :
    fresh_registry (sched_base_chain true)
      ∧ (sched_base_chain true).length + [(0, 2), (1, 2)].length < 10
      ∧ ∃ s, perform_checks 10 (add_table_dependencies (sched_base_chain true)
            [(0, 2), (1, 2)]) = some s
        ∧ (∀ tab, (loads s.2).count tab ≤ 1)
        ∧ (∀ tab, tab ∈ loads s.2 → (table_at s.1 tab).needs_load = false)
        ∧ (∀ tab, (table_at s.1 tab).needs_load = true →
            (table_at (perform_checks_init (add_table_dependencies (sched_base_chain true)
              [(0, 2), (1, 2)])) tab).needs_load = true)
        ∧ (∀ T t j, (table_at (load_table T t) j).needs_load = true →
            (table_at T j).needs_load = true)
        ∧ (∀ (st : sched_state) t j, (table_at (check_table st t).1 j).needs_load = true →
            (table_at st.1 j).needs_load = true) :=
  ⟨by unfold fresh_registry; decide, by decide,
    load_table_at_most_once (sched_base_chain true) [(0, 2), (1, 2)] 10
      (by unfold fresh_registry; decide) (by decide)⟩

/-- Counterexample to C14: A needs B, and B needs C and D; A and B have a checked column.
The graph is acyclic, and `load_table` is called on B, A, D, C in this order: B is loaded
before the tables C and D that it needs. -/
theorem load_order_violates_needs :
    (perform_checks 10 (add_table_dependencies sched_base_fan [(0, 1), (1, 2), (1, 3)])).map
      (fun s => loads s.2) = some [1, 0, 3, 2] := by
  decide

/-- Claim C14, amended.  For every fresh registry, every sequence of calls of
`add_table_dependency` and every selection of checked columns, a run of `perform_checks`
with enough iterations ends, and whenever table A needs table B, B is loaded before A is
checked.  For A needs B and B needs C, with a checked column in A and in B, the load
order is C, B, A. -/
theorem needed_tables_loaded_before_check (base : List pg_catalog_table)
    (calls : List (Nat × Nat)) (fuel : Nat) (hfresh : fresh_registry base)
    (hfuel : base.length + calls.length < fuel) :
    (∃ s, perform_checks fuel (add_table_dependencies base calls) = some s
      ∧ ∀ pre post a nl nn, s.2 = pre ++ sched_event.check a nl nn :: post →
          ∀ b ∈ (table_at (add_table_dependencies base calls) a).needs,
            sched_event.load b ∈ pre)
    ∧ ∀ c, (perform_checks 10
          (add_table_dependencies (sched_base_chain c) [(0, 1), (1, 2)])).map
        (fun s => loads s.2) = some [2, 1, 0] := by
  constructor
  · obtain ⟨s, hs, inv, _⟩ := perform_checks_run base calls fuel hfresh hfuel
    refine ⟨s, hs, ?_⟩
    intro pre post a nl nn htr b hb
    rw [← (perform_checks_init_spec base calls hfresh a).1] at hb
    exact (inv.order pre post a nl nn htr).2 b hb
  · decide

/-- Witness of C14 as amended: the tables A, B, C and D of the counterexample. -/
theorem needed_tables_loaded_before_check_witness :
    fresh_registry sched_base_fan
      ∧ sched_base_fan.length + [(0, 1), (1, 2), (1, 3)].length < 10
      ∧ (∃ s, perform_checks 10 (add_table_dependencies sched_base_fan
              [(0, 1), (1, 2), (1, 3)]) = some s
          ∧ ∀ pre post a nl nn, s.2 = pre ++ sched_event.check a nl nn :: post →
              ∀ b ∈ (table_at (add_table_dependencies sched_base_fan
                  [(0, 1), (1, 2), (1, 3)]) a).needs,
                sched_event.load b ∈ pre)
      ∧ ∀ c, (perform_checks 10
            (add_table_dependencies (sched_base_chain c) [(0, 1), (1, 2)])).map
          (fun s => loads s.2) = some [2, 1, 0] :=
  ⟨by unfold fresh_registry; decide, by decide,
    needed_tables_loaded_before_check sched_base_fan [(0, 1), (1, 2), (1, 3)] 10
      (by unfold fresh_registry; decide) (by decide)⟩


/-- Claim C15.  For every fresh registry whose checked columns are needed columns and
every sequence of calls of `add_table_dependency`, a run of `perform_checks` with enough
iterations ends, and at every call of `check_table` on a table T, `load_table` has been
called before on T itself and on every table that T declared as needed, and T has
`needs_load` false and `num_needs` zero at that moment. -/
theorem check_table_after_loads (base : List pg_catalog_table) (calls : List (Nat × Nat))
    (fuel : Nat) (hfresh : fresh_registry base)
    (hneeded : ∀ tab ∈ base, ∀ col ∈ tab.cols, col.checked = trivalue.TRI_YES →
      col.needed = true)
    (hfuel : base.length + calls.length < fuel) :
    ∃ s, perform_checks fuel (add_table_dependencies base calls) = some s
      ∧ ∀ pre post t nl nn, s.2 = pre ++ sched_event.check t nl nn :: post →
          sched_event.load t ∈ pre
          ∧ (∀ b ∈ (table_at (add_table_dependencies base calls) t).needs,
              sched_event.load b ∈ pre)
          ∧ nl = false ∧ nn = 0 := by
  obtain ⟨s, hs, inv, _⟩ := perform_checks_run base calls fuel hfresh hfuel
  refine ⟨s, hs, ?_⟩
  intro pre post t nl nn htr
  have hmem : sched_event.check t nl nn ∈ s.2 := by
    rw [htr]
    exact List.mem_append_right _ (List.mem_cons_self _ _)
  obtain ⟨_, hnc, hnl, hnn⟩ := inv.chk_done t nl nn hmem
  obtain ⟨o1, o2⟩ := inv.order pre post t nl nn htr
  obtain ⟨i1, _, i3⟩ := perform_checks_init_spec base calls hfresh t
  refine ⟨o1 (i3 hneeded hnc), ?_, hnl, hnn⟩
  intro b hb
  rw [← i1] at hb
  exact o2 b hb

/-- Witness of C15: the tables pg_class and pg_attribute, each needing the other. -/
theorem check_table_after_loads_witness :
    fresh_registry sched_base_cycle
      ∧ (∀ tab ∈ sched_base_cycle, ∀ col ∈ tab.cols, col.checked = trivalue.TRI_YES →
          col.needed = true)
      ∧ sched_base_cycle.length + [(0, 1), (1, 0)].length < 10
      ∧ ∃ s, perform_checks 10 (add_table_dependencies sched_base_cycle [(0, 1), (1, 0)])
            = some s
        ∧ ∀ pre post t nl nn, s.2 = pre ++ sched_event.check t nl nn :: post →
            sched_event.load t ∈ pre
            ∧ (∀ b ∈ (table_at (add_table_dependencies sched_base_cycle
                  [(0, 1), (1, 0)]) t).needs,
                sched_event.load b ∈ pre)
            ∧ nl = false ∧ nn = 0 :=
  ⟨by unfold fresh_registry; decide, by decide, by decide,
    check_table_after_loads sched_base_cycle [(0, 1), (1, 0)] 10
      (by unfold fresh_registry; decide) (by decide) (by decide)⟩

/-- Claim C16.  For every fresh registry and every sequence of calls of
`add_table_dependency`, cyclic graphs included, a run of `perform_checks` with enough
iterations for its loops ends; every table that had a checked column is passed to
`check_table` exactly once and no other table is; on exit every table has `needs_check`
false.  The `continue` branch of the preloading loop is never taken: had it been taken
once, the preloading loop would not have ended, whatever its number of iterations. -/
theorem perform_checks_terminates (base : List pg_catalog_table) (calls : List (Nat × Nat))
    (fuel : Nat) (hfresh : fresh_registry base) (hfuel : base.length + calls.length < fuel) :
    (∃ s, perform_checks fuel (add_table_dependencies base calls) = some s
      ∧ (∀ i, (∃ col ∈ (table_at base i).cols, col.checked = trivalue.TRI_YES) →
          (checks s.2).count i = 1)
      ∧ (∀ i, (¬ ∃ col ∈ (table_at base i).cols, col.checked = trivalue.TRI_YES) →
          (checks s.2).count i = 0)
      ∧ ∀ i, (table_at s.1 i).needs_check = false)
    ∧ ∀ (best reftab : Nat) (st : sched_state),
        (table_at st.1 best).needs.getLast? = some reftab →
        (table_at st.1 reftab).needs_load = false →
        ∀ n, perform_checks_preload n best st = none := by
  refine ⟨?_, perform_checks_preload_continue⟩
  obtain ⟨s, hs, inv, hrem⟩ := perform_checks_run base calls fuel hfresh hfuel
  have hform : ∀ t nl nn, sched_event.check t nl nn ∈ s.2 → nl = false ∧ nn = 0 :=
    fun t nl nn h => (inv.chk_done t nl nn h).2.2
  have hexit := needs_check_of_remaining_zero s.1 hrem
  refine ⟨s, hs, ?_, ?_, hexit⟩
  · intro i hcol
    have h0 := (perform_checks_init_spec base calls hfresh i).2.1.2 hcol
    have hmem := inv.chk_keep i h0 (hexit i)
    have hpos : 0 < s.2.count (sched_event.check i false 0) := List.count_pos_iff.2 hmem
    have hle := inv.chk_once i
    rw [count_checks s.2 i hform]
    omega
  · intro i hcol
    rw [count_checks s.2 i hform, List.count_eq_zero]
    intro hmem
    exact hcol ((perform_checks_init_spec base calls hfresh i).2.1.1
      (inv.chk_done i false 0 hmem).2.1)

/-- Witness of C16: the tables pg_class and pg_attribute, each needing the other. -/
theorem perform_checks_terminates_witness :
    fresh_registry sched_base_cycle
      ∧ sched_base_cycle.length + [(0, 1), (1, 0)].length < 10
      ∧ (∃ s, perform_checks 10 (add_table_dependencies sched_base_cycle [(0, 1), (1, 0)])
            = some s
        ∧ (∀ i, (∃ col ∈ (table_at sched_base_cycle i).cols,
              col.checked = trivalue.TRI_YES) → (checks s.2).count i = 1)
        ∧ (∀ i, (¬ ∃ col ∈ (table_at sched_base_cycle i).cols,
              col.checked = trivalue.TRI_YES) → (checks s.2).count i = 0)
        ∧ ∀ i, (table_at s.1 i).needs_check = false)
      ∧ ∀ (best reftab : Nat) (st : sched_state),
          (table_at st.1 best).needs.getLast? = some reftab →
          (table_at st.1 reftab).needs_load = false →
          ∀ n, perform_checks_preload n best st = none :=
  ⟨by unfold fresh_registry; decide, by decide,
    perform_checks_terminates sched_base_cycle [(0, 1), (1, 0)] 10
      (by unfold fresh_registry; decide) (by decide)⟩


/-! ## The checks of attnum and relnatts (claims C23 to C25) -/

/-- Claim C23.  With pg_class in the registry, `check_attnum` emits at most one diagnostic
for a row, and it emits one iff: `strtol` does not read the value to its end; or the number
read is 0; or it is below the floor, -7 on the base flavor and -8 on the extended one; or
pg_class has a hash table, the result columns attrelid and relnatts are found, the
attrelid of the row is found in the hash table of pg_class, the relnatts of the row found
is read to its end as a non-negative number, and attnum is greater than it. -/
theorem check_attnum_diagnostics (remote : remote_server) (tables : List pg_catalog_table)
    (tab : pg_catalog_table) (tabcol : pg_catalog_column) (rownum pg_class : Nat)
    (hclass : find_table_by_name tables "pg_class".data = some pg_class) :
    ∃ reports, check_attnum remote tables tab tabcol rownum = some reports
      ∧ reports.length ≤ 1
      ∧ (reports.length = 1 ↔
          ((strtol (PQgetvalue (table_data tab) rownum tabcol.result_column)).2 ≠ []
            ∨ (strtol (PQgetvalue (table_data tab) rownum tabcol.result_column)).1 = 0
            ∨ (strtol (PQgetvalue (table_data tab) rownum tabcol.result_column)).1
                < (if remote.remote_is_edb then -8 else -7)
            ∨ ∃ ht, (table_at tables pg_class).ht = some ht
                ∧ PQfnumber (table_at tables pg_class).fields "relnatts".data ≠ -1
                ∧ PQfnumber tab.fields "attrelid".data ≠ -1
                ∧ pgrhash_get ht [PQgetvalue (table_data tab) rownum
                    (PQfnumber tab.fields "attrelid".data).toNat] ≠ -1
                ∧ (strtol (PQgetvalue (table_data (table_at tables pg_class))
                    (pgrhash_get ht [PQgetvalue (table_data tab) rownum
                      (PQfnumber tab.fields "attrelid".data).toNat]).toNat
                    (PQfnumber (table_at tables pg_class).fields
                      "relnatts".data).toNat)).2 = []
                ∧ 0 ≤ (strtol (PQgetvalue (table_data (table_at tables pg_class))
                    (pgrhash_get ht [PQgetvalue (table_data tab) rownum
                      (PQfnumber tab.fields "attrelid".data).toNat]).toNat
                    (PQfnumber (table_at tables pg_class).fields
                      "relnatts".data).toNat)).1
                ∧ (strtol (PQgetvalue (table_data tab) rownum tabcol.result_column)).1
                  > (strtol (PQgetvalue (table_data (table_at tables pg_class))
                    (pgrhash_get ht [PQgetvalue (table_data tab) rownum
                      (PQfnumber tab.fields "attrelid".data).toNat]).toNat
                    (PQfnumber (table_at tables pg_class).fields
                      "relnatts".data).toNat)).1)) := by
  unfold check_attnum
  simp only [hclass]
  by_cases h1 : (strtol (PQgetvalue (table_data tab) rownum tabcol.result_column)).2 ≠ []
  · rw [if_pos h1]
    exact ⟨_, rfl, Nat.le_refl _, fun _ => Or.inl h1, fun _ => rfl⟩
  rw [if_neg h1]
  by_cases h2 : (strtol (PQgetvalue (table_data tab) rownum tabcol.result_column)).1 = 0
  · rw [if_pos h2]
    exact ⟨_, rfl, Nat.le_refl _, fun _ => Or.inr (Or.inl h2), fun _ => rfl⟩
  rw [if_neg h2]
  by_cases h3 : (strtol (PQgetvalue (table_data tab) rownum tabcol.result_column)).1
      < (if remote.remote_is_edb then -8 else -7)
  · simp only [if_pos h3]
    exact ⟨_, rfl, Nat.le_refl _, fun _ => Or.inr (Or.inr (Or.inl h3)), fun _ => rfl⟩
  simp only [if_neg h3]
  cases hht : (table_at tables pg_class).ht with
  | none =>
    refine ⟨_, rfl, Nat.zero_le _, fun h => absurd h (by simp), ?_⟩
    rintro (h | h | h | ⟨ht, h, _⟩)
    · exact absurd h h1
    · exact absurd h h2
    · exact absurd h h3
    · exact absurd h (by simp)
  | some ht =>
    simp only
    by_cases h4 : PQfnumber (table_at tables pg_class).fields "relnatts".data = -1
        ∨ PQfnumber tab.fields "attrelid".data = -1
    · rw [if_pos h4]
      refine ⟨_, rfl, Nat.zero_le _, fun h => absurd h (by simp), ?_⟩
      rintro (h | h | h | ⟨ht', _, ha, hb, _⟩)
      · exact absurd h h1
      · exact absurd h h2
      · exact absurd h h3
      · rcases h4 with h4 | h4
        · exact absurd h4 ha
        · exact absurd h4 hb
    rw [if_neg h4]
    by_cases h5 : pgrhash_get ht [PQgetvalue (table_data tab) rownum
        (PQfnumber tab.fields "attrelid".data).toNat] = -1
    · rw [if_pos h5]
      refine ⟨_, rfl, Nat.zero_le _, fun h => absurd h (by simp), ?_⟩
      rintro (h | h | h | ⟨ht', he, _, _, hc, _⟩)
      · exact absurd h h1
      · exact absurd h h2
      · exact absurd h h3
      · rw [← Option.some.inj he] at hc
        exact absurd h5 hc
    rw [if_neg h5]
    by_cases h6 : (strtol (PQgetvalue (table_data (table_at tables pg_class))
          (pgrhash_get ht [PQgetvalue (table_data tab) rownum
            (PQfnumber tab.fields "attrelid".data).toNat]).toNat
          (PQfnumber (table_at tables pg_class).fields "relnatts".data).toNat)).2 ≠ []
        ∨ (strtol (PQgetvalue (table_data (table_at tables pg_class))
          (pgrhash_get ht [PQgetvalue (table_data tab) rownum
            (PQfnumber tab.fields "attrelid".data).toNat]).toNat
          (PQfnumber (table_at tables pg_class).fields "relnatts".data).toNat)).1 < 0
    · rw [if_pos h6]
      refine ⟨_, rfl, Nat.zero_le _, fun h => absurd h (by simp), ?_⟩
      rintro (h | h | h | ⟨ht', he, _, _, _, hd, hf, _⟩)
      · exact absurd h h1
      · exact absurd h h2
      · exact absurd h h3
      · rw [← Option.some.inj he] at hd hf
        rcases h6 with h6 | h6
        · exact absurd hd h6
        · exact absurd hf (not_le.2 h6)
    rw [if_neg h6]
    have h6a := not_or.1 h6
    by_cases h7 : (strtol (PQgetvalue (table_data tab) rownum tabcol.result_column)).1
        > (strtol (PQgetvalue (table_data (table_at tables pg_class))
          (pgrhash_get ht [PQgetvalue (table_data tab) rownum
            (PQfnumber tab.fields "attrelid".data).toNat]).toNat
          (PQfnumber (table_at tables pg_class).fields "relnatts".data).toNat)).1
    · rw [if_pos h7]
      have h4a := not_or.1 h4
      exact ⟨_, rfl, Nat.le_refl _,
        fun _ => Or.inr (Or.inr (Or.inr ⟨ht, rfl, h4a.1, h4a.2, h5,
          not_not.1 h6a.1, not_lt.1 h6a.2, h7⟩)), fun _ => rfl⟩
    · rw [if_neg h7]
      refine ⟨_, rfl, Nat.zero_le _, fun h => absurd h (by simp), ?_⟩
      rintro (h | h | h | ⟨ht', he, _, _, _, _, _, hg⟩)
      · exact absurd h h1
      · exact absurd h h2
      · exact absurd h h3
      · rw [← Option.some.inj he] at hg
        exact absurd hg h7


/-- Witness of C23: row 2 of `sample_attnum_attribute`, attribute 4 of pg_class, whose
relnatts is 3. -/
theorem check_attnum_diagnostics_witness :
    find_table_by_name sample_attribute_tables "pg_class".data = some 0
      ∧ ∃ reports, check_attnum sample_remote sample_attribute_tables
            sample_attnum_attribute (sample_column "attnum".data 1) 2 = some reports
        ∧ reports.length ≤ 1
        ∧ (reports.length = 1 ↔
          ((strtol (PQgetvalue (table_data sample_attnum_attribute) 2
                (sample_column "attnum".data 1).result_column)).2 ≠ []
            ∨ (strtol (PQgetvalue (table_data sample_attnum_attribute) 2
                (sample_column "attnum".data 1).result_column)).1 = 0
            ∨ (strtol (PQgetvalue (table_data sample_attnum_attribute) 2
                (sample_column "attnum".data 1).result_column)).1
                < (if sample_remote.remote_is_edb then -8 else -7)
            ∨ ∃ ht, (table_at sample_attribute_tables 0).ht = some ht
                ∧ PQfnumber (table_at sample_attribute_tables 0).fields "relnatts".data ≠ -1
                ∧ PQfnumber sample_attnum_attribute.fields "attrelid".data ≠ -1
                ∧ pgrhash_get ht [PQgetvalue (table_data sample_attnum_attribute) 2
                    (PQfnumber sample_attnum_attribute.fields "attrelid".data).toNat] ≠ -1
                ∧ (strtol (PQgetvalue (table_data (table_at sample_attribute_tables 0))
                    (pgrhash_get ht [PQgetvalue (table_data sample_attnum_attribute) 2
                      (PQfnumber sample_attnum_attribute.fields "attrelid".data).toNat]).toNat
                    (PQfnumber (table_at sample_attribute_tables 0).fields
                      "relnatts".data).toNat)).2 = []
                ∧ 0 ≤ (strtol (PQgetvalue (table_data (table_at sample_attribute_tables 0))
                    (pgrhash_get ht [PQgetvalue (table_data sample_attnum_attribute) 2
                      (PQfnumber sample_attnum_attribute.fields "attrelid".data).toNat]).toNat
                    (PQfnumber (table_at sample_attribute_tables 0).fields
                      "relnatts".data).toNat)).1
                ∧ (strtol (PQgetvalue (table_data sample_attnum_attribute) 2
                    (sample_column "attnum".data 1).result_column)).1
                  > (strtol (PQgetvalue (table_data (table_at sample_attribute_tables 0))
                    (pgrhash_get ht [PQgetvalue (table_data sample_attnum_attribute) 2
                      (PQfnumber sample_attnum_attribute.fields "attrelid".data).toNat]).toNat
                    (PQfnumber (table_at sample_attribute_tables 0).fields
                      "relnatts".data).toNat)).1)) :=
  ⟨by decide,
    check_attnum_diagnostics sample_remote sample_attribute_tables sample_attnum_attribute
      (sample_column "attnum".data 1) 2 0 (by decide)⟩

/-- One diagnostic of `check_attnum` on row 2 of `sample_attnum_attribute`: attnum 4
exceeds the relnatts 3 of pg_class. -/
theorem check_attnum_sample_exceeds :
    check_attnum sample_remote sample_attribute_tables sample_attnum_attribute
      (sample_column "attnum".data 1) 2 = some [Report.exceeds_relnatts 3] := by
  decide


theorem reports_check_relnatts_loop (ht : pgrhash) (oid : CStr) (iterations : Nat) :
    ∀ attno, reports (check_relnatts_loop ht oid iterations attno)
      = ((List.range' attno iterations).filter
          (fun k => decide (pgrhash_get ht [oid, snprintf_d k] = -1))).map
        Report.attribute_does_not_exist := by
  induction iterations with
  | zero => intro attno; rfl
  | succ n ih =>
    intro attno
    unfold check_relnatts_loop
    rw [reports_append, ih (attno + 1), List.range'_succ]
    by_cases h : pgrhash_get ht [oid, snprintf_d attno] = -1
    · simp [h, reports]
    · simp [h, reports]

theorem gets_check_relnatts_loop (ht : pgrhash) (oid : CStr) (iterations : Nat) :
    ∀ attno, gets (check_relnatts_loop ht oid iterations attno)
      = (List.range' attno iterations).map (fun k => [oid, snprintf_d k]) := by
  induction iterations with
  | zero => intro attno; rfl
  | succ n ih =>
    intro attno
    unfold check_relnatts_loop
    rw [gets_append, ih (attno + 1), List.range'_succ]
    by_cases h : pgrhash_get ht [oid, snprintf_d attno] = -1
    · simp [h, gets]
    · simp [h, gets]

/-- Claim C24, as the code has it: the test of `check_relnatts` is `val < 0` on the pointer
`val`, not on the number read, so that the negative integer "-1" (row 1 of
`sample_relnatts_class`) draws no diagnostic at all, while the value "2x" with trailing
text (row 2) draws "must be a non-negative integer". -/
theorem check_relnatts_negative_not_reported :
    PQgetvalue (table_data sample_relnatts_class) 1 1 = "-1".data
      ∧ strtol "-1".data = (-1, [])
      ∧ check_relnatts sample_attribute_tables sample_relnatts_class
          (sample_column "relnatts".data 1) 1 = some []
      ∧ (check_relnatts sample_attribute_tables sample_relnatts_class
          (sample_column "relnatts".data 1) 2).map reports
        = some [Report.must_be_a_non_negative_integer, Report.attribute_does_not_exist 2] := by
  decide

/-- Claim C25.  With pg_attribute in the registry and indexed, the oid result column found,
and a value that `strtol` reads to its end as the number `n` (below `INT_MAX`),
`check_relnatts` returns; its diagnostics are "attribute k does not exist", one for each k
from 1 to `n` whose key (oid, k) the hash table of pg_attribute does not find, in
increasing k; the keys probed are those of k = 1 .. `n` and no other; nothing at all
happens when `n` is at most 0. -/
theorem check_relnatts_attributes (tables : List pg_catalog_table) (tab : pg_catalog_table)
    (tabcol : pg_catalog_column) (rownum pg_attribute : Nat) (ht : pgrhash) (n : Int)
    (hattr : find_table_by_name tables "pg_attribute".data = some pg_attribute)
    (hht : (table_at tables pg_attribute).ht = some ht)
    (hoid : PQfnumber tab.fields "oid".data ≠ -1)
    (hval : strtol (PQgetvalue (table_data tab) rownum tabcol.result_column) = (n, []))
    (hn : n < INT_MAX) :
    ∃ events, check_relnatts tables tab tabcol rownum = some events
      ∧ reports events
        = ((List.range' 1 n.toNat).filter (fun k => decide (pgrhash_get ht
            [PQgetvalue (table_data tab) rownum (PQfnumber tab.fields "oid".data).toNat,
             snprintf_d k] = -1))).map Report.attribute_does_not_exist
      ∧ gets events
        = (List.range' 1 n.toNat).map (fun k =>
            [PQgetvalue (table_data tab) rownum (PQfnumber tab.fields "oid".data).toNat,
             snprintf_d k])
      ∧ (n ≤ 0 → events = []) := by
  unfold check_relnatts
  simp only [hattr, hht, hval, if_neg hoid, pointer_below_null, ne_eq, not_true_eq_false,
    Bool.false_eq_true, or_self, if_false, ge_iff_le, if_neg (not_le.2 hn), List.nil_append]
  refine ⟨_, rfl, reports_check_relnatts_loop _ _ _ _, gets_check_relnatts_loop _ _ _ _, ?_⟩
  intro h0
  rw [Int.toNat_eq_zero.2 h0]
  rfl


/-- Witness of C25: row 0 of `sample_relnatts_class`, pg_class with relnatts 3, of which
pg_attribute has the attributes 1 and 2 but not 3. -/
theorem check_relnatts_attributes_witness :
    find_table_by_name sample_attribute_tables "pg_attribute".data = some 1
      ∧ (table_at sample_attribute_tables 1).ht = some sample_attnum_ht
      ∧ PQfnumber sample_relnatts_class.fields "oid".data ≠ -1
      ∧ strtol (PQgetvalue (table_data sample_relnatts_class) 0
          (sample_column "relnatts".data 1).result_column) = (3, [])
      ∧ (3 : Int) < INT_MAX
      ∧ ∃ events, check_relnatts sample_attribute_tables sample_relnatts_class
            (sample_column "relnatts".data 1) 0 = some events
        ∧ reports events
          = ((List.range' 1 (3 : Int).toNat).filter (fun k => decide (pgrhash_get
              sample_attnum_ht
              [PQgetvalue (table_data sample_relnatts_class) 0
                (PQfnumber sample_relnatts_class.fields "oid".data).toNat,
               snprintf_d k] = -1))).map Report.attribute_does_not_exist
        ∧ gets events
          = (List.range' 1 (3 : Int).toNat).map (fun k =>
              [PQgetvalue (table_data sample_relnatts_class) 0
                (PQfnumber sample_relnatts_class.fields "oid".data).toNat,
               snprintf_d k])
        ∧ ((3 : Int) ≤ 0 → events = []) :=
  ⟨by decide, by decide, by decide, by decide, by decide,
    check_relnatts_attributes sample_attribute_tables sample_relnatts_class
      (sample_column "relnatts".data 1) 0 1 sample_attnum_ht 3
      (by decide) (by decide) (by decide) (by decide) (by decide)⟩

/-- The diagnostics of `check_relnatts` on row 0 of `sample_relnatts_class`: attribute 3
of pg_class is missing. -/
theorem check_relnatts_sample_missing :
    (check_relnatts sample_attribute_tables sample_relnatts_class
      (sample_column "relnatts".data 1) 0).map reports
      = some [Report.attribute_does_not_exist 3] := by
  decide


/-! ## Database scoping and the duplicate-owner check (claims C21, C22) -/

/-- The database column that `build_depend_cache` stores in the cache: the column named
dbid for the referring side of pg_(sh)depend, and -1 for the two other styles. -/
theorem build_depend_cache_database_column (tables : List pg_catalog_table)
    (statics0 statics : depend_statics) (keycols_3 : Nat) (tab : pg_catalog_table)
    (tabcol : pg_catalog_column) (cache : check_depend_cache)
    (h : build_depend_cache tables statics0 keycols_3 tab tabcol = some (cache, statics)) :
    cache.database_result_column
      = (if get_style tab.table_name tabcol.name
            = depend_column_style.DEPEND_COLUMN_STYLE_OBJID
         then PQfnumber tab.fields "dbid".data else -1) := by
  unfold build_depend_cache at h
  simp only at h
  split at h
  · exact absurd h (by simp)
  · split at h
    · split at h
      · exact absurd h (by simp)
      · simp only [Option.some.injEq, Prod.mk.injEq] at h
        rw [← h.1]
        simp only
        cases get_style tab.table_name tabcol.name <;> simp
    · simp only [Option.some.injEq, Prod.mk.injEq] at h
      rw [← h.1]
      simp only
      cases get_style tab.table_name tabcol.name <;> simp

/-- Counterexample to C21: row 2 of `sample_pg_shdepend` belongs to the database with OID
7 while the database with OID 5 is audited; the class-id check of its column refclassid
is not skipped and reports "not a system catalog OID". -/
theorem check_dependency_class_id_ref_side_not_scoped :
    PQgetvalue (table_data sample_pg_shdepend) 2
        (PQfnumber sample_pg_shdepend.fields "dbid".data).toNat = "7".data
      ∧ sample_remote.database_oid = some "5".data
      ∧ (build_depend_cache sample_tables sample_statics 0 sample_pg_shdepend
          (sample_column "refclassid".data 4)).map
          (fun r => check_dependency_class_id sample_remote r.2 r.1 sample_pg_shdepend
            (sample_column "refclassid".data 4) 2)
        = some [Report.not_a_system_catalog_oid] := by
  decide

/-- Claim C21, amended.  For a table that has a dbid column and a row whose dbid is not
"0" and is not the OID of the audited database (or that OID is not known), the class-id
check and the object-id check of a referring-side column, with the cache that
`build_depend_cache` made for the column, report nothing, and the object-id check leaves
the cache as it is: the duplicate-owner check is not run.  The caches of the columns of
the two other styles (the referenced side included) have no database column, and no row
is skipped for them. -/
theorem dependency_row_of_other_database_skipped (remote : remote_server)
    (tables : List pg_catalog_table) (statics0 statics : depend_statics) (keycols_3 : Nat)
    (tab : pg_catalog_table) (tabcol : pg_catalog_column) (cache : check_depend_cache)
    (rownum : Nat)
    (hcache : build_depend_cache tables statics0 keycols_3 tab tabcol = some (cache, statics))
    (hstyle : get_style tab.table_name tabcol.name
      = depend_column_style.DEPEND_COLUMN_STYLE_OBJID)
    (hdbid : PQfnumber tab.fields "dbid".data ≠ -1)
    (hnonzero : PQgetvalue (table_data tab) rownum
      (PQfnumber tab.fields "dbid".data).toNat ≠ ['0'])
    (hother : remote.database_oid ≠ some (PQgetvalue (table_data tab) rownum
      (PQfnumber tab.fields "dbid".data).toNat)) :
    check_dependency_class_id remote statics cache tab tabcol rownum = []
      ∧ check_dependency_id remote tables statics cache tab tabcol rownum = some ([], cache)
      ∧ ∀ (tables1 : List pg_catalog_table) (statics1 statics2 : depend_statics) (k : Nat)
          (tab1 : pg_catalog_table) (tabcol1 : pg_catalog_column)
          (cache1 : check_depend_cache) (rownum1 : Nat),
          build_depend_cache tables1 statics1 k tab1 tabcol1 = some (cache1, statics2) →
          get_style tab1.table_name tabcol1.name
            ≠ depend_column_style.DEPEND_COLUMN_STYLE_OBJID →
          not_for_this_database remote cache1 tab1 rownum1 = false := by
  have hcol := build_depend_cache_database_column _ _ _ _ _ _ _ hcache
  rw [if_pos hstyle] at hcol
  have hskip : not_for_this_database remote cache tab rownum = true := by
    unfold not_for_this_database
    rw [hcol, if_neg hdbid]
    simp only [if_neg hnonzero]
    cases hoid : remote.database_oid with
    | none => rfl
    | some oid =>
      rw [hoid] at hother
      simp only [decide_eq_true_eq]
      exact fun e => hother (by rw [e])
  refine ⟨?_, ?_, ?_⟩
  · unfold check_dependency_class_id
    rw [hskip]
    split <;> rfl
  · unfold check_dependency_id
    rw [hskip]
    split <;> rfl
  · intro tables1 statics1 statics2 k tab1 tabcol1 cache1 rownum1 h1 h2
    have hcol1 := build_depend_cache_database_column _ _ _ _ _ _ _ h1
    rw [if_neg h2] at hcol1
    unfold not_for_this_database
    rw [if_pos hcol1]


/-- Witness of C21 as amended: the column classid of `sample_pg_shdepend` in row 2, a row
of the database with OID 7. -/
theorem dependency_row_of_other_database_skipped_witness :
    build_depend_cache sample_tables sample_statics 0 sample_pg_shdepend
        (sample_column "classid".data 1) = some (sample_shdepend_cache 0, sample_statics)
      ∧ get_style sample_pg_shdepend.table_name (sample_column "classid".data 1).name
        = depend_column_style.DEPEND_COLUMN_STYLE_OBJID
      ∧ PQfnumber sample_pg_shdepend.fields "dbid".data ≠ -1
      ∧ PQgetvalue (table_data sample_pg_shdepend) 2
          (PQfnumber sample_pg_shdepend.fields "dbid".data).toNat ≠ ['0']
      ∧ sample_remote.database_oid ≠ some (PQgetvalue (table_data sample_pg_shdepend) 2
          (PQfnumber sample_pg_shdepend.fields "dbid".data).toNat)
      ∧ check_dependency_class_id sample_remote sample_statics (sample_shdepend_cache 0)
          sample_pg_shdepend (sample_column "classid".data 1) 2 = []
      ∧ check_dependency_id sample_remote sample_tables sample_statics
          (sample_shdepend_cache 0) sample_pg_shdepend (sample_column "classid".data 1) 2
        = some ([], sample_shdepend_cache 0)
      ∧ ∀ (tables1 : List pg_catalog_table) (statics1 statics2 : depend_statics) (k : Nat)
          (tab1 : pg_catalog_table) (tabcol1 : pg_catalog_column)
          (cache1 : check_depend_cache) (rownum1 : Nat),
          build_depend_cache tables1 statics1 k tab1 tabcol1 = some (cache1, statics2) →
          get_style tab1.table_name tabcol1.name
            ≠ depend_column_style.DEPEND_COLUMN_STYLE_OBJID →
          not_for_this_database sample_remote cache1 tab1 rownum1 = false :=
  ⟨by decide, by decide, by decide, by decide, by decide,
    dependency_row_of_other_database_skipped sample_remote sample_tables sample_statics
      sample_statics 0 sample_pg_shdepend (sample_column "classid".data 1)
      (sample_shdepend_cache 0) 2 (by decide) (by decide) (by decide) (by decide)
      (by decide)⟩

/-- The sub-ID check on row 2 of `sample_pg_shdepend`, which `not_for_this_database` tells
to ignore: `check_dependency_subid` does not ask, and reports that pg_attribute has no
entry for the column. -/
theorem check_dependency_subid_other_database :
    not_for_this_database sample_remote (sample_shdepend_cache 0) sample_pg_shdepend 2 = true
      ∧ check_dependency_subid sample_tables sample_statics (sample_shdepend_cache 0)
          sample_pg_shdepend (sample_column "objsubid".data 3) 2
        = some [Report.no_matching_entry "pg_attribute".data] := by
  decide

/-- Claim C22, as the code has it: `build_depend_cache` passes four key columns to
`pgrhash_create` and assigns three, so the hash table for duplicate owners has a fourth
key column, whatever the slot `keycols[3]` holds.  Rows 0 and 1 of `sample_pg_shdepend`
are in scope, have deptype "o" and the same database, class and object.  When the slot
holds 3, the column objsubid, row 1 is not reported; when it holds 6, the column deptype,
row 1 is reported as "duplicate owner dependency". -/
theorem duplicate_owner_index_has_four_key_columns :
    (∀ c ∈ [0, 1, 2, 6], PQgetvalue (table_data sample_pg_shdepend) 0 c
        = PQgetvalue (table_data sample_pg_shdepend) 1 c)
      ∧ PQgetvalue (table_data sample_pg_shdepend) 0 6 = ['o']
      ∧ (sample_shdepend_cache 3).duplicate_owner_ht.map (fun ht => (ht.nkeycols, ht.keycols))
        = some (4, [0, 1, 2, 3])
      ∧ check_dependency_id_rows sample_remote sample_tables sample_statics
          sample_pg_shdepend (sample_column "objid".data 2) [0, 1] (sample_shdepend_cache 3)
        = some [[], []]
      ∧ check_dependency_id_rows sample_remote sample_tables sample_statics
          sample_pg_shdepend (sample_column "objid".data 2) [0, 1] (sample_shdepend_cache 6)
        = some [[], [Report.duplicate_owner_dependency]] := by
  decide


/-! ## Lemmas on decide_what_to_check -/

/-- What the body of the column loop of the first pass makes of a column. -/
theorem decide_what_to_check_column_spec (remote : remote_server) (selected_columns : Bool)
    (tab_checked : trivalue) (tabcol decided : pg_catalog_column) (by_version : Bool)
    (h : decide_what_to_check_column remote selected_columns tab_checked tabcol
      = some (decided, by_version)) :
    ¬ (tabcol.checked = trivalue.TRI_YES ∧ tabcol.check = none)
      ∧ by_version = decide_what_to_check_available remote tabcol
      ∧ decided.available
        = (decide_what_to_check_available remote tabcol
            || decide (tabcol.checked = trivalue.TRI_YES))
      ∧ decided.checked
        = (if tabcol.checked = trivalue.TRI_DEFAULT then
            if tabcol.check = none then trivalue.TRI_NO
            else if decide_what_to_check_available remote tabcol = false then trivalue.TRI_NO
            else if tab_checked ≠ trivalue.TRI_DEFAULT then tab_checked
            else if selected_columns = true then trivalue.TRI_NO
            else trivalue.TRI_YES
          else tabcol.checked)
      ∧ decided.needed
        = (decided.available && (decide (decided.checked = trivalue.TRI_YES)
            || tabcol.is_key_column || tabcol.is_display_column))
      ∧ decided = { tabcol with available := decided.available, checked := decided.checked,
                                needed := decided.needed } := by
  unfold decide_what_to_check_column at h
  split at h
  · exact absurd h (by simp)
  · rename_i hfatal
    simp only [Option.some.injEq, Prod.mk.injEq] at h
    obtain ⟨h1, h2⟩ := h
    subst h1 h2
    refine ⟨hfatal, rfl, ?_, ?_, ?_, rfl⟩
    · simp only
      cases decide_what_to_check_available remote tabcol <;>
        cases tabcol.checked <;> simp
    · simp only
      cases hc : tabcol.checked <;> simp
    · simp only
      cases hd : decide_what_to_check_available remote tabcol <;>
        cases hc : tabcol.checked <;> simp

/-- What the column loop of the first pass makes of the columns of a table. -/
theorem decide_what_to_check_columns_spec (remote : remote_server) (selected_columns : Bool)
    (tab_checked : trivalue) (cols : List pg_catalog_column) :
    ∀ (available : Bool) (result : List pg_catalog_column × Bool),
      decide_what_to_check_columns remote selected_columns tab_checked cols available
        = some result →
      result.1.length = cols.length
        ∧ result.2 = (available || cols.any (decide_what_to_check_available remote))
        ∧ ∀ c, c < cols.length →
            decide_what_to_check_column remote selected_columns tab_checked
                (cols.getD c { name := [] })
              = some (result.1.getD c { name := [] },
                  decide_what_to_check_available remote (cols.getD c { name := [] })) := by
  induction cols with
  | nil =>
    intro available result h
    simp only [decide_what_to_check_columns, Option.some.injEq] at h
    subst h
    exact ⟨rfl, by simp, fun c hc => absurd hc (Nat.not_lt_zero _)⟩
  | cons col cols ih =>
    intro available result h
    unfold decide_what_to_check_columns at h
    cases hcol : decide_what_to_check_column remote selected_columns tab_checked col with
    | none => rw [hcol] at h; exact absurd h (by simp)
    | some decided =>
      rw [hcol] at h
      simp only at h
      cases hrest : decide_what_to_check_columns remote selected_columns tab_checked cols
          (if decided.2 = true then true else available) with
      | none => rw [hrest] at h; exact absurd h (by simp)
      | some rest =>
        rw [hrest] at h
        simp only [Option.some.injEq] at h
        subst h
        obtain ⟨l, a, p⟩ := ih _ _ hrest
        have hd := (decide_what_to_check_column_spec _ _ _ _ decided.1 decided.2 hcol).2.1
        refine ⟨by simp [l], ?_, ?_⟩
        · simp only [a, List.any_cons, hd]
          cases decide_what_to_check_available remote col <;> cases available <;> simp
        · intro c hc
          cases c with
          | zero =>
            simp only [List.getD_cons_zero]
            rw [hcol, ← hd]
          | succ c =>
            simp only [List.getD_cons_succ]
            exact p c (by simpa using hc)

/-- What the first pass makes of a table. -/
theorem decide_what_to_check_table_spec (remote : remote_server) (selected_columns : Bool)
    (tab decided : pg_catalog_table)
    (h : decide_what_to_check_table remote selected_columns tab = some decided) :
    decided.cols.length = tab.cols.length
      ∧ decided.available = tab.cols.any (decide_what_to_check_available remote)
      ∧ decided = { tab with cols := decided.cols, available := decided.available }
      ∧ ∀ c, c < tab.cols.length →
          decide_what_to_check_column remote selected_columns tab.checked (column_at tab c)
            = some (column_at decided c,
                decide_what_to_check_available remote (column_at tab c)) := by
  unfold decide_what_to_check_table at h
  cases hcols : decide_what_to_check_columns remote selected_columns tab.checked tab.cols
      false with
  | none => rw [hcols] at h; exact absurd h (by simp)
  | some result =>
    rw [hcols] at h
    simp only [Option.some.injEq] at h
    subst h
    obtain ⟨l, a, p⟩ := decide_what_to_check_columns_spec _ _ _ _ _ _ hcols
    exact ⟨l, by simpa using a, rfl, p⟩

/-- The first pass keeps the number of tables and decides every table by itself. -/
theorem decide_what_to_check_first_pass_spec (remote : remote_server)
    (selected_columns : Bool) (tables : List pg_catalog_table) :
    ∀ decided, decide_what_to_check_first_pass remote selected_columns tables
        = some decided →
      decided.length = tables.length
        ∧ ∀ i, i < tables.length →
            decide_what_to_check_table remote selected_columns (table_at tables i)
              = some (table_at decided i) := by
  induction tables with
  | nil =>
    intro decided h
    simp only [decide_what_to_check_first_pass, Option.some.injEq] at h
    subst h
    exact ⟨rfl, fun i hi => absurd hi (Nat.not_lt_zero _)⟩
  | cons tab tabs ih =>
    intro decided h
    unfold decide_what_to_check_first_pass at h
    cases htab : decide_what_to_check_table remote selected_columns tab with
    | none => rw [htab] at h; exact absurd h (by simp)
    | some first =>
      rw [htab] at h
      simp only at h
      cases hrest : decide_what_to_check_first_pass remote selected_columns tabs with
      | none => rw [hrest] at h; exact absurd h (by simp)
      | some rest =>
        rw [hrest] at h
        simp only [Option.some.injEq] at h
        subst h
        obtain ⟨l, p⟩ := ih rest hrest
        refine ⟨by simp [l], ?_⟩
        intro i hi
        cases i with
        | zero => simpa [table_at] using htab
        | succ i =>
          have := p i (by simpa using hi)
          simpa [table_at] using this


theorem column_needed_le_refl (a : pg_catalog_column) : column_needed_le a a :=
  ⟨rfl, fun h => h⟩

theorem column_needed_le_trans (a b c : pg_catalog_column) (h1 : column_needed_le a b)
    (h2 : column_needed_le b c) : column_needed_le a c := by
  refine ⟨?_, fun h => h2.2 (h1.2 h)⟩
  have e1 := h1.1
  have e2 := h2.1
  rw [e1] at e2
  exact e2

theorem table_needed_le_refl (a : pg_catalog_table) : table_needed_le a a :=
  ⟨rfl, rfl, rfl, rfl, rfl, rfl, fun _ => column_needed_le_refl _⟩

theorem table_needed_le_trans (a b c : pg_catalog_table) (h1 : table_needed_le a b)
    (h2 : table_needed_le b c) : table_needed_le a c := by
  obtain ⟨a1, a2, a3, a4, a5, a6, a7⟩ := h1
  obtain ⟨b1, b2, b3, b4, b5, b6, b7⟩ := h2
  exact ⟨b1.trans a1, b2.trans a2, b3.trans a3, b4.trans a4, b5.trans a5, b6.trans a6,
    fun c => column_needed_le_trans _ _ _ (a7 c) (b7 c)⟩

theorem registry_needed_le_refl (T : List pg_catalog_table) : registry_needed_le T T :=
  ⟨rfl, fun _ => table_needed_le_refl _⟩

theorem registry_needed_le_trans (T U V : List pg_catalog_table)
    (h1 : registry_needed_le T U) (h2 : registry_needed_le U V) : registry_needed_le T V :=
  ⟨h2.1.trans h1.1, fun i => table_needed_le_trans _ _ _ (h1.2 i) (h2.2 i)⟩

/-- An assignment to the fields of one table that relates the table to what it was
relates the array to what it was. -/
theorem registry_needed_le_modify_table (T : List pg_catalog_table) (i : Nat)
    (f : pg_catalog_table → pg_catalog_table) (hf : ∀ t, table_needed_le t (f t)) :
    registry_needed_le T (modify_table T i f) := by
  refine ⟨length_modify_table T i f, ?_⟩
  intro j
  rw [table_at_modify_table]
  split
  · rename_i h
    rw [h.1]
    exact hf _
  · exact table_needed_le_refl _

theorem registry_needed_le_add_table_dependency (T : List pg_catalog_table) (a b : Nat) :
    registry_needed_le T (add_table_dependency T a b) := by
  unfold add_table_dependency
  split
  · exact registry_needed_le_refl T
  · split
    · exact registry_needed_le_refl T
    · split
      · exact registry_needed_le_refl T
      · apply registry_needed_le_trans _
          (modify_table T a (fun tab => { tab with needs := tab.needs ++ [b] }))
        · apply registry_needed_le_modify_table
          intro t
          exact ⟨rfl, rfl, rfl, rfl, rfl, rfl, fun _ => column_needed_le_refl _⟩
        · apply registry_needed_le_modify_table
          intro t
          exact ⟨rfl, rfl, rfl, rfl, rfl, rfl, fun _ => column_needed_le_refl _⟩

theorem registry_needed_le_set_column_needed (T U : List pg_catalog_table) (tab : Nat)
    (name : CStr) (h : set_column_needed T tab name = some U) : registry_needed_le T U := by
  unfold set_column_needed at h
  cases hc : find_column_by_name (table_at T tab) name with
  | none => rw [hc] at h; exact absurd h (by simp)
  | some c =>
    rw [hc] at h
    simp only [Option.some.injEq] at h
    subst h
    apply registry_needed_le_modify_table
    intro t
    refine ⟨rfl, rfl, rfl, rfl, rfl, by simp, ?_⟩
    intro c'
    show column_needed_le (column_at t c')
      ((t.cols.set c { column_at t c with needed := true }).getD c' { name := [] })
    by_cases hcc : c = c'
    · subst hcc
      by_cases hlt : c < t.cols.length
      · rw [getD_set_self _ _ _ _ hlt]
        exact ⟨rfl, fun _ => rfl⟩
      · rw [List.set_eq_of_length_le (Nat.le_of_not_lt hlt)]
        exact column_needed_le_refl _
    · rw [getD_set_other _ _ _ _ _ hcc]
      exact column_needed_le_refl _

theorem registry_needed_le_class_id (T U : List pg_catalog_table) (tab : Nat)
    (tabcol : pg_catalog_column)
    (h : prepare_to_check_dependency_class_id T tab tabcol = some U) :
    registry_needed_le T U := by
  unfold prepare_to_check_dependency_class_id at h
  cases h0 : find_table_by_name T "pg_class".data with
  | none => rw [h0] at h; exact absurd h (by simp)
  | some pg_class =>
    rw [h0] at h
    simp only at h
    cases h1 : set_column_needed (add_table_dependency T tab pg_class) pg_class
        "relname".data with
    | none => rw [h1] at h; exact absurd h (by simp)
    | some named =>
      rw [h1] at h
      simp only at h
      cases h2 : set_column_needed named pg_class "relnamespace".data with
      | none => rw [h2] at h; exact absurd h (by simp)
      | some spaced =>
        rw [h2] at h
        simp only at h
        have le2 : registry_needed_le T spaced :=
          registry_needed_le_trans _ _ _
            (registry_needed_le_trans _ _ _
              (registry_needed_le_add_table_dependency T tab pg_class)
              (registry_needed_le_set_column_needed _ _ _ _ h1))
            (registry_needed_le_set_column_needed _ _ _ _ h2)
        split at h
        · exact registry_needed_le_trans _ _ _ le2
            (registry_needed_le_set_column_needed _ _ _ _ h)
        · rw [← Option.some.inj h]
          exact le2

theorem registry_needed_le_oid_keyed (tab : Nat) (positions : List Nat) :
    ∀ T : List pg_catalog_table, registry_needed_le T (positions.foldl
      (fun ts cattab =>
        if table_key_is_oid (table_at ts cattab) then add_table_dependency ts tab cattab
        else ts) T) := by
  induction positions with
  | nil => intro T; exact registry_needed_le_refl T
  | cons p ps ih =>
    intro T
    simp only [List.foldl_cons]
    refine registry_needed_le_trans _ _ _ ?_ (ih _)
    split
    · exact registry_needed_le_add_table_dependency T tab p
    · exact registry_needed_le_refl T

/-- The setup of a check only ever sets the field `needed` of columns and adds
dependencies. -/
theorem registry_needed_le_prepare (T U : List pg_catalog_table) (tab : Nat)
    (tabcol : pg_catalog_column) (h : decide_what_to_check_prepare T tab tabcol = some U) :
    registry_needed_le T U := by
  have relnatts : ∀ V, prepare_to_check_relnatts T tab = some V → registry_needed_le T V := by
    intro V hV
    unfold prepare_to_check_relnatts at hV
    cases h0 : find_table_by_name T "pg_attribute".data with
    | none => rw [h0] at hV; exact absurd hV (by simp)
    | some r =>
      rw [h0] at hV
      rw [← Option.some.inj hV]
      exact registry_needed_le_add_table_dependency T tab r
  have oid : ∀ check V, prepare_to_check_oid_reference T tab check = some V →
      registry_needed_le T V := by
    intro check V hV
    unfold prepare_to_check_oid_reference at hV
    cases h0 : find_table_by_name T check.oid_references_table with
    | none => rw [h0] at hV; exact absurd hV (by simp)
    | some r =>
      rw [h0] at hV
      rw [← Option.some.inj hV]
      exact registry_needed_le_add_table_dependency T tab r
  unfold decide_what_to_check_prepare at h
  cases hcheck : tabcol.check with
  | none =>
    rw [hcheck] at h
    rw [← Option.some.inj h]
    exact registry_needed_le_refl T
  | some check =>
    rw [hcheck] at h
    simp only at h
    split at h
    · rw [← Option.some.inj h]
      exact registry_needed_le_refl T
    · cases htype : check.type <;> rw [htype] at h <;> simp only at h
      · exact relnatts U h
      · exact oid check U h
      · exact oid check U h
      · exact oid check U h
      · exact registry_needed_le_class_id T U tab tabcol h
      · unfold prepare_to_check_dependency_id at h
        cases h1 : prepare_to_check_dependency_class_id T tab tabcol with
        | none => rw [h1] at h; exact absurd h (by simp)
        | some prepared =>
          rw [h1] at h
          simp only at h
          exact registry_needed_le_trans _ _ _
            (registry_needed_le_trans _ _ _ (registry_needed_le_class_id _ _ _ _ h1)
              (registry_needed_le_oid_keyed tab _ prepared))
            (registry_needed_le_set_column_needed _ _ _ _ h)
      · unfold prepare_to_check_dependency_subid at h
        cases h1 : prepare_to_check_dependency_class_id T tab tabcol with
        | none => rw [h1] at h; exact absurd h (by simp)
        | some prepared =>
          rw [h1] at h
          simp only at h
          cases h2 : find_table_by_name prepared "pg_attribute".data with
          | none => rw [h2] at h; exact absurd h (by simp)
          | some pg_attribute =>
            rw [h2] at h
            simp only at h
            cases h3 : set_column_needed (add_table_dependency prepared tab pg_attribute) tab
                (classid_name (get_style
                  (table_at (add_table_dependency prepared tab pg_attribute) tab).table_name
                  tabcol.name)) with
            | none => rw [h3] at h; exact absurd h (by simp)
            | some classed =>
              rw [h3] at h
              simp only at h
              exact registry_needed_le_trans _ _ _
                (registry_needed_le_trans _ _ _
                  (registry_needed_le_trans _ _ _ (registry_needed_le_class_id _ _ _ _ h1)
                    (registry_needed_le_add_table_dependency _ _ _))
                  (registry_needed_le_set_column_needed _ _ _ _ h3))
                (registry_needed_le_set_column_needed _ _ _ _ h)
      · exact relnatts U h

theorem registry_needed_le_prepare_columns (tab : Nat) (cols : List Nat) :
    ∀ T U : List pg_catalog_table,
      decide_what_to_check_prepare_columns tab cols T = some U → registry_needed_le T U := by
  induction cols with
  | nil =>
    intro T U h
    simp only [decide_what_to_check_prepare_columns, Option.some.injEq] at h
    subst h
    exact registry_needed_le_refl T
  | cons c cols ih =>
    intro T U h
    unfold decide_what_to_check_prepare_columns at h
    cases h1 : decide_what_to_check_prepare T tab (column_at (table_at T tab) c) with
    | none => rw [h1] at h; exact absurd h (by simp)
    | some prepared =>
      rw [h1] at h
      simp only at h
      exact registry_needed_le_trans _ _ _ (registry_needed_le_prepare _ _ _ _ h1)
        (ih _ _ h)

/-- The second pass of `decide_what_to_check` keeps every table and column as the first
pass left it, but for the fields `needed` that it sets and the dependencies that it
adds. -/
theorem registry_needed_le_second_pass (tabs : List Nat) :
    ∀ T U : List pg_catalog_table,
      decide_what_to_check_second_pass tabs T = some U → registry_needed_le T U := by
  induction tabs with
  | nil =>
    intro T U h
    simp only [decide_what_to_check_second_pass, Option.some.injEq] at h
    subst h
    exact registry_needed_le_refl T
  | cons tab tabs ih =>
    intro T U h
    unfold decide_what_to_check_second_pass at h
    cases h1 : decide_what_to_check_prepare_columns tab
        (List.range (table_at T tab).cols.length) T with
    | none => rw [h1] at h; exact absurd h (by simp)
    | some prepared =>
      rw [h1] at h
      simp only at h
      exact registry_needed_le_trans _ _ _
        (registry_needed_le_prepare_columns _ _ _ _ h1) (ih _ _ h)


theorem exists_table_at_of_mem (T : List pg_catalog_table) (tab : pg_catalog_table)
    (h : tab ∈ T) : ∃ i, i < T.length ∧ table_at T i = tab := by
  obtain ⟨i, hi, e⟩ := List.getElem_of_mem h
  refine ⟨i, hi, ?_⟩
  unfold table_at
  rw [List.getD_eq_getElem?_getD, List.getElem?_eq_getElem hi]
  exact e

theorem exists_column_at_of_mem (tab : pg_catalog_table) (col : pg_catalog_column)
    (h : col ∈ tab.cols) : ∃ c, c < tab.cols.length ∧ column_at tab c = col := by
  obtain ⟨c, hc, e⟩ := List.getElem_of_mem h
  refine ⟨c, hc, ?_⟩
  unfold column_at
  rw [List.getD_eq_getElem?_getD, List.getElem?_eq_getElem hc]
  exact e

theorem column_at_mem (tab : pg_catalog_table) (c : Nat) (h : c < tab.cols.length) :
    column_at tab c ∈ tab.cols := getD_mem _ _ _ h

theorem table_at_mem (T : List pg_catalog_table) (i : Nat) (h : i < T.length) :
    table_at T i ∈ T := getD_mem _ _ _ h

/-- The two passes of `decide_what_to_check` on a table: the first pass decides it, and
the second pass keeps it but for the fields `needed` and the dependencies. -/
theorem decide_what_to_check_table_at (remote : remote_server) (selected_columns : Bool)
    (T U : List pg_catalog_table) (h : decide_what_to_check remote selected_columns T = some U) :
    U.length = T.length
      ∧ ∀ i, i < T.length →
          ∃ decided, decide_what_to_check_table remote selected_columns (table_at T i)
              = some decided
            ∧ table_needed_le decided (table_at U i) := by
  unfold decide_what_to_check at h
  cases h1 : decide_what_to_check_first_pass remote selected_columns T with
  | none => rw [h1] at h; exact absurd h (by simp)
  | some T1 =>
    rw [h1] at h
    simp only at h
    obtain ⟨l1, p1⟩ := decide_what_to_check_first_pass_spec _ _ _ _ h1
    obtain ⟨l2, p2⟩ := registry_needed_le_second_pass _ _ _ h
    exact ⟨l2.trans l1, fun i hi => ⟨table_at T1 i, p1 i hi, p2 i⟩⟩

/-- The two passes of `decide_what_to_check` on a column: the first pass decides it, and
the second pass keeps it but for the field `needed`, which it may set. -/
theorem decide_what_to_check_column_at (remote : remote_server) (selected_columns : Bool)
    (T U : List pg_catalog_table) (h : decide_what_to_check remote selected_columns T = some U)
    (i c : Nat) (hi : i < T.length) (hc : c < (table_at T i).cols.length) :
    c < (table_at U i).cols.length
      ∧ ∃ decided, decide_what_to_check_column remote selected_columns (table_at T i).checked
            (column_at (table_at T i) c)
          = some (decided, decide_what_to_check_available remote (column_at (table_at T i) c))
        ∧ column_needed_le decided (column_at (table_at U i) c) := by
  obtain ⟨_, p⟩ := decide_what_to_check_table_at _ _ _ _ h
  obtain ⟨tab1, h1, le⟩ := p i hi
  obtain ⟨l, _, _, q⟩ := decide_what_to_check_table_spec _ _ _ _ h1
  refine ⟨by rw [le.2.2.2.2.2.1, l]; exact hc, column_at tab1 c, q c hc, le.2.2.2.2.2.2 c⟩

/-- The first pass ends without a fatal exit when no column without a check is explicitly
requested. -/
theorem decide_what_to_check_first_pass_isSome (remote : remote_server)
    (selected_columns : Bool) (tables : List pg_catalog_table)
    (h : ∀ tab ∈ tables, ∀ col ∈ tab.cols,
      ¬ (col.checked = trivalue.TRI_YES ∧ col.check = none)) :
    ∃ decided, decide_what_to_check_first_pass remote selected_columns tables
      = some decided := by
  have columns : ∀ (tab_checked : trivalue) (cols : List pg_catalog_column),
      (∀ col ∈ cols, ¬ (col.checked = trivalue.TRI_YES ∧ col.check = none)) →
      ∀ available, ∃ result, decide_what_to_check_columns remote selected_columns
        tab_checked cols available = some result := by
    intro tab_checked cols
    induction cols with
    | nil => intro _ available; exact ⟨_, rfl⟩
    | cons col cols ih =>
      intro hcols available
      unfold decide_what_to_check_columns
      have hcol := hcols col (List.mem_cons_self _ _)
      obtain ⟨d, hd⟩ : ∃ d, decide_what_to_check_column remote selected_columns
          tab_checked col = some d := by
        unfold decide_what_to_check_column
        rw [if_neg hcol]
        exact ⟨_, rfl⟩
      rw [hd]
      simp only
      obtain ⟨r, hr⟩ := ih (fun c hc => hcols c (List.mem_cons_of_mem _ hc))
        (if d.2 = true then true else available)
      rw [hr]
      exact ⟨_, rfl⟩
  induction tables with
  | nil => exact ⟨_, rfl⟩
  | cons tab tabs ih =>
    unfold decide_what_to_check_first_pass decide_what_to_check_table
    obtain ⟨r, hr⟩ := columns tab.checked tab.cols (h tab (List.mem_cons_self _ _)) false
    rw [hr]
    simp only
    obtain ⟨rest, hrest⟩ := ih (fun t ht => h t (List.mem_cons_of_mem _ ht))
    rw [hrest]
    exact ⟨_, rfl⟩


/-! ## The resolver (claims C26 to C30) -/

/-- Claim C26, as the code has it: the test that the source comments "DB version too new"
is `remote_version < maximum_version`.  The column amkeytype of pg_am, with maximum
version 90599 and not requested by the user, is decided unavailable on server version
90400 and available on server version 90600. -/
theorem maximum_version_test_is_reversed :
    pg_am_amkeytype.checked = trivalue.TRI_DEFAULT
      ∧ sample_remote.remote_version = 90400
      ∧ decide_what_to_check_available sample_remote pg_am_amkeytype = false
      ∧ (decide_what_to_check_column sample_remote false trivalue.TRI_DEFAULT
          pg_am_amkeytype).map (fun r => r.1.available) = some false
      ∧ decide_what_to_check_available sample_remote_96 pg_am_amkeytype = true
      ∧ (decide_what_to_check_column sample_remote_96 false trivalue.TRI_DEFAULT
          pg_am_amkeytype).map (fun r => r.1.available) = some true := by
  decide

/-- Claim C27.  After `decide_what_to_check`, the field `checked` of every column is what
the first applicable rule of this list gives: explicitly requested, yes; explicitly
excluded, no; no check bound, no; not available, no; table explicitly set, the setting of
the table; only selected columns are checked, no; otherwise yes.  It is never left at
`TRI_DEFAULT`. -/
theorem decide_what_to_check_checked (remote : remote_server) (selected_columns : Bool)
    (T U : List pg_catalog_table) (i c : Nat)
    (h : decide_what_to_check remote selected_columns T = some U)
    (hi : i < T.length) (hc : c < (table_at T i).cols.length) :
    (column_at (table_at U i) c).checked
        = (if (column_at (table_at T i) c).checked = trivalue.TRI_YES then trivalue.TRI_YES
           else if (column_at (table_at T i) c).checked = trivalue.TRI_NO then trivalue.TRI_NO
           else if (column_at (table_at T i) c).check = none then trivalue.TRI_NO
           else if decide_what_to_check_available remote (column_at (table_at T i) c) = false
             then trivalue.TRI_NO
           else if (table_at T i).checked ≠ trivalue.TRI_DEFAULT then (table_at T i).checked
           else if selected_columns = true then trivalue.TRI_NO
           else trivalue.TRI_YES)
      ∧ (column_at (table_at U i) c).checked ≠ trivalue.TRI_DEFAULT := by
  obtain ⟨_, decided, hd, le⟩ := decide_what_to_check_column_at _ _ _ _ h i c hi hc
  obtain ⟨_, _, _, hchecked, _, _⟩ := decide_what_to_check_column_spec _ _ _ _ _ _ hd
  have e : (column_at (table_at U i) c).checked = decided.checked := by
    rw [le.1]
  rw [e, hchecked]
  cases (column_at (table_at T i) c).checked <;>
    cases (column_at (table_at T i) c).check <;>
    cases decide_what_to_check_available remote (column_at (table_at T i) c) <;>
    cases (table_at T i).checked <;> cases selected_columns <;> simp

/-- Witness of C27: the column collnamespace of pg_collation, not set by the user, on a
PostgreSQL 9.4 server. -/
theorem decide_what_to_check_checked_witness :
    decide_what_to_check sample_remote false (sample_registry trivalue.TRI_DEFAULT)
        = some (sample_decided sample_remote false trivalue.TRI_DEFAULT)
      ∧ 1 < (sample_registry trivalue.TRI_DEFAULT).length
      ∧ 1 < (table_at (sample_registry trivalue.TRI_DEFAULT) 1).cols.length
      ∧ (column_at (table_at (sample_decided sample_remote false trivalue.TRI_DEFAULT) 1)
            1).checked
          = (if (column_at (table_at (sample_registry trivalue.TRI_DEFAULT) 1) 1).checked
                = trivalue.TRI_YES then trivalue.TRI_YES
             else if (column_at (table_at (sample_registry trivalue.TRI_DEFAULT) 1) 1).checked
                = trivalue.TRI_NO then trivalue.TRI_NO
             else if (column_at (table_at (sample_registry trivalue.TRI_DEFAULT) 1) 1).check
                = none then trivalue.TRI_NO
             else if decide_what_to_check_available sample_remote
                (column_at (table_at (sample_registry trivalue.TRI_DEFAULT) 1) 1) = false
               then trivalue.TRI_NO
             else if (table_at (sample_registry trivalue.TRI_DEFAULT) 1).checked
                ≠ trivalue.TRI_DEFAULT
               then (table_at (sample_registry trivalue.TRI_DEFAULT) 1).checked
             else if false = true then trivalue.TRI_NO
             else trivalue.TRI_YES)
      ∧ (column_at (table_at (sample_decided sample_remote false trivalue.TRI_DEFAULT) 1)
            1).checked ≠ trivalue.TRI_DEFAULT :=
  ⟨by decide, by decide, by decide,
    decide_what_to_check_checked sample_remote false (sample_registry trivalue.TRI_DEFAULT)
      (sample_decided sample_remote false trivalue.TRI_DEFAULT) 1 1
      (by decide) (by decide) (by decide)⟩


/-- Claim C28.  When no column without a check is explicitly requested, the first pass of
`decide_what_to_check` ends, and at its end every column has
needed = available AND (checked = yes OR is_key_column OR is_display_column). -/
theorem first_pass_needed (remote : remote_server) (selected_columns : Bool)
    (tables : List pg_catalog_table)
    (hcheck : ∀ tab ∈ tables, ∀ col ∈ tab.cols,
      ¬ (col.checked = trivalue.TRI_YES ∧ col.check = none)) :
    ∃ decided, decide_what_to_check_first_pass remote selected_columns tables = some decided
      ∧ ∀ tab ∈ decided, ∀ col ∈ tab.cols,
          col.needed = (col.available && (decide (col.checked = trivalue.TRI_YES)
            || col.is_key_column || col.is_display_column)) := by
  obtain ⟨decided, hd⟩ := decide_what_to_check_first_pass_isSome _ _ _ hcheck
  refine ⟨decided, hd, ?_⟩
  obtain ⟨l, p⟩ := decide_what_to_check_first_pass_spec _ _ _ _ hd
  intro tab htab col hcol
  obtain ⟨i, hi, e⟩ := exists_table_at_of_mem _ _ htab
  obtain ⟨c, hc, e2⟩ := exists_column_at_of_mem _ _ hcol
  rw [l] at hi
  obtain ⟨lc, _, _, q⟩ := decide_what_to_check_table_spec _ _ _ _ (p i hi)
  rw [e] at lc q
  rw [lc] at hc
  have hq := q c hc
  rw [e2] at hq
  obtain ⟨_, _, _, _, hneeded, hsame⟩ := decide_what_to_check_column_spec _ _ _ _ _ _ hq
  rw [hneeded]
  rw [hsame]

/-- Witness of C28: `sample_registry` on a PostgreSQL 9.4 server. -/
theorem first_pass_needed_witness :
    (∀ tab ∈ sample_registry trivalue.TRI_DEFAULT, ∀ col ∈ tab.cols,
        ¬ (col.checked = trivalue.TRI_YES ∧ col.check = none))
      ∧ ∃ decided, decide_what_to_check_first_pass sample_remote false
            (sample_registry trivalue.TRI_DEFAULT) = some decided
        ∧ ∀ tab ∈ decided, ∀ col ∈ tab.cols,
            col.needed = (col.available && (decide (col.checked = trivalue.TRI_YES)
              || col.is_key_column || col.is_display_column)) :=
  ⟨by decide,
    first_pass_needed sample_remote false (sample_registry trivalue.TRI_DEFAULT)
      (by decide)⟩

/-- Claim C29.  After `decide_what_to_check` on a fresh registry, every column whose
`checked` is yes is available and needed; a column that the user explicitly requested is
checked, available and needed whatever its version and flavor bounds; and the
initialisation of `perform_checks` sets `needs_load` for every table for which it sets
`needs_check`, as its assertion says. -/
theorem checked_columns_available_and_needed (remote : remote_server)
    (selected_columns : Bool) (T U : List pg_catalog_table)
    (hfresh : fresh_registry T)
    (h : decide_what_to_check remote selected_columns T = some U) :
    (∀ tab ∈ U, ∀ col ∈ tab.cols, col.checked = trivalue.TRI_YES →
        col.available = true ∧ col.needed = true)
      ∧ (∀ i c, i < T.length → c < (table_at T i).cols.length →
          (column_at (table_at T i) c).checked = trivalue.TRI_YES →
          (column_at (table_at U i) c).checked = trivalue.TRI_YES
            ∧ (column_at (table_at U i) c).available = true
            ∧ (column_at (table_at U i) c).needed = true)
      ∧ ∀ tab ∈ perform_checks_init U, tab.needs_check = true → tab.needs_load = true := by
  obtain ⟨len, tabs⟩ := decide_what_to_check_table_at _ _ _ _ h
  have point : ∀ i c, i < T.length → c < (table_at T i).cols.length →
      (column_at (table_at U i) c).checked = trivalue.TRI_YES →
      (column_at (table_at U i) c).available = true
        ∧ (column_at (table_at U i) c).needed = true := by
    intro i c hi hc hyes
    obtain ⟨_, decided, hd, le⟩ := decide_what_to_check_column_at _ _ _ _ h i c hi hc
    obtain ⟨_, _, havail, hchecked, hneeded, _⟩ :=
      decide_what_to_check_column_spec _ _ _ _ _ _ hd
    have e1 : (column_at (table_at U i) c).checked = decided.checked := by rw [le.1]
    have e2 : (column_at (table_at U i) c).available = decided.available := by rw [le.1]
    rw [e1] at hyes
    have hav : decided.available = true := by
      rw [havail]
      rw [hchecked] at hyes
      cases hcol : (column_at (table_at T i) c).checked <;> rw [hcol] at hyes
      · cases hd2 : decide_what_to_check_available remote (column_at (table_at T i) c)
        · rw [hd2] at hyes
          simp at hyes
        · rfl
      · simp at hyes
      · simp
    refine ⟨e2.trans hav, le.2 ?_⟩
    rw [hneeded, hav, hyes]
    simp
  have members : ∀ tab ∈ U, ∀ col ∈ tab.cols, col.checked = trivalue.TRI_YES →
      col.available = true ∧ col.needed = true := by
    intro tab htab col hcol hyes
    obtain ⟨i, hi, e⟩ := exists_table_at_of_mem _ _ htab
    obtain ⟨c, hc, e2⟩ := exists_column_at_of_mem _ _ hcol
    rw [len] at hi
    obtain ⟨tab1, h1, le⟩ := tabs i hi
    obtain ⟨l, _, _, _⟩ := decide_what_to_check_table_spec _ _ _ _ h1
    have := point i c hi (by rw [← l, ← le.2.2.2.2.2.1, e]; exact hc)
    rw [e, e2] at this
    exact this hyes
  refine ⟨members, ?_, ?_⟩
  · intro i c hi hc hyes
    obtain ⟨_, decided, hd, le⟩ := decide_what_to_check_column_at _ _ _ _ h i c hi hc
    obtain ⟨_, _, _, hchecked, _, _⟩ := decide_what_to_check_column_spec _ _ _ _ _ _ hd
    have hkept : (column_at (table_at U i) c).checked = trivalue.TRI_YES := by
      rw [le.1]
      show decided.checked = trivalue.TRI_YES
      rw [hchecked, hyes]
      simp
    exact ⟨hkept, point i c hi hc hkept⟩
  · intro tab htab hnc
    unfold perform_checks_init at htab
    obtain ⟨tab0, h0, e⟩ := List.mem_map.1 htab
    subst e
    obtain ⟨i, hi, e⟩ := exists_table_at_of_mem _ _ h0
    rw [len] at hi
    obtain ⟨tab1, h1, le⟩ := tabs i hi
    obtain ⟨_, _, hsame, _⟩ := decide_what_to_check_table_spec _ _ _ _ h1
    have hfalse : tab0.needs_check = false := by
      rw [← e, le.2.2.2.2.1, hsame]
      exact (hfresh _ (table_at_mem T i hi)).2.2.2
    exact (perform_checks_init_table_spec tab0).2.2.2.2
      (fun col hcol hyes => (members tab0 h0 col hcol hyes).2) hnc hfalse


/-- Witness of C29: the column collnamespace of pg_collation explicitly requested on a
PostgreSQL 9.0 server, which has no pg_collation. -/
theorem checked_columns_available_and_needed_witness :
    fresh_registry (sample_registry trivalue.TRI_YES)
      ∧ decide_what_to_check sample_remote_90 true (sample_registry trivalue.TRI_YES)
          = some (sample_decided sample_remote_90 true trivalue.TRI_YES)
      ∧ (∀ tab ∈ sample_decided sample_remote_90 true trivalue.TRI_YES, ∀ col ∈ tab.cols,
          col.checked = trivalue.TRI_YES → col.available = true ∧ col.needed = true)
      ∧ (∀ i c, i < (sample_registry trivalue.TRI_YES).length →
          c < (table_at (sample_registry trivalue.TRI_YES) i).cols.length →
          (column_at (table_at (sample_registry trivalue.TRI_YES) i) c).checked
            = trivalue.TRI_YES →
          (column_at (table_at (sample_decided sample_remote_90 true trivalue.TRI_YES) i)
              c).checked = trivalue.TRI_YES
            ∧ (column_at (table_at (sample_decided sample_remote_90 true trivalue.TRI_YES) i)
              c).available = true
            ∧ (column_at (table_at (sample_decided sample_remote_90 true trivalue.TRI_YES) i)
              c).needed = true)
      ∧ ∀ tab ∈ perform_checks_init (sample_decided sample_remote_90 true trivalue.TRI_YES),
          tab.needs_check = true → tab.needs_load = true :=
  ⟨by unfold fresh_registry; decide, by decide,
    checked_columns_available_and_needed sample_remote_90 true
      (sample_registry trivalue.TRI_YES)
      (sample_decided sample_remote_90 true trivalue.TRI_YES)
      (by unfold fresh_registry; decide) (by decide)⟩

/-- Counterexample to C30: on a PostgreSQL 9.0 server every column of pg_collation is
unavailable by its minimum version; the user explicitly requests collnamespace.  After
`decide_what_to_check` that column has `available` true, by force, and the table
pg_collation has `available` false. -/
theorem forced_column_leaves_table_unavailable :
    decide_what_to_check_available sample_remote_90
        (column_at (table_at (sample_registry trivalue.TRI_YES) 1) 1) = false
      ∧ (column_at (table_at (sample_registry trivalue.TRI_YES) 1) 1).checked
        = trivalue.TRI_YES
      ∧ (decide_what_to_check sample_remote_90 true (sample_registry trivalue.TRI_YES)).map
          (fun U => ((table_at U 1).available, (column_at (table_at U 1) 1).available))
        = some (false, true) := by
  decide

/-- Claim C30, amended.  After `decide_what_to_check`, a table has `available` true if
and only if at least one of its columns is available for the flavor and version of the
server, as first decided; a column has `available` true if and only if it is available in
that sense or was explicitly requested, and a column that is available by request only
does not make its table available. -/
theorem table_available_iff (remote : remote_server) (selected_columns : Bool)
    (T U : List pg_catalog_table) (i : Nat)
    (h : decide_what_to_check remote selected_columns T = some U) (hi : i < T.length) :
    ((table_at U i).available = true
        ↔ ∃ c, c < (table_at T i).cols.length
            ∧ decide_what_to_check_available remote (column_at (table_at T i) c) = true)
      ∧ ∀ c, c < (table_at T i).cols.length →
          ((column_at (table_at U i) c).available = true
            ↔ (decide_what_to_check_available remote (column_at (table_at T i) c) = true
                ∨ (column_at (table_at T i) c).checked = trivalue.TRI_YES)) := by
  obtain ⟨_, tabs⟩ := decide_what_to_check_table_at _ _ _ _ h
  obtain ⟨tab1, h1, le⟩ := tabs i hi
  obtain ⟨_, havail, _, _⟩ := decide_what_to_check_table_spec _ _ _ _ h1
  constructor
  · rw [le.2.1, havail, List.any_eq_true]
    constructor
    · rintro ⟨col, hcol, hav⟩
      obtain ⟨c, hc, e⟩ := exists_column_at_of_mem _ _ hcol
      exact ⟨c, hc, by rw [e]; exact hav⟩
    · rintro ⟨c, hc, hav⟩
      exact ⟨_, column_at_mem _ c hc, hav⟩
  · intro c hc
    obtain ⟨_, decided, hd, lec⟩ := decide_what_to_check_column_at _ _ _ _ h i c hi hc
    obtain ⟨_, _, hav, _, _, _⟩ := decide_what_to_check_column_spec _ _ _ _ _ _ hd
    have e : (column_at (table_at U i) c).available = decided.available := by rw [lec.1]
    rw [e, hav]
    simp

/-- Witness of C30 as amended: the table pg_collation of `sample_registry` on a
PostgreSQL 9.0 server, with the column collnamespace explicitly requested. -/
theorem table_available_iff_witness :
    decide_what_to_check sample_remote_90 true (sample_registry trivalue.TRI_YES)
        = some (sample_decided sample_remote_90 true trivalue.TRI_YES)
      ∧ 1 < (sample_registry trivalue.TRI_YES).length
      ∧ ((table_at (sample_decided sample_remote_90 true trivalue.TRI_YES) 1).available
            = true
          ↔ ∃ c, c < (table_at (sample_registry trivalue.TRI_YES) 1).cols.length
              ∧ decide_what_to_check_available sample_remote_90
                  (column_at (table_at (sample_registry trivalue.TRI_YES) 1) c) = true)
      ∧ ∀ c, c < (table_at (sample_registry trivalue.TRI_YES) 1).cols.length →
          ((column_at (table_at (sample_decided sample_remote_90 true trivalue.TRI_YES) 1)
              c).available = true
            ↔ (decide_what_to_check_available sample_remote_90
                  (column_at (table_at (sample_registry trivalue.TRI_YES) 1) c) = true
                ∨ (column_at (table_at (sample_registry trivalue.TRI_YES) 1) c).checked
                  = trivalue.TRI_YES)) :=
  ⟨by decide, by decide,
    table_available_iff sample_remote_90 true (sample_registry trivalue.TRI_YES)
      (sample_decided sample_remote_90 true trivalue.TRI_YES) 1 (by decide) (by decide)⟩


/-! ## The dependency edges (claims C31, C37) -/

theorem available_add_table_dependency (T : List pg_catalog_table) (a b i : Nat) :
    (table_at (add_table_dependency T a b) i).available = (table_at T i).available :=
  ((registry_needed_le_add_table_dependency T a b).2 i).2.1

/-- A call of `add_table_dependency` either leaves the array as it is, or both tables are
available and distinct, the edge is new, and one entry is appended to each side. -/
theorem add_table_dependency_cases (T : List pg_catalog_table) (a b : Nat) :
    add_table_dependency T a b = T
      ∨ ((table_at T a).available = true ∧ (table_at T b).available = true ∧ a ≠ b
        ∧ b ∉ (table_at T a).needs
        ∧ ∀ i, (table_at (add_table_dependency T a b) i).needs
              = (if i = a then (table_at T i).needs ++ [b] else (table_at T i).needs)
          ∧ (table_at (add_table_dependency T a b) i).needed_by
              = (if i = b then (table_at T i).needed_by ++ [a]
                 else (table_at T i).needed_by)) := by
  unfold add_table_dependency
  split
  · exact Or.inl rfl
  · rename_i hav
    split
    · exact Or.inl rfl
    · rename_i hne
      split
      · exact Or.inl rfl
      · rename_i hmem
        simp only [Bool.or_eq_true, Bool.not_eq_true', not_or, Bool.not_eq_false] at hav
        have ha := lt_of_available T a hav.1
        have hb := lt_of_available T b hav.2
        have hb1 : b < (modify_table T a
            (fun tab => { tab with needs := tab.needs ++ [b] })).length := by
          rw [length_modify_table]; exact hb
        have point : ∀ i, table_at (modify_table (modify_table T a
              (fun tab => { tab with needs := tab.needs ++ [b] })) b
              (fun tab => { tab with needed_by := tab.needed_by ++ [a] })) i
            = if i = b then { table_at T b with
                needed_by := (table_at T b).needed_by ++ [a] }
              else if i = a then { table_at T a with needs := (table_at T a).needs ++ [b] }
              else table_at T i := by
          intro i
          rw [table_at_modify_table]
          by_cases hib : i = b
          · subst hib
            rw [if_pos ⟨rfl, hb1⟩, if_pos rfl, table_at_modify_table,
              if_neg (fun h => hne h.1.symm)]
          · rw [if_neg (fun h => hib h.1), if_neg hib, table_at_modify_table]
            by_cases hia : i = a
            · rw [if_pos ⟨hia, ha⟩, if_pos hia]
            · rw [if_neg (fun h => hia h.1), if_neg hia]
        refine Or.inr ⟨hav.1, hav.2, hne, hmem, ?_⟩
        intro i
        rw [point i]
        by_cases hib : i = b
        · subst hib
          rw [if_pos rfl, if_neg (fun h => hne h.symm), if_pos rfl]
          exact ⟨rfl, rfl⟩
        · rw [if_neg hib, if_neg hib]
          by_cases hia : i = a
          · subst hia; rw [if_pos rfl, if_pos rfl]; exact ⟨rfl, rfl⟩
          · rw [if_neg hia, if_neg hia]; exact ⟨rfl, rfl⟩

/-- One call of `add_table_dependency` keeps the invariant of the edges. -/
theorem edge_inv_add_table_dependency (T : List pg_catalog_table) (a b : Nat)
    (inv : edge_inv T) : edge_inv (add_table_dependency T a b) := by
  rcases add_table_dependency_cases T a b with h | ⟨hava, havb, hne, hmem, hpoint⟩
  · rw [h]; exact inv
  · refine ⟨?_, ?_, ?_, ?_⟩
    · intro i
      rw [(hpoint i).1]
      split
      · rename_i hi
        subst hi
        rw [List.nodup_append]
        refine ⟨inv.nodup i, List.nodup_singleton b, ?_⟩
        intro x hx hx2
        rw [List.mem_singleton] at hx2
        subst hx2
        exact hmem hx
      · exact inv.nodup i
    · intro i
      rw [(hpoint i).1]
      split
      · rename_i hi
        subst hi
        intro h
        rcases List.mem_append.1 h with h | h
        · exact inv.irrefl i h
        · exact hne (List.mem_singleton.1 h)
      · exact inv.irrefl i
    · intro i j hj
      rw [available_add_table_dependency, available_add_table_dependency]
      rw [(hpoint i).1] at hj
      split at hj
      · rename_i hi
        subst hi
        rcases List.mem_append.1 hj with h | h
        · exact inv.available i j h
        · rw [List.mem_singleton.1 h]
          exact ⟨hava, havb⟩
      · exact inv.available i j hj
    · intro i j
      rw [(hpoint i).1, (hpoint j).2]
      by_cases hi : i = a <;> by_cases hj : j = b
      · subst hi hj
        simp [List.count_append, inv.mirror]
      · subst hi
        have : ¬ b = j := fun e => hj e.symm
        simp [List.count_append, inv.mirror, hj, this, List.count_singleton]
      · subst hj
        have : ¬ a = i := fun e => hi e.symm
        simp [List.count_append, inv.mirror, hi, this, List.count_singleton]
      · simp [hi, hj, inv.mirror]

theorem edge_inv_add_table_dependencies (calls : List (Nat × Nat)) :
    ∀ T : List pg_catalog_table, edge_inv T → edge_inv (add_table_dependencies T calls) := by
  induction calls with
  | nil => intro T inv; exact inv
  | cons c calls ih =>
    intro T inv
    exact ih _ (edge_inv_add_table_dependency T c.1 c.2 inv)

/-- An array whose edge lists are all empty has the invariant of the edges. -/
theorem edge_inv_of_empty (T : List pg_catalog_table)
    (h : ∀ tab ∈ T, tab.needs = [] ∧ tab.needed_by = []) : edge_inv T := by
  have hp : ∀ i, (table_at T i).needs = [] ∧ (table_at T i).needed_by = [] := by
    intro i
    rcases table_at_mem_or_default T i with hm | hd
    · exact h _ hm
    · rw [hd]; exact ⟨rfl, rfl⟩
  refine ⟨?_, ?_, ?_, ?_⟩
  · intro i; rw [(hp i).1]; exact List.nodup_nil
  · intro i; rw [(hp i).1]; exact List.not_mem_nil _
  · intro i j hj; rw [(hp i).1] at hj; exact absurd hj (List.not_mem_nil _)
  · intro i j; rw [(hp i).1, (hp j).2]; rfl

/-- Claim C31.  After any sequence of calls of `add_table_dependency` on an array whose
edge lists are empty, no list `needs` holds a table twice, no table is in its own list
`needs`, every edge joins two tables that are both available, and B is in the list
`needs` of A exactly as many times as A is in the list `needed_by` of B. -/
theorem add_table_dependency_edge_invariant (base : List pg_catalog_table)
    (calls : List (Nat × Nat))
    (hempty : ∀ tab ∈ base, tab.needs = [] ∧ tab.needed_by = []) :
    (∀ a, (table_at (add_table_dependencies base calls) a).needs.Nodup)
      ∧ (∀ a, a ∉ (table_at (add_table_dependencies base calls) a).needs)
      ∧ (∀ a b, b ∈ (table_at (add_table_dependencies base calls) a).needs →
          (table_at (add_table_dependencies base calls) a).available = true
            ∧ (table_at (add_table_dependencies base calls) b).available = true)
      ∧ ∀ a b, (table_at (add_table_dependencies base calls) a).needs.count b
          = (table_at (add_table_dependencies base calls) b).needed_by.count a := by
  have inv := edge_inv_add_table_dependencies calls base (edge_inv_of_empty base hempty)
  exact ⟨inv.nodup, inv.irrefl, inv.available, inv.mirror⟩

/-- Witness of C31: pg_class and pg_attribute, with a repeated call and a call of a table
on itself. -/
theorem add_table_dependency_edge_invariant_witness :
    (∀ tab ∈ sched_base_cycle, tab.needs = [] ∧ tab.needed_by = [])
      ∧ (∀ a, (table_at (add_table_dependencies sched_base_cycle
            [(0, 1), (1, 0), (0, 1), (0, 0)]) a).needs.Nodup)
      ∧ (∀ a, a ∉ (table_at (add_table_dependencies sched_base_cycle
            [(0, 1), (1, 0), (0, 1), (0, 0)]) a).needs)
      ∧ (∀ a b, b ∈ (table_at (add_table_dependencies sched_base_cycle
            [(0, 1), (1, 0), (0, 1), (0, 0)]) a).needs →
          (table_at (add_table_dependencies sched_base_cycle
              [(0, 1), (1, 0), (0, 1), (0, 0)]) a).available = true
            ∧ (table_at (add_table_dependencies sched_base_cycle
              [(0, 1), (1, 0), (0, 1), (0, 0)]) b).available = true)
      ∧ ∀ a b, (table_at (add_table_dependencies sched_base_cycle
            [(0, 1), (1, 0), (0, 1), (0, 0)]) a).needs.count b
          = (table_at (add_table_dependencies sched_base_cycle
            [(0, 1), (1, 0), (0, 1), (0, 0)]) b).needed_by.count a :=
  ⟨by decide,
    add_table_dependency_edge_invariant sched_base_cycle [(0, 1), (1, 0), (0, 1), (0, 0)]
      (by decide)⟩

/-- The edge lists that the calls of the witness of C31 leave. -/
theorem add_table_dependencies_sample_edges :
    (add_table_dependencies sched_base_cycle [(0, 1), (1, 0), (0, 1), (0, 0)]).map
      (fun tab => (tab.needs, tab.needed_by)) = [([1], [1]), ([0], [0])] := by
  decide


theorem filter_ne_eq_erase (l : List Nat) (a : Nat) (h : l.Nodup) :
    l.filter (fun x => decide (x ≠ a)) = l.erase a := by
  rw [List.Nodup.erase_eq_filter h a]
  congr 1
  funext x
  by_cases hx : x = a <;> simp [hx]

/-- Claim C37.  Under the invariant of the edges, after `load_table` on the table T: T is
in no list `needs`; for each table D that was in the list `needed_by` of T, the list
`needs` of D is what it was with the one occurrence of T removed and the other entries in
their order, so `num_needs` is smaller by exactly 1; T has `num_needed_by` 0 and
`needs_load` false; the list `needs` of every table that was not in the list `needed_by`
of T is unchanged. -/
theorem load_table_removes_edges (T : List pg_catalog_table) (t : Nat) (inv : edge_inv T)
    (ht : t < T.length) :
    (∀ d, t ∉ (table_at (load_table T t) d).needs)
      ∧ (∀ d, d ∈ (table_at T t).needed_by →
          (table_at (load_table T t) d).needs = (table_at T d).needs.erase t
            ∧ (table_at T d).needs.count t = 1
            ∧ (table_at (load_table T t) d).needs.length + 1 = (table_at T d).needs.length)
      ∧ (table_at (load_table T t) t).needed_by.length = 0
      ∧ (table_at (load_table T t) t).needs_load = false
      ∧ ∀ d, d ∉ (table_at T t).needed_by →
          (table_at (load_table T t) d).needs = (table_at T d).needs := by
  obtain hpoint := fun d => table_at_load_table T t d ht
  have hmem : ∀ d, d ∈ (table_at T t).needed_by ↔ t ∈ (table_at T d).needs := by
    intro d
    rw [← List.count_pos_iff, ← List.count_pos_iff, inv.mirror d t]
  have hlt : ∀ d, d ∈ (table_at T t).needed_by → d < T.length :=
    fun d hd => lt_of_needs_ne_nil T d t ((hmem d).1 hd)
  refine ⟨?_, ?_, ?_, ?_, ?_⟩
  · intro d
    rw [(hpoint d).2.2.1]
    split
    · intro h
      have := (List.mem_filter.1 h).2
      simp at this
    · rename_i hn
      intro h
      exact hn ⟨(hmem d).2 h, lt_of_needs_ne_nil T d t h⟩
  · intro d hd
    have hin := (hmem d).1 hd
    have hneeds : (table_at (load_table T t) d).needs = (table_at T d).needs.erase t := by
      rw [(hpoint d).2.2.1, if_pos ⟨hd, hlt d hd⟩]
      exact filter_ne_eq_erase _ _ (inv.nodup d)
    refine ⟨hneeds, List.count_eq_one_of_mem (inv.nodup d) hin, ?_⟩
    rw [hneeds, List.length_erase_of_mem hin]
    have : 0 < (table_at T d).needs.length := List.length_pos_of_mem hin
    omega
  · rw [(hpoint t).2.2.2, if_pos rfl]
    rfl
  · rw [(hpoint t).1, if_pos rfl]
  · intro d hd
    rw [(hpoint d).2.2.1, if_neg (fun h => hd h.1)]

/-- Witness of C37: `load_table` on B when A needs B, and B needs C and D. -/
theorem load_table_removes_edges_witness :
    edge_inv (add_table_dependencies sched_base_fan [(0, 1), (1, 2), (1, 3)])
      ∧ 1 < (add_table_dependencies sched_base_fan [(0, 1), (1, 2), (1, 3)]).length
      ∧ (∀ d, 1 ∉ (table_at (load_table
            (add_table_dependencies sched_base_fan [(0, 1), (1, 2), (1, 3)]) 1) d).needs)
      ∧ (∀ d, d ∈ (table_at
            (add_table_dependencies sched_base_fan [(0, 1), (1, 2), (1, 3)]) 1).needed_by →
          (table_at (load_table
              (add_table_dependencies sched_base_fan [(0, 1), (1, 2), (1, 3)]) 1) d).needs
            = (table_at (add_table_dependencies sched_base_fan [(0, 1), (1, 2), (1, 3)])
                d).needs.erase 1
            ∧ (table_at (add_table_dependencies sched_base_fan [(0, 1), (1, 2), (1, 3)])
                d).needs.count 1 = 1
            ∧ (table_at (load_table
                (add_table_dependencies sched_base_fan [(0, 1), (1, 2), (1, 3)]) 1)
                d).needs.length + 1
              = (table_at (add_table_dependencies sched_base_fan [(0, 1), (1, 2), (1, 3)])
                d).needs.length)
      ∧ (table_at (load_table
            (add_table_dependencies sched_base_fan [(0, 1), (1, 2), (1, 3)]) 1)
          1).needed_by.length = 0
      ∧ (table_at (load_table
            (add_table_dependencies sched_base_fan [(0, 1), (1, 2), (1, 3)]) 1)
          1).needs_load = false
      ∧ ∀ d, d ∉ (table_at
            (add_table_dependencies sched_base_fan [(0, 1), (1, 2), (1, 3)]) 1).needed_by →
          (table_at (load_table
              (add_table_dependencies sched_base_fan [(0, 1), (1, 2), (1, 3)]) 1) d).needs
            = (table_at (add_table_dependencies sched_base_fan [(0, 1), (1, 2), (1, 3)])
                d).needs :=
  ⟨edge_inv_add_table_dependencies _ _ (edge_inv_of_empty _ (by decide)), by decide,
    load_table_removes_edges (add_table_dependencies sched_base_fan [(0, 1), (1, 2), (1, 3)])
      1 (edge_inv_add_table_dependencies _ _ (edge_inv_of_empty _ (by decide)))
      (by decide)⟩

/-- The lists `needs` before and after `load_table` on B in the witness of C37. -/
theorem load_table_sample_edges :
    (add_table_dependencies sched_base_fan [(0, 1), (1, 2), (1, 3)]).map
        (fun tab => tab.needs) = [[1], [2, 3], [], []]
      ∧ (load_table (add_table_dependencies sched_base_fan [(0, 1), (1, 2), (1, 3)]) 1).map
        (fun tab => (tab.needs, tab.needed_by, tab.needs_load))
        = [([], [], false), ([2, 3], [], false), ([], [1], false), ([], [1], false)] := by
  decide


/-! ## The choice of the next table (claim C36) -/

/-- The second loop of an iteration of `perform_checks` over the positions from `k` on: the
table it ends with is pending, no pending table up to then has fewer `needs`, or as many
`needs` and more `needed_by`, and every pending table before it has more `needs`, or as
many `needs` and fewer `needed_by`. -/
theorem choose_best_range' (T : List pg_catalog_table) :
    ∀ (m k : Nat) (best : Option Nat),
      (∀ b, best = some b → b < k ∧ (table_at T b).needs_check = true
        ∧ ∀ j, j < k → (table_at T j).needs_check = true →
          ¬ ((table_at T j).needs.length < (table_at T b).needs.length
              ∨ ((table_at T j).needs.length = (table_at T b).needs.length
                ∧ (table_at T j).needed_by.length > (table_at T b).needed_by.length))
          ∧ (j < b → ((table_at T b).needs.length < (table_at T j).needs.length
              ∨ ((table_at T b).needs.length = (table_at T j).needs.length
                ∧ (table_at T b).needed_by.length > (table_at T j).needed_by.length)))) →
      (best = none → ∀ j, j < k → (table_at T j).needs_check = false) →
      ∀ r, choose_best T (List.range' k m) best = some r →
        r < k + m ∧ (table_at T r).needs_check = true
          ∧ ∀ j, j < k + m → (table_at T j).needs_check = true →
            ¬ ((table_at T j).needs.length < (table_at T r).needs.length
                ∨ ((table_at T j).needs.length = (table_at T r).needs.length
                  ∧ (table_at T j).needed_by.length > (table_at T r).needed_by.length))
            ∧ (j < r → ((table_at T r).needs.length < (table_at T j).needs.length
                ∨ ((table_at T r).needs.length = (table_at T j).needs.length
                  ∧ (table_at T r).needed_by.length
                    > (table_at T j).needed_by.length))) := by
  intro m
  induction m with
  | zero =>
    intro k best hsome _ r hr
    simp only [List.range'_zero, choose_best] at hr
    exact hsome r hr
  | succ m ih =>
    intro k best hsome hnone r hr
    rw [List.range'_succ] at hr
    unfold choose_best at hr
    have hk : k + (m + 1) = (k + 1) + m := by omega
    rw [hk]
    split at hr
    · rename_i hnc
      have hnck : (table_at T k).needs_check = false := by simpa using hnc
      apply ih (k + 1) best ?_ ?_ r hr
      · intro b hb
        obtain ⟨h1, h2, h3⟩ := hsome b hb
        refine ⟨by omega, h2, ?_⟩
        intro j hj hncj
        by_cases hjk : j = k
        · subst hjk; rw [hnck] at hncj; exact absurd hncj (by decide)
        · exact h3 j (by omega) hncj
      · intro hb j hj
        by_cases hjk : j = k
        · subst hjk; exact hnck
        · exact hnone hb j (by omega)
    · rename_i hnc
      have hnck : (table_at T k).needs_check = true := by simpa using hnc
      cases best with
      | none =>
        simp only at hr
        apply ih (k + 1) (some k) ?_ (fun h => by cases h) r hr
        intro b hb
        cases hb
        refine ⟨by omega, hnck, ?_⟩
        intro j hj hncj
        by_cases hjk : j = k
        · subst hjk; omega
        · have := hnone rfl j (by omega)
          rw [this] at hncj
          exact absurd hncj (by decide)
      | some b =>
        simp only at hr
        obtain ⟨h1, h2, h3⟩ := hsome b rfl
        split at hr
        · rename_i hbetter
          apply ih (k + 1) (some k) ?_ (fun h => by cases h) r hr
          intro b' hb'
          cases hb'
          refine ⟨by omega, hnck, ?_⟩
          intro j hj hncj
          by_cases hjk : j = k
          · subst hjk; omega
          · have := h3 j (by omega) hncj
            omega
        · rename_i hbetter
          apply ih (k + 1) (some b) ?_ (fun h => by cases h) r hr
          intro b' hb'
          cases hb'
          refine ⟨by omega, h2, ?_⟩
          intro j hj hncj
          by_cases hjk : j = k
          · subst hjk
            exact ⟨hbetter, fun h => by omega⟩
          · exact h3 j (by omega) hncj

/-- Claim C36.  When pending tables remain, the second loop of an iteration of
`perform_checks` chooses a table: a pending one (`needs_check`), with the minimum
`num_needs` among the pending tables, with the maximum `num_needed_by` among those of
minimum `num_needs`, and the first in registry order among the remaining ties. -/
theorem choose_best_selection (T : List pg_catalog_table) (hpending : remaining T ≠ 0) :
    ∃ best, choose_best T (List.range T.length) none = some best
      ∧ best < T.length ∧ (table_at T best).needs_check = true
      ∧ ∀ j, (table_at T j).needs_check = true →
          (table_at T best).needs.length ≤ (table_at T j).needs.length
            ∧ ((table_at T j).needs.length = (table_at T best).needs.length →
                (table_at T j).needed_by.length ≤ (table_at T best).needed_by.length)
            ∧ ((table_at T j).needs.length = (table_at T best).needs.length →
                (table_at T j).needed_by.length = (table_at T best).needed_by.length →
                best ≤ j) := by
  obtain ⟨i, hi, hnc⟩ := exists_needs_check_of_remaining T hpending
  have hsome := choose_best_isSome T (List.range T.length) none
    (Or.inr ⟨i, List.mem_range.2 hi, hnc⟩)
  cases hb : choose_best T (List.range T.length) none with
  | none => rw [hb] at hsome; exact absurd hsome (by decide)
  | some best =>
    have hb' := hb
    rw [List.range_eq_range'] at hb'
    obtain ⟨h1, h2, h3⟩ := choose_best_range' T T.length 0 none (fun b h => by cases h)
      (fun _ j hj => absurd hj (Nat.not_lt_zero _)) best hb'
    refine ⟨best, rfl, by omega, h2, ?_⟩
    intro j hj
    have hjl := lt_of_needs_check T j hj
    have := h3 j (by omega) hj
    refine ⟨by omega, fun _ => by omega, fun _ _ => by omega⟩

/-- Witness of C36: of the pending tables A, with one table to preload, and B, with two,
A is chosen. -/
theorem choose_best_selection_witness :
    remaining (perform_checks_init
        (add_table_dependencies sched_base_fan [(0, 1), (1, 2), (1, 3)])) ≠ 0
      ∧ ∃ best, choose_best (perform_checks_init
            (add_table_dependencies sched_base_fan [(0, 1), (1, 2), (1, 3)]))
            (List.range (perform_checks_init
              (add_table_dependencies sched_base_fan [(0, 1), (1, 2), (1, 3)])).length)
            none = some best
        ∧ best < (perform_checks_init
            (add_table_dependencies sched_base_fan [(0, 1), (1, 2), (1, 3)])).length
        ∧ (table_at (perform_checks_init
            (add_table_dependencies sched_base_fan [(0, 1), (1, 2), (1, 3)]))
            best).needs_check = true
        ∧ ∀ j, (table_at (perform_checks_init
              (add_table_dependencies sched_base_fan [(0, 1), (1, 2), (1, 3)]))
              j).needs_check = true →
            (table_at (perform_checks_init
                (add_table_dependencies sched_base_fan [(0, 1), (1, 2), (1, 3)]))
                best).needs.length
              ≤ (table_at (perform_checks_init
                (add_table_dependencies sched_base_fan [(0, 1), (1, 2), (1, 3)]))
                j).needs.length
            ∧ ((table_at (perform_checks_init
                  (add_table_dependencies sched_base_fan [(0, 1), (1, 2), (1, 3)]))
                  j).needs.length
                = (table_at (perform_checks_init
                  (add_table_dependencies sched_base_fan [(0, 1), (1, 2), (1, 3)]))
                  best).needs.length →
                (table_at (perform_checks_init
                    (add_table_dependencies sched_base_fan [(0, 1), (1, 2), (1, 3)]))
                    j).needed_by.length
                  ≤ (table_at (perform_checks_init
                    (add_table_dependencies sched_base_fan [(0, 1), (1, 2), (1, 3)]))
                    best).needed_by.length)
            ∧ ((table_at (perform_checks_init
                  (add_table_dependencies sched_base_fan [(0, 1), (1, 2), (1, 3)]))
                  j).needs.length
                = (table_at (perform_checks_init
                  (add_table_dependencies sched_base_fan [(0, 1), (1, 2), (1, 3)]))
                  best).needs.length →
                (table_at (perform_checks_init
                    (add_table_dependencies sched_base_fan [(0, 1), (1, 2), (1, 3)]))
                    j).needed_by.length
                  = (table_at (perform_checks_init
                    (add_table_dependencies sched_base_fan [(0, 1), (1, 2), (1, 3)]))
                    best).needed_by.length →
                best ≤ j) :=
  ⟨by decide,
    choose_best_selection (perform_checks_init
      (add_table_dependencies sched_base_fan [(0, 1), (1, 2), (1, 3)])) (by decide)⟩

/-- The table chosen in the witness of C36 is A. -/
theorem choose_best_sample :
    choose_best (perform_checks_init
        (add_table_dependencies sched_base_fan [(0, 1), (1, 2), (1, 3)]))
      (List.range 4) none = some 0 := by
  decide


/-! ## Bucket count, hashing and naming styles (claims C38 to C40) -/

theorem lt_two_pow_fls_loop (fuel : Nat) : ∀ n, n ≤ fuel → n < 2 ^ fls_loop fuel n := by
  induction fuel with
  | zero =>
    intro n h
    have : n = 0 := Nat.le_zero.1 h
    subst this
    simp [fls_loop]
  | succ fuel ih =>
    intro n h
    unfold fls_loop
    split
    · rename_i h0
      rw [h0]
      exact Nat.one_pos
    · rename_i h0
      have h2 := ih (n / 2) (by omega)
      rw [pow_succ]
      omega

/-- The number of buckets `1 << fls(n)` is the smallest power of two that is greater than
`n`. -/
theorem fls_smallest_power (n : Nat) :
    n < 2 ^ fls n ∧ ∀ j, n < 2 ^ j → 2 ^ fls n ≤ 2 ^ j :=
  ⟨lt_two_pow_fls_loop n n (Nat.le_refl n),
    fun j hj => Nat.pow_le_pow_right (by decide) (fls_loop_le n n j hj)⟩

/-- Counterexample to C38: `pgrhash_create` gives a result set of 4 rows 8 buckets, and a
result set of 1 row 2 buckets. -/
theorem pgrhash_create_buckets_for_four_rows :
    (pgrhash_create (List.replicate 4 ["1".data]) 1 [0]).map
        (fun ht => (ht.nbuckets, ht.bucket.length)) = some (8, 8)
      ∧ (pgrhash_create (List.replicate 1 ["1".data]) 1 [0]).map
        (fun ht => (ht.nbuckets, ht.bucket.length)) = some (2, 2) := by
  decide

/-- Claim C38, amended.  For every row count `n` that passes the size check,
`pgrhash_create` returns a table whose bucket array has `nbuckets` entries, and
`nbuckets` is the smallest power of two that is greater than `n`: 1 bucket for 0 rows, 2
for 1 row, 8 for 4 rows and for 5 rows. -/
theorem pgrhash_create_bucket_count (result : PGresult) (nkeycols : Nat)
    (keycols : List Nat) (hsize : PQntuples result < 2 ^ 31) :
    (∃ ht, pgrhash_create result nkeycols keycols = some ht
      ∧ ht.bucket.length = ht.nbuckets
      ∧ ht.nbuckets = 2 ^ fls (PQntuples result)
      ∧ PQntuples result < ht.nbuckets
      ∧ ∀ j, PQntuples result < 2 ^ j → ht.nbuckets ≤ 2 ^ j)
    ∧ (2 ^ fls 0 = 1 ∧ 2 ^ fls 1 = 2 ∧ 2 ^ fls 4 = 8 ∧ 2 ^ fls 5 = 8) := by
  refine ⟨⟨_, pgrhash_create_some result nkeycols keycols hsize, ?_, ?_, ?_, ?_⟩, by decide⟩
  · simp
  · show 1 <<< fls (PQntuples result) = _
    rw [Nat.one_shiftLeft]
  · show PQntuples result < 1 <<< fls (PQntuples result)
    rw [Nat.one_shiftLeft]
    exact (fls_smallest_power _).1
  · intro j hj
    show 1 <<< fls (PQntuples result) ≤ _
    rw [Nat.one_shiftLeft]
    exact (fls_smallest_power _).2 j hj

/-- Witness of C38 as amended: the three rows of `sample_result`. -/
theorem pgrhash_create_bucket_count_witness :
    PQntuples sample_result < 2 ^ 31
      ∧ (∃ ht, pgrhash_create sample_result 1 [0] = some ht
        ∧ ht.bucket.length = ht.nbuckets
        ∧ ht.nbuckets = 2 ^ fls (PQntuples sample_result)
        ∧ PQntuples sample_result < ht.nbuckets
        ∧ ∀ j, PQntuples sample_result < 2 ^ j → ht.nbuckets ≤ 2 ^ j)
      ∧ (2 ^ fls 0 = 1 ∧ 2 ^ fls 1 = 2 ∧ 2 ^ fls 4 = 8 ∧ 2 ^ fls 5 = 8) :=
  ⟨by decide, pgrhash_create_bucket_count sample_result 1 [0] (by decide)⟩

theorem char_value_bounds (c : Char) : -128 ≤ char_value c ∧ char_value c < 128 := by
  unfold char_value
  split <;> omega

theorem char_value_of_lt (c : Char) (h : c.toNat < 128) : char_value c = c.toNat := by
  unfold char_value
  have e : c.toNat % 256 = c.toNat := Nat.mod_eq_of_lt (by omega)
  rw [e, if_pos h]

/-- One round of `string_hash_sdbm` in the integers: the wrapping operations of the source
amount to one reduction modulo `2^32`, and the two shifts and the subtraction to the
factor 65599. -/
theorem string_hash_sdbm_step_eq (hash : Nat) (c : Char) :
    (string_hash_sdbm_step hash c : Int)
        = (char_value c + (hash : Int) * 2 ^ 6 + (hash : Int) * 2 ^ 16 - hash) % 2 ^ 32
      ∧ (string_hash_sdbm_step hash c : Int) = (65599 * (hash : Int) + char_value c) % 2 ^ 32 := by
  obtain ⟨lo, hi⟩ := char_value_bounds c
  unfold string_hash_sdbm_step
  simp only [Nat.shiftLeft_eq]
  generalize char_value c = x at lo hi
  norm_num
  omega

theorem string_hash_sdbm_step_ascii (hash : Nat) (c : Char) (h : c.toNat < 128) :
    string_hash_sdbm_step hash c = (65599 * hash + c.toNat) % 2 ^ 32 := by
  have e := (string_hash_sdbm_step_eq hash c).2
  rw [char_value_of_lt c h] at e
  have : ((string_hash_sdbm_step hash c : Nat) : Int)
      = (((65599 * hash + c.toNat) % 2 ^ 32 : Nat) : Int) := by
    rw [e]
    push_cast
    rfl
  exact_mod_cast this

/-- Claim C39.  `string_hash_sdbm` folds the bytes of a key from 0 with the step
(c + (hash << 6) + (hash << 16) - hash) mod 2^32, which is (65599 * hash + c) mod 2^32,
where `c` is the value that the program reads from the byte (`int c` from a `char`: the
code of an ASCII character, and the value minus 256 for a byte from 0x80 on); the hash of
a key tuple is the XOR of the hashes of its columns; the bucket number is
hash & (nbuckets - 1); for a row and key values that `pgrhash_compare` finds equal,
`pgrhash_insert` on the row and `pgrhash_get` on the key values compute the same bucket
number; and that number is below `nbuckets`. -/
theorem pgrhash_hashing (ht : pgrhash) (rownum : Nat) (keyvals : List CStr)
    (hbuckets : 0 < ht.nbuckets) :
    (∀ hash c, (string_hash_sdbm_step hash c : Int)
        = (char_value c + (hash : Int) * 2 ^ 6 + (hash : Int) * 2 ^ 16 - hash) % 2 ^ 32
      ∧ (string_hash_sdbm_step hash c : Int)
        = (65599 * (hash : Int) + char_value c) % 2 ^ 32
      ∧ (c.toNat < 128 →
          string_hash_sdbm_step hash c = (65599 * hash + c.toNat) % 2 ^ 32))
    ∧ (∀ key, string_hash_sdbm key
        = key.foldl
            (fun hash c => ((65599 * (hash : Int) + char_value c) % 2 ^ 32).toNat) 0)
    ∧ pgrhash_hashvalue ht keyvals
        = ((List.range ht.nkeycols).map
            (fun i => string_hash_sdbm (keyvals.getD i []))).foldl (fun h x => h ^^^ x) 0
    ∧ pgrhash_bucket_number ht keyvals = pgrhash_hashvalue ht keyvals &&& (ht.nbuckets - 1)
    ∧ (pgrhash_compare ht rownum keyvals = true →
        pgrhash_bucket_number ht (pgrhash_row_keyvals ht rownum)
          = pgrhash_bucket_number ht keyvals)
    ∧ pgrhash_bucket_number ht keyvals < ht.nbuckets
    ∧ pgrhash_bucket_number ht (pgrhash_row_keyvals ht rownum) < ht.nbuckets := by
  refine ⟨fun hash c => ⟨(string_hash_sdbm_step_eq hash c).1,
      (string_hash_sdbm_step_eq hash c).2, string_hash_sdbm_step_ascii hash c⟩, ?_, ?_, rfl,
    pgrhash_bucket_of_compare ht rownum keyvals, pgrhash_bucket_number_lt ht _ hbuckets,
    pgrhash_bucket_number_lt ht _ hbuckets⟩
  · intro key
    unfold string_hash_sdbm
    congr 1
    funext hash c
    rw [← (string_hash_sdbm_step_eq hash c).2]
    rfl
  · unfold pgrhash_hashvalue
    rw [List.foldl_map]

/-- Witness of C39: row 2 of `sample_ht` and the key "10". -/
theorem pgrhash_hashing_witness :
    0 < sample_ht.nbuckets
      ∧ (∀ hash c, (string_hash_sdbm_step hash c : Int)
          = (char_value c + (hash : Int) * 2 ^ 6 + (hash : Int) * 2 ^ 16 - hash) % 2 ^ 32
        ∧ (string_hash_sdbm_step hash c : Int)
          = (65599 * (hash : Int) + char_value c) % 2 ^ 32
        ∧ (c.toNat < 128 →
            string_hash_sdbm_step hash c = (65599 * hash + c.toNat) % 2 ^ 32))
      ∧ (∀ key, string_hash_sdbm key
          = key.foldl
              (fun hash c => ((65599 * (hash : Int) + char_value c) % 2 ^ 32).toNat) 0)
      ∧ pgrhash_hashvalue sample_ht ["10".data]
          = ((List.range sample_ht.nkeycols).map
              (fun i => string_hash_sdbm (["10".data].getD i []))).foldl
              (fun h x => h ^^^ x) 0
      ∧ pgrhash_bucket_number sample_ht ["10".data]
          = pgrhash_hashvalue sample_ht ["10".data] &&& (sample_ht.nbuckets - 1)
      ∧ (pgrhash_compare sample_ht 2 ["10".data] = true →
          pgrhash_bucket_number sample_ht (pgrhash_row_keyvals sample_ht 2)
            = pgrhash_bucket_number sample_ht ["10".data])
      ∧ pgrhash_bucket_number sample_ht ["10".data] < sample_ht.nbuckets
      ∧ pgrhash_bucket_number sample_ht (pgrhash_row_keyvals sample_ht 2)
          < sample_ht.nbuckets :=
  ⟨by decide, pgrhash_hashing sample_ht 2 ["10".data] (by decide)⟩

/-- The hash of the key "10" and its bucket in `sample_ht`. -/
theorem string_hash_sdbm_sample :
    string_hash_sdbm "10".data = 3214399 ∧ pgrhash_bucket_number sample_ht ["10".data] = 3
      ∧ pgrhash_compare sample_ht 2 ["10".data] = true := by
  decide

/-- The hash of keys with bytes from 0x80 on: the one byte 0x80, the two bytes 0xC3 0xA9
(the letter e with an acute accent in UTF-8), and the byte 0xFF followed by "1". -/
theorem string_hash_sdbm_high_bytes :
    string_hash_sdbm [Char.ofNat 0x80] = 4294967168
      ∧ string_hash_sdbm [Char.ofNat 0xC3, Char.ofNat 0xA9] = 4290965670
      ∧ string_hash_sdbm [Char.ofNat 0xFF, '1'] = 4294901746 := by
  decide


theorem strstr_iff (needle : CStr) : ∀ haystack : CStr,
    strstr haystack needle = true ↔ ∃ pre post, haystack = pre ++ needle ++ post := by
  intro haystack
  induction haystack with
  | nil =>
    unfold strstr
    constructor
    · intro h
      have : needle = [] := by simpa using h
      exact ⟨[], [], by simp [this]⟩
    · rintro ⟨pre, post, h⟩
      have h' := congrArg List.length h
      simp only [List.length_nil, List.length_append] at h'
      have : needle.length = 0 := by omega
      simp [List.length_eq_zero.1 this]
  | cons c rest ih =>
    unfold strstr
    rw [Bool.or_eq_true, ih, List.isPrefixOf_iff_prefix]
    constructor
    · rintro (⟨post, h⟩ | ⟨pre, post, h⟩)
      · exact ⟨[], post, by simp [h]⟩
      · exact ⟨c :: pre, post, by simp [h]⟩
    · rintro ⟨pre, post, h⟩
      cases pre with
      | nil => exact Or.inl ⟨post, by simpa using h.symm⟩
      | cons p pre =>
        simp only [List.cons_append, List.cons.injEq] at h
        exact Or.inr ⟨pre, post, h.2⟩

theorem take_three_eq_ref_iff (column_name : CStr) :
    column_name.take 3 = "ref".data ↔ ∃ rest, column_name = "ref".data ++ rest := by
  constructor
  · intro h
    refine ⟨column_name.drop 3, ?_⟩
    rw [← h, List.take_append_drop]
  · rintro ⟨rest, h⟩
    rw [h]
    rfl

/-- Claim C40.  `get_style` is decided from the two names alone: a column name that starts
with "ref" gives the referenced-side style whatever the table name; otherwise a table name
that contains "depend" gives the referring-side style; otherwise the style is the plain
one.  For the tables of the registry this gives the referring side for classid, objid and
objsubid of pg_depend and pg_shdepend, the referenced side for their ref columns, and the
plain style for the columns of pg_description, pg_shdescription, pg_seclabel and
pg_shseclabel. -/
theorem get_style_resolution :
    (∀ table_name column_name rest, column_name = "ref".data ++ rest →
        get_style table_name column_name = depend_column_style.DEPEND_COLUMN_STYLE_REFOBJID)
      ∧ (∀ table_name column_name, (¬ ∃ rest, column_name = "ref".data ++ rest) →
          (∃ pre post, table_name = pre ++ "depend".data ++ post) →
          get_style table_name column_name = depend_column_style.DEPEND_COLUMN_STYLE_OBJID)
      ∧ (∀ table_name column_name, (¬ ∃ rest, column_name = "ref".data ++ rest) →
          (¬ ∃ pre post, table_name = pre ++ "depend".data ++ post) →
          get_style table_name column_name = depend_column_style.DEPEND_COLUMN_STYLE_OBJOID)
      ∧ (∀ table_name ∈ ["pg_depend".data, "pg_shdepend".data],
          (∀ column_name ∈ ["classid".data, "objid".data, "objsubid".data],
            get_style table_name column_name
              = depend_column_style.DEPEND_COLUMN_STYLE_OBJID)
          ∧ ∀ column_name ∈ ["refclassid".data, "refobjid".data, "refobjsubid".data],
            get_style table_name column_name
              = depend_column_style.DEPEND_COLUMN_STYLE_REFOBJID)
      ∧ ∀ table_name ∈ ["pg_description".data, "pg_shdescription".data, "pg_seclabel".data,
            "pg_shseclabel".data],
          ∀ column_name ∈ ["classoid".data, "objoid".data, "objsubid".data, "provider".data],
            get_style table_name column_name
              = depend_column_style.DEPEND_COLUMN_STYLE_OBJOID := by
  refine ⟨?_, ?_, ?_, by decide, by decide⟩
  · intro table_name column_name rest h
    unfold get_style
    rw [if_pos ((take_three_eq_ref_iff column_name).2 ⟨rest, h⟩)]
  · intro table_name column_name h1 h2
    unfold get_style
    rw [if_neg (fun h => h1 ((take_three_eq_ref_iff column_name).1 h)),
      if_pos ((strstr_iff _ _).2 h2)]
  · intro table_name column_name h1 h2
    unfold get_style
    rw [if_neg (fun h => h1 ((take_three_eq_ref_iff column_name).1 h)),
      if_neg (fun h => h2 ((strstr_iff _ _).1 h))]


/-! ## The exit status (claim C32) -/

theorem severity_value_eq_three (sev : pgcc_severity) :
    severity_value sev = 3 ↔ sev = pgcc_severity.PGCC_NOTICE := by
  cases sev <;> simp [severity_value]

theorem severity_value_gt_three (sev : pgcc_severity)
    (hfatal : sev ≠ pgcc_severity.PGCC_FATAL) :
    3 < severity_value sev
      ↔ sev = pgcc_severity.PGCC_WARNING ∨ sev = pgcc_severity.PGCC_ERROR := by
  cases sev <;> simp [severity_value] at hfatal ⊢

theorem severity_value_ge_three (sev : pgcc_severity)
    (hfatal : sev ≠ pgcc_severity.PGCC_FATAL) :
    3 ≤ severity_value sev
      ↔ sev = pgcc_severity.PGCC_NOTICE ∨ sev = pgcc_severity.PGCC_WARNING
        ∨ sev = pgcc_severity.PGCC_ERROR := by
  cases sev <;> simp [severity_value] at hfatal ⊢

/-- A message of the severity of a notice or above is logged under every setting. -/
theorem pgcc_log_severity_logged (settings : log_settings) (sev : pgcc_severity)
    (st : log_state) (h : 3 ≤ severity_value sev) :
    (pgcc_log_severity settings sev st).1 = true := by
  cases sev <;> simp [severity_value] at h <;> rfl

theorem pgcc_log_severity_highest (settings : log_settings) (sev : pgcc_severity)
    (st : log_state) :
    (pgcc_log_severity settings sev st).2.highest_message_severity
      = (if (pgcc_log_severity settings sev st).1 = true then
          (if severity_value sev ≥ severity_value st.highest_message_severity then sev
           else st.highest_message_severity)
         else st.highest_message_severity) := by
  unfold pgcc_log_severity
  simp only
  split <;> simp

theorem pgcc_log_ok (settings : log_settings) (sev : pgcc_severity) (st : log_state)
    (hfatal : sev ≠ pgcc_severity.PGCC_FATAL) :
    pgcc_log settings sev st
      = Except.ok (if (pgcc_log_severity settings sev st).1 = true then
          (pgcc_log_severity settings sev st).2 else st) := by
  have hv : ¬ severity_value sev ≥ severity_value pgcc_severity.PGCC_FATAL := by
    cases sev <;> simp [severity_value] at hfatal ⊢
  unfold pgcc_log
  simp only [if_neg hv]
  cases (pgcc_log_severity settings sev st).1 <;> simp

/-- One message that is not fatal: `pgcc_log` returns, and the highest severity passes the
level of a notice, or of a warning, exactly when it had before or the message does. -/
theorem pgcc_log_levels (settings : log_settings) (sev : pgcc_severity) (st : log_state)
    (hfatal : sev ≠ pgcc_severity.PGCC_FATAL) :
    ∃ logged, pgcc_log settings sev st = Except.ok logged
      ∧ (3 < severity_value logged.highest_message_severity
          ↔ 3 < severity_value st.highest_message_severity
            ∨ sev = pgcc_severity.PGCC_WARNING ∨ sev = pgcc_severity.PGCC_ERROR)
      ∧ (3 ≤ severity_value logged.highest_message_severity
          ↔ 3 ≤ severity_value st.highest_message_severity
            ∨ sev = pgcc_severity.PGCC_NOTICE ∨ sev = pgcc_severity.PGCC_WARNING
            ∨ sev = pgcc_severity.PGCC_ERROR) := by
  refine ⟨_, pgcc_log_ok settings sev st hfatal, ?_, ?_⟩
  · rw [← severity_value_gt_three sev hfatal]
    cases hl : (pgcc_log_severity settings sev st).1
    · have : ¬ 3 ≤ severity_value sev := fun h => by
        rw [pgcc_log_severity_logged settings sev st h] at hl
        exact absurd hl (by decide)
      simp only [Bool.false_eq_true, if_false]
      omega
    · simp only [if_true]
      rw [pgcc_log_severity_highest, hl]
      simp only [if_true]
      split <;> omega
  · rw [← severity_value_ge_three sev hfatal]
    cases hl : (pgcc_log_severity settings sev st).1
    · have : ¬ 3 ≤ severity_value sev := fun h => by
        rw [pgcc_log_severity_logged settings sev st h] at hl
        exact absurd hl (by decide)
      simp only [Bool.false_eq_true, if_false]
      omega
    · simp only [if_true]
      rw [pgcc_log_severity_highest, hl]
      simp only [if_true]
      split <;> omega

/-- The messages of a run without a fatal one: `pgcc_log_messages` returns, and the
highest severity passes the level of a notice, or of a warning, exactly when it had before
or one of the messages does. -/
theorem pgcc_log_messages_levels (settings : log_settings) (messages : List pgcc_severity) :
    ∀ st : log_state, pgcc_severity.PGCC_FATAL ∉ messages →
      ∃ logged, pgcc_log_messages settings messages st = Except.ok logged
        ∧ (3 < severity_value logged.highest_message_severity
            ↔ 3 < severity_value st.highest_message_severity
              ∨ pgcc_severity.PGCC_WARNING ∈ messages
              ∨ pgcc_severity.PGCC_ERROR ∈ messages)
        ∧ (3 ≤ severity_value logged.highest_message_severity
            ↔ 3 ≤ severity_value st.highest_message_severity
              ∨ pgcc_severity.PGCC_NOTICE ∈ messages
              ∨ pgcc_severity.PGCC_WARNING ∈ messages
              ∨ pgcc_severity.PGCC_ERROR ∈ messages) := by
  induction messages with
  | nil =>
    intro st _
    exact ⟨st, rfl, by simp, by simp⟩
  | cons sev rest ih =>
    intro st hfatal
    have hsev : sev ≠ pgcc_severity.PGCC_FATAL :=
      fun e => hfatal (by rw [e]; exact List.mem_cons_self _ _)
    obtain ⟨l1, h1, a1, b1⟩ := pgcc_log_levels settings sev st hsev
    obtain ⟨l2, h2, a2, b2⟩ := ih l1 (fun h => hfatal (List.mem_cons_of_mem _ h))
    refine ⟨l2, ?_, ?_, ?_⟩
    · unfold pgcc_log_messages
      rw [h1]
      exact h2
    · rw [a2, a1]
      simp only [List.mem_cons]
      constructor
      · rintro ((h | h | h) | h | h)
        · exact Or.inl h
        · exact Or.inr (Or.inl (Or.inl h.symm))
        · exact Or.inr (Or.inr (Or.inl h.symm))
        · exact Or.inr (Or.inl (Or.inr h))
        · exact Or.inr (Or.inr (Or.inr h))
      · rintro (h | (h | h) | (h | h))
        · exact Or.inl (Or.inl h)
        · exact Or.inl (Or.inr (Or.inl h.symm))
        · exact Or.inr (Or.inl h)
        · exact Or.inl (Or.inr (Or.inr h.symm))
        · exact Or.inr (Or.inr h)
    · rw [b2, b1]
      simp only [List.mem_cons]
      constructor
      · rintro ((h | h | h | h) | h | h | h)
        · exact Or.inl h
        · exact Or.inr (Or.inl (Or.inl h.symm))
        · exact Or.inr (Or.inr (Or.inl (Or.inl h.symm)))
        · exact Or.inr (Or.inr (Or.inr (Or.inl h.symm)))
        · exact Or.inr (Or.inl (Or.inr h))
        · exact Or.inr (Or.inr (Or.inl (Or.inr h)))
        · exact Or.inr (Or.inr (Or.inr (Or.inr h)))
      · rintro (h | (h | h) | (h | h) | (h | h))
        · exact Or.inl (Or.inl h)
        · exact Or.inl (Or.inr (Or.inl h.symm))
        · exact Or.inr (Or.inl h)
        · exact Or.inl (Or.inr (Or.inr (Or.inl h.symm)))
        · exact Or.inr (Or.inr (Or.inl h))
        · exact Or.inl (Or.inr (Or.inr (Or.inr h.symm)))
        · exact Or.inr (Or.inr (Or.inr h))

/-- One message that is not fatal: the counters count it when it is a notice, a warning or
an error, whatever the settings. -/
theorem pgcc_log_counts (settings : log_settings) (sev : pgcc_severity) (st : log_state)
    (hfatal : sev ≠ pgcc_severity.PGCC_FATAL) :
    ∃ logged, pgcc_log settings sev st = Except.ok logged
      ∧ logged.notices = st.notices + [sev].count pgcc_severity.PGCC_NOTICE
      ∧ logged.warnings = st.warnings + [sev].count pgcc_severity.PGCC_WARNING
      ∧ logged.errors = st.errors + [sev].count pgcc_severity.PGCC_ERROR := by
  refine ⟨_, pgcc_log_ok settings sev st hfatal, ?_⟩
  cases hl : (pgcc_log_severity settings sev st).1
  · have h3 : ¬ 3 ≤ severity_value sev := fun h => by
      rw [pgcc_log_severity_logged settings sev st h] at hl
      exact absurd hl (by decide)
    cases sev <;> simp [severity_value] at h3 <;> simp
  · have h2 : (pgcc_log_severity settings sev st).2
        = { notices := if sev = pgcc_severity.PGCC_NOTICE then st.notices + 1 else st.notices
            warnings :=
              if sev = pgcc_severity.PGCC_WARNING then st.warnings + 1 else st.warnings
            errors := if sev = pgcc_severity.PGCC_ERROR then st.errors + 1 else st.errors
            highest_message_severity :=
              if severity_value sev ≥ severity_value st.highest_message_severity then sev
              else st.highest_message_severity } := by
      unfold pgcc_log_severity at hl ⊢
      simp only at hl ⊢
      split
      · rename_i hs
        rw [if_pos hs] at hl
        simp at hl
      · rfl
    simp only [if_true]
    rw [h2]
    cases sev <;> simp

/-- The messages of a run without a fatal one: the counters hold the numbers of notices,
warnings and errors among the messages, whatever the settings. -/
theorem pgcc_log_messages_counts (settings : log_settings) (messages : List pgcc_severity) :
    ∀ st : log_state, pgcc_severity.PGCC_FATAL ∉ messages →
      ∃ logged, pgcc_log_messages settings messages st = Except.ok logged
        ∧ logged.notices = st.notices + messages.count pgcc_severity.PGCC_NOTICE
        ∧ logged.warnings = st.warnings + messages.count pgcc_severity.PGCC_WARNING
        ∧ logged.errors = st.errors + messages.count pgcc_severity.PGCC_ERROR := by
  induction messages with
  | nil =>
    intro st _
    exact ⟨st, rfl, by simp, by simp, by simp⟩
  | cons sev rest ih =>
    intro st hfatal
    have hsev : sev ≠ pgcc_severity.PGCC_FATAL :=
      fun e => hfatal (by rw [e]; exact List.mem_cons_self _ _)
    obtain ⟨l1, h1, a1, b1, c1⟩ := pgcc_log_counts settings sev st hsev
    obtain ⟨l2, h2, a2, b2, c2⟩ := ih l1 (fun h => hfatal (List.mem_cons_of_mem _ h))
    refine ⟨l2, ?_, ?_, ?_, ?_⟩
    · unfold pgcc_log_messages
      rw [h1]
      exact h2
    · rw [a2, a1]
      simp only [List.count_cons, List.count_nil]
      omega
    · rw [b2, b1]
      simp only [List.count_cons, List.count_nil]
      omega
    · rw [c2, c1]
      simp only [List.count_cons, List.count_nil]
      omega

/-- The exit status of `pgcc_log_completion` from the highest severity before it: the
progress message it logs moves the highest severity over neither level. -/
theorem pgcc_log_completion_spec (settings : log_settings) (st : log_state) :
    pgcc_log_completion settings st
      = (if 3 < severity_value st.highest_message_severity then 2
         else if 3 ≤ severity_value st.highest_message_severity then 1 else 0) := by
  obtain ⟨l, hl, a, b⟩ :=
    pgcc_log_levels settings pgcc_severity.PGCC_PROGRESS st (by decide)
  simp only [false_or, or_false, reduceCtorEq] at a b
  unfold pgcc_log_completion
  rw [hl]
  have hv : severity_value pgcc_severity.PGCC_NOTICE = 3 := rfl
  simp only [hv, gt_iff_lt, ← severity_value_eq_three]
  by_cases h4 : 3 < severity_value st.highest_message_severity
  · rw [if_pos (a.2 h4), if_pos h4]
  · rw [if_neg (fun h => h4 (a.1 h)), if_neg h4]
    by_cases h3 : 3 ≤ severity_value st.highest_message_severity
    · have := b.2 h3
      have h4b : ¬ 3 < severity_value l.highest_message_severity := fun h => h4 (a.1 h)
      rw [if_pos h3, if_pos (by omega)]
    · have h3b : ¬ 3 ≤ severity_value l.highest_message_severity := fun h => h3 (b.1 h)
      rw [if_neg h3, if_neg (by omega)]

/-- Claim C32. In a run whose messages include no fatal one, the messages are all handled
and `pgcc_log_completion` ends the run; the counters hold the numbers of notices, warnings
and errors among the messages under every setting of `quiet` and `verbose`; and the exit
status is 0 exactly when no notice, warning or error was logged, 1 exactly when a notice
was logged and no warning or error, and 2 exactly when a warning or an error was logged.
The status is one of the three, and it is the same under any other settings. -/
theorem pgcc_log_completion_exit_status (settings : log_settings)
    (messages : List pgcc_severity)
    (hfatal : pgcc_severity.PGCC_FATAL ∉ messages) :
    ∃ st, pgcc_log_messages settings messages {} = Except.ok st
      ∧ exit_status settings messages = pgcc_log_completion settings st
      ∧ st.notices = messages.count pgcc_severity.PGCC_NOTICE
      ∧ st.warnings = messages.count pgcc_severity.PGCC_WARNING
      ∧ st.errors = messages.count pgcc_severity.PGCC_ERROR
      ∧ (pgcc_log_completion settings st = 0
          ↔ st.notices = 0 ∧ st.warnings = 0 ∧ st.errors = 0)
      ∧ (pgcc_log_completion settings st = 1
          ↔ 0 < st.notices ∧ st.warnings = 0 ∧ st.errors = 0)
      ∧ (pgcc_log_completion settings st = 2 ↔ 0 < st.warnings ∨ 0 < st.errors)
      ∧ (∀ other : log_settings, exit_status other messages = exit_status settings messages)
      := by
  have key : ∀ s : log_settings, ∃ st,
      pgcc_log_messages s messages {} = Except.ok st
      ∧ exit_status s messages = pgcc_log_completion s st
      ∧ st.notices = messages.count pgcc_severity.PGCC_NOTICE
      ∧ st.warnings = messages.count pgcc_severity.PGCC_WARNING
      ∧ st.errors = messages.count pgcc_severity.PGCC_ERROR
      ∧ pgcc_log_completion s st
          = (if 0 < messages.count pgcc_severity.PGCC_WARNING
                ∨ 0 < messages.count pgcc_severity.PGCC_ERROR then 2
             else if 0 < messages.count pgcc_severity.PGCC_NOTICE then 1 else 0) := by
    intro s
    obtain ⟨st, hst, a, b⟩ := pgcc_log_messages_levels s messages {} hfatal
    obtain ⟨st2, hst2, n, w, e⟩ := pgcc_log_messages_counts s messages {} hfatal
    rw [hst] at hst2
    cases hst2
    have h0 : severity_value ({} : log_state).highest_message_severity = 0 := rfl
    have n0 : ({} : log_state).notices = 0 := rfl
    have w0 : ({} : log_state).warnings = 0 := rfl
    have e0 : ({} : log_state).errors = 0 := rfl
    rw [n0, Nat.zero_add] at n
    rw [w0, Nat.zero_add] at w
    rw [e0, Nat.zero_add] at e
    rw [h0] at a b
    simp only [Nat.not_lt_zero, false_or, Nat.le_zero_eq, OfNat.ofNat_ne_zero,
      ← List.count_pos_iff] at a b
    refine ⟨st, hst, ?_, n, w, e, ?_⟩
    · unfold exit_status
      rw [hst]
    · rw [pgcc_log_completion_spec]
      by_cases h4 : 3 < severity_value st.highest_message_severity
      · rw [if_pos h4, if_pos (a.1 h4)]
      · rw [if_neg h4, if_neg (fun h => h4 (a.2 h))]
        by_cases h3 : 3 ≤ severity_value st.highest_message_severity
        · have := b.1 h3
          have : ¬ (0 < messages.count pgcc_severity.PGCC_WARNING
              ∨ 0 < messages.count pgcc_severity.PGCC_ERROR) := fun h => h4 (a.2 h)
          rw [if_pos h3, if_pos (by omega)]
        · have : ¬ (0 < messages.count pgcc_severity.PGCC_NOTICE
              ∨ 0 < messages.count pgcc_severity.PGCC_WARNING
              ∨ 0 < messages.count pgcc_severity.PGCC_ERROR) := fun h => h3 (b.2 h)
          rw [if_neg h3, if_neg (by omega)]
  obtain ⟨st, hst, hexit, n, w, e, hstatus⟩ := key settings
  refine ⟨st, hst, hexit, n, w, e, ?_, ?_, ?_, ?_⟩
  · rw [hstatus, n, w, e]
    split
    · omega
    · split <;> omega
  · rw [hstatus, n, w, e]
    split
    · omega
    · split <;> omega
  · rw [hstatus, w, e]
    split
    · omega
    · split <;> omega
  · intro other
    obtain ⟨st2, _, hexit2, _, _, _, hstatus2⟩ := key other
    rw [hexit, hexit2, hstatus, hstatus2]

/-- Witness of claim C32: a run under `--quiet` with a debug message, two notices, a
progress message and a warning. -/
theorem pgcc_log_completion_exit_status_witness :
    pgcc_severity.PGCC_FATAL ∉
        [pgcc_severity.PGCC_DEBUG, pgcc_severity.PGCC_NOTICE, pgcc_severity.PGCC_NOTICE,
         pgcc_severity.PGCC_PROGRESS, pgcc_severity.PGCC_WARNING]
      ∧ ∃ st, pgcc_log_messages { quiet := true, verbose := 0 }
          [pgcc_severity.PGCC_DEBUG, pgcc_severity.PGCC_NOTICE, pgcc_severity.PGCC_NOTICE,
           pgcc_severity.PGCC_PROGRESS, pgcc_severity.PGCC_WARNING] {} = Except.ok st
        ∧ exit_status { quiet := true, verbose := 0 }
            [pgcc_severity.PGCC_DEBUG, pgcc_severity.PGCC_NOTICE, pgcc_severity.PGCC_NOTICE,
             pgcc_severity.PGCC_PROGRESS, pgcc_severity.PGCC_WARNING]
            = pgcc_log_completion { quiet := true, verbose := 0 } st
        ∧ st.notices = [pgcc_severity.PGCC_DEBUG, pgcc_severity.PGCC_NOTICE,
            pgcc_severity.PGCC_NOTICE, pgcc_severity.PGCC_PROGRESS,
            pgcc_severity.PGCC_WARNING].count pgcc_severity.PGCC_NOTICE
        ∧ st.warnings = [pgcc_severity.PGCC_DEBUG, pgcc_severity.PGCC_NOTICE,
            pgcc_severity.PGCC_NOTICE, pgcc_severity.PGCC_PROGRESS,
            pgcc_severity.PGCC_WARNING].count pgcc_severity.PGCC_WARNING
        ∧ st.errors = [pgcc_severity.PGCC_DEBUG, pgcc_severity.PGCC_NOTICE,
            pgcc_severity.PGCC_NOTICE, pgcc_severity.PGCC_PROGRESS,
            pgcc_severity.PGCC_WARNING].count pgcc_severity.PGCC_ERROR
        ∧ (pgcc_log_completion { quiet := true, verbose := 0 } st = 0
            ↔ st.notices = 0 ∧ st.warnings = 0 ∧ st.errors = 0)
        ∧ (pgcc_log_completion { quiet := true, verbose := 0 } st = 1
            ↔ 0 < st.notices ∧ st.warnings = 0 ∧ st.errors = 0)
        ∧ (pgcc_log_completion { quiet := true, verbose := 0 } st = 2
            ↔ 0 < st.warnings ∨ 0 < st.errors)
        ∧ (∀ other : log_settings,
            exit_status other
                [pgcc_severity.PGCC_DEBUG, pgcc_severity.PGCC_NOTICE,
                 pgcc_severity.PGCC_NOTICE, pgcc_severity.PGCC_PROGRESS,
                 pgcc_severity.PGCC_WARNING]
              = exit_status { quiet := true, verbose := 0 }
                [pgcc_severity.PGCC_DEBUG, pgcc_severity.PGCC_NOTICE,
                 pgcc_severity.PGCC_NOTICE, pgcc_severity.PGCC_PROGRESS,
                 pgcc_severity.PGCC_WARNING]) :=
  ⟨by decide, pgcc_log_completion_exit_status _ _ (by decide)⟩

/-- The three outcomes on concrete runs: no finding, a notice, a warning after a notice,
and suppressed messages only. -/
theorem exit_status_samples :
    exit_status {} [pgcc_severity.PGCC_PROGRESS, pgcc_severity.PGCC_VERBOSE] = 0
      ∧ exit_status {} [pgcc_severity.PGCC_PROGRESS, pgcc_severity.PGCC_NOTICE] = 1
      ∧ exit_status {} [pgcc_severity.PGCC_NOTICE, pgcc_severity.PGCC_WARNING,
          pgcc_severity.PGCC_NOTICE] = 2
      ∧ exit_status { quiet := true, verbose := 0 }
          [pgcc_severity.PGCC_DEBUG, pgcc_severity.PGCC_PROGRESS] = 0
      ∧ exit_status { quiet := false, verbose := 2 }
          [pgcc_severity.PGCC_DEBUG, pgcc_severity.PGCC_PROGRESS] = 0
      ∧ exit_status {} [pgcc_severity.PGCC_NOTICE, pgcc_severity.PGCC_FATAL] = 2 := by
  decide

/-! ## The query for a table (claim C33) -/

theorem build_query_for_table_loop_index (cols : List pg_catalog_column) :
    ∀ (index : Nat) (query : CStr),
      (build_query_for_table_loop cols index query).2.1
        = index + (cols.filter (fun col => col.needed)).length := by
  induction cols with
  | nil => intro index query; rfl
  | cons tabcol rest ih =>
    intro index query
    unfold build_query_for_table_loop
    cases hn : tabcol.needed
    · simp [ih, hn]
    · simp [ih, hn]
      omega

theorem build_query_for_table_loop_cols (cols : List pg_catalog_column) :
    ∀ (index : Nat) (query : CStr) (i : Nat) (col : pg_catalog_column),
      cols[i]? = some col →
      (build_query_for_table_loop cols index query).1[i]?
        = some (if col.needed = true then
            { col with result_column :=
                index + ((cols.take i).filter (fun c => c.needed)).length }
          else col) := by
  induction cols with
  | nil => intro index query i col h; simp at h
  | cons tabcol rest ih =>
    intro index query i col h
    unfold build_query_for_table_loop
    cases hn : tabcol.needed
    · cases i with
      | zero =>
        simp at h
        subst h
        simp [hn]
      | succ i =>
        simp at h
        simp [hn, ih index query i col h]
    · cases i with
      | zero =>
        simp at h
        subst h
        simp [hn]
      | succ i =>
        simp at h
        simp [hn, ih _ _ i col h]
        have e : index + 1 + ((rest.take i).filter (fun c => c.needed)).length
            = index + (((rest.take i).filter (fun c => c.needed)).length + 1) := by omega
        rw [e]

theorem build_query_for_table_loop_length (cols : List pg_catalog_column) :
    ∀ (index : Nat) (query : CStr),
      (build_query_for_table_loop cols index query).1.length = cols.length := by
  induction cols with
  | nil => intro index query; rfl
  | cons tabcol rest ih =>
    intro index query
    unfold build_query_for_table_loop
    cases hn : tabcol.needed <;> simp [ih]

/-- After the first needed column, every needed column is appended with a comma. -/
theorem build_query_for_table_loop_query_pos (cols : List pg_catalog_column) :
    ∀ (index : Nat) (query : CStr), 0 < index →
      (build_query_for_table_loop cols index query).2.2
        = query ++ ((cols.filter (fun col => col.needed)).map
            (fun col => ", ".data ++ column_with_cast col)).flatten := by
  induction cols with
  | nil => intro index query _; simp [build_query_for_table_loop]
  | cons tabcol rest ih =>
    intro index query hpos
    unfold build_query_for_table_loop
    cases hn : tabcol.needed
    · simp [ih index query hpos, hn]
    · have h0 : index ≠ 0 := by omega
      simp only [Bool.not_true, Bool.false_eq_true, if_false, if_neg h0]
      rw [ih (index + 1) _ (by omega)]
      cases hc : tabcol.cast <;> simp [hn, column_with_cast, hc]

theorem intercalate_cons_flatten {α : Type} (sep : List α) (ws : List (List α)) :
    ∀ w : List α, sep.intercalate (w :: ws) = w ++ (ws.map (fun t => sep ++ t)).flatten := by
  induction ws with
  | nil => intro w; simp [List.intercalate]
  | cons a ws ih =>
    intro w
    have : sep.intercalate (w :: a :: ws) = w ++ sep ++ sep.intercalate (a :: ws) := by
      simp [List.intercalate, List.intersperse]
    rw [this, ih a]
    simp

theorem build_query_for_table_loop_query (cols : List pg_catalog_column) (query : CStr) :
    (build_query_for_table_loop cols 0 query).2.2
      = query ++ (if cols.filter (fun col => col.needed) = [] then []
          else " ".data ++ ", ".data.intercalate
            ((cols.filter (fun col => col.needed)).map column_with_cast)) := by
  induction cols with
  | nil => simp [build_query_for_table_loop]
  | cons tabcol rest ih =>
    unfold build_query_for_table_loop
    cases hn : tabcol.needed
    · simp only [Bool.not_false, if_true]
      rw [ih]
      simp [hn]
    · simp only [Bool.not_true, Bool.false_eq_true, if_false, if_true]
      rw [build_query_for_table_loop_query_pos rest 1 _ (by omega)]
      have hf : (tabcol :: rest).filter (fun col => col.needed)
          = tabcol :: rest.filter (fun col => col.needed) := by simp [hn]
      rw [hf, if_neg (by simp), List.map_cons, intercalate_cons_flatten, List.map_map]
      cases hc : tabcol.cast <;> simp [column_with_cast, hc, Function.comp_def]

theorem build_query_for_table_loop_ranks (cols : List pg_catalog_column) :
    ∀ (index : Nat) (query : CStr),
      ((build_query_for_table_loop cols index query).1.filter (fun col => col.needed)).map
          (fun col => col.result_column)
        = List.range' index (cols.filter (fun col => col.needed)).length := by
  induction cols with
  | nil => intro index query; simp [build_query_for_table_loop]
  | cons tabcol rest ih =>
    intro index query
    unfold build_query_for_table_loop
    cases hn : tabcol.needed
    · simp [hn, ih]
    · simp [hn, ih, List.range'_succ]

/-- Claim C33. The query of `build_query_for_table` is the fetch request for exactly the
columns with `needed` set, in the order of the registry, each followed by its cast when
one is defined; afterwards the `result_column` of a needed column is the number of needed
columns before it, a column that is not needed is unchanged, no other field of a column or
of the table changes, and `index` ends as the number of needed columns. -/
theorem build_query_for_table_selects_needed (tab : pg_catalog_table) :
    (build_query_for_table tab).1
        = fetch_request (tab.cols.filter (fun col => col.needed)) tab.table_name
      ∧ (build_query_for_table tab).2.1
          = { tab with cols := (build_query_for_table tab).2.1.cols }
      ∧ (build_query_for_table tab).2.1.cols.length = tab.cols.length
      ∧ (∀ (i : Nat) (col : pg_catalog_column), tab.cols[i]? = some col →
          (build_query_for_table tab).2.1.cols[i]?
            = some (if col.needed = true then
                { col with result_column :=
                    ((tab.cols.take i).filter (fun c => c.needed)).length }
              else col))
      ∧ ((build_query_for_table tab).2.1.cols.filter (fun col => col.needed)).map
            (fun col => col.result_column)
          = List.range (tab.cols.filter (fun col => col.needed)).length
      ∧ (build_query_for_table tab).2.2
          = (tab.cols.filter (fun col => col.needed)).length := by
  have hcols : ∀ (i : Nat) (col : pg_catalog_column), tab.cols[i]? = some col →
      (build_query_for_table_loop tab.cols 0 "SELECT".data).1[i]?
        = some (if col.needed = true then
            { col with result_column :=
                ((tab.cols.take i).filter (fun c => c.needed)).length }
          else col) := by
    intro i col h
    rw [build_query_for_table_loop_cols tab.cols 0 _ i col h, Nat.zero_add]
  refine ⟨?_, rfl, build_query_for_table_loop_length _ _ _, hcols, ?_, ?_⟩
  · unfold build_query_for_table fetch_request
    simp only
    rw [build_query_for_table_loop_query]
  · unfold build_query_for_table
    simp only
    rw [build_query_for_table_loop_ranks tab.cols 0 _, List.range_eq_range']
  · unfold build_query_for_table
    simp only
    rw [build_query_for_table_loop_index, Nat.zero_add]

/-- The query and the result columns of a table of four columns, the second of which is not
needed. -/
theorem build_query_for_table_sample :
    (build_query_for_table sample_query_table).1
        = "SELECT oid, proargtypes::pg_catalog.oid[], prolang FROM pg_catalog.pg_proc".data
      ∧ (build_query_for_table sample_query_table).2.1.cols.map
            (fun col => col.result_column) = [0, 7, 1, 2]
      ∧ (build_query_for_table sample_query_table).2.2 = 3 := by
  set_option maxRecDepth 20000 in decide

/-! ## The tables that are loaded (claim C34) -/

/-- A property of the array that every call of `add_table_dependency` and every assignment
to a field `needed` keeps is kept by the setup of a class ID check. -/
theorem prepare_class_id_preserves (P : List pg_catalog_table → Prop)
    (hadd : ∀ T a b, P T → P (add_table_dependency T a b))
    (hset : ∀ T U tab name, set_column_needed T tab name = some U → P T → P U)
    (T U : List pg_catalog_table) (tab : Nat) (tabcol : pg_catalog_column)
    (h : prepare_to_check_dependency_class_id T tab tabcol = some U) (hT : P T) : P U := by
  unfold prepare_to_check_dependency_class_id at h
  cases h0 : find_table_by_name T "pg_class".data with
  | none => rw [h0] at h; exact absurd h (by simp)
  | some pg_class =>
    rw [h0] at h
    simp only at h
    cases h1 : set_column_needed (add_table_dependency T tab pg_class) pg_class
        "relname".data with
    | none => rw [h1] at h; exact absurd h (by simp)
    | some named =>
      rw [h1] at h
      simp only at h
      cases h2 : set_column_needed named pg_class "relnamespace".data with
      | none => rw [h2] at h; exact absurd h (by simp)
      | some spaced =>
        rw [h2] at h
        simp only at h
        have p2 : P spaced := hset _ _ _ _ h2 (hset _ _ _ _ h1 (hadd _ _ _ hT))
        split at h
        · exact hset _ _ _ _ h p2
        · rw [← Option.some.inj h]
          exact p2

theorem prepare_oid_keyed_preserves (P : List pg_catalog_table → Prop)
    (hadd : ∀ T a b, P T → P (add_table_dependency T a b))
    (tab : Nat) (positions : List Nat) :
    ∀ T : List pg_catalog_table, P T → P (positions.foldl
      (fun ts cattab =>
        if table_key_is_oid (table_at ts cattab) then add_table_dependency ts tab cattab
        else ts) T) := by
  induction positions with
  | nil => intro T hT; exact hT
  | cons p ps ih =>
    intro T hT
    simp only [List.foldl_cons]
    apply ih
    split
    · exact hadd _ _ _ hT
    · exact hT

/-- A property of the array that every call of `add_table_dependency` and every assignment
to a field `needed` keeps is kept by the setup of every check. -/
theorem decide_what_to_check_prepare_preserves (P : List pg_catalog_table → Prop)
    (hadd : ∀ T a b, P T → P (add_table_dependency T a b))
    (hset : ∀ T U tab name, set_column_needed T tab name = some U → P T → P U)
    (T U : List pg_catalog_table) (tab : Nat) (tabcol : pg_catalog_column)
    (h : decide_what_to_check_prepare T tab tabcol = some U) (hT : P T) : P U := by
  have relnatts : ∀ V, prepare_to_check_relnatts T tab = some V → P V := by
    intro V hV
    unfold prepare_to_check_relnatts at hV
    cases h0 : find_table_by_name T "pg_attribute".data with
    | none => rw [h0] at hV; exact absurd hV (by simp)
    | some r =>
      rw [h0] at hV
      rw [← Option.some.inj hV]
      exact hadd _ _ _ hT
  have oid : ∀ check V, prepare_to_check_oid_reference T tab check = some V → P V := by
    intro check V hV
    unfold prepare_to_check_oid_reference at hV
    cases h0 : find_table_by_name T check.oid_references_table with
    | none => rw [h0] at hV; exact absurd hV (by simp)
    | some r =>
      rw [h0] at hV
      rw [← Option.some.inj hV]
      exact hadd _ _ _ hT
  unfold decide_what_to_check_prepare at h
  cases hcheck : tabcol.check with
  | none =>
    rw [hcheck] at h
    rw [← Option.some.inj h]
    exact hT
  | some check =>
    rw [hcheck] at h
    simp only at h
    split at h
    · rw [← Option.some.inj h]
      exact hT
    · cases htype : check.type <;> rw [htype] at h <;> simp only at h
      · exact relnatts U h
      · exact oid check U h
      · exact oid check U h
      · exact oid check U h
      · exact prepare_class_id_preserves P hadd hset T U tab tabcol h hT
      · unfold prepare_to_check_dependency_id at h
        cases h1 : prepare_to_check_dependency_class_id T tab tabcol with
        | none => rw [h1] at h; exact absurd h (by simp)
        | some prepared =>
          rw [h1] at h
          simp only at h
          exact hset _ _ _ _ h (prepare_oid_keyed_preserves P hadd tab _ prepared
            (prepare_class_id_preserves P hadd hset T prepared tab tabcol h1 hT))
      · unfold prepare_to_check_dependency_subid at h
        cases h1 : prepare_to_check_dependency_class_id T tab tabcol with
        | none => rw [h1] at h; exact absurd h (by simp)
        | some prepared =>
          rw [h1] at h
          simp only at h
          cases h2 : find_table_by_name prepared "pg_attribute".data with
          | none => rw [h2] at h; exact absurd h (by simp)
          | some pg_attribute =>
            rw [h2] at h
            simp only at h
            cases h3 : set_column_needed (add_table_dependency prepared tab pg_attribute) tab
                (classid_name (get_style
                  (table_at (add_table_dependency prepared tab pg_attribute) tab).table_name
                  tabcol.name)) with
            | none => rw [h3] at h; exact absurd h (by simp)
            | some classed =>
              rw [h3] at h
              simp only at h
              exact hset _ _ _ _ h (hset _ _ _ _ h3 (hadd _ _ _
                (prepare_class_id_preserves P hadd hset T prepared tab tabcol h1 hT)))
      · exact relnatts U h

theorem decide_what_to_check_prepare_columns_preserves (P : List pg_catalog_table → Prop)
    (hadd : ∀ T a b, P T → P (add_table_dependency T a b))
    (hset : ∀ T U tab name, set_column_needed T tab name = some U → P T → P U)
    (tab : Nat) (cols : List Nat) :
    ∀ T U : List pg_catalog_table,
      decide_what_to_check_prepare_columns tab cols T = some U → P T → P U := by
  induction cols with
  | nil =>
    intro T U h hT
    simp only [decide_what_to_check_prepare_columns, Option.some.injEq] at h
    subst h
    exact hT
  | cons c cols ih =>
    intro T U h hT
    unfold decide_what_to_check_prepare_columns at h
    cases h1 : decide_what_to_check_prepare T tab (column_at (table_at T tab) c) with
    | none => rw [h1] at h; exact absurd h (by simp)
    | some prepared =>
      rw [h1] at h
      simp only at h
      exact ih _ _ h (decide_what_to_check_prepare_preserves P hadd hset _ _ _ _ h1 hT)

/-- A property of the array that every call of `add_table_dependency` and every assignment
to a field `needed` keeps is kept by the second pass of `decide_what_to_check`. -/
theorem decide_what_to_check_second_pass_preserves (P : List pg_catalog_table → Prop)
    (hadd : ∀ T a b, P T → P (add_table_dependency T a b))
    (hset : ∀ T U tab name, set_column_needed T tab name = some U → P T → P U)
    (tabs : List Nat) :
    ∀ T U : List pg_catalog_table,
      decide_what_to_check_second_pass tabs T = some U → P T → P U := by
  induction tabs with
  | nil =>
    intro T U h hT
    simp only [decide_what_to_check_second_pass, Option.some.injEq] at h
    subst h
    exact hT
  | cons tab tabs ih =>
    intro T U h hT
    unfold decide_what_to_check_second_pass at h
    cases h1 : decide_what_to_check_prepare_columns tab
        (List.range (table_at T tab).cols.length) T with
    | none => rw [h1] at h; exact absurd h (by simp)
    | some prepared =>
      rw [h1] at h
      simp only at h
      exact ih _ _ h
        (decide_what_to_check_prepare_columns_preserves P hadd hset _ _ _ _ h1 hT)

/-- The invariant of the edges depends on the edge lists and on the availability only. -/
theorem edge_inv_of_fields (T U : List pg_catalog_table)
    (h : ∀ i, (table_at U i).needs = (table_at T i).needs
      ∧ (table_at U i).needed_by = (table_at T i).needed_by
      ∧ (table_at U i).available = (table_at T i).available)
    (inv : edge_inv T) : edge_inv U := by
  refine ⟨?_, ?_, ?_, ?_⟩
  · intro i; rw [(h i).1]; exact inv.nodup i
  · intro i; rw [(h i).1]; exact inv.irrefl i
  · intro i j hj
    rw [(h i).1] at hj
    rw [(h i).2.2, (h j).2.2]
    exact inv.available i j hj
  · intro i j; rw [(h i).1, (h j).2.1]; exact inv.mirror i j

/-- An assignment to a field `needed` keeps the invariant of the edges. -/
theorem edge_inv_set_column_needed (T U : List pg_catalog_table) (tab : Nat) (name : CStr)
    (h : set_column_needed T tab name = some U) (inv : edge_inv T) : edge_inv U := by
  unfold set_column_needed at h
  cases hc : find_column_by_name (table_at T tab) name with
  | none => rw [hc] at h; exact absurd h (by simp)
  | some c =>
    rw [hc] at h
    simp only [Option.some.injEq] at h
    subst h
    apply edge_inv_of_fields T _ _ inv
    intro i
    rw [table_at_modify_table]
    split
    · rename_i hi
      rw [hi.1]
      exact ⟨rfl, rfl, rfl⟩
    · exact ⟨rfl, rfl, rfl⟩

/-- The first pass of `decide_what_to_check` leaves a fresh registry fresh. -/
theorem fresh_registry_first_pass (remote : remote_server) (selected_columns : Bool)
    (registry decided : List pg_catalog_table) (hfresh : fresh_registry registry)
    (h : decide_what_to_check_first_pass remote selected_columns registry = some decided) :
    fresh_registry decided := by
  obtain ⟨len, p⟩ := decide_what_to_check_first_pass_spec _ _ _ _ h
  intro tab htab
  obtain ⟨i, hi, e⟩ := exists_table_at_of_mem decided tab htab
  rw [len] at hi
  have h1 := p i hi
  rw [e] at h1
  obtain ⟨_, _, e2, _⟩ := decide_what_to_check_table_spec _ _ _ _ h1
  have hf := hfresh _ (table_at_mem registry i hi)
  rw [e2]
  exact hf

/-- The array that `decide_what_to_check` leaves of a fresh registry has the invariant of
the edges, and no flag `needs_load` is set in it. -/
theorem edge_inv_decide_what_to_check (remote : remote_server) (selected_columns : Bool)
    (registry T : List pg_catalog_table) (hfresh : fresh_registry registry)
    (h : decide_what_to_check remote selected_columns registry = some T) :
    edge_inv T ∧ T.length = registry.length
      ∧ ∀ i, (table_at T i).needs_load = false := by
  unfold decide_what_to_check at h
  cases h1 : decide_what_to_check_first_pass remote selected_columns registry with
  | none => rw [h1] at h; exact absurd h (by simp)
  | some T1 =>
    rw [h1] at h
    simp only at h
    have hf1 := fresh_registry_first_pass _ _ _ _ hfresh h1
    have inv1 : edge_inv T1 := edge_inv_of_empty T1 (fun tab ht => ⟨(hf1 tab ht).1, (hf1 tab ht).2.1⟩)
    obtain ⟨len1, _⟩ := decide_what_to_check_first_pass_spec _ _ _ _ h1
    obtain ⟨len2, le2⟩ := registry_needed_le_second_pass _ _ _ h
    refine ⟨decide_what_to_check_second_pass_preserves edge_inv
      edge_inv_add_table_dependency edge_inv_set_column_needed _ _ _ h inv1,
      len2.trans len1, ?_⟩
    intro i
    rw [(le2 i).2.2.2.1]
    rcases table_at_mem_or_default T1 i with hm | hd
    · exact (hf1 _ hm).2.2.1
    · rw [hd]

theorem length_le_of_nodup_of_lt (l : List Nat) (n : Nat) (hnd : l.Nodup)
    (hlt : ∀ x ∈ l, x < n) : l.length ≤ n := by
  have hsub : l ⊆ List.range n := fun x hx => List.mem_range.2 (hlt x hx)
  have := (List.subperm_of_subset hnd hsub).length_le
  simpa using this

/-- Under the invariant of the edges a list `needs` is no longer than the array. -/
theorem edge_inv_needs_length (T : List pg_catalog_table) (inv : edge_inv T) (i : Nat) :
    (table_at T i).needs.length ≤ T.length :=
  length_le_of_nodup_of_lt _ _ (inv.nodup i)
    (fun j hj => lt_of_available T j (inv.available i j hj).2)

theorem edge_inv_edges (T : List pg_catalog_table) (inv : edge_inv T) (i j : Nat)
    (hj : j ∈ (table_at T i).needs) : i ∈ (table_at T j).needed_by := by
  rw [← List.count_pos_iff, ← inv.mirror i j, List.count_pos_iff]
  exact hj

/-- The invariant of the scheduler holds when the loop of `perform_checks` is entered, for
every array with the invariant of the edges. -/
theorem sched_inv_init_of_edge_inv (T : List pg_catalog_table) (inv : edge_inv T) :
    sched_inv (perform_checks_init T) (perform_checks_init T) [] := by
  refine ⟨rfl, ?_, fun _ _ h => h, fun _ _ h1 h2 => absurd h1 h2,
    fun _ h => absurd h (List.not_mem_nil _), ?_, fun _ h => h, fun _ => by simp,
    fun _ h => h, fun _ _ _ h => absurd h (List.not_mem_nil _), ?_, fun _ => by simp, ?_⟩
  · intro i j hj
    rw [table_at_perform_checks_init] at hj ⊢
    rw [(perform_checks_init_table_spec _).1] at hj
    have hmem := edge_inv_edges T inv i j hj
    refine ⟨(perform_checks_init_table_spec _).2.2.1 (List.ne_nil_of_mem hmem), ?_⟩
    rw [(perform_checks_init_table_spec _).2.1]
    exact hmem
  · intro i h1 h2
    rw [h1] at h2
    exact absurd h2 (by decide)
  · intro i h1 h2
    rw [h1] at h2
    exact absurd h2 (by decide)
  · intro pre post i nl nn h
    have := congrArg List.length h
    simp only [List.length_nil, List.length_append, List.length_cons] at this
    omega

/-- A run of `perform_checks` on an array with the invariant of the edges ends when every
loop is given more iterations than the number of tables; the invariant of the scheduler
holds on exit and no table is left to check. -/
theorem perform_checks_run_of_edge_inv (T : List pg_catalog_table) (fuel : Nat)
    (inv : edge_inv T) (hfuel : T.length < fuel) :
    ∃ s, perform_checks fuel T = some s
      ∧ sched_inv (perform_checks_init T) s.1 s.2 ∧ remaining s.1 = 0 := by
  unfold perform_checks
  apply perform_checks_loop_spec _ fuel fuel _ (sched_inv_init_of_edge_inv T inv)
  · have := remaining_le_length (perform_checks_init T)
    have e : (perform_checks_init T).length = T.length := by
      unfold perform_checks_init
      rw [List.length_map]
    show remaining (perform_checks_init T) < fuel
    omega
  · intro i
    show (table_at (perform_checks_init T) i).needs.length < fuel
    rw [table_at_perform_checks_init, (perform_checks_init_table_spec _).1]
    have := edge_inv_needs_length T inv i
    omega

/-- The column loop of the initialisation sets `needs_load` only for a needed column. -/
theorem perform_checks_init_cols_needs_load (cols : List pg_catalog_column) :
    ∀ tab : pg_catalog_table, (perform_checks_init_cols cols tab).needs_load = true →
      tab.needs_load = true ∨ ∃ col ∈ cols, col.needed = true := by
  induction cols with
  | nil => intro tab h; exact Or.inl h
  | cons c cols ih =>
    intro tab h
    unfold perform_checks_init_cols at h
    simp only at h
    cases hn : c.needed
    · rw [hn] at h
      simp only [Bool.false_eq_true, if_false] at h
      split at h
      · exact Or.inl h
      · rcases ih tab h with h1 | ⟨col, hc, hcol⟩
        · exact Or.inl h1
        · exact Or.inr ⟨col, List.mem_cons_of_mem _ hc, hcol⟩
    · exact Or.inr ⟨c, List.mem_cons_self _ _, hn⟩

/-- The initialisation of `perform_checks` sets `needs_load` only for a table that another
table needs or that has a needed column. -/
theorem perform_checks_init_table_needs_load (tab : pg_catalog_table)
    (h : (perform_checks_init_table tab).needs_load = true) :
    tab.needs_load = true ∨ tab.needed_by ≠ [] ∨ ∃ col ∈ tab.cols, col.needed = true := by
  unfold perform_checks_init_table at h
  rcases perform_checks_init_cols_needs_load _ _ h with h1 | h1
  · split at h1
    · rename_i hlen
      exact Or.inr (Or.inl (fun e => hlen (by rw [e]; rfl)))
    · exact Or.inl h1
  · exact Or.inr (Or.inr h1)

/-- The number of needed columns of a table with a needed column is positive. -/
theorem build_query_for_table_index_pos (tab : pg_catalog_table)
    (h : ∃ col ∈ tab.cols, col.needed = true) : 0 < (build_query_for_table tab).2.2 := by
  obtain ⟨col, hc, hn⟩ := h
  unfold build_query_for_table
  simp only
  rw [build_query_for_table_loop_index, Nat.zero_add]
  exact List.length_pos_of_mem (List.mem_filter.2 ⟨hc, hn⟩)

/-- The keys of the registry carry the property: on an array of tables other than that of
`definitions.c`, in which a table that another table refers to has no key column, no
display column and no check, the run of `decide_what_to_check` and `perform_checks` loads
the table pg_keyless, none of whose columns is needed, and `build_query_for_table` ends on
it with `index` 0 and a query without a column. -/
theorem perform_checks_loads_keyless_table :
    fresh_registry sample_keyless_registry
      ∧ decide_what_to_check sample_remote_96 false sample_keyless_registry
          = some sample_keyless_decided
      ∧ (perform_checks 3 sample_keyless_decided).map (fun s => loads s.2) = some [1, 0]
      ∧ (table_at sample_keyless_decided 1).table_name = "pg_keyless".data
      ∧ (∀ col ∈ (table_at sample_keyless_decided 1).cols, col.needed = false)
      ∧ (build_query_for_table (table_at sample_keyless_decided 1)).2.2 = 0
      ∧ (build_query_for_table (table_at sample_keyless_decided 1)).1
          = "SELECT FROM pg_catalog.pg_keyless".data := by
  refine ⟨by unfold fresh_registry; decide, by decide, by decide, by decide, by decide,
    by decide, by decide⟩

/-- When `decide_what_to_check` leaves of a fresh array an array in which every table that
another table needs has a needed column, the run of `perform_checks` ends, given more
iterations than there are tables, and every table that it loads has a needed column, so
that `index` is positive at the end of `build_query_for_table` on it. -/
theorem perform_checks_loads_needed (remote : remote_server) (selected_columns : Bool)
    (registry T : List pg_catalog_table) (fuel : Nat)
    (hfresh : fresh_registry registry)
    (hdecide : decide_what_to_check remote selected_columns registry = some T)
    (hneeded : ∀ tab ∈ T, tab.needed_by ≠ [] → ∃ col ∈ tab.cols, col.needed = true)
    (hfuel : registry.length < fuel) :
    ∃ s, perform_checks fuel T = some s
      ∧ ∀ t ∈ loads s.2, (∃ col ∈ (table_at T t).cols, col.needed = true)
          ∧ 0 < (build_query_for_table (table_at T t)).2.2 := by
  obtain ⟨inv, len, hnl⟩ := edge_inv_decide_what_to_check _ _ _ _ hfresh hdecide
  obtain ⟨s, hs, sinv, _⟩ := perform_checks_run_of_edge_inv T fuel inv (by rw [len]; exact hfuel)
  refine ⟨s, hs, ?_⟩
  intro t ht
  have hmem : sched_event.load t ∈ s.2 := by
    rw [← List.count_pos_iff, ← count_loads, List.count_pos_iff]
    exact ht
  have h0 := (sinv.nl_done t hmem).2
  rw [table_at_perform_checks_init] at h0
  have hcol : ∃ col ∈ (table_at T t).cols, col.needed = true := by
    rcases perform_checks_init_table_needs_load _ h0 with h1 | h1 | h1
    · rw [hnl t] at h1
      exact absurd h1 (by decide)
    · rcases table_at_mem_or_default T t with hm | hd
      · exact hneeded _ hm h1
      · rw [hd] at h1
        exact absurd rfl h1
    · exact h1
  exact ⟨hcol, build_query_for_table_index_pos _ hcol⟩

/-- The run on pg_namespace and pg_collation loads both tables, pg_namespace first. -/
theorem perform_checks_sample_decided_loads :
    (perform_checks 3 (sample_decided sample_remote_96 false trivalue.TRI_DEFAULT)).map
        (fun s => loads s.2) = some [0, 1] := by
  decide

/-! ## The setup of the attribute number check (claim C35) -/

/-- Claim C35, as the code has it.  With `--column=attnum` the column attnum of pg_attribute is
the one checked column, and pg_class and pg_attribute are both available; the second pass
of `decide_what_to_check` sends `CHECK_ATTNUM` to `prepare_to_check_relnatts`, which asks
for a dependency of pg_attribute on itself, so that pg_attribute needs no table afterwards
and `perform_checks` checks it without ever loading pg_class.  The hook
`prepare_to_check_attnum`, run on the array of the first pass, does make pg_attribute need
pg_class. -/
theorem decide_what_to_check_attnum_needs_nothing :
    decide_what_to_check sample_remote_96 true sample_attnum_registry
        = some sample_attnum_decided
      ∧ (table_at sample_attnum_decided 0).table_name = "pg_class".data
      ∧ (table_at sample_attnum_decided 1).table_name = "pg_attribute".data
      ∧ (column_at (table_at sample_attnum_decided 1) 2).name = "attnum".data
      ∧ (column_at (table_at sample_attnum_decided 1) 2).checked = trivalue.TRI_YES
      ∧ (table_at sample_attnum_decided 0).available = true
      ∧ (table_at sample_attnum_decided 1).available = true
      ∧ (table_at sample_attnum_decided 1).needs = []
      ∧ ((decide_what_to_check_first_pass sample_remote_96 true sample_attnum_registry).bind
          (fun T => prepare_to_check_attnum T 1)).map (fun T => (table_at T 1).needs)
        = some [0]
      ∧ ((decide_what_to_check_first_pass sample_remote_96 true sample_attnum_registry).bind
          (fun T => prepare_to_check_relnatts T 1)).map (fun T => (table_at T 1).needs)
        = some []
      ∧ (perform_checks 3 sample_attnum_decided).map (fun s => (loads s.2, checks s.2))
        = some ([1], [1]) := by
  refine ⟨by decide, by decide, by decide, by decide, by decide, by decide, by decide,
    by decide, by decide, by decide, by decide⟩

/-! ## The registry of definitions.c and the tables that are loaded (claim C34) -/

/-- A column that covers an available column is available, and it is a key column or a
display column. -/
theorem available_of_column_covers (remote : remote_server) (key tabcol : pg_catalog_column)
    (hcov : column_covers key tabcol = true)
    (hav : decide_what_to_check_available remote tabcol = true) :
    decide_what_to_check_available remote key = true
      ∧ (key.is_key_column || key.is_display_column) = true := by
  unfold column_covers at hcov
  simp only [Bool.and_eq_true, decide_eq_true_eq] at hcov
  obtain ⟨⟨⟨hkd, hedb⟩, hmin⟩, hmax⟩ := hcov
  refine ⟨?_, hkd⟩
  unfold decide_what_to_check_available at hav ⊢
  have h1 : ¬ ((tabcol.is_edb_only && !remote.remote_is_edb) = true) := by
    intro h; rw [if_pos h] at hav; exact absurd hav (by decide)
  rw [if_neg h1] at hav
  have h2 : ¬ ((decide (tabcol.minimum_version ≠ 0)
      && decide (remote.remote_version < tabcol.minimum_version)) = true) := by
    intro h; rw [if_pos h] at hav; exact absurd hav (by decide)
  rw [if_neg h2] at hav
  have h3 : ¬ ((decide (tabcol.maximum_version ≠ 0)
      && decide (remote.remote_version < tabcol.maximum_version)) = true) := by
    intro h; rw [if_pos h] at hav; exact absurd hav (by decide)
  simp only [Bool.and_eq_true, decide_eq_true_eq, not_and, Nat.not_lt, ne_eq,
    Bool.not_eq_true'] at h1 h2 h3
  have k1 : ¬ ((key.is_edb_only && !remote.remote_is_edb) = true) := by
    simp only [Bool.and_eq_true, Bool.not_eq_true', not_and]
    intro hk
    cases hte : tabcol.is_edb_only
    · rw [hk, hte] at hedb
      exact absurd hedb (by decide)
    · exact h1 hte
  have k2 : ¬ ((decide (key.minimum_version ≠ 0)
      && decide (remote.remote_version < key.minimum_version)) = true) := by
    simp only [Bool.and_eq_true, decide_eq_true_eq, not_and, Nat.not_lt, ne_eq]
    intro _
    by_cases a : tabcol.minimum_version = 0 <;> by_cases b : tabcol.maximum_version = 0
    · rw [a, b] at hmin; simp at hmin; omega
    · have := h3 b; rw [a] at hmin; simp at hmin; omega
    · have := h2 a; rw [b] at hmin; simp at hmin; omega
    · have := h2 a; have := h3 b; omega
  have k3 : ¬ ((decide (key.maximum_version ≠ 0)
      && decide (remote.remote_version < key.maximum_version)) = true) := by
    simp only [Bool.and_eq_true, decide_eq_true_eq, not_and, Nat.not_lt, ne_eq]
    intro _
    by_cases a : tabcol.minimum_version = 0 <;> by_cases b : tabcol.maximum_version = 0
    · rw [a, b] at hmax; simp at hmax; omega
    · have := h3 b; rw [a] at hmax; simp at hmax; omega
    · have := h2 a; rw [b] at hmax; simp at hmax; omega
    · have := h2 a; have := h3 b; omega
  rw [if_neg k1, if_neg k2, if_neg k3]

/-- In a table with a key for each of its columns, when a column is available, a key column
or display column is available. -/
theorem table_has_key_available (remote : remote_server) (tab : pg_catalog_table)
    (hkey : table_has_key tab = true)
    (hav : tab.cols.any (decide_what_to_check_available remote) = true) :
    ∃ key ∈ tab.cols, decide_what_to_check_available remote key = true
      ∧ (key.is_key_column || key.is_display_column) = true := by
  obtain ⟨tabcol, hmem, hc⟩ := List.any_eq_true.1 hav
  unfold table_has_key at hkey
  obtain ⟨key, hk, hcov⟩ := List.any_eq_true.1 (List.all_eq_true.1 hkey tabcol hmem)
  exact ⟨key, hk, available_of_column_covers remote key tabcol hcov hc⟩

/-- After `decide_what_to_check`, a table that is available and has a key for each of its
columns has a needed column. -/
theorem decide_what_to_check_available_needed (remote : remote_server)
    (selected_columns : Bool) (registry T : List pg_catalog_table)
    (hdecide : decide_what_to_check remote selected_columns registry = some T)
    (i : Nat) (hi : i < registry.length) (hkey : table_has_key (table_at registry i) = true)
    (hav : (table_at T i).available = true) :
    ∃ col ∈ (table_at T i).cols, col.needed = true := by
  obtain ⟨_, p⟩ := decide_what_to_check_table_at _ _ _ _ hdecide
  obtain ⟨tab1, h1, le⟩ := p i hi
  obtain ⟨l, a, _, q⟩ := decide_what_to_check_table_spec _ _ _ _ h1
  obtain ⟨_, leav, _, _, _, lelen, lecols⟩ := le
  rw [leav, a] at hav
  obtain ⟨key, hk, hkav, hkd⟩ := table_has_key_available remote _ hkey hav
  obtain ⟨c, hc, e⟩ := exists_column_at_of_mem _ key hk
  have hq := q c hc
  rw [e] at hq
  obtain ⟨_, _, dav, _, dneeded, _⟩ := decide_what_to_check_column_spec _ _ _ _ _ _ hq
  have hneeded : (column_at tab1 c).needed = true := by
    rw [dneeded, dav, hkav]
    simp only [Bool.true_or, Bool.true_and, Bool.or_eq_true, decide_eq_true_eq]
    simp only [Bool.or_eq_true] at hkd
    rcases hkd with h | h
    · exact Or.inl (Or.inr h)
    · exact Or.inr h
  refine ⟨column_at (table_at T i) c, column_at_mem _ c (by rw [lelen, l]; exact hc), ?_⟩
  exact (lecols c).2 hneeded

/-- A selection of tables or columns changes the fields `checked` only: the array stays
fresh and keeps its keys. -/
theorem select_table_keeps (tables selected : List pg_catalog_table) (table_name : CStr)
    (whether : trivalue) (h : select_table tables table_name whether = some selected)
    (hfresh : fresh_registry tables) (hkeys : registry_has_keys tables) :
    fresh_registry selected ∧ registry_has_keys selected
      ∧ selected.length = tables.length := by
  unfold select_table at h
  split at h
  · rw [← Option.some.inj h]
    refine ⟨?_, ?_, by simp⟩
    · intro tab htab
      obtain ⟨t, ht, e⟩ := List.mem_map.1 htab
      rw [← e]
      split
      · exact hfresh t ht
      · exact hfresh t ht
    · intro tab htab
      obtain ⟨t, ht, e⟩ := List.mem_map.1 htab
      rw [← e]
      split
      · exact hkeys t ht
      · exact hkeys t ht
  · exact absurd h (by simp)

theorem column_covers_select (column_name : CStr) (whether : trivalue)
    (key tabcol : pg_catalog_column) :
    column_covers
        (if key.name = column_name then { key with checked := whether } else key)
        (if tabcol.name = column_name then { tabcol with checked := whether } else tabcol)
      = column_covers key tabcol := by
  unfold column_covers
  split <;> split <;> rfl

theorem select_column_keeps (tables selected : List pg_catalog_table) (column_name : CStr)
    (whether : trivalue) (h : select_column tables column_name whether = some selected)
    (hfresh : fresh_registry tables) (hkeys : registry_has_keys tables) :
    fresh_registry selected ∧ registry_has_keys selected
      ∧ selected.length = tables.length := by
  unfold select_column at h
  split at h
  · rw [← Option.some.inj h]
    refine ⟨?_, ?_, by simp⟩
    · intro tab htab
      obtain ⟨t, ht, e⟩ := List.mem_map.1 htab
      rw [← e]
      exact hfresh t ht
    · intro tab htab
      obtain ⟨t, ht, e⟩ := List.mem_map.1 htab
      rw [← e]
      have := hkeys t ht
      unfold table_has_key at this ⊢
      simp only [List.all_map, List.any_map, Function.comp_def, column_covers_select]
      exact this
  · exact absurd h (by simp)

theorem select_options_keeps (options : List selection_option) :
    ∀ (tables selected : List pg_catalog_table) (flag selected_columns : Bool),
      select_options options (tables, flag) = some (selected, selected_columns) →
      fresh_registry tables → registry_has_keys tables →
      fresh_registry selected ∧ registry_has_keys selected
        ∧ selected.length = tables.length := by
  induction options with
  | nil =>
    intro tables selected flag sc h hfresh hkeys
    simp only [select_options, Option.some.injEq, Prod.mk.injEq] at h
    rw [← h.1]
    exact ⟨hfresh, hkeys, rfl⟩
  | cons o rest ih =>
    intro tables selected flag sc h hfresh hkeys
    cases o with
    | table name =>
      simp only [select_options] at h
      cases h1 : select_table tables name trivalue.TRI_YES with
      | none => rw [h1] at h; exact absurd h (by simp)
      | some sel =>
        rw [h1] at h
        obtain ⟨f1, k1, l1⟩ := select_table_keeps _ _ _ _ h1 hfresh hkeys
        obtain ⟨f2, k2, l2⟩ := ih _ _ _ _ h f1 k1
        exact ⟨f2, k2, l2.trans l1⟩
    | exclude_table name =>
      simp only [select_options] at h
      cases h1 : select_table tables name trivalue.TRI_NO with
      | none => rw [h1] at h; exact absurd h (by simp)
      | some sel =>
        rw [h1] at h
        obtain ⟨f1, k1, l1⟩ := select_table_keeps _ _ _ _ h1 hfresh hkeys
        obtain ⟨f2, k2, l2⟩ := ih _ _ _ _ h f1 k1
        exact ⟨f2, k2, l2.trans l1⟩
    | column name =>
      simp only [select_options] at h
      cases h1 : select_column tables name trivalue.TRI_YES with
      | none => rw [h1] at h; exact absurd h (by simp)
      | some sel =>
        rw [h1] at h
        obtain ⟨f1, k1, l1⟩ := select_column_keeps _ _ _ _ h1 hfresh hkeys
        obtain ⟨f2, k2, l2⟩ := ih _ _ _ _ h f1 k1
        exact ⟨f2, k2, l2.trans l1⟩
    | exclude_column name =>
      simp only [select_options] at h
      cases h1 : select_column tables name trivalue.TRI_NO with
      | none => rw [h1] at h; exact absurd h (by simp)
      | some sel =>
        rw [h1] at h
        obtain ⟨f1, k1, l1⟩ := select_column_keeps _ _ _ _ h1 hfresh hkeys
        obtain ⟨f2, k2, l2⟩ := ih _ _ _ _ h f1 k1
        exact ⟨f2, k2, l2.trans l1⟩

/-- For every registry that is fresh and has keys: after `decide_what_to_check`, every
table that another table needs has a needed column, and the run of `perform_checks` loads
only tables with a needed column. -/
theorem perform_checks_loads_needed_of_keys (remote : remote_server)
    (selected_columns : Bool) (registry T : List pg_catalog_table) (fuel : Nat)
    (hfresh : fresh_registry registry) (hkeys : registry_has_keys registry)
    (hdecide : decide_what_to_check remote selected_columns registry = some T)
    (hfuel : registry.length < fuel) :
    ∃ s, perform_checks fuel T = some s
      ∧ ∀ t ∈ loads s.2, (∃ col ∈ (table_at T t).cols, col.needed = true)
          ∧ 0 < (build_query_for_table (table_at T t)).2.2 := by
  obtain ⟨inv, len, _⟩ := edge_inv_decide_what_to_check _ _ _ _ hfresh hdecide
  apply perform_checks_loads_needed remote selected_columns registry T fuel hfresh hdecide
    _ hfuel
  intro tab htab hby
  obtain ⟨i, hi, e⟩ := exists_table_at_of_mem T tab htab
  rw [← e] at hby ⊢
  obtain ⟨j, hj⟩ := List.exists_mem_of_ne_nil _ hby
  have hneeds : i ∈ (table_at T j).needs := by
    rw [← List.count_pos_iff, inv.mirror j i, List.count_pos_iff]
    exact hj
  have hav := (inv.available j i hneeds).2
  rw [len] at hi
  exact decide_what_to_check_available_needed remote selected_columns registry T hdecide
    i hi (hkeys _ (table_at_mem registry i hi)) hav

/-- The array `pg_catalog_tables` of `definitions.c` is fresh and has keys. -/
theorem pg_catalog_tables_has_keys :
    fresh_registry pg_catalog_tables ∧ registry_has_keys pg_catalog_tables
      ∧ pg_catalog_tables.length = 74 := by
  refine ⟨?_, ?_, by decide⟩
  · unfold fresh_registry
    decide
  · unfold registry_has_keys
    decide

theorem eq_some_getD_of_isSome {α : Type} (o : Option α) (d : α) (h : o.isSome = true) :
    o = some (o.getD d) := by
  cases o with
  | none => simp at h
  | some a => rfl

/-- Claim C34.  For the registry of `definitions.c`, every selection of tables and columns
on the command line and every server: when `decide_what_to_check` returns, the run of
`perform_checks` ends, given more iterations than there are tables, and every table that
it loads has a column with `needed` set, so that `index` is positive at the end of
`build_query_for_table` on it and the `Assert` cannot fail. -/
theorem perform_checks_loads_only_needed_tables (options : List selection_option)
    (remote : remote_server) (registry T : List pg_catalog_table) (selected_columns : Bool)
    (fuel : Nat)
    (hoptions : select_options options (pg_catalog_tables, false)
      = some (registry, selected_columns))
    (hdecide : decide_what_to_check remote selected_columns registry = some T)
    (hfuel : pg_catalog_tables.length < fuel) :
    ∃ s, perform_checks fuel T = some s
      ∧ ∀ t ∈ loads s.2, (∃ col ∈ (table_at T t).cols, col.needed = true)
          ∧ 0 < (build_query_for_table (table_at T t)).2.2 := by
  obtain ⟨hfresh0, hkeys0, _⟩ := pg_catalog_tables_has_keys
  obtain ⟨hfresh, hkeys, len⟩ :=
    select_options_keeps options _ _ _ _ hoptions hfresh0 hkeys0
  exact perform_checks_loads_needed_of_keys remote selected_columns registry T fuel
    hfresh hkeys hdecide (by rw [len]; exact hfuel)

/-- Witness of C34: no selection, on a PostgreSQL 9.6 server. -/
theorem perform_checks_loads_only_needed_tables_witness :
    select_options [] (pg_catalog_tables, false) = some (pg_catalog_tables, false)
      ∧ decide_what_to_check sample_remote_96 false pg_catalog_tables
          = some sample_catalog_decided
      ∧ pg_catalog_tables.length < 75
      ∧ ∃ s, perform_checks 75 sample_catalog_decided = some s
        ∧ ∀ t ∈ loads s.2,
          (∃ col ∈ (table_at sample_catalog_decided t).cols, col.needed = true)
            ∧ 0 < (build_query_for_table (table_at sample_catalog_decided t)).2.2 :=
  ⟨rfl, eq_some_getD_of_isSome _ _ (by set_option maxRecDepth 100000 in decide), by decide,
    perform_checks_loads_only_needed_tables [] sample_remote_96 pg_catalog_tables
      sample_catalog_decided false 75 rfl
      (eq_some_getD_of_isSome _ _ (by set_option maxRecDepth 100000 in decide))
      (by decide)⟩

end PgCatcheck
